import Mathlib

/-! e-LWB round engine: sync FSM, packet queues, source round, AE scheduler.

A shallow embedding of `apps/elwb-dev/elwb.c` (sync state machine, RAM-backed
packet queues, host contention slot) and of `core/net/scheduler/sched-ae.c`
(the AE scheduler), with the properties of the design document proved about
the embedded definitions.

Conventions: bytes and machine integers are natural numbers, with an explicit
`% 2 ^ w` wherever the C code narrows a value; a C pointer to a byte buffer is
a function from offsets to bytes, and a pointer that may be `NULL` is an
`Option`; global C state is passed explicitly.
-/

set_option linter.unusedVariables false

namespace ELWB

/-! ## Sync state machine (`elwb.c`, lines 94-138) -/

/-- Internal sync state of the LWB (`lwb_sync_state_t`). -/
inductive lwb_sync_state_t where
  | BOOTSTRAP
  | SYNCED
  | UNSYNCED
  | UNSYNCED2
  deriving DecidableEq, Repr

/-- Sync events (`sync_event_t`). -/
inductive sync_event_t where
  | EVT_SCHED_RCVD
  | EVT_SCHED_MISSED
  deriving DecidableEq, Repr

open lwb_sync_state_t sync_event_t

/-- The table `next_state[NUM_OF_SYNC_EVENTS][NUM_OF_SYNC_STATES]`: the row is
the event, the column the current state. -/
def next_state : sync_event_t → lwb_sync_state_t → lwb_sync_state_t
  | EVT_SCHED_RCVD,   BOOTSTRAP => SYNCED
  | EVT_SCHED_RCVD,   SYNCED    => SYNCED
  | EVT_SCHED_RCVD,   UNSYNCED  => SYNCED
  | EVT_SCHED_RCVD,   UNSYNCED2 => SYNCED
  | EVT_SCHED_MISSED, BOOTSTRAP => BOOTSTRAP
  | EVT_SCHED_MISSED, SYNCED    => UNSYNCED
  | EVT_SCHED_MISSED, UNSYNCED  => UNSYNCED2
  | EVT_SCHED_MISSED, UNSYNCED2 => BOOTSTRAP

/-- The macro `GET_EVENT`: `glossy_is_t_ref_updated() ? EVT_SCHED_RCVD :
EVT_SCHED_MISSED`. -/
def GET_EVENT (t_ref_updated : Bool) : sync_event_t :=
  if t_ref_updated then EVT_SCHED_RCVD else EVT_SCHED_MISSED

/-- The sync update of `lwb_thread_src` (line 717):
`sync_state = next_state[GET_EVENT][sync_state]`. -/
def sync_update (t_ref_updated : Bool) (sync_state : lwb_sync_state_t) :
    lwb_sync_state_t :=
  next_state (GET_EVENT t_ref_updated) sync_state

/-! ## Configuration constants -/

/-- Compile-time constants (`LWB_CONF_*`) that the embedded code reads. Their
values are set in headers outside the embedded sources, so they are
parameters here. -/
structure Config where
  /-- Capacity of a data frame, `LWB_CONF_MAX_DATA_PKT_LEN`. -/
  LWB_CONF_MAX_DATA_PKT_LEN : Nat
  /-- Depth of the inbound queue, `LWB_CONF_IN_BUFFER_SIZE`. -/
  LWB_CONF_IN_BUFFER_SIZE : Nat
  /-- Depth of the outbound queue, `LWB_CONF_OUT_BUFFER_SIZE`. -/
  LWB_CONF_OUT_BUFFER_SIZE : Nat
  /-- Base period in seconds, `LWB_CONF_SCHED_PERIOD_IDLE`. -/
  LWB_CONF_SCHED_PERIOD_IDLE : Nat
  /-- Duration of the request round, `LWB_CONF_T_REQ_ROUND`. -/
  LWB_CONF_T_REQ_ROUND : Nat
  /-- Largest number of data slots, `LWB_CONF_MAX_DATA_SLOTS`. -/
  LWB_CONF_MAX_DATA_SLOTS : Nat
  /-- Largest number of streams, `LWB_CONF_MAX_N_STREAMS`. -/
  LWB_CONF_MAX_N_STREAMS : Nat
  /-- The marker `LWB_INVALID_STREAM_ID` for "no data received in this slot". -/
  LWB_INVALID_STREAM_ID : Nat
  /-- Length of a contention slot in HF ticks, `LWB_CONF_T_CONT`. -/
  LWB_CONF_T_CONT : Nat
  /-- Gap between two slots in HF ticks, `LWB_CONF_T_GAP`. -/
  LWB_CONF_T_GAP : Nat
  /-- Expected length of a slot request, `LWB_CONF_SRQ_PKT_LEN`. -/
  LWB_CONF_SRQ_PKT_LEN : Nat
  /-- Length of a schedule slot in HF ticks, `LWB_CONF_T_SCHED`. -/
  LWB_CONF_T_SCHED : Nat
  /-- Length of a data slot in HF ticks, `LWB_CONF_T_DATA`. -/
  LWB_CONF_T_DATA : Nat
  /-- Guard time in HF ticks when synced, `LWB_CONF_T_GUARD`. -/
  LWB_CONF_T_GUARD : Nat
  /-- Guard time after one missed schedule, `LWB_CONF_T_GUARD_1`. -/
  LWB_CONF_T_GUARD_1 : Nat
  /-- Guard time after two missed schedules, `LWB_CONF_T_GUARD_2`. -/
  LWB_CONF_T_GUARD_2 : Nat
  /-- Constant offset between the reference times of source and host in HF
  ticks, `LWB_CONF_T_REF_OFS`. -/
  LWB_CONF_T_REF_OFS : Nat
  /-- Length of the preprocess window in LF ticks, `LWB_CONF_T_PREPROCESS`. -/
  LWB_CONF_T_PREPROCESS : Nat
  /-- HF ticks per second, `RTIMER_SECOND_HF`. -/
  RTIMER_SECOND_HF : Nat
  /-- LF ticks per second, `RTIMER_SECOND_LF`. -/
  RTIMER_SECOND_LF : Nat
  /-- HF ticks per LF tick, `RTIMER_HF_LF_RATIO`. -/
  RTIMER_HF_LF_RATIO : Nat
  /-- The payload length that tells Glossy the length is not known,
  `GLOSSY_UNKNOWN_PAYLOAD_LEN`. -/
  GLOSSY_UNKNOWN_PAYLOAD_LEN : Nat
  /-- The id of this node, `node_id`. -/
  node_id : Nat
  /-- The id of the host, `HOST_ID`. -/
  HOST_ID : Nat

/-! ## FIFO helper (`fifo.h`) -/

/-- Modelled from the spec: the FIFO control block of `fifo.h`, which is not
among the embedded sources. The design document describes the queues as
bounded FIFOs of a given depth and element stride, in "ring discipline (FIFO)
with head/tail indices", with a `count()` snapshot. -/
structure fifo_t where
  /-- Element stride in bytes. -/
  elem_size : Nat
  /-- Depth: the number of elements the ring holds. -/
  num_elem : Nat
  /-- Address of the first element in the backing store. -/
  start : Nat
  /-- Head: index of the oldest element. -/
  read_idx : Nat
  /-- Tail: index of the next free element. -/
  write_idx : Nat
  /-- Number of queued elements. -/
  count : Nat

/-- Modelled from the spec: the declaration macro `FIFO(name, elem_size,
num_elem)` of `fifo.h`: an empty ring of the given stride and depth. -/
def FIFO (elem_size num_elem : Nat) : fifo_t :=
  { elem_size := elem_size, num_elem := num_elem, start := 0,
    read_idx := 0, write_idx := 0, count := 0 }

/-- Modelled from the spec: `fifo_init(f, start)` of `fifo.h`: binds the ring
to its backing store and empties it. -/
def fifo_init (f : fifo_t) (start : Nat) : fifo_t :=
  { f with start := start, read_idx := 0, write_idx := 0, count := 0 }

/-- Modelled from the spec: `FIFO_CNT(f)` of `fifo.h`, the `count()`
snapshot. -/
def FIFO_CNT (f : fifo_t) : Nat := f.count

/-- Modelled from the spec: `FIFO_EMPTY(f)` of `fifo.h`. -/
def FIFO_EMPTY (f : fifo_t) : Bool := f.count == 0

/-- Modelled from the spec: `FIFO_FULL(f)` of `fifo.h`: the ring holds
`num_elem` elements. -/
def FIFO_FULL (f : fifo_t) : Bool := f.count == f.num_elem

/-- Modelled from the spec: `fifo_put(f)` of `fifo.h`. On a full ring the
result is `none` (the C sentinel `FIFO_ERROR`) and the ring is unchanged;
otherwise the result is the address of the element at the tail, and the tail
advances around the ring. -/
def fifo_put (f : fifo_t) : Option Nat × fifo_t :=
  if FIFO_FULL f then (none, f)
  else (some (f.start + f.write_idx * f.elem_size),
        { f with write_idx := (f.write_idx + 1) % f.num_elem,
                 count := f.count + 1 })

/-- Modelled from the spec: `fifo_get(f)` of `fifo.h`. On an empty ring the
result is `none` (`FIFO_ERROR`) and the ring is unchanged; otherwise the
result is the address of the oldest element, and the head advances around the
ring. -/
def fifo_get (f : fifo_t) : Option Nat × fifo_t :=
  if FIFO_EMPTY f then (none, f)
  else (some (f.start + f.read_idx * f.elem_size),
        { f with read_idx := (f.read_idx + 1) % f.num_elem,
                 count := f.count - 1 })

/-! ## Packet queues (`elwb.c`, lines 217-383) -/

/-- Modelled from the spec: the statistics block `lwb_statistics_t`, declared
in `lwb.h`, which is not among the embedded sources. The fields are those
that `elwb.c` touches; the design document calls them "statistics counters
(`rxbuf_drop`, `txbuf_drop`)" and gives no widths, so a counter is the number
of events counted; the drift estimate is signed. -/
structure lwb_statistics_t where
  relay_cnt : Nat
  glossy_snr : Int
  bootstrap_cnt : Nat
  sleep_cnt : Nat
  unsynced_cnt : Nat
  drift : Int
  pck_cnt : Nat
  rx_total : Nat
  t_slot_last : Nat
  t_proc_max : Nat
  rxbuf_drop : Nat
  txbuf_drop : Nat

/-- The statics of `elwb.c` that the queue interface reads and writes, in the
RAM-backed build (`LWB_CONF_USE_XMEM == 0`): the two FIFO control blocks, the
two byte arenas `in_buffer_mem` and `out_buffer_mem` (address to byte), and
the statistics block. An address is an offset into its arena, so the casts
between pointers and integers in the C code (`(uint8_t*)((uint16_t)pkt_addr)`
on a target with 16-bit pointers) are the identity. -/
structure LwbState where
  in_buffer : fifo_t
  out_buffer : fifo_t
  in_buffer_mem : Nat → Nat
  out_buffer_mem : Nat → Nat
  stats : lwb_statistics_t

/-- The C library routine `memcpy(dst, src, n)` into a byte store: the `n`
bytes from `dst` on become `src[0..n)`, every other byte is kept. -/
def memcpy (mem : Nat → Nat) (dst : Nat) (src : Nat → Nat) (n : Nat) : Nat → Nat :=
  fun a => if dst ≤ a ∧ a < dst + n then src (a - dst) else mem a

/-- A single byte store `*(p) = v`. -/
def store_byte (mem : Nat → Nat) (p : Nat) (v : Nat) : Nat → Nat :=
  fun a => if a = p then v else mem a

/-- The buffer seen through the pointer `mem + addr`. -/
def ptr_at (mem : Nat → Nat) (addr : Nat) : Nat → Nat :=
  fun j => mem (addr + j)

/-- `lwb_in_buffer_put(data, len)` (lines 237-270, RAM-backed branch): store a
received message in the incoming queue; the result is 1 if successful and 0
otherwise. `len` is a `uint8_t`. -/
def lwb_in_buffer_put (cfg : Config) (s : LwbState) (data : Nat → Nat) (len : Nat) :
    Nat × LwbState :=
  if len = 0 ∨ len > cfg.LWB_CONF_MAX_DATA_PKT_LEN then
    (0, s)
  else
    match fifo_put s.in_buffer with
    | (some pkt_addr, f) =>
      let mem1 := memcpy s.in_buffer_mem pkt_addr data len
      let mem2 := store_byte mem1 (pkt_addr + cfg.LWB_CONF_MAX_DATA_PKT_LEN) len
      (1, { s with in_buffer := f, in_buffer_mem := mem2 })
    | (none, f) =>
      (0, { s with in_buffer := f,
                   stats := { s.stats with rxbuf_drop := s.stats.rxbuf_drop + 1 } })

/-- `lwb_out_buffer_get(out_data, out_len)` (lines 274-302, RAM-backed
branch): fetch the next message from the outgoing queue. The result is the
return code (1 if successful, 0 otherwise), the new state, and the contents
of `out_data` and of `*out_len` after the call. -/
def lwb_out_buffer_get (cfg : Config) (s : LwbState) (out_data : Nat → Nat)
    (out_len : Nat) : Nat × LwbState × (Nat → Nat) × Nat :=
  match fifo_get s.out_buffer with
  | (some pkt_addr, f) =>
    let n := s.out_buffer_mem (pkt_addr + cfg.LWB_CONF_MAX_DATA_PKT_LEN)
    (1, { s with out_buffer := f },
      memcpy out_data 0 (ptr_at s.out_buffer_mem pkt_addr) n, n)
  | (none, f) =>
    (0, { s with out_buffer := f }, out_data, out_len)

/-- `lwb_send_pkt(recipient, stream_id, data, len)` (lines 307-337, RAM-backed
branch): put a message into the outgoing queue; the result is 1 if successful
and 0 otherwise. `recipient` and `stream_id` are not read by the code. `data`
is `none` for a null pointer; `len` is a `uint8_t`. -/
def lwb_send_pkt (cfg : Config) (s : LwbState) (recipient stream_id : Nat)
    (data : Option (Nat → Nat)) (len : Nat) : Nat × LwbState :=
  match data with
  | none => (0, s)
  | some d =>
    if len > cfg.LWB_CONF_MAX_DATA_PKT_LEN then (0, s)
    else
      match fifo_put s.out_buffer with
      | (some pkt_addr, f) =>
        let mem1 := store_byte s.out_buffer_mem
                      (pkt_addr + cfg.LWB_CONF_MAX_DATA_PKT_LEN) len
        let mem2 := memcpy mem1 pkt_addr d len
        (1, { s with out_buffer := f, out_buffer_mem := mem2 })
      | (none, f) =>
        (0, { s with out_buffer := f,
                     stats := { s.stats with txbuf_drop := s.stats.txbuf_drop + 1 } })

/-- `lwb_rcv_pkt(out_data, out_node_id, out_stream_id)` (lines 342-371,
RAM-backed branch): copy the oldest received message into `out_data` and
return its size in bytes. `out_node_id` and `out_stream_id` are not touched
by the code. The result is the return value, the new state and the contents
of `out_data` after the call (`none` for a null pointer). -/
def lwb_rcv_pkt (cfg : Config) (s : LwbState) (out_data : Option (Nat → Nat)) :
    Nat × LwbState × Option (Nat → Nat) :=
  match out_data with
  | none => (0, s, none)
  | some out =>
    match fifo_get s.in_buffer with
    | (some pkt_addr, f) =>
      let n := s.in_buffer_mem (pkt_addr + cfg.LWB_CONF_MAX_DATA_PKT_LEN)
      (n, { s with in_buffer := f },
        some (memcpy out 0 (ptr_at s.in_buffer_mem pkt_addr) n))
    | (none, f) =>
      (0, { s with in_buffer := f }, some out)

/-- `lwb_get_rcv_buffer_state()` (lines 373-377); the return type is
`uint8_t`. -/
def lwb_get_rcv_buffer_state (s : LwbState) : Nat :=
  FIFO_CNT s.in_buffer % 2 ^ 8

/-- `lwb_get_send_buffer_state()` (lines 379-383); the return type is
`uint8_t`. -/
def lwb_get_send_buffer_state (s : LwbState) : Nat :=
  FIFO_CNT s.out_buffer % 2 ^ 8

/-- The queue set-up at the start of `lwb_process` (lines 230-231 and
923-926): both rings are declared with stride `LWB_CONF_MAX_DATA_PKT_LEN + 1`
and their depth, and bound to their arenas, which as C statics start zeroed;
`stats` starts as `{ 0 }`. Addresses are offsets into the arena. -/
def lwb_process_init (cfg : Config) : LwbState :=
  { in_buffer := fifo_init
      (FIFO (cfg.LWB_CONF_MAX_DATA_PKT_LEN + 1) cfg.LWB_CONF_IN_BUFFER_SIZE) 0,
    out_buffer := fifo_init
      (FIFO (cfg.LWB_CONF_MAX_DATA_PKT_LEN + 1) cfg.LWB_CONF_OUT_BUFFER_SIZE) 0,
    in_buffer_mem := fun _ => 0,
    out_buffer_mem := fun _ => 0,
    stats := ⟨0, 0, 0, 0, 0, 0, 0, 0, 0, 0, 0, 0⟩ }

/-! ## Observing the queues -/

/-- The first `len` bytes of a buffer, as a frame. -/
def frame_of (data : Nat → Nat) (len : Nat) : List Nat :=
  (List.range len).map data

/-- The frame held by the queue element at `addr`: the element is
`LWB_CONF_MAX_DATA_PKT_LEN + 1` bytes, its trailing byte is the length of the
frame and the frame is that many leading bytes. -/
def frame_at (cfg : Config) (mem : Nat → Nat) (addr : Nat) : List Nat :=
  frame_of (ptr_at mem addr) (mem (addr + cfg.LWB_CONF_MAX_DATA_PKT_LEN))

/-- The frames a ring holds, oldest first: the `count` elements from the head
on, around the ring. -/
def fifo_frames (cfg : Config) (f : fifo_t) (mem : Nat → Nat) : List (List Nat) :=
  (List.range f.count).map fun k =>
    frame_at cfg mem (f.start + ((f.read_idx + k) % f.num_elem) * f.elem_size)

/-- The frames queued for sending, oldest first. -/
def out_frames (cfg : Config) (s : LwbState) : List (List Nat) :=
  fifo_frames cfg s.out_buffer s.out_buffer_mem

/-- The frames queued for the application, oldest first. -/
def in_frames (cfg : Config) (s : LwbState) : List (List Nat) :=
  fifo_frames cfg s.in_buffer s.in_buffer_mem

/-- One step of the program on the queue statics: a call of the queue
interface, with its arguments, or a write of the round engine to the
statistics block (`stats.pck_cnt++`, `stats.drift = ...` and the like), which
is the only other access the program has to these statics. -/
inductive QueueCall where
  | send_pkt (recipient stream_id : Nat) (data : Option (Nat → Nat)) (len : Nat)
  | out_buffer_get (out_data : Nat → Nat) (out_len : Nat)
  | in_buffer_put (data : Nat → Nat) (len : Nat)
  | rcv_pkt (out_data : Option (Nat → Nat))
  | set_stats (stats : lwb_statistics_t)

/-- A run of the queue interface: the current state, and for each queue the
frames accepted by its successful puts and the frames handed out by its
successful gets, both in call order. -/
structure QueueLog where
  state : LwbState
  out_accepted : List (List Nat)
  out_returned : List (List Nat)
  in_accepted : List (List Nat)
  in_returned : List (List Nat)

/-- The log before the first call. -/
def QueueLog.init (cfg : Config) : QueueLog :=
  { state := lwb_process_init cfg, out_accepted := [], out_returned := [],
    in_accepted := [], in_returned := [] }

/-- Perform one call and record what it accepted or handed out. A put is
successful when it returns 1; `lwb_out_buffer_get` is successful when it
returns 1 and hands out the first `*out_len` bytes of `out_data`;
`lwb_rcv_pkt` is successful when it returns a non-zero length `n` and hands
out the first `n` bytes of `out_data`. -/
def QueueLog.step (cfg : Config) (t : QueueLog) : QueueCall → QueueLog
  | .send_pkt recipient stream_id data len =>
    let r := lwb_send_pkt cfg t.state recipient stream_id data len
    match data with
    | some d =>
      if r.1 = 1 then
        { t with state := r.2, out_accepted := t.out_accepted ++ [frame_of d len] }
      else { t with state := r.2 }
    | none => { t with state := r.2 }
  | .out_buffer_get out_data out_len =>
    let r := lwb_out_buffer_get cfg t.state out_data out_len
    if r.1 = 1 then
      { t with state := r.2.1,
               out_returned := t.out_returned ++ [frame_of r.2.2.1 r.2.2.2] }
    else { t with state := r.2.1 }
  | .in_buffer_put data len =>
    let r := lwb_in_buffer_put cfg t.state data len
    if r.1 = 1 then
      { t with state := r.2, in_accepted := t.in_accepted ++ [frame_of data len] }
    else { t with state := r.2 }
  | .rcv_pkt out_data =>
    let r := lwb_rcv_pkt cfg t.state out_data
    match r.2.2 with
    | some out =>
      if r.1 ≠ 0 then
        { t with state := r.2.1, in_returned := t.in_returned ++ [frame_of out r.1] }
      else { t with state := r.2.1 }
    | none => { t with state := r.2.1 }
  | .set_stats stats => { t with state := { t.state with stats := stats } }

/-- Perform a sequence of calls, in order. -/
def QueueLog.run (cfg : Config) (t : QueueLog) : List QueueCall → QueueLog
  | [] => t
  | c :: cs => QueueLog.run cfg (QueueLog.step cfg t c) cs

/-- The states of the queue statics that the program can reach from the
set-up of `lwb_process`. -/
def Reachable (cfg : Config) (s : LwbState) : Prop :=
  ∃ calls : List QueueCall, (QueueLog.run cfg (QueueLog.init cfg) calls).state = s

/-- The ring invariant of a queue of depth `depth` over the store `mem`: the
control block has the declared stride and depth, the count is within the
depth, head and tail are ring indices `count` apart, and every queued element
has a length byte between `lo` and `LWB_CONF_MAX_DATA_PKT_LEN`. -/
def ring_ok (cfg : Config) (depth lo : Nat) (f : fifo_t) (mem : Nat → Nat) : Prop :=
  f.elem_size = cfg.LWB_CONF_MAX_DATA_PKT_LEN + 1 ∧
  f.num_elem = depth ∧
  f.count ≤ depth ∧
  f.read_idx % depth = f.read_idx ∧
  f.write_idx = (f.read_idx + f.count) % depth ∧
  ∀ k, k < f.count →
    lo ≤ mem (f.start + ((f.read_idx + k) % depth) * (cfg.LWB_CONF_MAX_DATA_PKT_LEN + 1)
              + cfg.LWB_CONF_MAX_DATA_PKT_LEN) ∧
    mem (f.start + ((f.read_idx + k) % depth) * (cfg.LWB_CONF_MAX_DATA_PKT_LEN + 1)
              + cfg.LWB_CONF_MAX_DATA_PKT_LEN) ≤ cfg.LWB_CONF_MAX_DATA_PKT_LEN

/-- The invariant of a run: both rings are well formed, and for each queue the
frames handed out so far followed by the frames still queued are the frames
accepted so far. -/
def QueueLog.ok (cfg : Config) (t : QueueLog) : Prop :=
  ring_ok cfg cfg.LWB_CONF_OUT_BUFFER_SIZE 0 t.state.out_buffer t.state.out_buffer_mem ∧
  ring_ok cfg cfg.LWB_CONF_IN_BUFFER_SIZE 1 t.state.in_buffer t.state.in_buffer_mem ∧
  t.out_returned ++ out_frames cfg t.state = t.out_accepted ∧
  t.in_returned ++ in_frames cfg t.state = t.in_accepted

/-! ## Schedule (`lwb.h`) -/

/-- Modelled from the spec: the schedule `lwb_schedule_t`, declared in
`lwb.h`, which is not among the embedded sources. The fields are the logical
fields of the design document with the widths of its wire layout: `time` has
4 bytes, `period` and `n_slots` have 2 bytes, and `slot` is an array of
2-byte node ids (index to id). -/
structure lwb_schedule_t where
  time : Nat
  period : Nat
  n_slots : Nat
  slot : Nat → Nat

/-- Modelled from the spec: the macro `LWB_SCHED_N_SLOTS(s)` of `lwb.h`, which
is not among the embedded sources: "the slot count in its low 14 bits". -/
def LWB_SCHED_N_SLOTS (s : lwb_schedule_t) : Nat := s.n_slots &&& 0x3fff

/-- Modelled from the spec: the macro `LWB_SCHED_HAS_CONT_SLOT(s)` of `lwb.h`:
the `CONT` flag is bit 15 of `n_slots`. -/
def LWB_SCHED_HAS_CONT_SLOT (s : lwb_schedule_t) : Bool := (s.n_slots &&& 0x8000) > 0

/-- Modelled from the spec: the macro `LWB_SCHED_SET_CONT_SLOT(s)` of `lwb.h`:
sets bit 15 of `n_slots`. -/
def LWB_SCHED_SET_CONT_SLOT (s : lwb_schedule_t) : lwb_schedule_t :=
  { s with n_slots := s.n_slots ||| 0x8000 }

/-- Modelled from the spec: the macro `LWB_SCHED_HAS_SACK_SLOT(s)` of `lwb.h`.
The design document puts the three flag bits above the slot count, "or
equivalent"; the AE scheduler prints the two flags it uses as
`sched->n_slots >> 14` (`sched-ae.c`, line 281), so `SACK` is bit 14. -/
def LWB_SCHED_HAS_SACK_SLOT (s : lwb_schedule_t) : Bool := (s.n_slots &&& 0x4000) > 0

/-- Modelled from the spec: the macro `LWB_SCHED_SET_SACK_SLOT(s)` of `lwb.h`:
sets bit 14 of `n_slots`. -/
def LWB_SCHED_SET_SACK_SLOT (s : lwb_schedule_t) : lwb_schedule_t :=
  { s with n_slots := s.n_slots ||| 0x4000 }

/-- Modelled from the spec: the constant `LWB_SCHED_PKT_HEADER_LEN` of `lwb.h`:
"`HEADER_LEN = 8`". -/
def LWB_SCHED_PKT_HEADER_LEN : Nat := 8

/-- A store into an array of words, `a[i] = v`. -/
def array_store (a : Nat → Nat) (i v : Nat) : Nat → Nat :=
  fun k => if k = i then v else a k

/-! ## AE scheduler (`sched-ae.c`) -/

/-- An entry of the stream list (`struct stream_info`, lines 94-98); the
`next` pointer is the position in the list. -/
structure lwb_stream_list_t where
  node_id : Nat
  state : Nat
  deriving DecidableEq, Repr

/-- Modelled from the spec: a stream request `lwb_stream_req_t`, declared in
`lwb.h`, which is not among the embedded sources: "`{ node_id, [opt] ipi,
[opt] stream_id }`", with the node id in the first two bytes. The scheduler
reads only `node_id`. -/
structure lwb_stream_req_t where
  node_id : Nat
  deriving DecidableEq, Repr

/-- The statics of `sched-ae.c` (lines 100-107): `time` is a `uint32_t`,
`n_streams` a `uint16_t`, `sched_state` and `n_pending_sack` are `uint8_t`,
`pending_sack` is an array of node ids, and `streams_list` is the linked
list of the entries allocated from the pool `streams_memb` of
`LWB_CONF_MAX_N_STREAMS` blocks (no entry is ever freed, so the pool is
exhausted exactly when the list has that many entries). -/
structure AeState where
  time : Nat
  n_streams : Nat
  sched_state : Nat
  n_pending_sack : Nat
  pending_sack : Nat → Nat
  streams_list : List lwb_stream_list_t

/-- The search loop of `lwb_sched_proc_srq` (lines 132-142): the first entry
with the requested node id is activated if it was inactive. The result is
the list, `n_streams` and the flag `exists`. -/
def srq_find (node_id : Nat) :
    List lwb_stream_list_t → Nat → List lwb_stream_list_t × Nat × Bool
  | [], n_streams => ([], n_streams, false)
  | s :: rest, n_streams =>
    if node_id = s.node_id then
      if s.state = 0 then
        ({ s with state := 1 } :: rest, (n_streams + 1) % 2 ^ 16, true)
      else (s :: rest, n_streams, true)
    else
      let r := srq_find node_id rest n_streams
      (s :: r.1, r.2.1, r.2.2)

/-- The loop of lines 155-160 followed by `list_insert` after `prev`: the
loop breaks at the first entry `prev` with `node_id >= prev->node_id` whose
successor is absent or has a larger id, and the new entry goes right after
it. The result is `none` when the loop ends without a break (`prev` is
`NULL`). -/
def srq_insert_after (new : lwb_stream_list_t) :
    List lwb_stream_list_t → Option (List lwb_stream_list_t)
  | [] => none
  | [prev] => if new.node_id ≥ prev.node_id then some [prev, new] else none
  | prev :: nxt :: rest =>
    if new.node_id ≥ prev.node_id ∧ new.node_id < nxt.node_id then
      some (prev :: new :: nxt :: rest)
    else (srq_insert_after new (nxt :: rest)).map fun l => prev :: l

/-- The insertion of lines 154-161: `list_insert(streams_list, prev, s)` puts
the new entry after `prev`, or at the head of the list when `prev` is
`NULL`. -/
def srq_insert (new : lwb_stream_list_t) (l : List lwb_stream_list_t) :
    List lwb_stream_list_t :=
  match srq_insert_after new l with
  | some l2 => l2
  | none => new :: l

/-- `lwb_sched_proc_srq(req)` (lines 120-166). -/
def lwb_sched_proc_srq (cfg : Config) (st : AeState) (req : lwb_stream_req_t) : AeState :=
  if st.n_streams ≥ cfg.LWB_CONF_MAX_N_STREAMS then st
  else
    let r := srq_find req.node_id st.streams_list st.n_streams
    if r.2.2 then { st with streams_list := r.1, n_streams := r.2.1 }
    else if st.streams_list.length ≥ cfg.LWB_CONF_MAX_N_STREAMS then st
    else
      { st with
        streams_list := srq_insert { node_id := req.node_id, state := 1 } st.streams_list,
        n_streams := (st.n_streams + 1) % 2 ^ 16 }

/-- The loop of lines 189-195 (idle state, contention detected): every entry
of the stream list gets one slot. `n_slots_assigned` is a `uint8_t`. -/
def assign_all : List lwb_stream_list_t → (Nat → Nat) → Nat → (Nat → Nat) × Nat
  | [], slot, n_slots_assigned => (slot, n_slots_assigned)
  | curr_stream :: rest, slot, n_slots_assigned =>
    assign_all rest (array_store slot n_slots_assigned curr_stream.node_id)
      ((n_slots_assigned + 1) % 2 ^ 8)

/-- The loop of lines 212-221 (request state): every active entry of the
stream list gets one slot, while `n_slots_assigned <
LWB_CONF_MAX_DATA_SLOTS`. -/
def assign_active (cfg : Config) :
    List lwb_stream_list_t → (Nat → Nat) → Nat → (Nat → Nat) × Nat
  | [], slot, n_slots_assigned => (slot, n_slots_assigned)
  | curr_stream :: rest, slot, n_slots_assigned =>
    if n_slots_assigned < cfg.LWB_CONF_MAX_DATA_SLOTS then
      if curr_stream.state ≠ 0 then
        assign_active cfg rest (array_store slot n_slots_assigned curr_stream.node_id)
          ((n_slots_assigned + 1) % 2 ^ 8)
      else assign_active cfg rest slot n_slots_assigned
    else (slot, n_slots_assigned)

/-- Lines 208-222 (request state): the slot array is cleared, and if there
are any streams the active ones get their slots. -/
def data_round_slots (cfg : Config) (n_streams : Nat)
    (streams_list : List lwb_stream_list_t) : (Nat → Nat) × Nat :=
  if n_streams ≠ 0 then assign_active cfg streams_list (fun _ => 0) 0
  else ((fun _ => 0), 0)

/-- The inner search of lines 241-247 together with the update of lines
249-262 for one slot: the first entry with the slot's node id, if it is
active and data was received, is deactivated and its node id is appended to
`pending_sack`. The result is the list and a flag telling whether an entry
was deactivated. (The node id appended is `curr_stream->node_id`, which
equals the slot's id.) -/
def deactivate_first (node_id : Nat) (rcvd : Bool) :
    List lwb_stream_list_t → List lwb_stream_list_t × Bool
  | [] => ([], false)
  | curr_stream :: rest =>
    if node_id = curr_stream.node_id then
      if curr_stream.state ≠ 0 ∧ rcvd then
        ({ curr_stream with state := 0 } :: rest, true)
      else (curr_stream :: rest, false)
    else
      let r := deactivate_first node_id rcvd rest
      (curr_stream :: r.1, r.2)

/-- One iteration of the loop of lines 238-268 (data state), for slot `i`. -/
def sack_step (cfg : Config) (sched : lwb_schedule_t) (streams_to_update : Nat → Nat)
    (st : AeState) (i : Nat) : AeState :=
  let r := deactivate_first (sched.slot i)
    (decide (streams_to_update i ≠ cfg.LWB_INVALID_STREAM_ID)) st.streams_list
  if r.2 then
    { st with
      streams_list := r.1,
      pending_sack := array_store st.pending_sack st.n_pending_sack (sched.slot i),
      n_pending_sack := (st.n_pending_sack + 1) % 2 ^ 8,
      n_streams := if st.n_streams = 0 then 0 else st.n_streams - 1 }
  else st

/-- `lwb_sched_compute(sched, streams_to_update, reserve_slot_host)` (lines
168-284). `n_rx_started` is the value of `glossy_get_n_rx_started()`;
`streams_to_update` is the array seen through the pointer. The result is the
return value, the scheduler statics and the schedule after the call. -/
def lwb_sched_compute (cfg : Config) (n_rx_started : Nat) (st : AeState)
    (sched : lwb_schedule_t) (streams_to_update : Nat → Nat) (reserve_slot_host : Nat) :
    Nat × AeState × lwb_schedule_t :=
  let time := (st.time + sched.period) % 2 ^ 32
  let st := { st with time := time }
  let r : Nat × AeState × lwb_schedule_t :=
    if st.sched_state = 0 then
      if n_rx_started ≠ 0 then
        let a := assign_all st.streams_list (fun _ => 0) 0
        (a.2, { st with sched_state := (st.sched_state + 1) % 2 ^ 8 },
          { sched with slot := a.1, period := 1, n_slots := a.2 })
      else
        (0, st, LWB_SCHED_SET_CONT_SLOT
          { sched with n_slots := 0,
                       period := (cfg.LWB_CONF_SCHED_PERIOD_IDLE * 10) % 2 ^ 16 })
    else if st.sched_state = 1 then
      let a := data_round_slots cfg st.n_streams st.streams_list
      if a.2 ≠ 0 then
        (a.2, { st with sched_state := (st.sched_state + 1) % 2 ^ 8 },
          LWB_SCHED_SET_SACK_SLOT
            { sched with slot := a.1, n_slots := a.2,
                         period := cfg.LWB_CONF_T_REQ_ROUND % 2 ^ 16 })
      else
        (a.2, { st with sched_state := 0 },
          LWB_SCHED_SET_CONT_SLOT
            { sched with slot := a.1, n_slots := a.2,
                         period := (cfg.LWB_CONF_SCHED_PERIOD_IDLE * 10 + 2 ^ 16 - 1) % 2 ^ 16 })
    else if st.sched_state = 2 then
      let st2 := (List.range (LWB_SCHED_N_SLOTS sched)).foldl
        (sack_step cfg sched streams_to_update) { st with n_pending_sack := 0 }
      (0, { st2 with sched_state := 0 },
        LWB_SCHED_SET_CONT_SLOT
          { sched with n_slots := 0,
                       period := (cfg.LWB_CONF_SCHED_PERIOD_IDLE * 10 + 2 * 2 ^ 16
                                   - cfg.LWB_CONF_T_REQ_ROUND % 2 ^ 16 - 1) % 2 ^ 16 })
    else (0, st, sched)
  ((r.1 * 2 + LWB_SCHED_PKT_HEADER_LEN) % 2 ^ 16, r.2.1,
    { r.2.2 with time := r.2.1.time / 10 })

/-- `lwb_sched_init(sched)` (lines 286-305), called once at start-up, when the
statics are still zeroed. The result is the return value, the scheduler
statics and the schedule after the call. -/
def lwb_sched_init (cfg : Config) (sched : lwb_schedule_t) :
    Nat × AeState × lwb_schedule_t :=
  (LWB_SCHED_PKT_HEADER_LEN,
    { time := 0, n_streams := 0, sched_state := 0, n_pending_sack := 0,
      pending_sack := fun _ => 0, streams_list := [] },
    { LWB_SCHED_SET_CONT_SLOT { sched with n_slots := 0 } with
      time := 0, period := (cfg.LWB_CONF_SCHED_PERIOD_IDLE * 10) % 2 ^ 16 })

/-! ## Host round: contention slot and second schedule (`elwb.c`, 548-586) -/

/-- What the flooding primitive reports after a receive slot
(`glossy_stop()`): `glossy_get_n_rx()`, `glossy_get_n_rx_started()` and the
words of the payload buffer as the slot left them. -/
structure glossy_result where
  n_rx : Nat
  n_rx_started : Nat
  payload : Nat → Nat
  /-- The value of `glossy_get_payload_len()`. -/
  payload_len : Nat

/-- The statics of `elwb.c` and `sched-ae.c` that the host's data slots and
contention slot read and write: the schedule, the payload buffer
`glossy_payload` (an array of `uint16_t`), `payload_len`, `t_slot`,
`t_slot_ofs`, the host's `srq_cnt` (a `uint16_t`), the scheduler statics, and
the queue statics with the statistics. -/
structure HostState where
  schedule : lwb_schedule_t
  glossy_payload : Nat → Nat
  payload_len : Nat
  t_slot : Nat
  t_slot_ofs : Nat
  srq_cnt : Nat
  sched : AeState
  q : LwbState

/-- The contention slot and the second schedule of a host round
(`lwb_thread_host`, lines 550-586). `rx` is what Glossy reports for the
contention slot, and `null_page` is what would be read through the null
pointer that the host passes as `streams_to_update`. The result is the state
after line 585 and the frame handed to `LWB_SEND_PACKET()`: the payload
buffer and `payload_len`; `none` when the schedule has no contention slot
and nothing is sent. -/
def host_contention_slot (cfg : Config) (rx : glossy_result) (null_page : Nat → Nat)
    (h : HostState) : HostState × Option ((Nat → Nat) × Nat) :=
  if LWB_SCHED_HAS_CONT_SLOT h.schedule then
    -- lines 551-553
    let h1 := { h with t_slot := cfg.LWB_CONF_T_CONT,
                       payload_len := cfg.LWB_CONF_SRQ_PKT_LEN,
                       glossy_payload := array_store h.glossy_payload 0 0 }
    -- lines 555-556: LWB_RCV_PACKET()
    let h2 := { h1 with glossy_payload := rx.payload }
    -- lines 557-561
    let h3 :=
      if rx.n_rx > 0 ∧ h2.glossy_payload 0 ≠ 0 then
        { h2 with sched := lwb_sched_proc_srq cfg h2.sched ⟨h2.glossy_payload 0⟩ }
      else h2
    -- lines 562-576
    let h4 :=
      if rx.n_rx_started ≠ 0 then
        let c := lwb_sched_compute cfg rx.n_rx_started h3.sched
                   { h3.schedule with period := 0 } null_page 0
        { h3 with srq_cnt := (h3.srq_cnt + 1) % 2 ^ 16,
                  sched := c.2.1,
                  schedule := c.2.2,
                  glossy_payload := array_store h3.glossy_payload 0 c.2.2.period }
      else
        { h3 with glossy_payload := array_store h3.glossy_payload 0 0 }
    -- lines 577-585
    let h5 := { h4 with
      t_slot_ofs := (h4.t_slot_ofs + (cfg.LWB_CONF_T_CONT + cfg.LWB_CONF_T_GAP)) % 2 ^ 32,
      payload_len := 2 }
    (h5, some (h5.glossy_payload, h5.payload_len))
  else (h, none)

/-- The ways in which the host changes the schedule and the scheduler
statics: a stream request handed to the scheduler (lines 516 and 560), a call
of `lwb_sched_compute` (lines 442, 569 and 625) with whatever Glossy reports
at that time, the assignment `schedule.period = 0` (line 565), the setting of
the time at start-up (lines 952-953), and a rewriting of the slot array in
place (`lwb_sched_uncompress`, lines 476-477, in a build with
`LWB_CONF_SCHED_COMPRESS`). -/
inductive HostSchedCall where
  | proc_srq (req : lwb_stream_req_t)
  | compute (n_rx_started : Nat) (streams_to_update : Nat → Nat) (reserve_slot_host : Nat)
  | set_period_zero
  | set_time (schedule_time sched_time : Nat)
  | uncompress (slot : Nat → Nat)

/-- Perform one of the host's calls on the scheduler statics and the
schedule. -/
def HostSchedCall.apply (cfg : Config) (p : AeState × lwb_schedule_t) :
    HostSchedCall → AeState × lwb_schedule_t
  | .proc_srq req => (lwb_sched_proc_srq cfg p.1 req, p.2)
  | .compute n_rx_started streams_to_update reserve_slot_host =>
    (lwb_sched_compute cfg n_rx_started p.1 p.2 streams_to_update reserve_slot_host).2
  | .set_period_zero => (p.1, { p.2 with period := 0 })
  | .set_time schedule_time sched_time =>
    ({ p.1 with time := sched_time }, { p.2 with time := schedule_time })
  | .uncompress slot => (p.1, { p.2 with slot := slot })

/-- The zeroed static `schedule` at start-up. -/
def schedule_zero : lwb_schedule_t :=
  { time := 0, period := 0, n_slots := 0, slot := fun _ => 0 }

/-- The scheduler statics and the schedule after `lwb_sched_init(&schedule)`
(line 943) followed by a sequence of the host's calls. -/
def host_sched_run (cfg : Config) (calls : List HostSchedCall) : AeState × lwb_schedule_t :=
  calls.foldl (HostSchedCall.apply cfg) (lwb_sched_init cfg schedule_zero).2

/-- The host states whose schedule and scheduler statics the host can have
reached from start-up. -/
def HostReachable (cfg : Config) (h : HostState) : Prop :=
  ∃ calls : List HostSchedCall, host_sched_run cfg calls = (h.sched, h.schedule)

/-! ## Source round (`elwb.c`, `lwb_thread_src` and the time interface) -/

/-- Modelled from the spec: the macro `LWB_SCHED_HAS_DACK_SLOT(s)` of `lwb.h`,
which is not among the embedded sources. With `CONT` in bit 15 and `SACK` in
bit 14, the third flag `DACK` is bit 13. -/
def LWB_SCHED_HAS_DACK_SLOT (s : lwb_schedule_t) : Bool := (s.n_slots &&& 0x2000) > 0

/-- Modelled from the spec: the macro `LWB_SCHED_HAS_DATA_SLOT(s)` of `lwb.h`:
the slot count is not 0. -/
def LWB_SCHED_HAS_DATA_SLOT (s : lwb_schedule_t) : Bool := LWB_SCHED_N_SLOTS s > 0

/-- The macro `IS_DATA_ROUND(s)` (line 88). -/
def IS_DATA_ROUND (s : lwb_schedule_t) : Bool := LWB_SCHED_HAS_SACK_SLOT s

/-- The macro `IS_STATE_IDLE(s)` (line 90). -/
def IS_STATE_IDLE (s : lwb_schedule_t) : Bool := LWB_SCHED_HAS_DACK_SLOT s

/-- The macro `IS_FIRST_SCHEDULE(s)` (line 92). -/
def IS_FIRST_SCHEDULE (s : lwb_schedule_t) : Bool := LWB_SCHED_HAS_CONT_SLOT s

/-- The constant `LWB_PERIOD_SCALE` (line 59). -/
def LWB_PERIOD_SCALE : Nat := 100

/-- The table `guard_time[NUM_OF_SYNC_STATES]` (lines 135-138). -/
def guard_time (cfg : Config) : lwb_sync_state_t → Nat
  | BOOTSTRAP => cfg.LWB_CONF_T_GUARD
  | SYNCED    => cfg.LWB_CONF_T_GUARD
  | UNSYNCED  => cfg.LWB_CONF_T_GUARD_1
  | UNSYNCED2 => cfg.LWB_CONF_T_GUARD_2

/-- The numeric value of a sync state, as the C `enum` assigns it. -/
def lwb_sync_state_t.toNat : lwb_sync_state_t → Nat
  | BOOTSTRAP => 0
  | SYNCED    => 1
  | UNSYNCED  => 2
  | UNSYNCED2 => 3

/-- Unsigned subtraction `a - b` in `w` bits. -/
def usub (w a b : Nat) : Nat := (a % 2 ^ w + 2 ^ w - b % 2 ^ w) % 2 ^ w

/-- The cast `(int32_t)x`: the value in 32 bits, read as signed. -/
def cast_int32 (x : Int) : Int := (x + 2 ^ 31) % 2 ^ 32 - 2 ^ 31

/-- The cast `(int16_t)x`: the value in 16 bits, read as signed. -/
def cast_int16 (x : Int) : Int := (x + 2 ^ 15) % 2 ^ 16 - 2 ^ 15

/-- The bytes of an array of `uint16_t` words, as seen through a
`(uint8_t*)` cast (low byte first). -/
def bytes_of_words (w : Nat → Nat) : Nat → Nat :=
  fun k => (w (k / 2) / 256 ^ (k % 2)) % 256

/-- The `uint16_t` words of an array of bytes (low byte first). -/
def words_of_bytes (b : Nat → Nat) : Nat → Nat :=
  fun i => b (2 * i) % 256 + 256 * (b (2 * i + 1) % 256)

/-- The statics of `elwb.c` that the source thread and the time interface
read and write. `rtimer_clock_t` values (`rx_timestamp`, `last_synced_lf`,
`t_ref`, `t_ref_lf`) are 64-bit: the code narrows their differences with
`(uint32_t)` and `(int32_t)` and scales them by `1000000`. `global_time`,
`t_preprocess`, `t_slot`, `t_slot_ofs` and `t_guard` are `uint32_t`,
`period_idle` is a `uint16_t`, `payload_len` and `node_registered` are
`uint8_t`, and `glossy_payload` is an array of `uint16_t`. -/
structure SrcState where
  q : LwbState
  sync_state : lwb_sync_state_t
  rx_timestamp : Nat
  global_time : Nat
  schedule : lwb_schedule_t
  glossy_payload : Nat → Nat
  payload_len : Nat
  t_preprocess : Nat
  t_slot : Nat
  t_slot_ofs : Nat
  t_guard : Nat
  last_synced_lf : Nat
  t_ref : Nat
  t_ref_lf : Nat
  node_registered : Nat
  period_idle : Nat

/-- `lwb_get_time(reception_time)` (lines 391-398): the result is the return
value `global_time` and what is written to `*reception_time` (`none` for a
null pointer, through which nothing is written). -/
def lwb_get_time (s : SrcState) (reception_time : Option Nat) : Nat × Option Nat :=
  match reception_time with
  | some _ => (s.global_time, some s.rx_timestamp)
  | none => (s.global_time, none)

/-- `lwb_get_timestamp()` (lines 400-412), in `uint64_t` arithmetic. `now_hf`
and `now_lf` are the values of `rtimer_now_hf()` and `rtimer_now_lf()`. -/
def lwb_get_timestamp (cfg : Config) (now_hf now_lf : Nat) (s : SrcState) : Nat :=
  let timestamp := (s.global_time % 2 ^ 64 * 1000000) % 2 ^ 64
  if s.sync_state.toNat ≤ SYNCED.toNat then
    (timestamp
      + (usub 64 now_hf s.rx_timestamp * 1000000) % 2 ^ 64 / cfg.RTIMER_SECOND_HF) % 2 ^ 64
  else
    (timestamp
      + (usub 64 now_lf s.last_synced_lf * 1000000) % 2 ^ 64 / cfg.RTIMER_SECOND_LF) % 2 ^ 64

/-- What the source learns from the reception of the schedule (lines
668-706 and the reads of lines 726-731 and 747): whether the time reference
was updated, `glossy_get_t_ref()`, `glossy_get_snr()`,
`glossy_get_relay_cnt_first_rx()`, the contents of the buffer `schedule`
after the slot, the pair read by `rtimer_now(&hf_now, &t_ref_lf)`, and, for a
node in BOOTSTRAP, how many times the bootstrap loop timed out and slept
before a schedule was received. -/
structure sched_reception where
  t_ref_updated : Bool
  t_ref : Nat
  snr : Int
  relay_cnt : Nat
  schedule : lwb_schedule_t
  hf_now : Nat
  lf_now : Nat
  bootstrap_timeouts : Nat

/-- Lines 656-706: the preprocess window, and the reception of the schedule.
A node in BOOTSTRAP stays in the bootstrap loop until the time reference is
updated: each pass resets `schedule.n_slots` and counts in
`stats.bootstrap_cnt`, each timeout counts in `stats.sleep_cnt`. The result
is the state and the value of `glossy_is_t_ref_updated()` after the
reception. -/
def src_receive_schedule (cfg : Config) (rcv : sched_reception) (s : SrcState) :
    SrcState × Bool :=
  let s1 := { s with t_preprocess := 0,
                     payload_len := cfg.GLOSSY_UNKNOWN_PAYLOAD_LEN % 2 ^ 8 }
  if s1.sync_state = BOOTSTRAP then
    ({ s1 with
        schedule := rcv.schedule,
        q := { s1.q with stats := { s1.q.stats with
          bootstrap_cnt := s1.q.stats.bootstrap_cnt + (rcv.bootstrap_timeouts + 1),
          sleep_cnt := s1.q.stats.sleep_cnt + rcv.bootstrap_timeouts,
          glossy_snr := rcv.snr } } }, true)
  else
    ({ s1 with
        schedule := rcv.schedule,
        q := { s1.q with stats := { s1.q.stats with glossy_snr := rcv.snr } } },
      rcv.t_ref_updated)

/-- Lines 713-724: the update of the sync state machine and of the guard
time. The result is the state and a flag telling that the new state is
BOOTSTRAP, in which case the round is restarted at once (`continue`). -/
def src_sync (cfg : Config) (t_ref_updated : Bool) (s : SrcState) : SrcState × Bool :=
  let sync_state := next_state (GET_EVENT t_ref_updated) s.sync_state
  let s1 := { s with sync_state := sync_state, t_guard := guard_time cfg sync_state }
  if sync_state = UNSYNCED then
    ({ s1 with q := { s1.q with stats := { s1.q.stats with
        unsynced_cnt := s1.q.stats.unsynced_cnt + 1 } } }, false)
  else if sync_state = BOOTSTRAP then
    ({ s1 with t_preprocess := 0 }, true)
  else (s1, false)

/-- The drift sample of lines 736-737: measured elapsed LF ticks minus the
elapsed time given by the host, with the casts of the code. -/
def drift_sample (cfg : Config) (t_ref_lf last_synced_lf time global_time : Nat) : Int :=
  cast_int16
    (cast_int32
      (cast_int32 (usub 64 t_ref_lf last_synced_lf)
        - cast_int32 (cast_int32 (usub 32 time global_time) * cfg.RTIMER_SECOND_LF)))

/-- The drift update of lines 738-740: a sample within the gate is averaged
into the estimate, with the division of C (truncating toward zero). -/
def drift_update (old drift : Int) : Int :=
  if drift < 100 ∧ drift > -100 then (old + drift).tdiv 2 else old

/-- The stores of lines 740-745: the new drift estimate is written to the
statistics and the time is published: `period_idle`, `global_time`,
`last_synced_lf` and `rx_timestamp` are stored. -/
def src_publish (s : SrcState) (drift : Int) : SrcState :=
  { s with
    q := { s.q with stats := { s.q.stats with drift := drift } },
    period_idle := s.schedule.period,
    global_time := s.schedule.time,
    last_synced_lf := s.t_ref_lf,
    rx_timestamp := s.t_ref }

/-- Lines 733-746: on the first schedule of a round (`CONT` flag set) the
drift estimate is updated and the time is published. -/
def src_first_schedule (cfg : Config) (s : SrcState) : SrcState :=
  if IS_FIRST_SCHEDULE s.schedule then
    src_publish s (drift_update s.q.stats.drift
      (drift_sample cfg s.t_ref_lf s.last_synced_lf s.schedule.time s.global_time))
  else s

/-- Lines 727-747: the time reference of a received schedule. `t_ref` is the
HF time of the first reception less a constant offset, and `t_ref_lf` is the
LF time now less the LF ticks elapsed since `t_ref`. -/
def src_time_received (cfg : Config) (rcv : sched_reception) (s : SrcState) : SrcState :=
  let t_ref := usub 64 rcv.t_ref cfg.LWB_CONF_T_REF_OFS
  let t_ref_lf := usub 64 rcv.lf_now
    ((usub 64 rcv.hf_now t_ref) % 2 ^ 32 / (cfg.RTIMER_HF_LF_RATIO % 2 ^ 32))
  let s2 := src_first_schedule cfg { s with t_ref := t_ref, t_ref_lf := t_ref_lf }
  { s2 with q := { s2.q with stats := { s2.q.stats with relay_cnt := rcv.relay_cnt } } }

/-- Lines 749-763: the time reference after a missed schedule, estimated from
the last idle period. -/
def src_time_missed (cfg : Config) (s : SrcState) : SrcState :=
  if ¬ IS_STATE_IDLE s.schedule then
    { s with
      t_ref_lf :=
        if IS_DATA_ROUND s.schedule then
          (s.last_synced_lf + s.period_idle * cfg.RTIMER_SECOND_LF / LWB_PERIOD_SCALE) % 2 ^ 64
        else s.last_synced_lf,
      schedule := { s.schedule with period := s.period_idle } }
  else
    { s with t_ref_lf :=
        (s.t_ref_lf + s.period_idle * cfg.RTIMER_SECOND_LF / LWB_PERIOD_SCALE) % 2 ^ 64 }

/-- Lines 726-763: the recovery of the time reference after the sync update,
from the reception if the time reference was updated, and by estimation
from the last idle period otherwise. -/
def src_time_recovery (cfg : Config) (rcv : sched_reception) (t_ref_updated : Bool)
    (s : SrcState) : SrcState :=
  if t_ref_updated then src_time_received cfg rcv s else src_time_missed cfg s

/-- A radio action that the source starts after the schedule has been
received: a transmission (`LWB_SEND_PACKET()`) or a reception
(`LWB_RCV_PACKET()`) in data slot `i`, in the contention slot, or for the
second schedule. `t` is the wake-up time given to `LWB_WAIT_UNTIL`, `len` is
`payload_len` at the start of the action, and `payload` is the payload buffer
handed to Glossy for a transmission. -/
inductive SrcRadio where
  | data_send (i t : Nat) (payload : Nat → Nat) (len : Nat)
  | data_recv (i t len : Nat)
  | cont_send (t : Nat) (payload : Nat → Nat) (len : Nat)
  | cont_recv (t len : Nat)
  | sched2_recv (t len : Nat)

/-- What happens around one source round: the reception of the schedule, and
what Glossy reports for the receptions that the round may start (in data
slot `i`, in the contention slot, and for the second schedule). -/
structure src_round_env where
  rcv : sched_reception
  data_rx : Nat → glossy_result
  cont_rx : glossy_result
  sched2_rx : glossy_result

/-- The body of the loop over the data slots (lines 789-830), for slot `i`,
in a build with `LWB_CONF_WRITE_TO_BOLT == 0` and the default
`LWB_CONF_SRC_PKT_FILTER`. `rx` is what Glossy reports if the slot is a
reception. The radio actions are appended to the log. -/
def src_data_slot (cfg : Config) (rx : glossy_result) (p : SrcState × List SrcRadio)
    (i : Nat) : SrcState × List SrcRadio :=
  let s := p.1
  let p1 : SrcState × List SrcRadio :=
    if s.schedule.slot i = cfg.node_id then
      let s1 := { s with node_registered := 1,
                         q := { s.q with stats := { s.q.stats with
                           t_slot_last := s.schedule.time } } }
      if ¬ FIFO_EMPTY s1.q.out_buffer then
        let s2 :=
          if IS_DATA_ROUND s1.schedule then
            let r := lwb_out_buffer_get cfg s1.q (bytes_of_words s1.glossy_payload)
              s1.payload_len
            { s1 with q := r.2.1, glossy_payload := words_of_bytes r.2.2.1,
                      payload_len := r.2.2.2 }
          else
            { s1 with payload_len := cfg.LWB_CONF_SRQ_PKT_LEN % 2 ^ 8,
                      glossy_payload := words_of_bytes
                        (store_byte (bytes_of_words s1.glossy_payload) 0
                          (lwb_get_send_buffer_state s1.q)) }
        (s2, p.2 ++ [SrcRadio.data_send i ((s2.t_ref + s2.t_slot_ofs) % 2 ^ 64)
          s2.glossy_payload s2.payload_len])
      else (s1, p.2)
    else
      let s1 := { s with payload_len :=
        if ¬ IS_DATA_ROUND s.schedule then cfg.LWB_CONF_SRQ_PKT_LEN % 2 ^ 8
        else cfg.GLOSSY_UNKNOWN_PAYLOAD_LEN % 2 ^ 8 }
      let s2 := { s1 with glossy_payload := rx.payload,
                          payload_len := rx.payload_len % 2 ^ 8 }
      let s3 :=
        if s2.schedule.slot i = 0 ∨ s2.schedule.slot i = cfg.HOST_ID then
          { s2 with q := (lwb_in_buffer_put cfg s2.q (bytes_of_words s2.glossy_payload)
              s2.payload_len).2 }
        else s2
      let s4 := { s3 with q := { s3.q with stats := { s3.q.stats with
        rx_total := s3.q.stats.rx_total + s3.payload_len,
        pck_cnt := s3.q.stats.pck_cnt + 1 } } }
      (s4, p.2 ++ [SrcRadio.data_recv i
        (usub 64 ((s1.t_ref + s1.t_slot_ofs) % 2 ^ 64) s1.t_guard) s1.payload_len])
  ({ p1.1 with t_slot_ofs :=
      (p1.1.t_slot_ofs + (p1.1.t_slot + cfg.LWB_CONF_T_GAP)) % 2 ^ 32 }, p1.2)

/-- Lines 778-832: the data slots of a round. -/
def src_data_slots (cfg : Config) (env : src_round_env) (p : SrcState × List SrcRadio) :
    SrcState × List SrcRadio :=
  if LWB_SCHED_HAS_DATA_SLOT p.1.schedule then
    let s1 :=
      if IS_DATA_ROUND p.1.schedule then { p.1 with t_slot := cfg.LWB_CONF_T_DATA }
      else { p.1 with t_slot := cfg.LWB_CONF_T_CONT, node_registered := 0 }
    (List.range (LWB_SCHED_N_SLOTS s1.schedule)).foldl
      (fun acc i => src_data_slot cfg (env.data_rx i) acc i) (s1, p.2)
  else p

/-- Lines 861-876: the reception of the second schedule. `rx` is what Glossy
reports for it; the period it carries is the first word of the payload. -/
def src_second_schedule (rx : glossy_result) (p : SrcState × List SrcRadio) :
    SrcState × List SrcRadio :=
  let s1 := { p.1 with payload_len := 2 }
  let log := p.2 ++ [SrcRadio.sched2_recv
    (usub 64 ((s1.t_ref + s1.t_slot_ofs) % 2 ^ 64) s1.t_guard) s1.payload_len]
  let s2 := { s1 with glossy_payload := rx.payload }
  if rx.n_rx > 0 then
    let new_period := s2.glossy_payload 0
    if new_period ≠ 0 then
      ({ s2 with schedule := { s2.schedule with period := new_period, n_slots := 0 } }, log)
    else (s2, log)
  else (s2, log)

/-- Lines 837-876: the contention slot, followed by the reception of the
second schedule, in a round whose schedule has a contention slot. -/
def src_contention (cfg : Config) (env : src_round_env) (p : SrcState × List SrcRadio) :
    SrcState × List SrcRadio :=
  if LWB_SCHED_HAS_CONT_SLOT p.1.schedule then
    let s1 := { p.1 with t_slot := cfg.LWB_CONF_T_CONT }
    let p2 : SrcState × List SrcRadio :=
      if ¬ FIFO_EMPTY s1.q.out_buffer then
        let s2 := { s1 with payload_len := cfg.LWB_CONF_SRQ_PKT_LEN % 2 ^ 8,
                            glossy_payload := array_store s1.glossy_payload 0 0 }
        let s3 :=
          if s2.node_registered = 0 then
            { s2 with payload_len := 2,
                      glossy_payload := array_store s2.glossy_payload 0 (cfg.node_id % 2 ^ 16) }
          else s2
        (s3, p.2 ++ [SrcRadio.cont_send ((s3.t_ref + s3.t_slot_ofs) % 2 ^ 64)
          s3.glossy_payload s3.payload_len])
      else
        let s2 := { s1 with payload_len := cfg.LWB_CONF_SRQ_PKT_LEN % 2 ^ 8 }
        ({ s2 with glossy_payload := env.cont_rx.payload },
          p.2 ++ [SrcRadio.cont_recv
            (usub 64 ((s2.t_ref + s2.t_slot_ofs) % 2 ^ 64) s2.t_guard) s2.payload_len])
    let s4 := { p2.1 with t_slot_ofs :=
      (p2.1.t_slot_ofs + (cfg.LWB_CONF_T_CONT + cfg.LWB_CONF_T_GAP)) % 2 ^ 32 }
    src_second_schedule env.sched2_rx (s4, p2.2)
  else p

/-- Lines 765-877: the participation in the round, which is granted only in
the state SYNCED (in a build with `LWB_CONF_SCHED_COMPRESS == 0`). -/
def src_participate (cfg : Config) (env : src_round_env) (s : SrcState) :
    SrcState × List SrcRadio :=
  if s.sync_state = SYNCED then
    let s1 := { s with t_slot_ofs := (cfg.LWB_CONF_T_SCHED + cfg.LWB_CONF_T_GAP) % 2 ^ 32 }
    src_contention cfg env (src_data_slots cfg env (s1, []))
  else (s, [])

/-- The outcome of one pass through the loop of `lwb_thread_src`: the state,
the radio actions started after the reception of the schedule, whether the
pass ended with `continue` (new state BOOTSTRAP, no sleep), and otherwise
the LF time of the wake-up for the next round. -/
structure src_round_result where
  state : SrcState
  radio : List SrcRadio
  restart : Bool
  wakeup : Nat

/-- Lines 879-913: the end of the round. In an idle round the post process is
polled and the preprocess window is armed; the slot allocations are erased;
the result is the state and the wake-up time for the next round. -/
def src_round_end (cfg : Config) (s : SrcState) : SrcState × Nat :=
  let s1 :=
    if IS_STATE_IDLE s.schedule then { s with t_preprocess := cfg.LWB_CONF_T_PREPROCESS }
    else s
  let s2 := { s1 with schedule := { s1.schedule with slot := fun _ => 0 } }
  (s2, usub 64
    (usub 64
      ((s2.t_ref_lf + s2.schedule.period * cfg.RTIMER_SECOND_LF / LWB_PERIOD_SCALE) % 2 ^ 64)
      (s2.t_guard / cfg.RTIMER_HF_LF_RATIO))
    s2.t_preprocess)

/-- One pass through the loop of `lwb_thread_src` (lines 656-914). -/
def lwb_thread_src_round (cfg : Config) (env : src_round_env) (s : SrcState) :
    src_round_result :=
  let r1 := src_receive_schedule cfg env.rcv s
  let r2 := src_sync cfg r1.2 r1.1
  if r2.2 then
    { state := r2.1, radio := [], restart := true, wakeup := 0 }
  else
    let s3 := src_time_recovery cfg env.rcv r1.2 r2.1
    let r4 := src_participate cfg env s3
    let r5 := src_round_end cfg r4.1
    { state := r5.1, radio := r4.2, restart := false, wakeup := r5.2 }

/-! ## Host round: data slots (`elwb.c`, `lwb_thread_host`, 471-537) -/

/-- What the host does in a data slot, as far as the outside sees it: a
transmission (`LWB_SEND_PACKET()`) or a reception (`LWB_RCV_PACKET()`) in
slot `i`, with the wake-up time `t`, the payload buffer and `payload_len` at
the start of the action, or a stream request handed to the scheduler, the
array `srq` of line 515 with its two words. -/
inductive HostAction where
  | data_send (i t : Nat) (payload : Nat → Nat) (len : Nat)
  | data_recv (i t len : Nat)
  | srq (node_id word : Nat)

/-- The body of the loop over the data slots of the host (lines 486-536), for
slot `i`, in a build with `LWB_CONF_WRITE_TO_BOLT == 0`. `rx` is what Glossy
reports if the slot is a reception and `t_start` is the HF time of the start
of the round. The host's guard time is the constant `LWB_CONF_T_GUARD`. The
actions are appended to the log. -/
def host_data_slot (cfg : Config) (rx : glossy_result) (t_start : Nat)
    (p : HostState × List HostAction) (i : Nat) : HostState × List HostAction :=
  let h := p.1
  let p1 : HostState × List HostAction :=
    if h.schedule.slot i = 0 ∨ h.schedule.slot i = cfg.node_id then
      -- lines 491-498
      let r := lwb_out_buffer_get cfg h.q (bytes_of_words h.glossy_payload) h.payload_len
      let h1 := { h with q := r.2.1, glossy_payload := words_of_bytes r.2.2.1,
                         payload_len := r.2.2.2 }
      if h1.payload_len ≠ 0 then
        (h1, p.2 ++ [HostAction.data_send i ((t_start + h1.t_slot_ofs) % 2 ^ 64)
          h1.glossy_payload h1.payload_len])
      else (h1, p.2)
    else
      -- lines 501-510
      let h1 := { h with payload_len :=
        (if IS_DATA_ROUND h.schedule then cfg.GLOSSY_UNKNOWN_PAYLOAD_LEN % 2 ^ 8
         else cfg.LWB_CONF_SRQ_PKT_LEN % 2 ^ 8) }
      let log1 := p.2 ++ [HostAction.data_recv i
        (usub 64 ((t_start + h1.t_slot_ofs) % 2 ^ 64) cfg.LWB_CONF_T_GUARD) h1.payload_len]
      let h2 := { h1 with glossy_payload := rx.payload,
                          payload_len := rx.payload_len % 2 ^ 8 }
      -- lines 511-534
      if rx.n_rx > 0 then
        if ¬ IS_DATA_ROUND h2.schedule then
          ({ h2 with sched := lwb_sched_proc_srq cfg h2.sched ⟨h2.schedule.slot i⟩ },
            log1 ++ [HostAction.srq (h2.schedule.slot i) (h2.glossy_payload 0)])
        else
          let h3 := { h2 with q := (lwb_in_buffer_put cfg h2.q
            (bytes_of_words h2.glossy_payload) h2.payload_len).2 }
          ({ h3 with q := { h3.q with stats := { h3.q.stats with
              rx_total := h3.q.stats.rx_total + h3.payload_len,
              pck_cnt := h3.q.stats.pck_cnt + 1 } } }, log1)
      else (h2, log1)
  ({ p1.1 with t_slot_ofs :=
      (p1.1.t_slot_ofs + (p1.1.t_slot + cfg.LWB_CONF_T_GAP)) % 2 ^ 32 }, p1.2)

/-- Lines 471-537: the data slots of a host round. -/
def host_data_slots (cfg : Config) (data_rx : Nat → glossy_result) (t_start : Nat)
    (p : HostState × List HostAction) : HostState × List HostAction :=
  if LWB_SCHED_HAS_DATA_SLOT p.1.schedule then
    let h1 := { p.1 with t_slot :=
      (if IS_DATA_ROUND p.1.schedule then cfg.LWB_CONF_T_DATA else cfg.LWB_CONF_T_CONT) }
    (List.range (LWB_SCHED_N_SLOTS h1.schedule)).foldl
      (fun acc i => host_data_slot cfg (data_rx i) t_start acc i) (h1, p.2)
  else p

/-- The transmissions in a log of the host: slot, length and first payload
word of each. -/
def host_sent (log : List HostAction) : List (Nat × Nat × Nat) :=
  log.filterMap fun a =>
    match a with
    | HostAction.data_send i _ payload len => some (i, len, payload 0)
    | _ => none

/-- The transmissions in a log of the source: slot, length and first payload
byte of each transmission in a data slot. -/
def src_sent (log : List SrcRadio) : List (Nat × Nat × Nat) :=
  log.filterMap fun a =>
    match a with
    | SrcRadio.data_send i _ payload len => some (i, len, bytes_of_words payload 0)
    | _ => none

/-! ## Runs of the sync state machine and of the AE scheduler -/

/-- The sync state after a sequence of events, one per round. -/
def sync_run (s : lwb_sync_state_t) (events : List sync_event_t) : lwb_sync_state_t :=
  events.foldl (fun st e => next_state e st) s

/-- One call of the scheduler interface after `lwb_sched_init`: a stream
request, or a call of `lwb_sched_compute` with the schedule it is given,
what Glossy reports and the array behind `streams_to_update`. -/
inductive AeCall where
  | proc_srq (req : lwb_stream_req_t)
  | compute (n_rx_started : Nat) (sched : lwb_schedule_t) (streams_to_update : Nat → Nat)
      (reserve_slot_host : Nat)

/-- Perform one call on the scheduler statics. -/
def AeCall.apply (cfg : Config) (st : AeState) : AeCall → AeState
  | .proc_srq req => lwb_sched_proc_srq cfg st req
  | .compute n_rx_started sched streams_to_update reserve_slot_host =>
    (lwb_sched_compute cfg n_rx_started st sched streams_to_update reserve_slot_host).2.1

/-- The scheduler statics after `lwb_sched_init` and a sequence of calls. -/
def ae_run (cfg : Config) (calls : List AeCall) : AeState :=
  calls.foldl (AeCall.apply cfg) (lwb_sched_init cfg schedule_zero).2.1

/-- The policy states reachable from `lwb_sched_init` through stream requests
and calls of `lwb_sched_compute`. -/
def AeReachable (cfg : Config) (st : AeState) : Prop :=
  ∃ calls : List AeCall, ae_run cfg calls = st

/-- The statics of a source that only the reception of the schedule, the sync
update and the time recovery write: the sync state, the published time
(`global_time`, `rx_timestamp`), the time references, the last idle period,
the guard time, and the drift and unsynced counters. -/
def SrcState.clocks (s : SrcState) :
    lwb_sync_state_t × Nat × Nat × Nat × Nat × Nat × Nat × Nat × Int × Nat :=
  (s.sync_state, s.global_time, s.rx_timestamp, s.last_synced_lf, s.t_ref, s.t_ref_lf,
    s.period_idle, s.t_guard, s.q.stats.drift, s.q.stats.unsynced_cnt)

/-- The two packet queues of a source: control blocks and arenas. -/
def SrcState.queues (s : SrcState) : fifo_t × fifo_t × (Nat → Nat) × (Nat → Nat) :=
  (s.q.in_buffer, s.q.out_buffer, s.q.in_buffer_mem, s.q.out_buffer_mem)

/-- `lwb_sched_prepare_sack(payload)` (lines 109-118). The payload is seen as
an array of `uint16_t` words, like `pending_sack`, so that the `memcpy` of
`n_pending_sack * 2` bytes copies `n_pending_sack` words. The result is the
return value (a `uint8_t`), the statics, which the function does not write,
and the payload after the call. -/
def lwb_sched_prepare_sack (st : AeState) (payload : Nat → Nat) :
    Nat × AeState × (Nat → Nat) :=
  if st.n_pending_sack ≠ 0 then
    ((st.n_pending_sack * 2) % 2 ^ 8, st,
      fun k => if k < st.n_pending_sack then st.pending_sack k else payload k)
  else (0, st, payload)

/-- Whether slot `i` of the data schedule is acknowledged on the data-to-idle
edge: data was received in it (`streams_to_update[i]` is not
`LWB_INVALID_STREAM_ID`) and its stream is in the list and active. -/
def slot_acked (cfg : Config) (sched : lwb_schedule_t) (streams_to_update : Nat → Nat)
    (l : List lwb_stream_list_t) (i : Nat) : Bool :=
  decide (streams_to_update i ≠ cfg.LWB_INVALID_STREAM_ID) &&
    l.any (fun e => decide (e.node_id = sched.slot i) && decide (e.state ≠ 0))

/-- The node ids acknowledged in the first `m` slots of the data schedule, in
slot order. -/
def acked_upto (cfg : Config) (sched : lwb_schedule_t) (streams_to_update : Nat → Nat)
    (l : List lwb_stream_list_t) (m : Nat) : List Nat :=
  ((List.range m).filter (slot_acked cfg sched streams_to_update l)).map sched.slot

/-- The sources acknowledged on the data-to-idle edge, in slot order. -/
def acked_ids (cfg : Config) (sched : lwb_schedule_t) (streams_to_update : Nat → Nat)
    (l : List lwb_stream_list_t) : List Nat :=
  acked_upto cfg sched streams_to_update l (LWB_SCHED_N_SLOTS sched)

/-- A stream list in which the streams of the given node ids are marked
inactive. -/
def mark_inactive (ids : List Nat) (l : List lwb_stream_list_t) : List lwb_stream_list_t :=
  l.map (fun e => if e.node_id ∈ ids then { e with state := 0 } else e)

/-- The node ids of the active entries of a stream list, in list order. -/
def active_ids (l : List lwb_stream_list_t) : List Nat :=
  (l.filter (fun e => decide (e.state ≠ 0))).map (fun e => e.node_id)

/-- The state of the scheduler on entry to iteration `m` of the loop of the
data state (lines 235-268): the time has been advanced (line 176),
`n_pending_sack` has been reset (line 234), and the slots `0 .. m-1` have
been processed. -/
def sack_loop_upto (cfg : Config) (st : AeState) (sched : lwb_schedule_t)
    (streams_to_update : Nat → Nat) (m : Nat) : AeState :=
  (List.range m).foldl (sack_step cfg sched streams_to_update)
    { st with time := (st.time + sched.period) % 2 ^ 32, n_pending_sack := 0 }

/-- The test of lines 253-254 in iteration `i` of the loop of the data state:
an active stream is being deactivated while `n_streams == 0`, the branch with
the warning "invalid stream cound". -/
def invalid_stream_count (cfg : Config) (sched : lwb_schedule_t)
    (streams_to_update : Nat → Nat) (st : AeState) (i : Nat) : Bool :=
  (deactivate_first (sched.slot i)
    (decide (streams_to_update i ≠ cfg.LWB_INVALID_STREAM_ID)) st.streams_list).2
    && decide (st.n_streams = 0)

/-- The receive loop of the application (`lwb-test.c`, lines 84-95):
`lwb_rcv_pkt(pkt_buffer, &sender_id, 0)` is called until it returns 0.
`fuel` bounds the number of calls; the result is `none` when the fuel runs
out before the loop breaks, and otherwise the queue statics and the packet
buffer after the loop and the number of packets received. -/
def app_rcv_loop (cfg : Config) :
    Nat → LwbState → (Nat → Nat) → Option (LwbState × (Nat → Nat) × Nat)
  | 0, _, _ => none
  | fuel + 1, s, pkt_buffer =>
    let r := lwb_rcv_pkt cfg s (some pkt_buffer)
    let pkt_len := r.1
    if pkt_len ≠ 0 then
      (app_rcv_loop cfg fuel r.2.1 (r.2.2.getD pkt_buffer)).map
        fun x => (x.1, x.2.1, x.2.2 + 1)
    else some (r.2.1, r.2.2.getD pkt_buffer, 0)

/-- Lines 459-464 of `lwb_thread_host`: after the schedule is sent the relay
counter is stored and `t_slot_ofs` restarts at `LWB_CONF_T_SCHED +
LWB_CONF_T_GAP`. (`glossy_rssi`, `global_time` and `rx_timestamp`, written
here too, are not among the statics of `HostState`.) -/
def host_round_begin (cfg : Config) (relay_cnt : Nat) (h : HostState) : HostState :=
  { h with q := { h.q with stats := { h.q.stats with relay_cnt := relay_cnt } },
           t_slot_ofs := (cfg.LWB_CONF_T_SCHED + cfg.LWB_CONF_T_GAP) % 2 ^ 32 }

/-- The host on entry to data slot `m` (lines 471-537): `t_slot` has been set
and the slots `0 .. m-1` have been processed. -/
def host_data_upto (cfg : Config) (data_rx : Nat → glossy_result) (t_start : Nat)
    (p : HostState × List HostAction) (m : Nat) : HostState × List HostAction :=
  (List.range m).foldl (fun acc i => host_data_slot cfg (data_rx i) t_start acc i)
    ({ p.1 with t_slot :=
        (if IS_DATA_ROUND p.1.schedule then cfg.LWB_CONF_T_DATA else cfg.LWB_CONF_T_CONT) },
      p.2)

/-- The source on entry to data slot `m` (lines 778-832): `t_slot` has been
set (and `node_registered` reset in a request round) and the slots
`0 .. m-1` have been processed. -/
def src_data_upto (cfg : Config) (env : src_round_env) (p : SrcState × List SrcRadio)
    (m : Nat) : SrcState × List SrcRadio :=
  (List.range m).foldl (fun acc i => src_data_slot cfg (env.data_rx i) acc i)
    ((if IS_DATA_ROUND p.1.schedule then { p.1 with t_slot := cfg.LWB_CONF_T_DATA }
      else { p.1 with t_slot := cfg.LWB_CONF_T_CONT, node_registered := 0 }), p.2)

/-- The offset of data slot `i` from the anchor of the round as the
specification gives it: `T_SCHED + T_GAP + i*(T_slot + T_GAP)`, with `T_slot
= T_DATA` in a data round and `T_CONT` in a request round. -/
def spec_slot_ofs (cfg : Config) (sched : lwb_schedule_t) (i : Nat) : Nat :=
  cfg.LWB_CONF_T_SCHED + cfg.LWB_CONF_T_GAP
    + i * ((if IS_DATA_ROUND sched then cfg.LWB_CONF_T_DATA else cfg.LWB_CONF_T_CONT)
        + cfg.LWB_CONF_T_GAP)

/-- The wake-up time of an action of the host, if it has one. -/
def HostAction.wake : HostAction → Option Nat
  | .data_send _ t _ _ => some t
  | .data_recv _ t _ => some t
  | .srq _ _ => none

/-- The wake-up time of a radio action of the source. -/
def SrcRadio.wake : SrcRadio → Nat
  | .data_send _ t _ _ => t
  | .data_recv _ t _ => t
  | .cont_send t _ _ => t
  | .cont_recv t _ => t
  | .sched2_recv t _ => t

/-- The requests in a log of the source: length and first payload word of
each transmission in the contention slot. -/
def src_requests (log : List SrcRadio) : List (Nat × Nat) :=
  log.filterMap fun a =>
    match a with
    | SrcRadio.cont_send _ payload len => some (len, payload 0)
    | _ => none

/-! ## Sample inputs -/

/-- A sample configuration: frames of up to 63 bytes, queues of depth 5, a
base period of 10 s, a request round of 2 units, 20 data slots, 10
streams, `0xff` as the invalid stream id, a contention slot of 19500 and a
gap of 13000 HF ticks, slot requests of 2 bytes, schedule and data slots of
26000 HF ticks, guard times of 1625, 3250 and 6500 HF ticks, a reference
offset of 3822 HF ticks, no preprocess window, timers of 3250000 and 32768
ticks per second, and node 7 as this node with node 1 as the host. -/
def sample_cfg : Config :=
  { LWB_CONF_MAX_DATA_PKT_LEN := 63,
    LWB_CONF_IN_BUFFER_SIZE := 5,
    LWB_CONF_OUT_BUFFER_SIZE := 5,
    LWB_CONF_SCHED_PERIOD_IDLE := 10,
    LWB_CONF_T_REQ_ROUND := 2,
    LWB_CONF_MAX_DATA_SLOTS := 20,
    LWB_CONF_MAX_N_STREAMS := 10,
    LWB_INVALID_STREAM_ID := 0xff,
    LWB_CONF_T_CONT := 19500,
    LWB_CONF_T_GAP := 13000,
    LWB_CONF_SRQ_PKT_LEN := 2,
    LWB_CONF_T_SCHED := 26000,
    LWB_CONF_T_DATA := 26000,
    LWB_CONF_T_GUARD := 1625,
    LWB_CONF_T_GUARD_1 := 3250,
    LWB_CONF_T_GUARD_2 := 6500,
    LWB_CONF_T_REF_OFS := 3822,
    LWB_CONF_T_PREPROCESS := 0,
    RTIMER_SECOND_HF := 3250000,
    RTIMER_SECOND_LF := 32768,
    RTIMER_HF_LF_RATIO := 99,
    GLOSSY_UNKNOWN_PAYLOAD_LEN := 0,
    node_id := 7,
    HOST_ID := 1 }

/-- The dummy packet of the test application (`lwb-test.c`, lines 110-111):
the two bytes of `uint16_t data = 0xaa`. -/
def dummy_packet : Nat → Nat :=
  fun j => if j = 0 then 0xaa else 0

/-- An output buffer filled with the byte `0xff`. -/
def blank_buffer : Nat → Nat :=
  fun _ => 0xff

/-- The state of the sample configuration after the test application has
queued five dummy packets: the outbound queue is full. -/
def full_out_state : LwbState :=
  (QueueLog.run sample_cfg (QueueLog.init sample_cfg)
    (List.replicate 5 (QueueCall.send_pkt 0 1 (some dummy_packet) 2))).state

/-- The state of the sample configuration after five dummy frames have been
received: the inbound queue is full. -/
def full_in_state : LwbState :=
  (QueueLog.run sample_cfg (QueueLog.init sample_cfg)
    (List.replicate 5 (QueueCall.in_buffer_put dummy_packet 2))).state

/-- The host of the sample configuration right after start-up: the schedule
and the scheduler statics are those left by `lwb_sched_init`, everything else
is zero. -/
def sample_host : HostState :=
  { schedule := (host_sched_run sample_cfg []).2,
    glossy_payload := fun _ => 0,
    payload_len := 0,
    t_slot := 0,
    t_slot_ofs := 0,
    srq_cnt := 0,
    sched := (host_sched_run sample_cfg []).1,
    q := lwb_process_init sample_cfg }

/-- A contention slot in which node 7 sent its first request: one reception
started and completed, and the payload buffer holds the node id. -/
def sample_request : glossy_result :=
  { n_rx := 1, n_rx_started := 1, payload := fun k => if k = 0 then 7 else 0,
    payload_len := 2 }

/-- A source of the sample configuration at the start of `lwb_thread_src`:
the queues as set up by `lwb_process`, the schedule zeroed, the state
BOOTSTRAP, every other static zero. -/
def sample_src : SrcState :=
  { q := lwb_process_init sample_cfg,
    sync_state := BOOTSTRAP,
    rx_timestamp := 0,
    global_time := 0,
    schedule := schedule_zero,
    glossy_payload := fun _ => 0,
    payload_len := 0,
    t_preprocess := 0,
    t_slot := 0,
    t_slot_ofs := 0,
    t_guard := 0,
    last_synced_lf := 0,
    t_ref := 0,
    t_ref_lf := 0,
    node_registered := 0,
    period_idle := 0 }

/-- A slot in which nothing is received. -/
def silent_slot : glossy_result :=
  { n_rx := 0, n_rx_started := 0, payload := fun _ => 0, payload_len := 0 }

/-- The reception of a schedule with the given fields, with the time
reference updated: the first reception was at HF time `4822` (the reference
is `1000` after the offset of the sample configuration), and the timers are
read at HF time `1000` and LF time `lf_now`. -/
def sample_reception (time period n_slots lf_now : Nat) : sched_reception :=
  { t_ref_updated := true,
    t_ref := 4822,
    snr := 0,
    relay_cnt := 0,
    schedule := { time := time, period := period, n_slots := n_slots, slot := fun _ => 3 },
    hf_now := 1000,
    lf_now := lf_now,
    bootstrap_timeouts := 0 }

/-- A round in which the schedule with the given fields is received and
every later slot is silent. -/
def sample_round (time period n_slots lf_now : Nat) : src_round_env :=
  { rcv := sample_reception time period n_slots lf_now,
    data_rx := fun _ => silent_slot,
    cont_rx := silent_slot,
    sched2_rx := silent_slot }

/-- The sample source after its first round, in which it received the idle
schedule (contention slot, no data slots) of host time 10 s with a period of
1 s, at LF time 1000. -/
def sample_src_synced : SrcState :=
  (lwb_thread_src_round sample_cfg (sample_round 10 100 0x8000 1000) sample_src).state

/-- The AE scheduler of the sample configuration after start-up and one call
of `lwb_sched_compute` that saw contention activity: the policy is in the
request state and no stream is known. -/
def sample_ae_request : AeState :=
  ae_run sample_cfg [AeCall.compute 1 schedule_zero (fun _ => 0) 0]

/-- The AE scheduler of the sample configuration after start-up, a stream
request of node 7, and one call of `lwb_sched_compute` that saw contention
activity: the policy is in the request state with one active stream. -/
def sample_ae_stream : AeState :=
  ae_run sample_cfg
    [AeCall.proc_srq { node_id := 7 }, AeCall.compute 1 schedule_zero (fun _ => 0) 0]

/-- The AE scheduler of the sample configuration in the data state: after the
request of node 7, the request round and the call that emits the data-round
schedule. -/
def sample_ae_data : AeState :=
  ae_run sample_cfg
    [AeCall.proc_srq { node_id := 7 }, AeCall.compute 1 schedule_zero (fun _ => 0) 0,
      AeCall.compute 0 schedule_zero (fun _ => 0) 0]

/-- The data-round schedule of the sample scheduler: one slot, for node 7. -/
def sample_data_schedule : lwb_schedule_t :=
  (lwb_sched_compute sample_cfg 0 sample_ae_stream schedule_zero (fun _ => 0) 0).2.2

/-- The sample host at the start of a data round of two slots: slot 0 belongs
to node 5, slot 1 to the host (node id 0); the outbound queue is empty. -/
def sample_host_data : HostState :=
  { sample_host with
    schedule := { time := 10, period := 2, n_slots := 0x4002,
                  slot := fun k => if k = 0 then 5 else 0 } }

/-- What Glossy reports in the data slots of the sample round: in slot 0 a
frame of 10 bytes is received whose first word is `0x1234`; nothing in the
other slots. -/
def sample_data_rx : Nat → glossy_result :=
  fun i =>
    if i = 0 then
      { n_rx := 1, n_rx_started := 1, payload := fun k => if k = 0 then 0x1234 else 0,
        payload_len := 10 }
    else silent_slot

/-- The sample source, SYNCED, with one dummy packet queued for sending, at
the start of a request round whose one slot is its own (node 7). -/
def sample_src_request : SrcState :=
  { sample_src_synced with
    q := (lwb_send_pkt sample_cfg sample_src_synced.q 0 1 (some dummy_packet) 2).2,
    schedule := { time := 11, period := 1, n_slots := 1, slot := fun _ => 7 } }

/-- A round in which the reception of the schedule is missed (the time
reference is not updated), while the schedule buffer holds a schedule with
the given fields, and every later slot is silent. -/
def sample_missed_round (time period n_slots lf_now : Nat) : src_round_env :=
  { sample_round time period n_slots lf_now with
    rcv := { sample_reception time period n_slots lf_now with t_ref_updated := false } }

/-- The sample source, SYNCED and registered, with one dummy packet queued
for sending, at the start of an idle round (contention slot, no data
slots). -/
def sample_src_registered : SrcState :=
  { sample_src_request with
    node_registered := 1,
    schedule := { time := 12, period := 100, n_slots := 0x8000, slot := fun _ => 0 } }

/-- The sample source, SYNCED, holding the schedule of the sample host's data
round (two slots). -/
def sample_src_data : SrcState :=
  { sample_src_synced with schedule := sample_host_data.schedule }

/-! ## Theorems -/

/-! ### Ring arithmetic -/

theorem ring_idx_ne (r k c n : Nat) (hk : k < c) (hc : c < n) :
    (r + k) % n ≠ (r + c) % n := by
  intro h
  have h1 := Nat.sub_mod_eq_zero_of_mod_eq h.symm
  have h2 : r + c - (r + k) = c - k := by omega
  rw [h2, Nat.mod_eq_of_lt (by omega)] at h1
  omega

theorem slot_addr_ne (st i j e a b : Nat) (hij : i ≠ j) (ha : a < e) (hb : b < e) :
    st + i * e + a ≠ st + j * e + b := by
  intro h
  rcases Nat.lt_or_gt_of_ne hij with hlt | hlt
  · have h1 : (i + 1) * e ≤ j * e := Nat.mul_le_mul_right e hlt
    rw [Nat.succ_mul] at h1
    omega
  · have h1 : (j + 1) * e ≤ i * e := Nat.mul_le_mul_right e hlt
    rw [Nat.succ_mul] at h1
    omega

theorem frame_of_congr (d d2 : Nat → Nat) (n : Nat) (h : ∀ j, j < n → d j = d2 j) :
    frame_of d n = frame_of d2 n := by
  unfold frame_of
  apply List.map_congr_left
  intro j hj
  exact h j (List.mem_range.mp hj)

theorem frame_of_length (d : Nat → Nat) (n : Nat) : (frame_of d n).length = n := by
  simp [frame_of]

theorem frame_at_congr (cfg : Config) (mem mem2 : Nat → Nat) (a : Nat)
    (hl : mem (a + cfg.LWB_CONF_MAX_DATA_PKT_LEN) ≤ cfg.LWB_CONF_MAX_DATA_PKT_LEN)
    (h : ∀ j, j ≤ cfg.LWB_CONF_MAX_DATA_PKT_LEN → mem2 (a + j) = mem (a + j)) :
    frame_at cfg mem2 a = frame_at cfg mem a := by
  unfold frame_at
  rw [h _ (Nat.le_refl _)]
  apply frame_of_congr
  intro j hj
  simp only [ptr_at]
  exact h j (by omega)

/-! ### The ring under put and get -/

theorem fifo_put_full (f : fifo_t) (h : f.count = f.num_elem) :
    fifo_put f = (none, f) := by
  simp [fifo_put, FIFO_FULL, h]

theorem fifo_put_free (f : fifo_t) (h : f.count ≠ f.num_elem) :
    fifo_put f = (some (f.start + f.write_idx * f.elem_size),
      { f with write_idx := (f.write_idx + 1) % f.num_elem, count := f.count + 1 }) := by
  simp [fifo_put, FIFO_FULL, h]

theorem fifo_get_empty (f : fifo_t) (h : f.count = 0) :
    fifo_get f = (none, f) := by
  simp [fifo_get, FIFO_EMPTY, h]

theorem fifo_get_some (f : fifo_t) (h : f.count ≠ 0) :
    fifo_get f = (some (f.start + f.read_idx * f.elem_size),
      { f with read_idx := (f.read_idx + 1) % f.num_elem, count := f.count - 1 }) := by
  simp [fifo_get, FIFO_EMPTY, h]

/-- Writing a frame of `len` bytes into the element at the tail and advancing
the tail keeps the ring invariant and appends the frame to the queued
frames. -/
theorem ring_put (cfg : Config) (depth lo : Nat) (f : fifo_t) (mem mem2 : Nat → Nat)
    (d : Nat → Nat) (len : Nat)
    (hok : ring_ok cfg depth lo f mem) (hfree : f.count ≠ f.num_elem)
    (hlo : lo ≤ len) (hhi : len ≤ cfg.LWB_CONF_MAX_DATA_PKT_LEN)
    (hout : ∀ a, a < f.start + f.write_idx * f.elem_size ∨
        f.start + f.write_idx * f.elem_size + cfg.LWB_CONF_MAX_DATA_PKT_LEN < a →
        mem2 a = mem a)
    (hlen : mem2 (f.start + f.write_idx * f.elem_size + cfg.LWB_CONF_MAX_DATA_PKT_LEN) = len)
    (hdata : ∀ j, j < len → mem2 (f.start + f.write_idx * f.elem_size + j) = d j) :
    ring_ok cfg depth lo (fifo_put f).2 mem2 ∧
    fifo_frames cfg (fifo_put f).2 mem2 = fifo_frames cfg f mem ++ [frame_of d len] := by
  obtain ⟨he, hn, hc, hr, hw, hb⟩ := hok
  rw [fifo_put_free f hfree]
  have hlt : f.count < depth := by omega
  -- an older element lies outside the element at the tail
  have hkeep : ∀ k, k < f.count → ∀ j, j ≤ cfg.LWB_CONF_MAX_DATA_PKT_LEN →
      mem2 (f.start + ((f.read_idx + k) % depth) * (cfg.LWB_CONF_MAX_DATA_PKT_LEN + 1) + j)
      = mem (f.start + ((f.read_idx + k) % depth) * (cfg.LWB_CONF_MAX_DATA_PKT_LEN + 1) + j) := by
    intro k hk j hj
    apply hout
    rw [hw, he]
    have hne := ring_idx_ne f.read_idx k f.count depth hk hlt
    rcases Nat.lt_or_gt_of_ne hne with h1 | h1
    · left
      have h2 : ((f.read_idx + k) % depth + 1) * (cfg.LWB_CONF_MAX_DATA_PKT_LEN + 1)
          ≤ ((f.read_idx + f.count) % depth) * (cfg.LWB_CONF_MAX_DATA_PKT_LEN + 1) :=
        Nat.mul_le_mul_right _ h1
      rw [Nat.succ_mul] at h2
      omega
    · right
      have h2 : ((f.read_idx + f.count) % depth + 1) * (cfg.LWB_CONF_MAX_DATA_PKT_LEN + 1)
          ≤ ((f.read_idx + k) % depth) * (cfg.LWB_CONF_MAX_DATA_PKT_LEN + 1) :=
        Nat.mul_le_mul_right _ h1
      rw [Nat.succ_mul] at h2
      omega
  refine ⟨⟨he, hn, by simpa using hlt, hr, ?_, ?_⟩, ?_⟩
  · show (f.write_idx + 1) % f.num_elem = (f.read_idx + (f.count + 1)) % depth
    rw [hn, hw, Nat.mod_add_mod, Nat.add_assoc]
  · intro k hk
    show lo ≤ mem2 _ ∧ mem2 _ ≤ _
    have hk2 : k < f.count + 1 := hk
    rcases Nat.lt_or_ge k f.count with h1 | h1
    · rw [hkeep k h1 _ (Nat.le_refl _)]
      exact hb k h1
    · have hkc : k = f.count := by omega
      subst hkc
      rw [hw, he] at hlen
      rw [hlen]
      exact ⟨hlo, hhi⟩
  · unfold fifo_frames
    show List.map _ (List.range (f.count + 1)) = _
    rw [List.range_succ, List.map_append]
    congr 1
    · apply List.map_congr_left
      intro k hk
      have hk2 := List.mem_range.mp hk
      show frame_at cfg mem2 (f.start + (f.read_idx + k) % f.num_elem * f.elem_size)
        = frame_at cfg mem (f.start + (f.read_idx + k) % f.num_elem * f.elem_size)
      rw [hn, he]
      exact frame_at_congr cfg mem mem2 _ (hb k hk2).2 (hkeep k hk2)
    · show [frame_at cfg mem2 (f.start + (f.read_idx + f.count) % f.num_elem * f.elem_size)]
        = [frame_of d len]
      rw [hn, ← hw]
      unfold frame_at
      rw [hlen]
      congr 1
      apply frame_of_congr
      intro j hj
      exact hdata j hj

/-- Advancing the head keeps the ring invariant and removes the oldest of the
queued frames, which is the frame in the element at the head. -/
theorem ring_get (cfg : Config) (depth lo : Nat) (f : fifo_t) (mem : Nat → Nat)
    (hok : ring_ok cfg depth lo f mem) (hne : f.count ≠ 0) :
    ring_ok cfg depth lo (fifo_get f).2 mem ∧
    fifo_frames cfg f mem
      = frame_at cfg mem (f.start + f.read_idx * f.elem_size)
          :: fifo_frames cfg (fifo_get f).2 mem := by
  obtain ⟨he, hn, hc, hr, hw, hb⟩ := hok
  rw [fifo_get_some f hne]
  obtain ⟨c, hcc⟩ : ∃ c, f.count = c + 1 := ⟨f.count - 1, by omega⟩
  have hshift : ∀ k, ((f.read_idx + 1) % depth + k) % depth = (f.read_idx + (k + 1)) % depth := by
    intro k
    rw [Nat.mod_add_mod]
    congr 1
    omega
  refine ⟨⟨he, hn, ?_, ?_, ?_, ?_⟩, ?_⟩
  · show f.count - 1 ≤ depth
    omega
  · show (f.read_idx + 1) % f.num_elem % depth = (f.read_idx + 1) % f.num_elem
    rw [hn, Nat.mod_mod]
  · show f.write_idx = ((f.read_idx + 1) % f.num_elem + (f.count - 1)) % depth
    rw [hn, hshift, hw]
    congr 2
    omega
  · intro k hk
    have hk2 : k < f.count - 1 := hk
    show lo ≤ mem (f.start + ((f.read_idx + 1) % f.num_elem + k) % depth * _ + _) ∧
      mem (f.start + ((f.read_idx + 1) % f.num_elem + k) % depth * _ + _) ≤ _
    rw [hn, hshift]
    exact hb (k + 1) (by omega)
  · unfold fifo_frames
    show List.map _ (List.range f.count) = _ :: List.map _ (List.range (f.count - 1))
    rw [hcc, List.range_succ_eq_map, List.map_cons, List.map_map]
    congr 1
    · show frame_at cfg mem (f.start + (f.read_idx + 0) % f.num_elem * f.elem_size) = _
      rw [Nat.add_zero, hn, hr]
    · apply List.map_congr_left
      intro k _
      show frame_at cfg mem (f.start + (f.read_idx + (k + 1)) % f.num_elem * f.elem_size)
        = frame_at cfg mem
            (f.start + ((f.read_idx + 1) % f.num_elem + k) % f.num_elem * f.elem_size)
      rw [hn, hshift]

/-! ### The four queue calls on a well-formed ring -/

theorem lwb_send_pkt_null (cfg : Config) (s : LwbState) (recipient stream_id len : Nat) :
    lwb_send_pkt cfg s recipient stream_id none len = (0, s) := rfl

theorem lwb_send_pkt_long (cfg : Config) (s : LwbState) (recipient stream_id : Nat)
    (data : Option (Nat → Nat)) (len : Nat) (h : len > cfg.LWB_CONF_MAX_DATA_PKT_LEN) :
    lwb_send_pkt cfg s recipient stream_id data len = (0, s) := by
  cases data <;> simp [lwb_send_pkt, h]

theorem lwb_send_pkt_full (cfg : Config) (s : LwbState) (recipient stream_id : Nat)
    (d : Nat → Nat) (len : Nat) (h : len ≤ cfg.LWB_CONF_MAX_DATA_PKT_LEN)
    (hfull : s.out_buffer.count = s.out_buffer.num_elem) :
    lwb_send_pkt cfg s recipient stream_id (some d) len
      = (0, { s with stats := { s.stats with txbuf_drop := s.stats.txbuf_drop + 1 } }) := by
  have h2 : ¬ len > cfg.LWB_CONF_MAX_DATA_PKT_LEN := by omega
  simp [lwb_send_pkt, h2, fifo_put_full _ hfull]

theorem lwb_send_pkt_free (cfg : Config) (s : LwbState) (recipient stream_id : Nat)
    (d : Nat → Nat) (len : Nat) (h : len ≤ cfg.LWB_CONF_MAX_DATA_PKT_LEN)
    (hfree : s.out_buffer.count ≠ s.out_buffer.num_elem) :
    lwb_send_pkt cfg s recipient stream_id (some d) len
      = (1, { s with
          out_buffer := (fifo_put s.out_buffer).2,
          out_buffer_mem :=
            memcpy (store_byte s.out_buffer_mem
              (s.out_buffer.start + s.out_buffer.write_idx * s.out_buffer.elem_size
                + cfg.LWB_CONF_MAX_DATA_PKT_LEN) len)
              (s.out_buffer.start + s.out_buffer.write_idx * s.out_buffer.elem_size) d len }) := by
  have h2 : ¬ len > cfg.LWB_CONF_MAX_DATA_PKT_LEN := by omega
  simp [lwb_send_pkt, h2, fifo_put_free _ hfree]

theorem lwb_in_buffer_put_bad (cfg : Config) (s : LwbState) (data : Nat → Nat) (len : Nat)
    (h : len = 0 ∨ len > cfg.LWB_CONF_MAX_DATA_PKT_LEN) :
    lwb_in_buffer_put cfg s data len = (0, s) := by
  simp [lwb_in_buffer_put, h]

theorem lwb_in_buffer_put_full (cfg : Config) (s : LwbState) (data : Nat → Nat) (len : Nat)
    (h0 : 1 ≤ len) (h : len ≤ cfg.LWB_CONF_MAX_DATA_PKT_LEN)
    (hfull : s.in_buffer.count = s.in_buffer.num_elem) :
    lwb_in_buffer_put cfg s data len
      = (0, { s with stats := { s.stats with rxbuf_drop := s.stats.rxbuf_drop + 1 } }) := by
  have h2 : ¬ (len = 0 ∨ len > cfg.LWB_CONF_MAX_DATA_PKT_LEN) := by omega
  simp [lwb_in_buffer_put, h2, fifo_put_full _ hfull]

theorem lwb_in_buffer_put_free (cfg : Config) (s : LwbState) (data : Nat → Nat) (len : Nat)
    (h0 : 1 ≤ len) (h : len ≤ cfg.LWB_CONF_MAX_DATA_PKT_LEN)
    (hfree : s.in_buffer.count ≠ s.in_buffer.num_elem) :
    lwb_in_buffer_put cfg s data len
      = (1, { s with
          in_buffer := (fifo_put s.in_buffer).2,
          in_buffer_mem :=
            store_byte (memcpy s.in_buffer_mem
              (s.in_buffer.start + s.in_buffer.write_idx * s.in_buffer.elem_size) data len)
              (s.in_buffer.start + s.in_buffer.write_idx * s.in_buffer.elem_size
                + cfg.LWB_CONF_MAX_DATA_PKT_LEN) len }) := by
  have h2 : ¬ (len = 0 ∨ len > cfg.LWB_CONF_MAX_DATA_PKT_LEN) := by omega
  simp [lwb_in_buffer_put, h2, fifo_put_free _ hfree]

theorem lwb_out_buffer_get_empty (cfg : Config) (s : LwbState) (out_data : Nat → Nat)
    (out_len : Nat) (h : s.out_buffer.count = 0) :
    lwb_out_buffer_get cfg s out_data out_len = (0, s, out_data, out_len) := by
  simp [lwb_out_buffer_get, fifo_get_empty _ h]

theorem lwb_out_buffer_get_some (cfg : Config) (s : LwbState) (out_data : Nat → Nat)
    (out_len : Nat) (h : s.out_buffer.count ≠ 0) :
    lwb_out_buffer_get cfg s out_data out_len
      = (1, { s with out_buffer := (fifo_get s.out_buffer).2 },
          memcpy out_data 0
            (ptr_at s.out_buffer_mem
              (s.out_buffer.start + s.out_buffer.read_idx * s.out_buffer.elem_size))
            (s.out_buffer_mem
              (s.out_buffer.start + s.out_buffer.read_idx * s.out_buffer.elem_size
                + cfg.LWB_CONF_MAX_DATA_PKT_LEN)),
          s.out_buffer_mem
            (s.out_buffer.start + s.out_buffer.read_idx * s.out_buffer.elem_size
              + cfg.LWB_CONF_MAX_DATA_PKT_LEN)) := by
  simp [lwb_out_buffer_get, fifo_get_some _ h]

theorem lwb_rcv_pkt_null (cfg : Config) (s : LwbState) :
    lwb_rcv_pkt cfg s none = (0, s, none) := rfl

theorem lwb_rcv_pkt_empty (cfg : Config) (s : LwbState) (out : Nat → Nat)
    (h : s.in_buffer.count = 0) :
    lwb_rcv_pkt cfg s (some out) = (0, s, some out) := by
  simp [lwb_rcv_pkt, fifo_get_empty _ h]

theorem lwb_rcv_pkt_some (cfg : Config) (s : LwbState) (out : Nat → Nat)
    (h : s.in_buffer.count ≠ 0) :
    lwb_rcv_pkt cfg s (some out)
      = (s.in_buffer_mem
            (s.in_buffer.start + s.in_buffer.read_idx * s.in_buffer.elem_size
              + cfg.LWB_CONF_MAX_DATA_PKT_LEN),
          { s with in_buffer := (fifo_get s.in_buffer).2 },
          some (memcpy out 0
            (ptr_at s.in_buffer_mem
              (s.in_buffer.start + s.in_buffer.read_idx * s.in_buffer.elem_size))
            (s.in_buffer_mem
              (s.in_buffer.start + s.in_buffer.read_idx * s.in_buffer.elem_size
                + cfg.LWB_CONF_MAX_DATA_PKT_LEN)))) := by
  simp [lwb_rcv_pkt, fifo_get_some _ h]

/-- What `memcpy` leaves in the front of the destination is the source. -/
theorem frame_of_memcpy (out src : Nat → Nat) (n : Nat) :
    frame_of (memcpy out 0 src n) n = frame_of src n := by
  apply frame_of_congr
  intro j hj
  simp [memcpy, hj]

theorem send_pkt_frames (cfg : Config) (s : LwbState) (recipient stream_id : Nat)
    (d : Nat → Nat) (len : Nat)
    (hok : ring_ok cfg cfg.LWB_CONF_OUT_BUFFER_SIZE 0 s.out_buffer s.out_buffer_mem)
    (h : len ≤ cfg.LWB_CONF_MAX_DATA_PKT_LEN)
    (hfree : s.out_buffer.count ≠ s.out_buffer.num_elem) :
    ring_ok cfg cfg.LWB_CONF_OUT_BUFFER_SIZE 0
      (lwb_send_pkt cfg s recipient stream_id (some d) len).2.out_buffer
      (lwb_send_pkt cfg s recipient stream_id (some d) len).2.out_buffer_mem ∧
    out_frames cfg (lwb_send_pkt cfg s recipient stream_id (some d) len).2
      = out_frames cfg s ++ [frame_of d len] := by
  rw [lwb_send_pkt_free cfg s recipient stream_id d len h hfree]
  unfold out_frames
  apply ring_put cfg _ 0 s.out_buffer s.out_buffer_mem _ d len hok hfree (Nat.zero_le _) h
  · intro a ha
    have h1 : ¬ (s.out_buffer.start + s.out_buffer.write_idx * s.out_buffer.elem_size ≤ a ∧
        a < s.out_buffer.start + s.out_buffer.write_idx * s.out_buffer.elem_size + len) := by
      omega
    have h2 : a ≠ s.out_buffer.start + s.out_buffer.write_idx * s.out_buffer.elem_size
        + cfg.LWB_CONF_MAX_DATA_PKT_LEN := by omega
    simp [memcpy, store_byte, h1, h2]
  · simp only [memcpy, store_byte]
    rw [if_neg (by omega)]
    simp
  · intro j hj
    simp only [memcpy]
    rw [if_pos (by omega)]
    congr 1
    omega

theorem in_buffer_put_frames (cfg : Config) (s : LwbState) (data : Nat → Nat) (len : Nat)
    (hok : ring_ok cfg cfg.LWB_CONF_IN_BUFFER_SIZE 1 s.in_buffer s.in_buffer_mem)
    (h0 : 1 ≤ len) (h : len ≤ cfg.LWB_CONF_MAX_DATA_PKT_LEN)
    (hfree : s.in_buffer.count ≠ s.in_buffer.num_elem) :
    ring_ok cfg cfg.LWB_CONF_IN_BUFFER_SIZE 1
      (lwb_in_buffer_put cfg s data len).2.in_buffer
      (lwb_in_buffer_put cfg s data len).2.in_buffer_mem ∧
    in_frames cfg (lwb_in_buffer_put cfg s data len).2
      = in_frames cfg s ++ [frame_of data len] := by
  rw [lwb_in_buffer_put_free cfg s data len h0 h hfree]
  unfold in_frames
  apply ring_put cfg _ 1 s.in_buffer s.in_buffer_mem _ data len hok hfree h0 h
  · intro a ha
    have h1 : ¬ (s.in_buffer.start + s.in_buffer.write_idx * s.in_buffer.elem_size ≤ a ∧
        a < s.in_buffer.start + s.in_buffer.write_idx * s.in_buffer.elem_size + len) := by
      omega
    have h2 : a ≠ s.in_buffer.start + s.in_buffer.write_idx * s.in_buffer.elem_size
        + cfg.LWB_CONF_MAX_DATA_PKT_LEN := by omega
    simp [memcpy, store_byte, h1, h2]
  · simp [store_byte]
  · intro j hj
    simp only [memcpy, store_byte]
    rw [if_neg (by omega), if_pos (by omega)]
    congr 1
    omega

theorem out_buffer_get_frames (cfg : Config) (s : LwbState) (out_data : Nat → Nat)
    (out_len : Nat)
    (hok : ring_ok cfg cfg.LWB_CONF_OUT_BUFFER_SIZE 0 s.out_buffer s.out_buffer_mem)
    (hne : s.out_buffer.count ≠ 0) :
    ring_ok cfg cfg.LWB_CONF_OUT_BUFFER_SIZE 0
      (lwb_out_buffer_get cfg s out_data out_len).2.1.out_buffer
      (lwb_out_buffer_get cfg s out_data out_len).2.1.out_buffer_mem ∧
    out_frames cfg s
      = frame_of (lwb_out_buffer_get cfg s out_data out_len).2.2.1
          (lwb_out_buffer_get cfg s out_data out_len).2.2.2
        :: out_frames cfg (lwb_out_buffer_get cfg s out_data out_len).2.1 := by
  rw [lwb_out_buffer_get_some cfg s out_data out_len hne]
  unfold out_frames
  have h := ring_get cfg _ 0 s.out_buffer s.out_buffer_mem hok hne
  refine ⟨h.1, ?_⟩
  rw [h.2]
  congr 1
  show frame_at cfg _ _ = frame_of (memcpy _ _ _ _) _
  rw [frame_of_memcpy]
  rfl

theorem rcv_pkt_frames (cfg : Config) (s : LwbState) (out : Nat → Nat)
    (hok : ring_ok cfg cfg.LWB_CONF_IN_BUFFER_SIZE 1 s.in_buffer s.in_buffer_mem)
    (hne : s.in_buffer.count ≠ 0) :
    ring_ok cfg cfg.LWB_CONF_IN_BUFFER_SIZE 1
      (lwb_rcv_pkt cfg s (some out)).2.1.in_buffer
      (lwb_rcv_pkt cfg s (some out)).2.1.in_buffer_mem ∧
    1 ≤ (lwb_rcv_pkt cfg s (some out)).1 ∧
    (lwb_rcv_pkt cfg s (some out)).1 ≤ cfg.LWB_CONF_MAX_DATA_PKT_LEN ∧
    ∃ o, (lwb_rcv_pkt cfg s (some out)).2.2 = some o ∧
      in_frames cfg s
        = frame_of o (lwb_rcv_pkt cfg s (some out)).1
          :: in_frames cfg (lwb_rcv_pkt cfg s (some out)).2.1 := by
  rw [lwb_rcv_pkt_some cfg s out hne]
  unfold in_frames
  have h := ring_get cfg _ 1 s.in_buffer s.in_buffer_mem hok hne
  have hb := hok.2.2.2.2.2 0 (by omega)
  rw [Nat.add_zero, hok.2.2.2.1, ← hok.1] at hb
  refine ⟨h.1, hb.1, hb.2, _, rfl, ?_⟩
  rw [h.2]
  congr 1
  show frame_at cfg _ _ = frame_of (memcpy _ _ _ _) _
  rw [frame_of_memcpy]
  rfl

/-! ### The run invariant -/

theorem QueueLog.ok_init (cfg : Config) : QueueLog.ok cfg (QueueLog.init cfg) := by
  refine ⟨⟨rfl, rfl, Nat.zero_le _, ?_, ?_, ?_⟩, ⟨rfl, rfl, Nat.zero_le _, ?_, ?_, ?_⟩, rfl, rfl⟩
  · exact Nat.zero_mod _
  · exact (Nat.zero_mod _).symm
  · intro k hk
    exact absurd hk (Nat.not_lt_zero _)
  · exact Nat.zero_mod _
  · exact (Nat.zero_mod _).symm
  · intro k hk
    exact absurd hk (Nat.not_lt_zero _)

theorem QueueLog.ok_step (cfg : Config) (t : QueueLog) (c : QueueCall)
    (h : QueueLog.ok cfg t) : QueueLog.ok cfg (QueueLog.step cfg t c) := by
  obtain ⟨ho, hi, hfo, hfi⟩ := h
  cases c with
  | send_pkt recipient stream_id data len =>
    cases data with
    | none => exact ⟨ho, hi, hfo, hfi⟩
    | some d =>
      simp only [QueueLog.step]
      rcases Nat.lt_or_ge cfg.LWB_CONF_MAX_DATA_PKT_LEN len with hl | hl
      · rw [lwb_send_pkt_long cfg _ _ _ _ _ hl]
        exact ⟨ho, hi, hfo, hfi⟩
      · by_cases hfull : t.state.out_buffer.count = t.state.out_buffer.num_elem
        · rw [lwb_send_pkt_full cfg _ _ _ _ _ hl hfull]
          exact ⟨ho, hi, hfo, hfi⟩
        · have hfr := send_pkt_frames cfg t.state recipient stream_id d len ho hl hfull
          have h1 : (lwb_send_pkt cfg t.state recipient stream_id (some d) len).1 = 1 := by
            rw [lwb_send_pkt_free cfg _ _ _ _ _ hl hfull]
          have h2 : (lwb_send_pkt cfg t.state recipient stream_id (some d) len).2.in_buffer
              = t.state.in_buffer := by
            rw [lwb_send_pkt_free cfg _ _ _ _ _ hl hfull]
          have h3 : (lwb_send_pkt cfg t.state recipient stream_id (some d) len).2.in_buffer_mem
              = t.state.in_buffer_mem := by
            rw [lwb_send_pkt_free cfg _ _ _ _ _ hl hfull]
          rw [if_pos h1]
          refine ⟨hfr.1, ?_, ?_, ?_⟩
          · show ring_ok cfg _ 1 (lwb_send_pkt cfg t.state recipient stream_id (some d) len).2.in_buffer
              (lwb_send_pkt cfg t.state recipient stream_id (some d) len).2.in_buffer_mem
            rw [h2, h3]
            exact hi
          · show t.out_returned ++ out_frames cfg _ = t.out_accepted ++ _
            rw [hfr.2, ← List.append_assoc, hfo]
          · show t.in_returned ++ in_frames cfg _ = t.in_accepted
            unfold in_frames
            rw [h2, h3]
            exact hfi
  | out_buffer_get out_data out_len =>
    simp only [QueueLog.step]
    by_cases hne : t.state.out_buffer.count = 0
    · rw [lwb_out_buffer_get_empty cfg _ _ _ hne]
      exact ⟨ho, hi, hfo, hfi⟩
    · have hfr := out_buffer_get_frames cfg t.state out_data out_len ho hne
      have h1 : (lwb_out_buffer_get cfg t.state out_data out_len).1 = 1 := by
        rw [lwb_out_buffer_get_some cfg _ _ _ hne]
      have h2 : (lwb_out_buffer_get cfg t.state out_data out_len).2.1.in_buffer
          = t.state.in_buffer := by
        rw [lwb_out_buffer_get_some cfg _ _ _ hne]
      have h3 : (lwb_out_buffer_get cfg t.state out_data out_len).2.1.in_buffer_mem
          = t.state.in_buffer_mem := by
        rw [lwb_out_buffer_get_some cfg _ _ _ hne]
      rw [if_pos h1]
      refine ⟨hfr.1, ?_, ?_, ?_⟩
      · show ring_ok cfg _ 1 (lwb_out_buffer_get cfg t.state out_data out_len).2.1.in_buffer
          (lwb_out_buffer_get cfg t.state out_data out_len).2.1.in_buffer_mem
        rw [h2, h3]
        exact hi
      · show (t.out_returned ++ [_]) ++ out_frames cfg _ = t.out_accepted
        rw [List.append_assoc, List.singleton_append, ← hfr.2, hfo]
      · show t.in_returned ++ in_frames cfg _ = t.in_accepted
        unfold in_frames
        rw [h2, h3]
        exact hfi
  | in_buffer_put data len =>
    simp only [QueueLog.step]
    by_cases hbad : len = 0 ∨ len > cfg.LWB_CONF_MAX_DATA_PKT_LEN
    · rw [lwb_in_buffer_put_bad cfg _ _ _ hbad]
      exact ⟨ho, hi, hfo, hfi⟩
    · have hl0 : 1 ≤ len := by omega
      have hl : len ≤ cfg.LWB_CONF_MAX_DATA_PKT_LEN := by omega
      by_cases hfull : t.state.in_buffer.count = t.state.in_buffer.num_elem
      · rw [lwb_in_buffer_put_full cfg _ _ _ hl0 hl hfull]
        exact ⟨ho, hi, hfo, hfi⟩
      · have hfr := in_buffer_put_frames cfg t.state data len hi hl0 hl hfull
        have h1 : (lwb_in_buffer_put cfg t.state data len).1 = 1 := by
          rw [lwb_in_buffer_put_free cfg _ _ _ hl0 hl hfull]
        have h2 : (lwb_in_buffer_put cfg t.state data len).2.out_buffer
            = t.state.out_buffer := by
          rw [lwb_in_buffer_put_free cfg _ _ _ hl0 hl hfull]
        have h3 : (lwb_in_buffer_put cfg t.state data len).2.out_buffer_mem
            = t.state.out_buffer_mem := by
          rw [lwb_in_buffer_put_free cfg _ _ _ hl0 hl hfull]
        rw [if_pos h1]
        refine ⟨?_, hfr.1, ?_, ?_⟩
        · show ring_ok cfg _ 0 (lwb_in_buffer_put cfg t.state data len).2.out_buffer
            (lwb_in_buffer_put cfg t.state data len).2.out_buffer_mem
          rw [h2, h3]
          exact ho
        · show t.out_returned ++ out_frames cfg _ = t.out_accepted
          unfold out_frames
          rw [h2, h3]
          exact hfo
        · show t.in_returned ++ in_frames cfg _ = t.in_accepted ++ _
          rw [hfr.2, ← List.append_assoc, hfi]
  | rcv_pkt out_data =>
    cases out_data with
    | none => exact ⟨ho, hi, hfo, hfi⟩
    | some out =>
      simp only [QueueLog.step]
      by_cases hne : t.state.in_buffer.count = 0
      · rw [lwb_rcv_pkt_empty cfg _ _ hne]
        exact ⟨ho, hi, hfo, hfi⟩
      · obtain ⟨hr, hlo, _, o, ho2, hfr⟩ := rcv_pkt_frames cfg t.state out hi hne
        have h2 : (lwb_rcv_pkt cfg t.state (some out)).2.1.out_buffer
            = t.state.out_buffer := by
          rw [lwb_rcv_pkt_some cfg _ _ hne]
        have h3 : (lwb_rcv_pkt cfg t.state (some out)).2.1.out_buffer_mem
            = t.state.out_buffer_mem := by
          rw [lwb_rcv_pkt_some cfg _ _ hne]
        rw [ho2]
        have h1 : (lwb_rcv_pkt cfg t.state (some out)).1 ≠ 0 := by omega
        simp only [h1, ne_eq, not_false_eq_true, if_true]
        refine ⟨?_, hr, ?_, ?_⟩
        · show ring_ok cfg _ 0 (lwb_rcv_pkt cfg t.state (some out)).2.1.out_buffer
            (lwb_rcv_pkt cfg t.state (some out)).2.1.out_buffer_mem
          rw [h2, h3]
          exact ho
        · show t.out_returned ++ out_frames cfg _ = t.out_accepted
          unfold out_frames
          rw [h2, h3]
          exact hfo
        · show (t.in_returned ++ [_]) ++ in_frames cfg _ = t.in_accepted
          rw [List.append_assoc, List.singleton_append, ← hfr, hfi]
  | set_stats stats => exact ⟨ho, hi, hfo, hfi⟩

theorem QueueLog.ok_run (cfg : Config) (calls : List QueueCall) (t : QueueLog)
    (h : QueueLog.ok cfg t) : QueueLog.ok cfg (QueueLog.run cfg t calls) := by
  induction calls generalizing t with
  | nil => exact h
  | cons c cs ih => exact ih _ (QueueLog.ok_step cfg t c h)

/-- Every reachable state has two well-formed rings. -/
theorem Reachable.rings (cfg : Config) (s : LwbState) (h : Reachable cfg s) :
    ring_ok cfg cfg.LWB_CONF_OUT_BUFFER_SIZE 0 s.out_buffer s.out_buffer_mem ∧
    ring_ok cfg cfg.LWB_CONF_IN_BUFFER_SIZE 1 s.in_buffer s.in_buffer_mem := by
  obtain ⟨calls, rfl⟩ := h
  have := QueueLog.ok_run cfg calls _ (QueueLog.ok_init cfg)
  exact ⟨this.1, this.2.1⟩

/-! ### Sync state machine -/

/-- C1: the next state `next_state[e][s]` is exactly the entry of the
transition table: a received schedule leads to SYNCED from every state; a
missed schedule maps BOOTSTRAP to BOOTSTRAP, SYNCED to UNSYNCED, UNSYNCED to
UNSYNCED2 and UNSYNCED2 to BOOTSTRAP; the source applies the table to the
event `GET_EVENT`; and from a state other than BOOTSTRAP the next state is
BOOTSTRAP exactly when the state is UNSYNCED2 and the event is a miss. -/
theorem next_state_table (e : sync_event_t) (s : lwb_sync_state_t) (upd : Bool) :
    next_state EVT_SCHED_RCVD s = SYNCED ∧
    next_state EVT_SCHED_MISSED BOOTSTRAP = BOOTSTRAP ∧
    next_state EVT_SCHED_MISSED SYNCED = UNSYNCED ∧
    next_state EVT_SCHED_MISSED UNSYNCED = UNSYNCED2 ∧
    next_state EVT_SCHED_MISSED UNSYNCED2 = BOOTSTRAP ∧
    sync_update upd s
      = next_state (if upd then EVT_SCHED_RCVD else EVT_SCHED_MISSED) s ∧
    ((s ≠ BOOTSTRAP ∧ next_state e s = BOOTSTRAP)
      ↔ (s = UNSYNCED2 ∧ e = EVT_SCHED_MISSED)) := by
  refine ⟨?_, rfl, rfl, rfl, rfl, rfl, ?_⟩
  · cases s <;> rfl
  · cases e <;> cases s <;> simp [next_state]

/-! ### Packet queues -/

theorem frame_of_inj (a b : Nat → Nat) (n m : Nat) (h : frame_of a n = frame_of b m) :
    n = m ∧ ∀ j, j < n → a j = b j := by
  have hl : n = m := by
    have := congrArg List.length h
    simpa [frame_of] using this
  subst hl
  refine ⟨rfl, fun j hj => ?_⟩
  unfold frame_of at h
  exact (List.map_inj_left.mp h) j (List.mem_range.mpr hj)

theorem fifo_frames_empty (cfg : Config) (f : fifo_t) (mem : Nat → Nat) (h : f.count = 0) :
    fifo_frames cfg f mem = [] := by
  simp [fifo_frames, h]

theorem fifo_frames_length (cfg : Config) (f : fifo_t) (mem : Nat → Nat) :
    (fifo_frames cfg f mem).length = f.count := by
  simp [fifo_frames]

/-- C2: queue order is FIFO. For every sequence of calls of the queue
interface (and writes to the statistics block in between), starting from the
set-up of `lwb_process`, the frames handed out
by the successful `lwb_out_buffer_get` calls are, in order, a prefix of the
frames accepted by the successful `lwb_send_pkt` calls (what is missing is
exactly what is still queued, oldest first), and the same holds for
`lwb_rcv_pkt` and `lwb_in_buffer_put` on the inbound queue. -/
theorem queue_fifo_order (cfg : Config) (calls : List QueueCall) :
    (QueueLog.run cfg (QueueLog.init cfg) calls).out_returned
      <+: (QueueLog.run cfg (QueueLog.init cfg) calls).out_accepted ∧
    (QueueLog.run cfg (QueueLog.init cfg) calls).in_returned
      <+: (QueueLog.run cfg (QueueLog.init cfg) calls).in_accepted ∧
    (QueueLog.run cfg (QueueLog.init cfg) calls).out_returned
        ++ out_frames cfg (QueueLog.run cfg (QueueLog.init cfg) calls).state
      = (QueueLog.run cfg (QueueLog.init cfg) calls).out_accepted ∧
    (QueueLog.run cfg (QueueLog.init cfg) calls).in_returned
        ++ in_frames cfg (QueueLog.run cfg (QueueLog.init cfg) calls).state
      = (QueueLog.run cfg (QueueLog.init cfg) calls).in_accepted := by
  obtain ⟨_, _, ho, hi⟩ := QueueLog.ok_run cfg calls _ (QueueLog.ok_init cfg)
  exact ⟨⟨_, ho⟩, ⟨_, hi⟩, ho, hi⟩

/-- C3: put then get is a round trip on length and bytes. In a reachable
state, for a payload of `len` bytes with `1 ≤ len ≤ LWB_CONF_MAX_DATA_PKT_LEN`:
on an empty outbound queue (of depth at least 1) `lwb_send_pkt` returns 1 and
stores `len` in the trailing byte of the element, and the following
`lwb_out_buffer_get` returns 1 with `*out_len == len` and the first `len`
output bytes equal to the payload; likewise on an empty inbound queue
`lwb_in_buffer_put` returns 1 and stores `len` in the trailing byte, and the
following `lwb_rcv_pkt` returns `len` and the same bytes. -/
theorem put_get_round_trip (cfg : Config) (s : LwbState) (recipient stream_id : Nat)
    (payload : Nat → Nat) (len : Nat) (out_data : Nat → Nat) (out_len : Nat)
    (hs : Reachable cfg s) (h1 : 1 ≤ len) (h2 : len ≤ cfg.LWB_CONF_MAX_DATA_PKT_LEN) :
    (0 < cfg.LWB_CONF_OUT_BUFFER_SIZE → FIFO_EMPTY s.out_buffer = true →
      (lwb_send_pkt cfg s recipient stream_id (some payload) len).1 = 1 ∧
      (lwb_send_pkt cfg s recipient stream_id (some payload) len).2.out_buffer_mem
        (s.out_buffer.start + s.out_buffer.write_idx * (cfg.LWB_CONF_MAX_DATA_PKT_LEN + 1)
          + cfg.LWB_CONF_MAX_DATA_PKT_LEN) = len ∧
      (lwb_out_buffer_get cfg
        (lwb_send_pkt cfg s recipient stream_id (some payload) len).2 out_data out_len).1 = 1 ∧
      (lwb_out_buffer_get cfg
        (lwb_send_pkt cfg s recipient stream_id (some payload) len).2 out_data out_len).2.2.2
        = len ∧
      ∀ j, j < len →
        (lwb_out_buffer_get cfg
          (lwb_send_pkt cfg s recipient stream_id (some payload) len).2 out_data out_len).2.2.1 j
        = payload j) ∧
    (0 < cfg.LWB_CONF_IN_BUFFER_SIZE → FIFO_EMPTY s.in_buffer = true →
      (lwb_in_buffer_put cfg s payload len).1 = 1 ∧
      (lwb_in_buffer_put cfg s payload len).2.in_buffer_mem
        (s.in_buffer.start + s.in_buffer.write_idx * (cfg.LWB_CONF_MAX_DATA_PKT_LEN + 1)
          + cfg.LWB_CONF_MAX_DATA_PKT_LEN) = len ∧
      (lwb_rcv_pkt cfg (lwb_in_buffer_put cfg s payload len).2 (some out_data)).1 = len ∧
      ∃ o, (lwb_rcv_pkt cfg (lwb_in_buffer_put cfg s payload len).2 (some out_data)).2.2
          = some o ∧
        ∀ j, j < len → o j = payload j) := by
  obtain ⟨ho, hi⟩ := Reachable.rings cfg s hs
  constructor
  · intro hd he
    have hc : s.out_buffer.count = 0 := by simpa [FIFO_EMPTY] using he
    have hfree : s.out_buffer.count ≠ s.out_buffer.num_elem := by
      rw [ho.2.1, hc]; omega
    have hfr := send_pkt_frames cfg s recipient stream_id payload len ho h2 hfree
    have hp := lwb_send_pkt_free cfg s recipient stream_id payload len h2 hfree
    have hcnt : (lwb_send_pkt cfg s recipient stream_id (some payload) len).2.out_buffer.count
        ≠ 0 := by
      rw [hp, fifo_put_free _ hfree]
      show s.out_buffer.count + 1 ≠ 0
      omega
    have hg := out_buffer_get_frames cfg _ out_data out_len hfr.1 hcnt
    have hg1 := lwb_out_buffer_get_some cfg
      (lwb_send_pkt cfg s recipient stream_id (some payload) len).2 out_data out_len hcnt
    have hfs : out_frames cfg s = [] := fifo_frames_empty cfg _ _ hc
    rw [hfr.2, hfs, List.nil_append] at hg
    have hhead := (List.cons.inj hg.2).1
    have hinj := frame_of_inj _ _ _ _ hhead
    refine ⟨by rw [hp], ?_, by rw [hg1], hinj.1.symm, ?_⟩
    · rw [hp]
      show memcpy (store_byte _ _ _) _ _ _ _ = len
      simp only [memcpy, store_byte, ho.1]
      rw [if_neg (by omega)]
      simp
    · intro j hj
      exact (hinj.2 j hj).symm
  · intro hd he
    have hc : s.in_buffer.count = 0 := by simpa [FIFO_EMPTY] using he
    have hfree : s.in_buffer.count ≠ s.in_buffer.num_elem := by
      rw [hi.2.1, hc]; omega
    have hfr := in_buffer_put_frames cfg s payload len hi h1 h2 hfree
    have hp := lwb_in_buffer_put_free cfg s payload len h1 h2 hfree
    have hcnt : (lwb_in_buffer_put cfg s payload len).2.in_buffer.count ≠ 0 := by
      rw [hp, fifo_put_free _ hfree]
      show s.in_buffer.count + 1 ≠ 0
      omega
    obtain ⟨_, _, _, o, ho2, hg⟩ := rcv_pkt_frames cfg _ out_data hfr.1 hcnt
    have hfs : in_frames cfg s = [] := fifo_frames_empty cfg _ _ hc
    rw [hfr.2, hfs, List.nil_append] at hg
    have hhead := (List.cons.inj hg).1
    have hinj := frame_of_inj _ _ _ _ hhead
    refine ⟨by rw [hp], ?_, hinj.1.symm, o, ho2, ?_⟩
    · rw [hp]
      show store_byte (memcpy _ _ _ _) _ _ _ = len
      simp [store_byte, hi.1]
    · intro j hj
      exact (hinj.2 j hj).symm

/-- Witness for C3: the dummy packet of the test application, two bytes, put
into the freshly set-up queues of the sample configuration and fetched
again. -/
theorem put_get_round_trip_witness :
    (lwb_out_buffer_get sample_cfg
      (lwb_send_pkt sample_cfg (lwb_process_init sample_cfg) 0 1 (some dummy_packet) 2).2
      blank_buffer 0).2.2.2 = 2 ∧
    (lwb_rcv_pkt sample_cfg
      (lwb_in_buffer_put sample_cfg (lwb_process_init sample_cfg) dummy_packet 2).2
      (some blank_buffer)).1 = 2 :=
  have h := put_get_round_trip sample_cfg (lwb_process_init sample_cfg) 0 1 dummy_packet 2
    blank_buffer 0 ⟨[], rfl⟩ (by decide) (by decide)
  ⟨(h.1 (by decide) rfl).2.2.2.1, (h.2 (by decide) rfl).2.2.1⟩

theorem send_buffer_state_eq (cfg : Config) (s : LwbState) (hs : Reachable cfg s)
    (hout : cfg.LWB_CONF_OUT_BUFFER_SIZE < 2 ^ 8) :
    lwb_get_send_buffer_state s = s.out_buffer.count := by
  have h := (Reachable.rings cfg s hs).1.2.2.1
  unfold lwb_get_send_buffer_state FIFO_CNT
  exact Nat.mod_eq_of_lt (by omega)

theorem rcv_buffer_state_eq (cfg : Config) (s : LwbState) (hs : Reachable cfg s)
    (hin : cfg.LWB_CONF_IN_BUFFER_SIZE < 2 ^ 8) :
    lwb_get_rcv_buffer_state s = s.in_buffer.count := by
  have h := (Reachable.rings cfg s hs).2.2.2.1
  unfold lwb_get_rcv_buffer_state FIFO_CNT
  exact Nat.mod_eq_of_lt (by omega)

/-- C4 as stated fails: in the freshly set-up sample configuration the send
buffer count is 0, not the depth 5, and `lwb_send_pkt` with a 64-byte payload
(one more than `LWB_CONF_MAX_DATA_PKT_LEN`) still returns 0, as does
`lwb_send_pkt` with a null payload. -/
theorem send_full_iff_counterexample :
    (lwb_send_pkt sample_cfg (lwb_process_init sample_cfg) 0 1 (some dummy_packet) 64).1 = 0 ∧
    (lwb_send_pkt sample_cfg (lwb_process_init sample_cfg) 0 1 none 2).1 = 0 ∧
    lwb_get_send_buffer_state (lwb_process_init sample_cfg) = 0 ∧
    sample_cfg.LWB_CONF_OUT_BUFFER_SIZE = 5 ∧
    ¬ ((lwb_send_pkt sample_cfg (lwb_process_init sample_cfg) 0 1 (some dummy_packet) 64).1 = 0
        ↔ lwb_get_send_buffer_state (lwb_process_init sample_cfg)
            = sample_cfg.LWB_CONF_OUT_BUFFER_SIZE) := by
  decide

/-- C4, amended: in a reachable state, with a queue depth that fits the 8-bit
count, `lwb_send_pkt` returns 0 if and only if `data` is null, or `len`
exceeds `LWB_CONF_MAX_DATA_PKT_LEN`, or the send buffer count equals the
depth at call time; so for a non-null payload of at most
`LWB_CONF_MAX_DATA_PKT_LEN` bytes it returns 0 if and only if the count equals
the depth. Every other call returns 1. -/
theorem send_full_iff (cfg : Config) (s : LwbState) (recipient stream_id : Nat)
    (data : Option (Nat → Nat)) (len : Nat)
    (hs : Reachable cfg s) (hout : cfg.LWB_CONF_OUT_BUFFER_SIZE < 2 ^ 8) :
    ((lwb_send_pkt cfg s recipient stream_id data len).1 = 0
      ↔ (data = none ∨ len > cfg.LWB_CONF_MAX_DATA_PKT_LEN ∨
          lwb_get_send_buffer_state s = cfg.LWB_CONF_OUT_BUFFER_SIZE)) ∧
    (data ≠ none ∧ len ≤ cfg.LWB_CONF_MAX_DATA_PKT_LEN →
      ((lwb_send_pkt cfg s recipient stream_id data len).1 = 0
        ↔ lwb_get_send_buffer_state s = cfg.LWB_CONF_OUT_BUFFER_SIZE)) ∧
    ((lwb_send_pkt cfg s recipient stream_id data len).1 = 0 ∨
      (lwb_send_pkt cfg s recipient stream_id data len).1 = 1) := by
  have ho := (Reachable.rings cfg s hs).1
  rw [send_buffer_state_eq cfg s hs hout]
  cases data with
  | none => simp [lwb_send_pkt_null]
  | some d =>
    rcases Nat.lt_or_ge cfg.LWB_CONF_MAX_DATA_PKT_LEN len with hl | hl
    · rw [lwb_send_pkt_long cfg _ _ _ _ _ hl]
      have : ¬ len ≤ cfg.LWB_CONF_MAX_DATA_PKT_LEN := by omega
      simp [hl, this]
    · have hnl : ¬ len > cfg.LWB_CONF_MAX_DATA_PKT_LEN := by omega
      by_cases hfull : s.out_buffer.count = s.out_buffer.num_elem
      · rw [lwb_send_pkt_full cfg _ _ _ _ _ hl hfull]
        have : s.out_buffer.count = cfg.LWB_CONF_OUT_BUFFER_SIZE := by rw [hfull, ho.2.1]
        simp [this]
      · rw [lwb_send_pkt_free cfg _ _ _ _ _ hl hfull]
        have : s.out_buffer.count ≠ cfg.LWB_CONF_OUT_BUFFER_SIZE := by
          rw [← ho.2.1]; exact hfull
        simp [this, hnl]

/-- Witness for C4: with the outbound queue of the sample configuration full,
a send of the dummy packet returns 0. -/
theorem send_full_iff_witness :
    (lwb_send_pkt sample_cfg full_out_state 0 1 (some dummy_packet) 2).1 = 0 :=
  (send_full_iff sample_cfg full_out_state 0 1 (some dummy_packet) 2 ⟨_, rfl⟩
    (by decide)).1.mpr (Or.inr (Or.inr (by decide)))

/-- C5 as stated fails: in the freshly set-up sample configuration
`lwb_send_pkt` with a 64-byte payload returns 0, the frame is not queued, and
`stats.txbuf_drop` is not increased; the same happens with a null payload. -/
theorem txbuf_drop_counterexample :
    (lwb_send_pkt sample_cfg (lwb_process_init sample_cfg) 0 1 (some dummy_packet) 64).1 = 0 ∧
    (lwb_send_pkt sample_cfg (lwb_process_init sample_cfg) 0 1 none 2).1 = 0 ∧
    (lwb_send_pkt sample_cfg (lwb_process_init sample_cfg) 0 1 none 2).2.stats.txbuf_drop
      = (lwb_process_init sample_cfg).stats.txbuf_drop ∧
    (lwb_send_pkt sample_cfg (lwb_process_init sample_cfg) 0 1 (some dummy_packet) 64).2.stats.txbuf_drop
      = (lwb_process_init sample_cfg).stats.txbuf_drop ∧
    (lwb_send_pkt sample_cfg (lwb_process_init sample_cfg) 0 1 (some dummy_packet) 64).2.stats.txbuf_drop
      ≠ (lwb_process_init sample_cfg).stats.txbuf_drop + 1 := by
  decide

/-- C5, amended: `stats.txbuf_drop` is incremented exactly once per frame
dropped on a full queue. A call of `lwb_send_pkt` with a non-null payload of
at most `LWB_CONF_MAX_DATA_PKT_LEN` bytes that returns 0 increases
`stats.txbuf_drop` by exactly 1 and leaves the queue as it was; a call that
returns 1 leaves `stats.txbuf_drop` unchanged; a call with a null payload or
with `len > LWB_CONF_MAX_DATA_PKT_LEN` returns 0 and changes nothing, the
counter included. -/
theorem txbuf_drop_once (cfg : Config) (s : LwbState) (recipient stream_id : Nat)
    (data : Option (Nat → Nat)) (len : Nat) :
    (data ≠ none ∧ len ≤ cfg.LWB_CONF_MAX_DATA_PKT_LEN →
      (lwb_send_pkt cfg s recipient stream_id data len).1 = 0 →
      (lwb_send_pkt cfg s recipient stream_id data len).2.stats.txbuf_drop
        = s.stats.txbuf_drop + 1 ∧
      (lwb_send_pkt cfg s recipient stream_id data len).2.out_buffer = s.out_buffer ∧
      (lwb_send_pkt cfg s recipient stream_id data len).2.out_buffer_mem = s.out_buffer_mem) ∧
    ((lwb_send_pkt cfg s recipient stream_id data len).1 = 1 →
      (lwb_send_pkt cfg s recipient stream_id data len).2.stats.txbuf_drop
        = s.stats.txbuf_drop) ∧
    (data = none ∨ len > cfg.LWB_CONF_MAX_DATA_PKT_LEN →
      lwb_send_pkt cfg s recipient stream_id data len = (0, s)) ∧
    ((lwb_send_pkt cfg s recipient stream_id data len).1 = 0 ∨
      (lwb_send_pkt cfg s recipient stream_id data len).1 = 1) := by
  cases data with
  | none => simp [lwb_send_pkt_null]
  | some d =>
    rcases Nat.lt_or_ge cfg.LWB_CONF_MAX_DATA_PKT_LEN len with hl | hl
    · rw [lwb_send_pkt_long cfg _ _ _ _ _ hl]
      have : ¬ len ≤ cfg.LWB_CONF_MAX_DATA_PKT_LEN := by omega
      simp [this]
    · have hnl : ¬ len > cfg.LWB_CONF_MAX_DATA_PKT_LEN := by omega
      by_cases hfull : s.out_buffer.count = s.out_buffer.num_elem
      · rw [lwb_send_pkt_full cfg _ _ _ _ _ hl hfull]
        simp [hnl]
      · rw [lwb_send_pkt_free cfg _ _ _ _ _ hl hfull]
        simp [hnl]

/-- Witness for C5: with the outbound queue of the sample configuration full,
a send of the dummy packet returns 0 and is counted once. -/
theorem txbuf_drop_once_witness :
    (lwb_send_pkt sample_cfg full_out_state 0 1 (some dummy_packet) 2).1 = 0 ∧
    (lwb_send_pkt sample_cfg full_out_state 0 1 (some dummy_packet) 2).2.stats.txbuf_drop
      = full_out_state.stats.txbuf_drop + 1 :=
  ⟨by decide,
    ((txbuf_drop_once sample_cfg full_out_state 0 1 (some dummy_packet) 2).1
      ⟨Option.some_ne_none _, by decide⟩ (by decide)).1⟩

/-- C6: a malformed frame is dropped on ingest. Every call
`lwb_in_buffer_put(data, len)` with `len == 0` or
`len > LWB_CONF_MAX_DATA_PKT_LEN` returns 0 and leaves the whole state as it
was: the inbound queue (count and contents) and the `rxbuf_drop` counter are
unchanged. -/
theorem in_buffer_put_malformed (cfg : Config) (s : LwbState) (data : Nat → Nat) (len : Nat)
    (h : len = 0 ∨ len > cfg.LWB_CONF_MAX_DATA_PKT_LEN) :
    (lwb_in_buffer_put cfg s data len).1 = 0 ∧
    (lwb_in_buffer_put cfg s data len).2 = s ∧
    FIFO_CNT (lwb_in_buffer_put cfg s data len).2.in_buffer = FIFO_CNT s.in_buffer ∧
    in_frames cfg (lwb_in_buffer_put cfg s data len).2 = in_frames cfg s ∧
    (lwb_in_buffer_put cfg s data len).2.stats.rxbuf_drop = s.stats.rxbuf_drop := by
  rw [lwb_in_buffer_put_bad cfg s data len h]
  exact ⟨rfl, rfl, rfl, rfl, rfl⟩

/-- Witness for C6: a frame of length 0 offered to the freshly set-up sample
configuration. -/
theorem in_buffer_put_malformed_witness :
    (lwb_in_buffer_put sample_cfg (lwb_process_init sample_cfg) dummy_packet 0).1 = 0 ∧
    (lwb_in_buffer_put sample_cfg (lwb_process_init sample_cfg) dummy_packet 0).2.stats.rxbuf_drop
      = 0 :=
  have h := in_buffer_put_malformed sample_cfg (lwb_process_init sample_cfg) dummy_packet 0
    (Or.inl rfl)
  ⟨h.1, h.2.2.2.2⟩

/-- C7: a full inbound queue is signalled by return code and counter. In a
reachable state, for a call `lwb_in_buffer_put(data, len)` with
`1 ≤ len ≤ LWB_CONF_MAX_DATA_PKT_LEN`: if the inbound queue is full the call
returns 0, increases `stats.rxbuf_drop` by exactly 1 and leaves the queue
(control block, arena, queued frames) unchanged; if it is not full the call
returns 1, the count grows by 1, the frame is appended to the queued frames
and `rxbuf_drop` is unchanged. -/
theorem in_buffer_put_full_signalled (cfg : Config) (s : LwbState) (data : Nat → Nat)
    (len : Nat) (hs : Reachable cfg s)
    (h1 : 1 ≤ len) (h2 : len ≤ cfg.LWB_CONF_MAX_DATA_PKT_LEN) :
    (FIFO_CNT s.in_buffer = cfg.LWB_CONF_IN_BUFFER_SIZE →
      (lwb_in_buffer_put cfg s data len).1 = 0 ∧
      (lwb_in_buffer_put cfg s data len).2.stats.rxbuf_drop = s.stats.rxbuf_drop + 1 ∧
      (lwb_in_buffer_put cfg s data len).2.in_buffer = s.in_buffer ∧
      (lwb_in_buffer_put cfg s data len).2.in_buffer_mem = s.in_buffer_mem ∧
      in_frames cfg (lwb_in_buffer_put cfg s data len).2 = in_frames cfg s) ∧
    (FIFO_CNT s.in_buffer ≠ cfg.LWB_CONF_IN_BUFFER_SIZE →
      (lwb_in_buffer_put cfg s data len).1 = 1 ∧
      FIFO_CNT (lwb_in_buffer_put cfg s data len).2.in_buffer = FIFO_CNT s.in_buffer + 1 ∧
      in_frames cfg (lwb_in_buffer_put cfg s data len).2
        = in_frames cfg s ++ [frame_of data len] ∧
      (lwb_in_buffer_put cfg s data len).2.stats.rxbuf_drop = s.stats.rxbuf_drop) := by
  have hi := (Reachable.rings cfg s hs).2
  constructor
  · intro hfull
    have hf : s.in_buffer.count = s.in_buffer.num_elem := by rw [hi.2.1]; exact hfull
    rw [lwb_in_buffer_put_full cfg s data len h1 h2 hf]
    exact ⟨rfl, rfl, rfl, rfl, rfl⟩
  · intro hfree
    have hf : s.in_buffer.count ≠ s.in_buffer.num_elem := by rw [hi.2.1]; exact hfree
    have hfr := in_buffer_put_frames cfg s data len hi h1 h2 hf
    refine ⟨?_, ?_, hfr.2, ?_⟩
    · rw [lwb_in_buffer_put_free cfg s data len h1 h2 hf]
    · rw [lwb_in_buffer_put_free cfg s data len h1 h2 hf, fifo_put_free _ hf]
      rfl
    · rw [lwb_in_buffer_put_free cfg s data len h1 h2 hf]

/-- Witness for C7: with the inbound queue of the sample configuration full,
a further dummy frame is refused and counted. -/
theorem in_buffer_put_full_signalled_witness :
    (lwb_in_buffer_put sample_cfg full_in_state dummy_packet 2).1 = 0 ∧
    (lwb_in_buffer_put sample_cfg full_in_state dummy_packet 2).2.stats.rxbuf_drop
      = full_in_state.stats.rxbuf_drop + 1 :=
  have h := (in_buffer_put_full_signalled sample_cfg full_in_state dummy_packet 2
    ⟨_, rfl⟩ (by decide) (by decide)).1 (by decide)
  ⟨h.1, h.2.1⟩

/-- C8: in a reachable state `lwb_out_buffer_get` returns 1 if and only if
the outbound queue is non-empty, and 0 otherwise. On a non-empty queue it
removes the oldest frame (the count drops by 1, the other queued frames stay
in order), sets `*out_len` to the length stored in the trailing byte of the
element at the head, and the first `*out_len` bytes of `out_data` are that
frame. On an empty queue it returns 0 and leaves the state, the output
buffer and `*out_len` untouched. -/
theorem out_buffer_get_oldest (cfg : Config) (s : LwbState) (out_data : Nat → Nat)
    (out_len : Nat) (hs : Reachable cfg s) :
    ((lwb_out_buffer_get cfg s out_data out_len).1 = 1 ↔ FIFO_CNT s.out_buffer ≠ 0) ∧
    ((lwb_out_buffer_get cfg s out_data out_len).1 = 0 ↔ FIFO_CNT s.out_buffer = 0) ∧
    (FIFO_CNT s.out_buffer ≠ 0 →
      out_frames cfg s
        = frame_of (lwb_out_buffer_get cfg s out_data out_len).2.2.1
            (lwb_out_buffer_get cfg s out_data out_len).2.2.2
          :: out_frames cfg (lwb_out_buffer_get cfg s out_data out_len).2.1 ∧
      (lwb_out_buffer_get cfg s out_data out_len).2.2.2
        = s.out_buffer_mem
            (s.out_buffer.start + s.out_buffer.read_idx * (cfg.LWB_CONF_MAX_DATA_PKT_LEN + 1)
              + cfg.LWB_CONF_MAX_DATA_PKT_LEN) ∧
      FIFO_CNT (lwb_out_buffer_get cfg s out_data out_len).2.1.out_buffer
        = FIFO_CNT s.out_buffer - 1 ∧
      (lwb_out_buffer_get cfg s out_data out_len).2.1.out_buffer_mem = s.out_buffer_mem ∧
      (lwb_out_buffer_get cfg s out_data out_len).2.1.stats = s.stats) ∧
    (FIFO_CNT s.out_buffer = 0 →
      lwb_out_buffer_get cfg s out_data out_len = (0, s, out_data, out_len)) := by
  have ho := (Reachable.rings cfg s hs).1
  unfold FIFO_CNT
  by_cases hc : s.out_buffer.count = 0
  · rw [lwb_out_buffer_get_empty cfg s out_data out_len hc]
    simp [hc]
  · have hfr := out_buffer_get_frames cfg s out_data out_len ho hc
    refine ⟨?_, ?_, fun _ => ⟨hfr.2, ?_, ?_, ?_, ?_⟩, fun h => absurd h hc⟩
    · rw [lwb_out_buffer_get_some cfg s out_data out_len hc]
      simp [hc]
    · rw [lwb_out_buffer_get_some cfg s out_data out_len hc]
      simp [hc]
    · rw [lwb_out_buffer_get_some cfg s out_data out_len hc, ho.1]
    · rw [lwb_out_buffer_get_some cfg s out_data out_len hc, fifo_get_some _ hc]
    · rw [lwb_out_buffer_get_some cfg s out_data out_len hc]
    · rw [lwb_out_buffer_get_some cfg s out_data out_len hc]

/-- Witness for C8: from the full outbound queue of the sample configuration
the get returns 1 and hands out a frame of the 2 bytes of the dummy
packet. -/
theorem out_buffer_get_oldest_witness :
    (lwb_out_buffer_get sample_cfg full_out_state blank_buffer 0).1 = 1 ∧
    (lwb_out_buffer_get sample_cfg full_out_state blank_buffer 0).2.2.2
      = full_out_state.out_buffer_mem
          (full_out_state.out_buffer.start
            + full_out_state.out_buffer.read_idx * (sample_cfg.LWB_CONF_MAX_DATA_PKT_LEN + 1)
            + sample_cfg.LWB_CONF_MAX_DATA_PKT_LEN) :=
  have h := out_buffer_get_oldest sample_cfg full_out_state blank_buffer 0 ⟨_, rfl⟩
  ⟨h.1.mpr (by decide), (h.2.2.1 (by decide)).2.1⟩

/-- C9: the queue counts are bounded and exact. With queue depths that fit
the 8-bit counts, after every sequence of calls of the queue interface (and
writes to the statistics block in between) `lwb_get_send_buffer_state()` equals the number of successful `lwb_send_pkt`
calls minus the number of successful `lwb_out_buffer_get` calls and is at
most `LWB_CONF_OUT_BUFFER_SIZE`, and `lwb_get_rcv_buffer_state()` equals the
number of successful `lwb_in_buffer_put` calls minus the number of successful
`lwb_rcv_pkt` calls and is at most `LWB_CONF_IN_BUFFER_SIZE`; and in every
reachable state a call that fails (returns 0) leaves both counts unchanged. -/
theorem queue_counts_exact (cfg : Config) (calls : List QueueCall)
    (hin : cfg.LWB_CONF_IN_BUFFER_SIZE < 2 ^ 8) (hout : cfg.LWB_CONF_OUT_BUFFER_SIZE < 2 ^ 8) :
    (lwb_get_send_buffer_state (QueueLog.run cfg (QueueLog.init cfg) calls).state
        + (QueueLog.run cfg (QueueLog.init cfg) calls).out_returned.length
      = (QueueLog.run cfg (QueueLog.init cfg) calls).out_accepted.length ∧
     lwb_get_send_buffer_state (QueueLog.run cfg (QueueLog.init cfg) calls).state
      = (QueueLog.run cfg (QueueLog.init cfg) calls).out_accepted.length
        - (QueueLog.run cfg (QueueLog.init cfg) calls).out_returned.length ∧
     lwb_get_send_buffer_state (QueueLog.run cfg (QueueLog.init cfg) calls).state
      ≤ cfg.LWB_CONF_OUT_BUFFER_SIZE) ∧
    (lwb_get_rcv_buffer_state (QueueLog.run cfg (QueueLog.init cfg) calls).state
        + (QueueLog.run cfg (QueueLog.init cfg) calls).in_returned.length
      = (QueueLog.run cfg (QueueLog.init cfg) calls).in_accepted.length ∧
     lwb_get_rcv_buffer_state (QueueLog.run cfg (QueueLog.init cfg) calls).state
      = (QueueLog.run cfg (QueueLog.init cfg) calls).in_accepted.length
        - (QueueLog.run cfg (QueueLog.init cfg) calls).in_returned.length ∧
     lwb_get_rcv_buffer_state (QueueLog.run cfg (QueueLog.init cfg) calls).state
      ≤ cfg.LWB_CONF_IN_BUFFER_SIZE) ∧
    (∀ s, Reachable cfg s →
      (∀ recipient stream_id data len,
        (lwb_send_pkt cfg s recipient stream_id data len).1 = 0 →
        lwb_get_send_buffer_state (lwb_send_pkt cfg s recipient stream_id data len).2
          = lwb_get_send_buffer_state s ∧
        lwb_get_rcv_buffer_state (lwb_send_pkt cfg s recipient stream_id data len).2
          = lwb_get_rcv_buffer_state s) ∧
      (∀ out_data out_len,
        (lwb_out_buffer_get cfg s out_data out_len).1 = 0 →
        lwb_get_send_buffer_state (lwb_out_buffer_get cfg s out_data out_len).2.1
          = lwb_get_send_buffer_state s ∧
        lwb_get_rcv_buffer_state (lwb_out_buffer_get cfg s out_data out_len).2.1
          = lwb_get_rcv_buffer_state s) ∧
      (∀ data len,
        (lwb_in_buffer_put cfg s data len).1 = 0 →
        lwb_get_send_buffer_state (lwb_in_buffer_put cfg s data len).2
          = lwb_get_send_buffer_state s ∧
        lwb_get_rcv_buffer_state (lwb_in_buffer_put cfg s data len).2
          = lwb_get_rcv_buffer_state s) ∧
      (∀ out_data,
        (lwb_rcv_pkt cfg s out_data).1 = 0 →
        lwb_get_send_buffer_state (lwb_rcv_pkt cfg s out_data).2.1
          = lwb_get_send_buffer_state s ∧
        lwb_get_rcv_buffer_state (lwb_rcv_pkt cfg s out_data).2.1
          = lwb_get_rcv_buffer_state s)) := by
  have hr : Reachable cfg (QueueLog.run cfg (QueueLog.init cfg) calls).state := ⟨calls, rfl⟩
  obtain ⟨ho, hi, hfo, hfi⟩ := QueueLog.ok_run cfg calls _ (QueueLog.ok_init cfg)
  have hlo := congrArg List.length hfo
  have hli := congrArg List.length hfi
  rw [List.length_append] at hlo hli
  unfold out_frames at hlo
  unfold in_frames at hli
  rw [fifo_frames_length] at hlo hli
  rw [send_buffer_state_eq cfg _ hr hout, rcv_buffer_state_eq cfg _ hr hin]
  refine ⟨⟨by omega, by omega, ho.2.2.1⟩, ⟨by omega, by omega, hi.2.2.1⟩, ?_⟩
  intro s hs
  obtain ⟨so, si⟩ := Reachable.rings cfg s hs
  refine ⟨?_, ?_, ?_, ?_⟩
  · intro recipient stream_id data len
    cases data with
    | none => intro _; exact ⟨rfl, rfl⟩
    | some d =>
      rcases Nat.lt_or_ge cfg.LWB_CONF_MAX_DATA_PKT_LEN len with hl | hl
      · rw [lwb_send_pkt_long cfg _ _ _ _ _ hl]
        intro _; exact ⟨rfl, rfl⟩
      · by_cases hfull : s.out_buffer.count = s.out_buffer.num_elem
        · rw [lwb_send_pkt_full cfg _ _ _ _ _ hl hfull]
          intro _; exact ⟨rfl, rfl⟩
        · rw [lwb_send_pkt_free cfg _ _ _ _ _ hl hfull]
          intro h
          exact absurd h Nat.one_ne_zero
  · intro out_data out_len
    by_cases hc : s.out_buffer.count = 0
    · rw [lwb_out_buffer_get_empty cfg _ _ _ hc]
      intro _; exact ⟨rfl, rfl⟩
    · rw [lwb_out_buffer_get_some cfg _ _ _ hc]
      intro h
      exact absurd h Nat.one_ne_zero
  · intro data len
    by_cases hbad : len = 0 ∨ len > cfg.LWB_CONF_MAX_DATA_PKT_LEN
    · rw [lwb_in_buffer_put_bad cfg _ _ _ hbad]
      intro _; exact ⟨rfl, rfl⟩
    · by_cases hfull : s.in_buffer.count = s.in_buffer.num_elem
      · rw [lwb_in_buffer_put_full cfg _ _ _ (by omega) (by omega) hfull]
        intro _; exact ⟨rfl, rfl⟩
      · rw [lwb_in_buffer_put_free cfg _ _ _ (by omega) (by omega) hfull]
        intro h
        exact absurd h Nat.one_ne_zero
  · intro out_data
    cases out_data with
    | none => intro _; exact ⟨rfl, rfl⟩
    | some out =>
      by_cases hc : s.in_buffer.count = 0
      · rw [lwb_rcv_pkt_empty cfg _ _ hc]
        intro _; exact ⟨rfl, rfl⟩
      · have h1 := (rcv_pkt_frames cfg s out si hc).2.1
        intro h
        omega

/-- Witness for C9: after five accepted dummy packets in the sample
configuration the send buffer count is 5, the depth, and the receive buffer
count is 0. -/
theorem queue_counts_exact_witness :
    lwb_get_send_buffer_state full_out_state + 0 = 5 ∧
    lwb_get_rcv_buffer_state full_out_state + 0 = 0 :=
  have h := queue_counts_exact sample_cfg
    (List.replicate 5 (QueueCall.send_pkt 0 1 (some dummy_packet) 2)) (by decide) (by decide)
  ⟨h.1.1, h.2.1.1⟩

/-! ### Host contention slot and second schedule -/

theorem land_cont_of_lt (x : Nat) (h : x < 2 ^ 15) : x &&& 0x8000 = 0 := by
  apply Nat.eq_of_testBit_eq
  intro i
  have h2 : (0x8000 : Nat) = 2 ^ 15 := by norm_num
  rw [Nat.testBit_and, h2, Nat.testBit_two_pow, Nat.zero_testBit]
  by_cases hi : 15 = i
  · subst hi
    rw [Nat.testBit_lt_two_pow h]
    rfl
  · simp [hi]

theorem has_cont_of_lt (s : lwb_schedule_t) (h : s.n_slots < 2 ^ 15) :
    LWB_SCHED_HAS_CONT_SLOT s = false := by
  simp [LWB_SCHED_HAS_CONT_SLOT, land_cont_of_lt _ h]

theorem has_cont_sack_of_lt (s : lwb_schedule_t) (h : s.n_slots < 2 ^ 8) :
    LWB_SCHED_HAS_CONT_SLOT (LWB_SCHED_SET_SACK_SLOT s) = false := by
  apply has_cont_of_lt
  show s.n_slots ||| 0x4000 < 2 ^ 15
  exact Nat.or_lt_two_pow (by omega) (by norm_num)

theorem assign_all_lt (l : List lwb_stream_list_t) (slot : Nat → Nat) (n : Nat)
    (h : n < 2 ^ 8) : (assign_all l slot n).2 < 2 ^ 8 := by
  induction l generalizing slot n with
  | nil => exact h
  | cons c rest ih => exact ih _ _ (Nat.mod_lt _ (by norm_num))

theorem assign_active_lt (cfg : Config) (l : List lwb_stream_list_t) (slot : Nat → Nat)
    (n : Nat) (h : n < 2 ^ 8) : (assign_active cfg l slot n).2 < 2 ^ 8 := by
  induction l generalizing slot n with
  | nil => exact h
  | cons c rest ih =>
    unfold assign_active
    split
    · split
      · exact ih _ _ (Nat.mod_lt _ (by norm_num))
      · exact ih _ _ h
    · exact h

/-- In the idle state with contention activity the scheduler emits the
request-round schedule, whose period is 1. -/
theorem lwb_sched_compute_idle_rx (cfg : Config) (n_rx_started : Nat) (st : AeState)
    (sched : lwb_schedule_t) (streams_to_update : Nat → Nat) (reserve_slot_host : Nat)
    (h0 : st.sched_state = 0) (hrx : n_rx_started ≠ 0) :
    (lwb_sched_compute cfg n_rx_started st sched streams_to_update
      reserve_slot_host).2.2.period = 1 := by
  simp [lwb_sched_compute, h0, hrx]

theorem data_round_slots_lt (cfg : Config) (n_streams : Nat)
    (streams_list : List lwb_stream_list_t) :
    (data_round_slots cfg n_streams streams_list).2 < 2 ^ 8 := by
  unfold data_round_slots
  split
  · exact assign_active_lt cfg _ _ _ (by norm_num)
  · norm_num

theorem lwb_sched_compute_idle_rx_slots (cfg : Config) (n_rx_started : Nat) (st : AeState)
    (sched : lwb_schedule_t) (streams_to_update : Nat → Nat) (reserve_slot_host : Nat)
    (h0 : st.sched_state = 0) (hrx : n_rx_started ≠ 0) :
    (lwb_sched_compute cfg n_rx_started st sched streams_to_update
      reserve_slot_host).2.2.n_slots = (assign_all st.streams_list (fun _ => 0) 0).2 := by
  simp [lwb_sched_compute, h0, hrx]

theorem lwb_sched_compute_idle_quiet (cfg : Config) (n_rx_started : Nat) (st : AeState)
    (sched : lwb_schedule_t) (streams_to_update : Nat → Nat) (reserve_slot_host : Nat)
    (h0 : st.sched_state = 0) (hrx : n_rx_started = 0) :
    (lwb_sched_compute cfg n_rx_started st sched streams_to_update
      reserve_slot_host).2.1.sched_state = 0 := by
  simp [lwb_sched_compute, h0, hrx]

theorem lwb_sched_compute_request_some (cfg : Config) (n_rx_started : Nat) (st : AeState)
    (sched : lwb_schedule_t) (streams_to_update : Nat → Nat) (reserve_slot_host : Nat)
    (h1 : st.sched_state = 1)
    (ha : (data_round_slots cfg st.n_streams st.streams_list).2 ≠ 0) :
    (lwb_sched_compute cfg n_rx_started st sched streams_to_update
      reserve_slot_host).2.2.n_slots
      = (data_round_slots cfg st.n_streams st.streams_list).2
          ||| 0x4000 := by
  simp [lwb_sched_compute, h1, ha, LWB_SCHED_SET_SACK_SLOT]

theorem lwb_sched_compute_request_none (cfg : Config) (n_rx_started : Nat) (st : AeState)
    (sched : lwb_schedule_t) (streams_to_update : Nat → Nat) (reserve_slot_host : Nat)
    (h1 : st.sched_state = 1)
    (ha : (data_round_slots cfg st.n_streams st.streams_list).2 = 0) :
    (lwb_sched_compute cfg n_rx_started st sched streams_to_update
      reserve_slot_host).2.1.sched_state = 0 := by
  simp [lwb_sched_compute, h1, ha]

theorem lwb_sched_compute_data (cfg : Config) (n_rx_started : Nat) (st : AeState)
    (sched : lwb_schedule_t) (streams_to_update : Nat → Nat) (reserve_slot_host : Nat)
    (h2 : st.sched_state = 2) :
    (lwb_sched_compute cfg n_rx_started st sched streams_to_update
      reserve_slot_host).2.1.sched_state = 0 := by
  simp [lwb_sched_compute, h2]

theorem lwb_sched_compute_other (cfg : Config) (n_rx_started : Nat) (st : AeState)
    (sched : lwb_schedule_t) (streams_to_update : Nat → Nat) (reserve_slot_host : Nat)
    (h0 : st.sched_state ≠ 0) (h1 : st.sched_state ≠ 1) (h2 : st.sched_state ≠ 2) :
    (lwb_sched_compute cfg n_rx_started st sched streams_to_update
      reserve_slot_host).2.1.sched_state = st.sched_state ∧
    (lwb_sched_compute cfg n_rx_started st sched streams_to_update
      reserve_slot_host).2.2.n_slots = sched.n_slots := by
  simp [lwb_sched_compute, h0, h1, h2]

/-- A schedule with a contention slot comes with an idle scheduler: every
call of `lwb_sched_compute` keeps this. -/
theorem lwb_sched_compute_cont_idle (cfg : Config) (n_rx_started : Nat) (st : AeState)
    (sched : lwb_schedule_t) (streams_to_update : Nat → Nat) (reserve_slot_host : Nat)
    (h : LWB_SCHED_HAS_CONT_SLOT sched = true → st.sched_state = 0) :
    LWB_SCHED_HAS_CONT_SLOT
        (lwb_sched_compute cfg n_rx_started st sched streams_to_update reserve_slot_host).2.2
      = true →
    (lwb_sched_compute cfg n_rx_started st sched streams_to_update
      reserve_slot_host).2.1.sched_state = 0 := by
  intro hc
  by_cases h0 : st.sched_state = 0
  · by_cases hrx : n_rx_started = 0
    · exact lwb_sched_compute_idle_quiet cfg _ _ _ _ _ h0 hrx
    · exfalso
      have hn := lwb_sched_compute_idle_rx_slots cfg n_rx_started st sched streams_to_update
        reserve_slot_host h0 hrx
      have hlt := assign_all_lt st.streams_list (fun _ => 0) 0 (by norm_num)
      rw [has_cont_of_lt _ (by rw [hn]; omega)] at hc
      exact Bool.noConfusion hc
  · by_cases h1 : st.sched_state = 1
    · by_cases ha : (data_round_slots cfg st.n_streams st.streams_list).2 = 0
      · exact lwb_sched_compute_request_none cfg _ _ _ _ _ h1 ha
      · exfalso
        have hn := lwb_sched_compute_request_some cfg n_rx_started st sched streams_to_update
          reserve_slot_host h1 ha
        have hlt := data_round_slots_lt cfg st.n_streams st.streams_list
        have hlt2 : (data_round_slots cfg st.n_streams st.streams_list).2 ||| 0x4000 < 2 ^ 15 :=
          Nat.or_lt_two_pow (by omega) (by norm_num)
        rw [has_cont_of_lt _ (by rw [hn]; exact hlt2)] at hc
        exact Bool.noConfusion hc
    · by_cases h2 : st.sched_state = 2
      · exact lwb_sched_compute_data cfg _ _ _ _ _ h2
      · obtain ⟨hs, hn⟩ := lwb_sched_compute_other cfg n_rx_started st sched streams_to_update
          reserve_slot_host h0 h1 h2
        have hc2 : LWB_SCHED_HAS_CONT_SLOT sched = true := by
          unfold LWB_SCHED_HAS_CONT_SLOT at hc ⊢
          rw [hn] at hc
          exact hc
        exact absurd (h hc2) h0

theorem lwb_sched_proc_srq_state (cfg : Config) (st : AeState) (req : lwb_stream_req_t) :
    (lwb_sched_proc_srq cfg st req).sched_state = st.sched_state := by
  dsimp only [lwb_sched_proc_srq]
  split_ifs <;> rfl

theorem lwb_sched_proc_srq_time (cfg : Config) (st : AeState) (req : lwb_stream_req_t) :
    (lwb_sched_proc_srq cfg st req).time = st.time := by
  dsimp only [lwb_sched_proc_srq]
  split_ifs <;> rfl

theorem HostSchedCall.apply_cont_idle (cfg : Config) (p : AeState × lwb_schedule_t)
    (c : HostSchedCall) (h : LWB_SCHED_HAS_CONT_SLOT p.2 = true → p.1.sched_state = 0) :
    LWB_SCHED_HAS_CONT_SLOT (HostSchedCall.apply cfg p c).2 = true →
    (HostSchedCall.apply cfg p c).1.sched_state = 0 := by
  cases c with
  | proc_srq req =>
    intro hc
    show (lwb_sched_proc_srq cfg p.1 req).sched_state = 0
    rw [lwb_sched_proc_srq_state]
    exact h hc
  | compute n_rx_started streams_to_update reserve_slot_host =>
    exact lwb_sched_compute_cont_idle cfg _ _ _ _ _ h
  | set_period_zero => exact h
  | set_time schedule_time sched_time => exact h
  | uncompress slot => exact h

theorem host_sched_foldl_cont_idle (cfg : Config) (calls : List HostSchedCall)
    (p : AeState × lwb_schedule_t)
    (h : LWB_SCHED_HAS_CONT_SLOT p.2 = true → p.1.sched_state = 0) :
    LWB_SCHED_HAS_CONT_SLOT (calls.foldl (HostSchedCall.apply cfg) p).2 = true →
    (calls.foldl (HostSchedCall.apply cfg) p).1.sched_state = 0 := by
  induction calls generalizing p with
  | nil => exact h
  | cons c cs ih => exact ih _ (HostSchedCall.apply_cont_idle cfg p c h)

/-- Whenever the host holds a schedule with a contention slot, the AE
scheduler is in its idle state. -/
theorem HostReachable.cont_idle (cfg : Config) (h : HostState) (hr : HostReachable cfg h)
    (hc : LWB_SCHED_HAS_CONT_SLOT h.schedule = true) : h.sched.sched_state = 0 := by
  obtain ⟨calls, hrun⟩ := hr
  have := host_sched_foldl_cont_idle cfg calls (lwb_sched_init cfg schedule_zero).2
    (fun _ => rfl)
  unfold host_sched_run at hrun
  rw [hrun] at this
  exact this hc

/-- C10: in a host round with a contention slot the host sends a second
schedule of 2 bytes. If it observed `n_rx_started == 0` in the contention
slot, the frame carries the period 0 and the schedule is not recomputed (the
schedule, the scheduler state and time, and `srq_cnt` are unchanged). If
activity was observed, the schedule is the one recomputed by
`lwb_sched_compute` called with `schedule.period` set to 0, the frame carries
the period of that schedule, and this period is not 0. -/
theorem host_second_schedule (cfg : Config) (rx : glossy_result) (null_page : Nat → Nat)
    (h : HostState) (hr : HostReachable cfg h)
    (hc : LWB_SCHED_HAS_CONT_SLOT h.schedule = true) :
    ∃ frame, (host_contention_slot cfg rx null_page h).2 = some frame ∧
      frame.2 = 2 ∧
      (rx.n_rx_started = 0 →
        frame.1 0 = 0 ∧
        (host_contention_slot cfg rx null_page h).1.schedule = h.schedule ∧
        (host_contention_slot cfg rx null_page h).1.sched.sched_state = h.sched.sched_state ∧
        (host_contention_slot cfg rx null_page h).1.sched.time = h.sched.time ∧
        (host_contention_slot cfg rx null_page h).1.srq_cnt = h.srq_cnt) ∧
      (rx.n_rx_started ≠ 0 →
        (host_contention_slot cfg rx null_page h).1.schedule
          = (lwb_sched_compute cfg rx.n_rx_started
              (if rx.n_rx > 0 ∧ rx.payload 0 ≠ 0 then
                lwb_sched_proc_srq cfg h.sched ⟨rx.payload 0⟩ else h.sched)
              { h.schedule with period := 0 } null_page 0).2.2 ∧
        frame.1 0 = (host_contention_slot cfg rx null_page h).1.schedule.period ∧
        (host_contention_slot cfg rx null_page h).1.schedule.period ≠ 0) := by
  have h0 := HostReachable.cont_idle cfg h hr hc
  have h1 : (if rx.n_rx > 0 ∧ rx.payload 0 ≠ 0 then
      lwb_sched_proc_srq cfg h.sched ⟨rx.payload 0⟩ else h.sched).sched_state = 0 := by
    split
    · rw [lwb_sched_proc_srq_state]; exact h0
    · exact h0
  have hp := lwb_sched_compute_idle_rx cfg rx.n_rx_started _ { h.schedule with period := 0 }
    null_page 0 h1
  by_cases hrx : rx.n_rx_started = 0
  · refine ⟨_, by simp only [host_contention_slot, hc, if_true]; rfl, ?_, ?_, ?_⟩
    · simp [hrx]
    · intro _
      by_cases hq : rx.n_rx > 0 ∧ rx.payload 0 ≠ 0
      · simp [host_contention_slot, hc, hrx, hq, array_store, lwb_sched_proc_srq_state,
          lwb_sched_proc_srq_time]
      · simp [host_contention_slot, hc, hrx, hq, array_store]
    · intro hne
      exact absurd hrx hne
  · refine ⟨_, by simp only [host_contention_slot, hc, if_true]; rfl, ?_, ?_, ?_⟩
    · simp [hrx]
    · intro hne
      exact absurd hne hrx
    · intro _
      have hp2 := hp hrx
      by_cases hq : rx.n_rx > 0 ∧ rx.payload 0 ≠ 0
      · rw [if_pos hq] at hp2
        simp only [host_contention_slot, hc, hrx, hq, array_store, if_true, if_false,
          ne_eq, not_false_eq_true, and_self]
        refine ⟨trivial, ?_, ?_⟩
        · simp [hp2]
        · rw [hp2]; exact Nat.one_ne_zero
      · rw [if_neg hq] at hp2
        simp only [host_contention_slot, hc, hrx, hq, array_store, if_true, if_false,
          ne_eq, not_false_eq_true]
        refine ⟨trivial, ?_, ?_⟩
        · simp [hp2]
        · rw [hp2]; exact Nat.one_ne_zero

/-- Witness for C10: the host of the sample configuration, right after
start-up, hears a request in its contention slot; the period it announces in
the second schedule is not 0. -/
theorem host_second_schedule_witness :
    (host_contention_slot sample_cfg sample_request blank_buffer sample_host).1.schedule.period
      ≠ 0 :=
  match host_second_schedule sample_cfg sample_request blank_buffer sample_host
    ⟨[], rfl⟩ (by decide) with
  | ⟨_, _, _, _, h⟩ => (h (by decide)).2.2

/-! ### Source round: what each phase leaves alone -/

theorem lwb_in_buffer_put_stats (cfg : Config) (q : LwbState) (data : Nat → Nat) (len : Nat) :
    (lwb_in_buffer_put cfg q data len).2.stats.drift = q.stats.drift ∧
    (lwb_in_buffer_put cfg q data len).2.stats.unsynced_cnt = q.stats.unsynced_cnt := by
  unfold lwb_in_buffer_put
  split
  · exact ⟨rfl, rfl⟩
  · split <;> exact ⟨rfl, rfl⟩

theorem lwb_out_buffer_get_stats (cfg : Config) (q : LwbState) (out_data : Nat → Nat)
    (out_len : Nat) :
    (lwb_out_buffer_get cfg q out_data out_len).2.1.stats = q.stats := by
  unfold lwb_out_buffer_get
  split <;> rfl

theorem src_receive_schedule_keeps (cfg : Config) (rcv : sched_reception) (s : SrcState) :
    (src_receive_schedule cfg rcv s).1.sync_state = s.sync_state ∧
    (src_receive_schedule cfg rcv s).1.queues = s.queues ∧
    (src_receive_schedule cfg rcv s).1.schedule = rcv.schedule ∧
    (src_receive_schedule cfg rcv s).1.global_time = s.global_time ∧
    (src_receive_schedule cfg rcv s).1.last_synced_lf = s.last_synced_lf ∧
    (src_receive_schedule cfg rcv s).1.q.stats.drift = s.q.stats.drift := by
  dsimp only [src_receive_schedule, SrcState.queues]
  split_ifs <;> exact ⟨rfl, rfl, rfl, rfl, rfl, rfl⟩

theorem src_sync_keeps (cfg : Config) (upd : Bool) (s : SrcState) :
    (src_sync cfg upd s).1.sync_state = sync_update upd s.sync_state ∧
    (src_sync cfg upd s).1.t_guard = guard_time cfg (sync_update upd s.sync_state) ∧
    ((src_sync cfg upd s).2 = true ↔ sync_update upd s.sync_state = BOOTSTRAP) ∧
    (src_sync cfg upd s).1.queues = s.queues ∧
    (src_sync cfg upd s).1.schedule = s.schedule ∧
    (src_sync cfg upd s).1.global_time = s.global_time ∧
    (src_sync cfg upd s).1.last_synced_lf = s.last_synced_lf ∧
    (src_sync cfg upd s).1.q.stats.drift = s.q.stats.drift := by
  dsimp only [src_sync, sync_update, SrcState.queues]
  split_ifs with h1 h2
  · exact ⟨rfl, rfl, by simp [h1], rfl, rfl, rfl, rfl, rfl⟩
  · exact ⟨rfl, rfl, by simp [h2], rfl, rfl, rfl, rfl, rfl⟩
  · exact ⟨rfl, rfl, by simp [h2], rfl, rfl, rfl, rfl, rfl⟩

/-- The stores of a published time leave the sync state, the queues, the
schedule and the reference times of the round alone. -/
theorem src_publish_keeps (s : SrcState) (d : Int) :
    (src_publish s d).sync_state = s.sync_state ∧
    (src_publish s d).queues = s.queues ∧
    (src_publish s d).schedule = s.schedule ∧
    (src_publish s d).t_ref = s.t_ref ∧
    (src_publish s d).t_ref_lf = s.t_ref_lf :=
  ⟨rfl, rfl, rfl, rfl, rfl⟩

/-- The first-schedule step leaves the sync state, the queues, the schedule
and the reference times of the round alone. -/
theorem src_first_schedule_keeps (cfg : Config) (s : SrcState) :
    (src_first_schedule cfg s).sync_state = s.sync_state ∧
    (src_first_schedule cfg s).queues = s.queues ∧
    (src_first_schedule cfg s).schedule = s.schedule ∧
    (src_first_schedule cfg s).t_ref = s.t_ref ∧
    (src_first_schedule cfg s).t_ref_lf = s.t_ref_lf := by
  unfold src_first_schedule
  split_ifs
  · exact src_publish_keeps s _
  · exact ⟨rfl, rfl, rfl, rfl, rfl⟩

theorem src_time_received_keeps (cfg : Config) (rcv : sched_reception) (s : SrcState) :
    (src_time_received cfg rcv s).sync_state = s.sync_state ∧
    (src_time_received cfg rcv s).queues = s.queues ∧
    (src_time_received cfg rcv s).schedule = s.schedule := by
  have h := src_first_schedule_keeps cfg
    { s with t_ref := usub 64 rcv.t_ref cfg.LWB_CONF_T_REF_OFS,
             t_ref_lf := usub 64 rcv.lf_now
               ((usub 64 rcv.hf_now (usub 64 rcv.t_ref cfg.LWB_CONF_T_REF_OFS)) % 2 ^ 32
                 / (cfg.RTIMER_HF_LF_RATIO % 2 ^ 32)) }
  exact ⟨h.1, h.2.1, h.2.2.1⟩

theorem src_time_missed_keeps (cfg : Config) (s : SrcState) :
    (src_time_missed cfg s).sync_state = s.sync_state ∧
    (src_time_missed cfg s).queues = s.queues ∧
    (src_time_missed cfg s).global_time = s.global_time ∧
    (src_time_missed cfg s).last_synced_lf = s.last_synced_lf ∧
    (src_time_missed cfg s).q.stats.drift = s.q.stats.drift := by
  dsimp only [src_time_missed, SrcState.queues]
  split_ifs <;> exact ⟨rfl, rfl, rfl, rfl, rfl⟩

theorem src_time_recovery_keeps (cfg : Config) (rcv : sched_reception) (upd : Bool)
    (s : SrcState) :
    (src_time_recovery cfg rcv upd s).sync_state = s.sync_state ∧
    (src_time_recovery cfg rcv upd s).queues = s.queues := by
  dsimp only [src_time_recovery]
  split_ifs
  · exact ⟨(src_time_received_keeps cfg rcv s).1, (src_time_received_keeps cfg rcv s).2.1⟩
  · exact ⟨(src_time_missed_keeps cfg s).1, (src_time_missed_keeps cfg s).2.1⟩

theorem src_round_end_keeps (cfg : Config) (s : SrcState) :
    (src_round_end cfg s).1.clocks = s.clocks ∧
    (src_round_end cfg s).1.queues = s.queues := by
  dsimp only [src_round_end, SrcState.queues, SrcState.clocks]
  split_ifs <;> exact ⟨rfl, rfl⟩

theorem src_second_schedule_keeps (rx : glossy_result) (p : SrcState × List SrcRadio) :
    (src_second_schedule rx p).1.clocks = p.1.clocks ∧
    (src_second_schedule rx p).1.queues = p.1.queues := by
  dsimp only [src_second_schedule, SrcState.queues, SrcState.clocks]
  split_ifs <;> exact ⟨rfl, rfl⟩


theorem src_data_slot_clocks (cfg : Config) (rx : glossy_result)
    (p : SrcState × List SrcRadio) (i : Nat) :
    (src_data_slot cfg rx p i).1.clocks = p.1.clocks := by
  dsimp only [src_data_slot, SrcState.clocks]
  split_ifs <;>
    simp only [lwb_out_buffer_get_stats, (lwb_in_buffer_put_stats _ _ _ _).1,
      (lwb_in_buffer_put_stats _ _ _ _).2]

theorem src_data_fold_clocks (cfg : Config) (f : Nat → glossy_result) (l : List Nat)
    (p : SrcState × List SrcRadio) :
    (l.foldl (fun acc i => src_data_slot cfg (f i) acc i) p).1.clocks = p.1.clocks := by
  induction l generalizing p with
  | nil => rfl
  | cons i rest ih =>
    rw [List.foldl_cons, ih, src_data_slot_clocks]

theorem src_data_slots_clocks (cfg : Config) (env : src_round_env)
    (p : SrcState × List SrcRadio) :
    (src_data_slots cfg env p).1.clocks = p.1.clocks := by
  unfold src_data_slots
  split_ifs
  · rw [src_data_fold_clocks]; rfl
  · rw [src_data_fold_clocks]; rfl
  · rfl

theorem src_contention_clocks (cfg : Config) (env : src_round_env)
    (p : SrcState × List SrcRadio) :
    (src_contention cfg env p).1.clocks = p.1.clocks := by
  unfold src_contention
  by_cases h : LWB_SCHED_HAS_CONT_SLOT p.1.schedule = true
  · rw [if_pos h]
    dsimp only
    rw [(src_second_schedule_keeps _ _).1]
    dsimp only [SrcState.clocks]
    split_ifs <;> rfl
  · rw [if_neg h]

theorem src_participate_clocks (cfg : Config) (env : src_round_env) (s : SrcState) :
    (src_participate cfg env s).1.clocks = s.clocks := by
  unfold src_participate
  split_ifs
  · rw [src_contention_clocks, src_data_slots_clocks]; rfl
  · rfl

theorem src_participate_idle (cfg : Config) (env : src_round_env) (s : SrcState)
    (h : s.sync_state ≠ SYNCED) : src_participate cfg env s = (s, []) := by
  unfold src_participate
  rw [if_neg h]

theorem SrcState.clocks_fields (a b : SrcState) (h : a.clocks = b.clocks) :
    a.sync_state = b.sync_state ∧ a.global_time = b.global_time ∧
    a.rx_timestamp = b.rx_timestamp ∧ a.last_synced_lf = b.last_synced_lf ∧
    a.t_ref = b.t_ref ∧ a.t_ref_lf = b.t_ref_lf ∧ a.period_idle = b.period_idle ∧
    a.t_guard = b.t_guard ∧ a.q.stats.drift = b.q.stats.drift ∧
    a.q.stats.unsynced_cnt = b.q.stats.unsynced_cnt := by
  simp only [SrcState.clocks, Prod.mk.injEq] at h
  exact h

theorem src_round_restart (cfg : Config) (env : src_round_env) (s : SrcState)
    (h : (src_sync cfg (src_receive_schedule cfg env.rcv s).2
      (src_receive_schedule cfg env.rcv s).1).2 = true) :
    lwb_thread_src_round cfg env s =
      { state := (src_sync cfg (src_receive_schedule cfg env.rcv s).2
          (src_receive_schedule cfg env.rcv s).1).1,
        radio := [], restart := true, wakeup := 0 } := by
  unfold lwb_thread_src_round
  simp only [h, if_true]

theorem src_round_continue (cfg : Config) (env : src_round_env) (s : SrcState)
    (h : (src_sync cfg (src_receive_schedule cfg env.rcv s).2
      (src_receive_schedule cfg env.rcv s).1).2 = false) :
    lwb_thread_src_round cfg env s =
      { state := (src_round_end cfg (src_participate cfg env
          (src_time_recovery cfg env.rcv (src_receive_schedule cfg env.rcv s).2
            (src_sync cfg (src_receive_schedule cfg env.rcv s).2
              (src_receive_schedule cfg env.rcv s).1).1)).1).1,
        radio := (src_participate cfg env
          (src_time_recovery cfg env.rcv (src_receive_schedule cfg env.rcv s).2
            (src_sync cfg (src_receive_schedule cfg env.rcv s).2
              (src_receive_schedule cfg env.rcv s).1).1)).2,
        restart := false,
        wakeup := (src_round_end cfg (src_participate cfg env
          (src_time_recovery cfg env.rcv (src_receive_schedule cfg env.rcv s).2
            (src_sync cfg (src_receive_schedule cfg env.rcv s).2
              (src_receive_schedule cfg env.rcv s).1).1)).1).2 } := by
  unfold lwb_thread_src_round
  simp only [h, Bool.false_eq_true, if_false]

/-- The sync state at the end of a source round is the one that the sync
update of the round computed from the state at its start. -/
theorem src_round_sync_state (cfg : Config) (env : src_round_env) (s : SrcState) :
    (lwb_thread_src_round cfg env s).state.sync_state =
      sync_update (src_receive_schedule cfg env.rcv s).2 s.sync_state := by
  have h1 := (src_receive_schedule_keeps cfg env.rcv s).1
  have h2 := (src_sync_keeps cfg (src_receive_schedule cfg env.rcv s).2
    (src_receive_schedule cfg env.rcv s).1).1
  rw [h1] at h2
  cases hr : (src_sync cfg (src_receive_schedule cfg env.rcv s).2
      (src_receive_schedule cfg env.rcv s).1).2 with
  | true =>
    rw [src_round_restart cfg env s hr]
    exact h2
  | false =>
    rw [src_round_continue cfg env s hr]
    show (src_round_end cfg _).1.sync_state = _
    rw [(SrcState.clocks_fields _ _ (src_round_end_keeps cfg _).1).1,
      (SrcState.clocks_fields _ _ (src_participate_clocks cfg env _)).1,
      (src_time_recovery_keeps cfg env.rcv _ _).1]
    exact h2

theorem src_second_schedule_schedule (rx : glossy_result) (p : SrcState × List SrcRadio) :
    (src_second_schedule rx p).1.schedule =
      if 0 < rx.n_rx ∧ rx.payload 0 ≠ 0 then
        { p.1.schedule with period := rx.payload 0, n_slots := 0 }
      else p.1.schedule := by
  dsimp only [src_second_schedule]
  by_cases h1 : rx.n_rx > 0
  · by_cases h2 : rx.payload 0 = 0
    · simp [h1, h2]
    · simp [h1, h2]
  · simp [h1]

theorem src_contention_second (cfg : Config) (env : src_round_env)
    (p : SrcState × List SrcRadio) (h : LWB_SCHED_HAS_CONT_SLOT p.1.schedule = true) :
    ∃ q : SrcState × List SrcRadio, q.1.schedule = p.1.schedule ∧
      q.1.q = p.1.q ∧
      src_contention cfg env p = src_second_schedule env.sched2_rx q := by
  unfold src_contention
  rw [if_pos h]
  refine ⟨_, ?_, ?_, rfl⟩
  · dsimp only
    split_ifs <;> rfl
  · dsimp only
    split_ifs <;> rfl

/-- C11: on the source, after the contention slot (a round whose schedule has
the `CONT` flag), the second schedule decides the schedule of the node: if
it is received (`glossy_get_n_rx() > 0`) with the value 0 the schedule is
unchanged, so `period` and `n_slots` are; if it is received with a value
other than 0, `period` becomes that value and `n_slots` is reset to 0, with
time and slots as before; if it is not received, the schedule is unchanged.
In a round without a contention slot nothing is done. -/
theorem second_schedule_period (cfg : Config) (env : src_round_env)
    (p : SrcState × List SrcRadio) :
    (LWB_SCHED_HAS_CONT_SLOT p.1.schedule = true →
      (0 < env.sched2_rx.n_rx → env.sched2_rx.payload 0 = 0 →
        (src_contention cfg env p).1.schedule = p.1.schedule) ∧
      (0 < env.sched2_rx.n_rx → env.sched2_rx.payload 0 ≠ 0 →
        (src_contention cfg env p).1.schedule.period = env.sched2_rx.payload 0 ∧
        (src_contention cfg env p).1.schedule.n_slots = 0 ∧
        (src_contention cfg env p).1.schedule.time = p.1.schedule.time ∧
        (src_contention cfg env p).1.schedule.slot = p.1.schedule.slot) ∧
      (env.sched2_rx.n_rx = 0 →
        (src_contention cfg env p).1.schedule = p.1.schedule)) ∧
    (LWB_SCHED_HAS_CONT_SLOT p.1.schedule = false → src_contention cfg env p = p) := by
  constructor
  · intro h
    obtain ⟨q, hq, _, he⟩ := src_contention_second cfg env p h
    rw [he, src_second_schedule_schedule, hq]
    refine ⟨?_, ?_, ?_⟩
    · intro h1 h2
      simp [h2]
    · intro h1 h2
      simp [h1, h2]
    · intro h1
      simp [h1]
  · intro h
    unfold src_contention
    simp [h]

/-- C12: a source participates in a round only if SYNCED: in every source
round whose sync state after the update of the state machine is not SYNCED,
no data slot, contention slot or second schedule is sent or received (the
list of radio actions started after the schedule is empty), and both packet
queues, control blocks and arenas, are as before the round. -/
theorem src_participation_only_synced (cfg : Config) (env : src_round_env) (s : SrcState)
    (h : (lwb_thread_src_round cfg env s).state.sync_state ≠ SYNCED) :
    (lwb_thread_src_round cfg env s).radio = [] ∧
    (lwb_thread_src_round cfg env s).state.queues = s.queues ∧
    in_frames cfg (lwb_thread_src_round cfg env s).state.q = in_frames cfg s.q ∧
    out_frames cfg (lwb_thread_src_round cfg env s).state.q = out_frames cfg s.q := by
  have hq : (lwb_thread_src_round cfg env s).radio = [] ∧
      (lwb_thread_src_round cfg env s).state.queues = s.queues := by
    have h1 := (src_receive_schedule_keeps cfg env.rcv s).2.1
    have h2 := (src_sync_keeps cfg (src_receive_schedule cfg env.rcv s).2
      (src_receive_schedule cfg env.rcv s).1).2.2.2.1
    rw [h1] at h2
    cases hr : (src_sync cfg (src_receive_schedule cfg env.rcv s).2
        (src_receive_schedule cfg env.rcv s).1).2 with
    | true =>
      rw [src_round_restart cfg env s hr]
      exact ⟨rfl, h2⟩
    | false =>
      rw [src_round_continue cfg env s hr] at h ⊢
      have h3 : (src_time_recovery cfg env.rcv (src_receive_schedule cfg env.rcv s).2
          (src_sync cfg (src_receive_schedule cfg env.rcv s).2
            (src_receive_schedule cfg env.rcv s).1).1).sync_state ≠ SYNCED := by
        intro hs
        apply h
        show (src_round_end cfg _).1.sync_state = _
        rw [(SrcState.clocks_fields _ _ (src_round_end_keeps cfg _).1).1,
          (SrcState.clocks_fields _ _ (src_participate_clocks cfg env _)).1]
        exact hs
      rw [src_participate_idle cfg env _ h3]
      refine ⟨rfl, ?_⟩
      show (src_round_end cfg _).1.queues = _
      rw [(src_round_end_keeps cfg _).2, (src_time_recovery_keeps cfg env.rcv _ _).2]
      exact h2
  refine ⟨hq.1, hq.2, ?_, ?_⟩
  · have := hq.2
    simp only [SrcState.queues, Prod.mk.injEq] at this
    simp only [in_frames, this.1, this.2.2.1]
  · have := hq.2
    simp only [SrcState.queues, Prod.mk.injEq] at this
    simp only [out_frames, this.2.1, this.2.2.2]

/-- A node that misses the schedule in the state SYNCED ends the round in
UNSYNCED and leaves the radio and the queues alone. -/
theorem src_participation_only_synced_witness :
    (lwb_thread_src_round sample_cfg
      { sample_round 10 100 0x8000 1000 with
        rcv := { (sample_round 10 100 0x8000 1000).rcv with t_ref_updated := false } }
      sample_src_synced).state.sync_state ≠ SYNCED ∧
    (lwb_thread_src_round sample_cfg
      { sample_round 10 100 0x8000 1000 with
        rcv := { (sample_round 10 100 0x8000 1000).rcv with t_ref_updated := false } }
      sample_src_synced).radio = [] :=
  ⟨by decide, (src_participation_only_synced sample_cfg _ sample_src_synced (by decide)).1⟩

/-! ### Drift estimate -/

theorem tdiv_two_bounds (a : Int) :
    (0 ≤ a → 2 * a.tdiv 2 ≤ a ∧ a - 1 ≤ 2 * a.tdiv 2) ∧
    (a ≤ 0 → a ≤ 2 * a.tdiv 2 ∧ 2 * a.tdiv 2 ≤ a + 1) := by
  constructor
  · intro h
    rw [Int.tdiv_eq_ediv h (by norm_num)]
    omega
  · intro h
    have h2 : a.tdiv 2 = -((-a).tdiv 2) := by rw [Int.neg_tdiv, neg_neg]
    rw [h2, Int.tdiv_eq_ediv (by omega) (by norm_num)]
    omega

theorem tdiv_two_between (x d lo hi : Int) (hx : lo ≤ x ∧ x ≤ hi) (hd : lo ≤ d ∧ d ≤ hi) :
    lo ≤ (x + d).tdiv 2 ∧ (x + d).tdiv 2 ≤ hi := by
  have h := tdiv_two_bounds (x + d)
  rcases le_total 0 (x + d) with h0 | h0
  · have := h.1 h0
    omega
  · have := h.2 h0
    omega

theorem drift_update_between (x d lo hi : Int) (hx : lo ≤ x ∧ x ≤ hi)
    (hd : lo ≤ d ∧ d ≤ hi) :
    lo ≤ drift_update x d ∧ drift_update x d ≤ hi := by
  unfold drift_update
  split_ifs
  · exact tdiv_two_between x d lo hi hx hd
  · exact hx

theorem drift_iterate_between (d lo hi : Int) (hd : lo ≤ d ∧ d ≤ hi) (n : Nat) (x : Int)
    (hx : lo ≤ x ∧ x ≤ hi) :
    lo ≤ (fun y => drift_update y d)^[n] x ∧ (fun y => drift_update y d)^[n] x ≤ hi := by
  induction n generalizing x with
  | zero => exact hx
  | succ k ih =>
    rw [Function.iterate_succ_apply]
    exact ih _ (drift_update_between x d lo hi hx hd)

theorem abs_le_of_between (x old d : Int) (h1 : min old d ≤ x) (h2 : x ≤ max old d) :
    |x| ≤ max |old| |d| := by
  rw [abs_le]
  have a1 := neg_abs_le old
  have a2 := le_abs_self old
  have a3 := neg_abs_le d
  have a4 := le_abs_self d
  have a5 := le_max_left |old| |d|
  have a6 := le_max_right |old| |d|
  rcases le_total old d with h | h
  · rw [min_eq_left h] at h1
    rw [max_eq_right h] at h2
    constructor <;> omega
  · rw [min_eq_right h] at h1
    rw [max_eq_left h] at h2
    constructor <;> omega

theorem src_publish_drift (s : SrcState) (d : Int) : (src_publish s d).q.stats.drift = d :=
  rfl

theorem src_first_schedule_drift (cfg : Config) (s : SrcState) :
    (src_first_schedule cfg s).q.stats.drift =
      if IS_FIRST_SCHEDULE s.schedule then
        drift_update s.q.stats.drift
          (drift_sample cfg s.t_ref_lf s.last_synced_lf s.schedule.time s.global_time)
      else s.q.stats.drift := by
  unfold src_first_schedule
  split_ifs
  · exact src_publish_drift s _
  · rfl

/-- C15: the drift estimate is a moving average with factor 1/2. When the
estimate `old` is updated with a sample `d` inside the gate, the new value is
`(old + d) / 2` with the division of C, which truncates toward zero; this is
what the first-schedule step stores in `stats.drift`. Feeding the same sample
any number of times keeps the estimate between `old` and `d` and keeps its
absolute value at most `max |old| |d|`. -/
theorem drift_ewma (cfg : Config) (s : SrcState) (old d : Int)
    (hd : d < 100 ∧ d > -100) :
    drift_update old d = (old + d).tdiv 2 ∧
    (IS_FIRST_SCHEDULE s.schedule = true →
      drift_sample cfg s.t_ref_lf s.last_synced_lf s.schedule.time s.global_time = d →
      (src_first_schedule cfg s).q.stats.drift = (s.q.stats.drift + d).tdiv 2) ∧
    (∀ n : Nat,
      min old d ≤ (fun y => drift_update y d)^[n] old ∧
      (fun y => drift_update y d)^[n] old ≤ max old d ∧
      |(fun y => drift_update y d)^[n] old| ≤ max |old| |d|) := by
  have hu : ∀ x : Int, drift_update x d = (x + d).tdiv 2 := by
    intro x
    unfold drift_update
    rw [if_pos hd]
  refine ⟨hu old, ?_, ?_⟩
  · intro hc hs
    rw [src_first_schedule_drift, if_pos hc, hs, hu]
  · intro n
    have hb := drift_iterate_between d (min old d) (max old d)
      ⟨min_le_right _ _, le_max_right _ _⟩ n old ⟨min_le_left _ _, le_max_left _ _⟩
    exact ⟨hb.1, hb.2, abs_le_of_between _ old d hb.1 hb.2⟩

/-- A sample of 50 ticks averaged into an estimate of -7 gives 21, and the
estimate stays between -7 and 50 however often the sample is fed. -/
theorem drift_ewma_witness :
    drift_update (-7) 50 = ((-7 : Int) + 50).tdiv 2 ∧
    (∀ n : Nat, min (-7) 50 ≤ (fun y => drift_update y 50)^[n] (-7) ∧
      (fun y => drift_update y 50)^[n] (-7) ≤ max (-7) 50 ∧
      |(fun y => drift_update y 50)^[n] (-7)| ≤ max |(-7 : Int)| |(50 : Int)|) :=
  ⟨(drift_ewma sample_cfg sample_src (-7) 50 (by decide)).1,
   (drift_ewma sample_cfg sample_src (-7) 50 (by decide)).2.2⟩

/-! ### Timestamp interface -/

theorem usub_of_le (a b : Nat) (h1 : b ≤ a) (h2 : a < 2 ^ 64) : usub 64 a b = a - b := by
  unfold usub
  omega

/-- C16, as the code has it: `lwb_get_timestamp` takes the HF formula
`global_time*1000000 + (now_hf - rx_timestamp)*1000000/HF_HZ` in the states
BOOTSTRAP and SYNCED (the test is `sync_state <= SYNCED`), and the LF formula
`global_time*1000000 + (now_lf - last_synced_lf)*1000000/LF_HZ` in the states
UNSYNCED and UNSYNCED2, each in 64-bit unsigned arithmetic; where nothing
overflows these are the plain formulas. -/
theorem get_timestamp_formula (cfg : Config) (now_hf now_lf : Nat) (s : SrcState) :
    (s.sync_state = BOOTSTRAP ∨ s.sync_state = SYNCED →
      lwb_get_timestamp cfg now_hf now_lf s =
        ((s.global_time % 2 ^ 64 * 1000000) % 2 ^ 64
          + (usub 64 now_hf s.rx_timestamp * 1000000) % 2 ^ 64 / cfg.RTIMER_SECOND_HF)
          % 2 ^ 64) ∧
    (s.sync_state = UNSYNCED ∨ s.sync_state = UNSYNCED2 →
      lwb_get_timestamp cfg now_hf now_lf s =
        ((s.global_time % 2 ^ 64 * 1000000) % 2 ^ 64
          + (usub 64 now_lf s.last_synced_lf * 1000000) % 2 ^ 64 / cfg.RTIMER_SECOND_LF)
          % 2 ^ 64) ∧
    (s.sync_state = BOOTSTRAP ∨ s.sync_state = SYNCED →
      s.rx_timestamp ≤ now_hf → now_hf < 2 ^ 64 →
      (now_hf - s.rx_timestamp) * 1000000 < 2 ^ 64 →
      s.global_time * 1000000
        + (now_hf - s.rx_timestamp) * 1000000 / cfg.RTIMER_SECOND_HF < 2 ^ 64 →
      lwb_get_timestamp cfg now_hf now_lf s =
        s.global_time * 1000000
          + (now_hf - s.rx_timestamp) * 1000000 / cfg.RTIMER_SECOND_HF) ∧
    (s.sync_state = UNSYNCED ∨ s.sync_state = UNSYNCED2 →
      s.last_synced_lf ≤ now_lf → now_lf < 2 ^ 64 →
      (now_lf - s.last_synced_lf) * 1000000 < 2 ^ 64 →
      s.global_time * 1000000
        + (now_lf - s.last_synced_lf) * 1000000 / cfg.RTIMER_SECOND_LF < 2 ^ 64 →
      lwb_get_timestamp cfg now_hf now_lf s =
        s.global_time * 1000000
          + (now_lf - s.last_synced_lf) * 1000000 / cfg.RTIMER_SECOND_LF) := by
  have hhf : s.sync_state = BOOTSTRAP ∨ s.sync_state = SYNCED →
      lwb_get_timestamp cfg now_hf now_lf s =
        ((s.global_time % 2 ^ 64 * 1000000) % 2 ^ 64
          + (usub 64 now_hf s.rx_timestamp * 1000000) % 2 ^ 64 / cfg.RTIMER_SECOND_HF)
          % 2 ^ 64 := by
    intro h
    unfold lwb_get_timestamp
    rcases h with h | h <;> rw [h] <;> simp [lwb_sync_state_t.toNat]
  have hlf : s.sync_state = UNSYNCED ∨ s.sync_state = UNSYNCED2 →
      lwb_get_timestamp cfg now_hf now_lf s =
        ((s.global_time % 2 ^ 64 * 1000000) % 2 ^ 64
          + (usub 64 now_lf s.last_synced_lf * 1000000) % 2 ^ 64 / cfg.RTIMER_SECOND_LF)
          % 2 ^ 64 := by
    intro h
    unfold lwb_get_timestamp
    rcases h with h | h <;> rw [h] <;> simp [lwb_sync_state_t.toNat]
  refine ⟨hhf, hlf, ?_, ?_⟩
  · intro h h1 h2 h3 h4
    rw [hhf h, usub_of_le _ _ h1 h2, Nat.mod_eq_of_lt h3]
    have h5 : s.global_time * 1000000 < 2 ^ 64 := lt_of_le_of_lt (Nat.le_add_right _ _) h4
    have h6 : s.global_time < 2 ^ 64 := by omega
    rw [Nat.mod_eq_of_lt h6, Nat.mod_eq_of_lt h5, Nat.mod_eq_of_lt h4]
  · intro h h1 h2 h3 h4
    rw [hlf h, usub_of_le _ _ h1 h2, Nat.mod_eq_of_lt h3]
    have h5 : s.global_time * 1000000 < 2 ^ 64 := lt_of_le_of_lt (Nat.le_add_right _ _) h4
    have h6 : s.global_time < 2 ^ 64 := by omega
    rw [Nat.mod_eq_of_lt h6, Nat.mod_eq_of_lt h5, Nat.mod_eq_of_lt h4]

/-- C16 as claimed fails in BOOTSTRAP: a node in BOOTSTRAP with all clocks at
zero is asked one second of HF time later, with the LF clock still at zero;
the LF formula gives 0, the code returns 1000000. -/
theorem get_timestamp_bootstrap_counterexample :
    ¬ (∀ (cfg : Config) (now_hf now_lf : Nat) (s : SrcState), s.sync_state ≠ SYNCED →
        lwb_get_timestamp cfg now_hf now_lf s =
          ((s.global_time % 2 ^ 64 * 1000000) % 2 ^ 64
            + (usub 64 now_lf s.last_synced_lf * 1000000) % 2 ^ 64 / cfg.RTIMER_SECOND_LF)
            % 2 ^ 64) := by
  intro h
  have h1 := h sample_cfg 3250000 0 sample_src (by decide)
  revert h1
  decide

/-! ### Missed schedules and the guard time -/

theorem sync_run_short (events : List sync_event_t) (h : events.length < 3) :
    sync_run SYNCED events ≠ BOOTSTRAP := by
  match events, h with
  | [], _ => decide
  | [a], _ => cases a <;> decide
  | [a, b], _ => cases a <;> cases b <;> decide

/-- C17: scenario S5 for every source. From SYNCED, a missed schedule leads to
UNSYNCED, a second one to UNSYNCED2 and a third one to BOOTSTRAP, and no
sequence of fewer than three events leads from SYNCED to BOOTSTRAP. After
each update `t_guard` is `guard_time` of the new state: `T_GUARD_1` in
UNSYNCED, `T_GUARD_2` in UNSYNCED2, and the base `T_GUARD` in SYNCED and in
BOOTSTRAP; so with `T_GUARD <= T_GUARD_1 <= T_GUARD_2` the guard grows along
the path SYNCED, UNSYNCED, UNSYNCED2. -/
theorem missed_path_guard (cfg : Config) (s : SrcState) (hs : s.sync_state = SYNCED)
    (hg : cfg.LWB_CONF_T_GUARD ≤ cfg.LWB_CONF_T_GUARD_1 ∧
      cfg.LWB_CONF_T_GUARD_1 ≤ cfg.LWB_CONF_T_GUARD_2) :
    (src_sync cfg false s).1.sync_state = UNSYNCED ∧
    (src_sync cfg false (src_sync cfg false s).1).1.sync_state = UNSYNCED2 ∧
    (src_sync cfg false (src_sync cfg false (src_sync cfg false s).1).1).1.sync_state
      = BOOTSTRAP ∧
    sync_run SYNCED [EVT_SCHED_MISSED, EVT_SCHED_MISSED] = UNSYNCED2 ∧
    sync_run SYNCED [EVT_SCHED_MISSED, EVT_SCHED_MISSED, EVT_SCHED_MISSED] = BOOTSTRAP ∧
    (∀ events : List sync_event_t, events.length < 3 →
      sync_run SYNCED events ≠ BOOTSTRAP) ∧
    (∀ (upd : Bool) (s0 : SrcState),
      (src_sync cfg upd s0).1.t_guard = guard_time cfg (src_sync cfg upd s0).1.sync_state) ∧
    guard_time cfg SYNCED = cfg.LWB_CONF_T_GUARD ∧
    (src_sync cfg false s).1.t_guard = cfg.LWB_CONF_T_GUARD_1 ∧
    (src_sync cfg false (src_sync cfg false s).1).1.t_guard = cfg.LWB_CONF_T_GUARD_2 ∧
    (src_sync cfg false (src_sync cfg false (src_sync cfg false s).1).1).1.t_guard
      = cfg.LWB_CONF_T_GUARD ∧
    guard_time cfg SYNCED ≤ (src_sync cfg false s).1.t_guard ∧
    (src_sync cfg false s).1.t_guard
      ≤ (src_sync cfg false (src_sync cfg false s).1).1.t_guard := by
  have k1 := src_sync_keeps cfg false s
  have k2 := src_sync_keeps cfg false (src_sync cfg false s).1
  have k3 := src_sync_keeps cfg false (src_sync cfg false (src_sync cfg false s).1).1
  have e1 : (src_sync cfg false s).1.sync_state = UNSYNCED := by
    rw [k1.1, hs]; rfl
  have e2 : (src_sync cfg false (src_sync cfg false s).1).1.sync_state = UNSYNCED2 := by
    rw [k2.1, e1]; rfl
  have e3 : (src_sync cfg false (src_sync cfg false (src_sync cfg false s).1).1).1.sync_state
      = BOOTSTRAP := by
    rw [k3.1, e2]; rfl
  have g1 : (src_sync cfg false s).1.t_guard = cfg.LWB_CONF_T_GUARD_1 := by
    rw [k1.2.1, ← k1.1, e1]; rfl
  have g2 : (src_sync cfg false (src_sync cfg false s).1).1.t_guard
      = cfg.LWB_CONF_T_GUARD_2 := by
    rw [k2.2.1, ← k2.1, e2]; rfl
  have g3 : (src_sync cfg false (src_sync cfg false (src_sync cfg false s).1).1).1.t_guard
      = cfg.LWB_CONF_T_GUARD := by
    rw [k3.2.1, ← k3.1, e3]; rfl
  refine ⟨e1, e2, e3, rfl, rfl, sync_run_short, ?_, rfl, g1, g2, g3, ?_, ?_⟩
  · intro upd s0
    rw [(src_sync_keeps cfg upd s0).2.1, (src_sync_keeps cfg upd s0).1]
  · rw [g1]; exact hg.1
  · rw [g1, g2]; exact hg.2

/-- With the sample guard times 1625, 3250 and 6500, a node that was SYNCED
goes through UNSYNCED and UNSYNCED2 to BOOTSTRAP in three missed schedules. -/
theorem missed_path_guard_witness :
    (src_sync sample_cfg false sample_src_synced).1.sync_state = UNSYNCED ∧
    (src_sync sample_cfg false (src_sync sample_cfg false sample_src_synced).1).1.sync_state
      = UNSYNCED2 :=
  ⟨(missed_path_guard sample_cfg sample_src_synced (by decide) (by decide)).1,
   (missed_path_guard sample_cfg sample_src_synced (by decide) (by decide)).2.1⟩

/-! ### AE scheduler: first schedule, schedule length, policy cycle -/

/-- C18: `lwb_sched_init` produces the first, idle schedule. It returns the
header length 8; the schedule has time 0, no slots (the low 14 bits of
`n_slots` are 0), the `CONT` flag set, `SACK` and `DACK` clear (`n_slots` is
`0x8000`: no bit but the `CONT` flag is set), and the period
`SCHED_PERIOD_IDLE * 10` (the idle period in the scheduler's unit of 1/10 s;
it fits the 16-bit field). The stream table is empty, no S-ACK is pending and
the policy state is idle. -/
theorem sched_init_first_schedule (cfg : Config) (sched : lwb_schedule_t)
    (hp : cfg.LWB_CONF_SCHED_PERIOD_IDLE * 10 < 2 ^ 16) :
    (lwb_sched_init cfg sched).1 = LWB_SCHED_PKT_HEADER_LEN ∧
    (lwb_sched_init cfg sched).1 = 8 ∧
    (lwb_sched_init cfg sched).2.2.time = 0 ∧
    LWB_SCHED_N_SLOTS (lwb_sched_init cfg sched).2.2 = 0 ∧
    LWB_SCHED_HAS_CONT_SLOT (lwb_sched_init cfg sched).2.2 = true ∧
    LWB_SCHED_HAS_SACK_SLOT (lwb_sched_init cfg sched).2.2 = false ∧
    LWB_SCHED_HAS_DACK_SLOT (lwb_sched_init cfg sched).2.2 = false ∧
    (lwb_sched_init cfg sched).2.2.period = cfg.LWB_CONF_SCHED_PERIOD_IDLE * 10 ∧
    (lwb_sched_init cfg sched).2.2.slot = sched.slot ∧
    (lwb_sched_init cfg sched).2.1.streams_list = [] ∧
    (lwb_sched_init cfg sched).2.1.n_streams = 0 ∧
    (lwb_sched_init cfg sched).2.1.n_pending_sack = 0 ∧
    (lwb_sched_init cfg sched).2.1.sched_state = 0 ∧
    (lwb_sched_init cfg sched).2.1.time = 0 ∧
    (lwb_sched_init cfg sched).2.2.n_slots = 0x8000 := by
  refine ⟨rfl, rfl, rfl, ?_, ?_, ?_, ?_, ?_, rfl, rfl, rfl, rfl, rfl, rfl, ?_⟩
  · show ((0 ||| 0x8000) &&& 0x3fff : Nat) = 0
    decide
  · show decide (((0 ||| 0x8000) &&& 0x8000 : Nat) > 0) = true
    decide
  · show decide (((0 ||| 0x8000) &&& 0x4000 : Nat) > 0) = false
    decide
  · show decide (((0 ||| 0x8000) &&& 0x2000 : Nat) > 0) = false
    decide
  · show cfg.LWB_CONF_SCHED_PERIOD_IDLE * 10 % 2 ^ 16 = _
    exact Nat.mod_eq_of_lt hp
  · show ((0 ||| 0x8000 : Nat)) = 0x8000
    decide

/-- With the sample idle period of 10 s the first schedule has period 100. -/
theorem sched_init_first_schedule_witness :
    (lwb_sched_init sample_cfg schedule_zero).1 = 8 ∧
    (lwb_sched_init sample_cfg schedule_zero).2.2.period = 100 :=
  ⟨(sched_init_first_schedule sample_cfg schedule_zero (by decide)).2.1,
   (sched_init_first_schedule sample_cfg schedule_zero (by decide)).2.2.2.2.2.2.2.1⟩

theorem lor_land_self (a b : Nat) : (a ||| b) &&& b = b := by
  apply Nat.eq_of_testBit_eq
  intro i
  rw [Nat.testBit_and, Nat.testBit_or]
  cases a.testBit i <;> cases b.testBit i <;> rfl

theorem lor_sack_low (n : Nat) (h : n < 2 ^ 8) : (n ||| 0x4000) &&& 0x3fff = n := by
  apply Nat.eq_of_testBit_eq
  intro i
  have h1 : (0x4000 : Nat) = 2 ^ 14 := by norm_num
  have h2 : (0x3fff : Nat) = 2 ^ 14 - 1 := by norm_num
  rw [Nat.testBit_and, Nat.testBit_or, h1, h2, Nat.testBit_two_pow,
    Nat.testBit_two_pow_sub_one]
  by_cases hi : i < 14
  · have : ¬ 14 = i := by omega
    simp [hi, this]
  · have : n.testBit i = false :=
      Nat.testBit_lt_two_pow (lt_of_lt_of_le h (Nat.pow_le_pow_right (by norm_num) (by omega)))
    simp [hi, this]

theorem land_low (n : Nat) (h : n < 2 ^ 8) : n &&& 0x3fff = n := by
  have h2 : (0x3fff : Nat) = 2 ^ 14 - 1 := by norm_num
  rw [h2, Nat.and_pow_two_sub_one_eq_mod]
  exact Nat.mod_eq_of_lt (lt_of_lt_of_le h (by norm_num))

/-- What a call of `lwb_sched_compute` returns and emits in each policy
state: the return value, the new policy state and the field `n_slots`. -/
theorem lwb_sched_compute_out (cfg : Config) (n_rx_started : Nat) (st : AeState)
    (sched : lwb_schedule_t) (streams_to_update : Nat → Nat) (reserve_slot_host : Nat) :
    (st.sched_state = 0 → n_rx_started = 0 →
      lwb_sched_compute cfg n_rx_started st sched streams_to_update reserve_slot_host =
        (8, { st with time := (st.time + sched.period) % 2 ^ 32 },
          { sched with n_slots := 0x8000,
                       period := (cfg.LWB_CONF_SCHED_PERIOD_IDLE * 10) % 2 ^ 16,
                       time := (st.time + sched.period) % 2 ^ 32 / 10 })) ∧
    (st.sched_state = 0 → n_rx_started ≠ 0 →
      (lwb_sched_compute cfg n_rx_started st sched streams_to_update reserve_slot_host).1 =
        ((assign_all st.streams_list (fun _ => 0) 0).2 * 2 + 8) % 2 ^ 16 ∧
      (lwb_sched_compute cfg n_rx_started st sched streams_to_update
        reserve_slot_host).2.1.sched_state = 1 ∧
      (lwb_sched_compute cfg n_rx_started st sched streams_to_update
        reserve_slot_host).2.2.n_slots = (assign_all st.streams_list (fun _ => 0) 0).2) ∧
    (st.sched_state = 1 → (data_round_slots cfg st.n_streams st.streams_list).2 ≠ 0 →
      (lwb_sched_compute cfg n_rx_started st sched streams_to_update reserve_slot_host).1 =
        ((data_round_slots cfg st.n_streams st.streams_list).2 * 2 + 8) % 2 ^ 16 ∧
      (lwb_sched_compute cfg n_rx_started st sched streams_to_update
        reserve_slot_host).2.1.sched_state = 2 ∧
      (lwb_sched_compute cfg n_rx_started st sched streams_to_update
        reserve_slot_host).2.2.n_slots =
          (data_round_slots cfg st.n_streams st.streams_list).2 ||| 0x4000) ∧
    (st.sched_state = 1 → (data_round_slots cfg st.n_streams st.streams_list).2 = 0 →
      (lwb_sched_compute cfg n_rx_started st sched streams_to_update reserve_slot_host).1 = 8 ∧
      (lwb_sched_compute cfg n_rx_started st sched streams_to_update
        reserve_slot_host).2.1.sched_state = 0 ∧
      (lwb_sched_compute cfg n_rx_started st sched streams_to_update
        reserve_slot_host).2.2.n_slots = 0x8000) ∧
    (st.sched_state = 2 →
      (lwb_sched_compute cfg n_rx_started st sched streams_to_update reserve_slot_host).1 = 8 ∧
      (lwb_sched_compute cfg n_rx_started st sched streams_to_update
        reserve_slot_host).2.1.sched_state = 0 ∧
      (lwb_sched_compute cfg n_rx_started st sched streams_to_update
        reserve_slot_host).2.2.n_slots = 0x8000) := by
  refine ⟨?_, ?_, ?_, ?_, ?_⟩
  · intro h0 hrx
    simp [lwb_sched_compute, h0, hrx, LWB_SCHED_SET_CONT_SLOT, LWB_SCHED_PKT_HEADER_LEN]
  · intro h0 hrx
    simp [lwb_sched_compute, h0, hrx, LWB_SCHED_PKT_HEADER_LEN]
  · intro h1 ha
    simp [lwb_sched_compute, h1, ha, LWB_SCHED_SET_SACK_SLOT, LWB_SCHED_PKT_HEADER_LEN]
  · intro h1 ha
    simp [lwb_sched_compute, h1, ha, LWB_SCHED_SET_CONT_SLOT, LWB_SCHED_PKT_HEADER_LEN]
  · intro h2
    simp [lwb_sched_compute, h2, LWB_SCHED_SET_CONT_SLOT, LWB_SCHED_PKT_HEADER_LEN]

theorem has_flags_cont (s : lwb_schedule_t) (h : s.n_slots = 0x8000) :
    LWB_SCHED_HAS_CONT_SLOT s = true ∧ LWB_SCHED_HAS_SACK_SLOT s = false ∧
    LWB_SCHED_N_SLOTS s = 0 := by
  unfold LWB_SCHED_HAS_CONT_SLOT LWB_SCHED_HAS_SACK_SLOT LWB_SCHED_N_SLOTS
  rw [h]
  decide

theorem has_flags_sack (s : lwb_schedule_t) (n : Nat) (hn : n < 2 ^ 8)
    (h : s.n_slots = n ||| 0x4000) :
    LWB_SCHED_HAS_SACK_SLOT s = true ∧ LWB_SCHED_HAS_CONT_SLOT s = false ∧
    LWB_SCHED_N_SLOTS s = n := by
  refine ⟨?_, ?_, ?_⟩
  · unfold LWB_SCHED_HAS_SACK_SLOT
    rw [h, lor_land_self]
    decide
  · apply has_cont_of_lt
    rw [h]
    exact Nat.or_lt_two_pow (by omega) (by norm_num)
  · unfold LWB_SCHED_N_SLOTS
    rw [h, lor_sack_low n hn]

/-- C20, as the code has it: the policy of the AE scheduler. A call of
`lwb_sched_compute` in the idle state stays idle when no contention activity
was observed and moves to the request state when activity was observed. A
call in the request state moves to the data state and emits a schedule with
`SACK` set only if at least one data slot was assigned; if no slot was
assigned (no active stream) it returns to idle and emits a schedule with the
`CONT` flag, without `SACK` and without slots. A call in the data state
always returns to idle and emits a schedule with the `CONT` flag and no
slots. -/
theorem ae_policy_cycle (cfg : Config) (n_rx_started : Nat) (st : AeState)
    (sched : lwb_schedule_t) (streams_to_update : Nat → Nat) (reserve_slot_host : Nat) :
    (st.sched_state = 0 → n_rx_started = 0 →
      (lwb_sched_compute cfg n_rx_started st sched streams_to_update
        reserve_slot_host).2.1.sched_state = 0) ∧
    (st.sched_state = 0 → n_rx_started ≠ 0 →
      (lwb_sched_compute cfg n_rx_started st sched streams_to_update
        reserve_slot_host).2.1.sched_state = 1) ∧
    (st.sched_state = 1 → (data_round_slots cfg st.n_streams st.streams_list).2 ≠ 0 →
      (lwb_sched_compute cfg n_rx_started st sched streams_to_update
        reserve_slot_host).2.1.sched_state = 2 ∧
      LWB_SCHED_HAS_SACK_SLOT (lwb_sched_compute cfg n_rx_started st sched
        streams_to_update reserve_slot_host).2.2 = true ∧
      LWB_SCHED_N_SLOTS (lwb_sched_compute cfg n_rx_started st sched
        streams_to_update reserve_slot_host).2.2 =
          (data_round_slots cfg st.n_streams st.streams_list).2) ∧
    (st.sched_state = 1 → (data_round_slots cfg st.n_streams st.streams_list).2 = 0 →
      (lwb_sched_compute cfg n_rx_started st sched streams_to_update
        reserve_slot_host).2.1.sched_state = 0 ∧
      LWB_SCHED_HAS_SACK_SLOT (lwb_sched_compute cfg n_rx_started st sched
        streams_to_update reserve_slot_host).2.2 = false ∧
      LWB_SCHED_HAS_CONT_SLOT (lwb_sched_compute cfg n_rx_started st sched
        streams_to_update reserve_slot_host).2.2 = true ∧
      LWB_SCHED_N_SLOTS (lwb_sched_compute cfg n_rx_started st sched
        streams_to_update reserve_slot_host).2.2 = 0) ∧
    (st.sched_state = 2 →
      (lwb_sched_compute cfg n_rx_started st sched streams_to_update
        reserve_slot_host).2.1.sched_state = 0 ∧
      LWB_SCHED_HAS_CONT_SLOT (lwb_sched_compute cfg n_rx_started st sched
        streams_to_update reserve_slot_host).2.2 = true ∧
      LWB_SCHED_N_SLOTS (lwb_sched_compute cfg n_rx_started st sched
        streams_to_update reserve_slot_host).2.2 = 0) := by
  have k := lwb_sched_compute_out cfg n_rx_started st sched streams_to_update
    reserve_slot_host
  refine ⟨?_, ?_, ?_, ?_, ?_⟩
  · intro h0 hrx
    rw [k.1 h0 hrx]
    exact h0
  · intro h0 hrx
    exact (k.2.1 h0 hrx).2.1
  · intro h1 ha
    have f := has_flags_sack _ _ (data_round_slots_lt cfg st.n_streams st.streams_list)
      (k.2.2.1 h1 ha).2.2
    exact ⟨(k.2.2.1 h1 ha).2.1, f.1, f.2.2⟩
  · intro h1 ha
    have f := has_flags_cont _ (k.2.2.2.1 h1 ha).2.2
    exact ⟨(k.2.2.2.1 h1 ha).2.1, f.2.1, f.1, f.2.2⟩
  · intro h2
    have f := has_flags_cont _ (k.2.2.2.2 h2).2.2
    exact ⟨(k.2.2.2.2 h2).2.1, f.1, f.2.2⟩

/-- C20 as claimed fails in the request state without streams: after
`lwb_sched_init` and one call that observed contention activity the policy is
in the request state with an empty stream table; the next call returns to
idle and emits a schedule with `CONT` and without `SACK`. -/
theorem ae_request_without_streams_counterexample :
    AeReachable sample_cfg sample_ae_request ∧
    sample_ae_request.sched_state = 1 ∧
    (lwb_sched_compute sample_cfg 0 sample_ae_request schedule_zero (fun _ => 0)
      0).2.1.sched_state = 0 ∧
    LWB_SCHED_HAS_SACK_SLOT (lwb_sched_compute sample_cfg 0 sample_ae_request schedule_zero
      (fun _ => 0) 0).2.2 = false ∧
    LWB_SCHED_HAS_CONT_SLOT (lwb_sched_compute sample_cfg 0 sample_ae_request schedule_zero
      (fun _ => 0) 0).2.2 = true :=
  ⟨⟨_, rfl⟩, by decide, by decide, by decide, by decide⟩

theorem srq_find_length (node_id : Nat) (l : List lwb_stream_list_t) (n : Nat) :
    (srq_find node_id l n).1.length = l.length := by
  induction l with
  | nil => rfl
  | cons c rest ih =>
    unfold srq_find
    split_ifs
    · rfl
    · rfl
    · simp [ih]

theorem srq_insert_after_length (new : lwb_stream_list_t) :
    ∀ (l l2 : List lwb_stream_list_t), srq_insert_after new l = some l2 →
      l2.length = l.length + 1
  | [], l2, h => by simp [srq_insert_after] at h
  | [prev], l2, h => by
    simp only [srq_insert_after] at h
    split_ifs at h
    · injection h with h
      subst h
      rfl
  | prev :: nxt :: rest, l2, h => by
    simp only [srq_insert_after] at h
    split_ifs at h
    · injection h with h
      subst h
      rfl
    · cases hr : srq_insert_after new (nxt :: rest) with
      | none =>
        rw [hr] at h
        simp at h
      | some l3 =>
        rw [hr] at h
        simp only [Option.map_some', Option.some.injEq] at h
        subst h
        simp [srq_insert_after_length new _ _ hr]

theorem srq_insert_length (new : lwb_stream_list_t) (l : List lwb_stream_list_t) :
    (srq_insert new l).length = l.length + 1 := by
  unfold srq_insert
  cases hr : srq_insert_after new l with
  | none => rfl
  | some l2 => exact srq_insert_after_length new l l2 hr

theorem lwb_sched_proc_srq_length (cfg : Config) (st : AeState) (req : lwb_stream_req_t)
    (h : st.streams_list.length ≤ cfg.LWB_CONF_MAX_N_STREAMS) :
    (lwb_sched_proc_srq cfg st req).streams_list.length ≤ cfg.LWB_CONF_MAX_N_STREAMS := by
  dsimp only [lwb_sched_proc_srq]
  split_ifs with h1 h2 h3
  · exact h
  · show (srq_find _ _ _).1.length ≤ _
    rw [srq_find_length]
    exact h
  · exact h
  · show (srq_insert _ _).length ≤ _
    rw [srq_insert_length]
    omega

theorem deactivate_first_length (node_id : Nat) (rcvd : Bool) (l : List lwb_stream_list_t) :
    (deactivate_first node_id rcvd l).1.length = l.length := by
  induction l with
  | nil => rfl
  | cons c rest ih =>
    unfold deactivate_first
    split_ifs
    · rfl
    · rfl
    · simp [ih]

theorem sack_step_keeps (cfg : Config) (sched : lwb_schedule_t) (streams_to_update : Nat → Nat)
    (st : AeState) (i : Nat) :
    (sack_step cfg sched streams_to_update st i).streams_list.length
      = st.streams_list.length ∧
    (sack_step cfg sched streams_to_update st i).sched_state = st.sched_state := by
  dsimp only [sack_step]
  split_ifs <;> first
    | exact ⟨rfl, rfl⟩
    | exact ⟨deactivate_first_length _ _ _, rfl⟩

theorem sack_fold_keeps (cfg : Config) (sched : lwb_schedule_t) (streams_to_update : Nat → Nat)
    (l : List Nat) (st : AeState) :
    (l.foldl (sack_step cfg sched streams_to_update) st).streams_list.length
      = st.streams_list.length := by
  induction l generalizing st with
  | nil => rfl
  | cons i rest ih =>
    rw [List.foldl_cons, ih, (sack_step_keeps cfg sched streams_to_update st i).1]

theorem lwb_sched_compute_length (cfg : Config) (n_rx_started : Nat) (st : AeState)
    (sched : lwb_schedule_t) (streams_to_update : Nat → Nat) (reserve_slot_host : Nat) :
    (lwb_sched_compute cfg n_rx_started st sched streams_to_update
      reserve_slot_host).2.1.streams_list.length = st.streams_list.length := by
  dsimp only [lwb_sched_compute]
  split_ifs
  · rfl
  · rfl
  · rfl
  · rfl
  · exact sack_fold_keeps cfg sched streams_to_update _ _
  · rfl

theorem lwb_sched_compute_state_le (cfg : Config) (n_rx_started : Nat) (st : AeState)
    (sched : lwb_schedule_t) (streams_to_update : Nat → Nat) (reserve_slot_host : Nat)
    (h : st.sched_state ≤ 2) :
    (lwb_sched_compute cfg n_rx_started st sched streams_to_update
      reserve_slot_host).2.1.sched_state ≤ 2 := by
  have k := lwb_sched_compute_out cfg n_rx_started st sched streams_to_update
    reserve_slot_host
  have hc : st.sched_state = 0 ∨ st.sched_state = 1 ∨ st.sched_state = 2 := by omega
  rcases hc with h0 | h1 | h2
  · by_cases hrx : n_rx_started = 0
    · rw [lwb_sched_compute_idle_quiet cfg _ _ _ _ _ h0 hrx]
      omega
    · rw [(k.2.1 h0 hrx).2.1]
      omega
  · by_cases ha : (data_round_slots cfg st.n_streams st.streams_list).2 = 0
    · rw [(k.2.2.2.1 h1 ha).2.1]
      omega
    · rw [(k.2.2.1 h1 ha).2.1]
  · rw [(k.2.2.2.2 h2).2.1]
    omega

/-- Every reachable state of the AE scheduler has a policy state of at most
2 and a stream list that fits the pool. -/
theorem AeReachable.inv (cfg : Config) (st : AeState) (h : AeReachable cfg st) :
    st.sched_state ≤ 2 ∧ st.streams_list.length ≤ cfg.LWB_CONF_MAX_N_STREAMS := by
  obtain ⟨calls, rfl⟩ := h
  unfold ae_run
  have key : ∀ (l : List AeCall) (s0 : AeState),
      (s0.sched_state ≤ 2 ∧ s0.streams_list.length ≤ cfg.LWB_CONF_MAX_N_STREAMS) →
      ((l.foldl (AeCall.apply cfg) s0).sched_state ≤ 2 ∧
        (l.foldl (AeCall.apply cfg) s0).streams_list.length
          ≤ cfg.LWB_CONF_MAX_N_STREAMS) := by
    intro l
    induction l with
    | nil => intro s0 h0; exact h0
    | cons c rest ih =>
      intro s0 h0
      rw [List.foldl_cons]
      apply ih
      cases c with
      | proc_srq req =>
        show (lwb_sched_proc_srq cfg s0 req).sched_state ≤ 2 ∧ _
        rw [lwb_sched_proc_srq_state]
        exact ⟨h0.1, lwb_sched_proc_srq_length cfg s0 req h0.2⟩
      | compute n_rx_started sched streams_to_update reserve_slot_host =>
        show (lwb_sched_compute cfg n_rx_started s0 sched streams_to_update
          reserve_slot_host).2.1.sched_state ≤ 2 ∧ _
        refine ⟨lwb_sched_compute_state_le cfg _ _ _ _ _ h0.1, ?_⟩
        show (lwb_sched_compute cfg n_rx_started s0 sched streams_to_update
          reserve_slot_host).2.1.streams_list.length ≤ _
        rw [lwb_sched_compute_length]
        exact h0.2
  exact key calls _ ⟨Nat.zero_le _, Nat.zero_le _⟩

theorem assign_all_le (l : List lwb_stream_list_t) (slot : Nat → Nat) (n : Nat) :
    (assign_all l slot n).2 ≤ n + l.length := by
  induction l generalizing slot n with
  | nil => exact Nat.le_refl _
  | cons c rest ih =>
    unfold assign_all
    have h1 := ih (array_store slot n c.node_id) ((n + 1) % 2 ^ 8)
    have h2 : (n + 1) % 2 ^ 8 ≤ n + 1 := Nat.mod_le _ _
    rw [List.length_cons]
    omega

theorem assign_active_le (cfg : Config) (l : List lwb_stream_list_t) (slot : Nat → Nat)
    (n : Nat) (h : n ≤ cfg.LWB_CONF_MAX_DATA_SLOTS) :
    (assign_active cfg l slot n).2 ≤ cfg.LWB_CONF_MAX_DATA_SLOTS := by
  induction l generalizing slot n with
  | nil => exact h
  | cons c rest ih =>
    unfold assign_active
    split_ifs with h1 h2
    · apply ih
      have h3 : (n + 1) % 2 ^ 8 ≤ n + 1 := Nat.mod_le _ _
      omega
    · exact ih _ _ h
    · exact h

theorem data_round_slots_le (cfg : Config) (n_streams : Nat)
    (streams_list : List lwb_stream_list_t) :
    (data_round_slots cfg n_streams streams_list).2 ≤ cfg.LWB_CONF_MAX_DATA_SLOTS := by
  unfold data_round_slots
  split_ifs
  · exact assign_active_le cfg _ _ _ (Nat.zero_le _)
  · exact Nat.zero_le _

/-- C19: for every schedule that the AE scheduler produces, by
`lwb_sched_init` or by `lwb_sched_compute` in a policy state reachable from
`lwb_sched_init` through stream requests and calls of `lwb_sched_compute`,
with the configuration check `MAX_N_STREAMS <= MAX_DATA_SLOTS` of lines
69-71: the slot count in the low 14 bits of `n_slots` is at most
`MAX_DATA_SLOTS`, and the returned length is `HEADER_LEN + 2 * slot count`. -/
theorem schedule_length (cfg : Config) (st : AeState) (hr : AeReachable cfg st)
    (hc : cfg.LWB_CONF_MAX_N_STREAMS ≤ cfg.LWB_CONF_MAX_DATA_SLOTS)
    (n_rx_started : Nat) (sched : lwb_schedule_t) (streams_to_update : Nat → Nat)
    (reserve_slot_host : Nat) (sched0 : lwb_schedule_t) :
    LWB_SCHED_N_SLOTS (lwb_sched_compute cfg n_rx_started st sched streams_to_update
      reserve_slot_host).2.2 ≤ cfg.LWB_CONF_MAX_DATA_SLOTS ∧
    (lwb_sched_compute cfg n_rx_started st sched streams_to_update reserve_slot_host).1 =
      LWB_SCHED_PKT_HEADER_LEN + 2 * LWB_SCHED_N_SLOTS (lwb_sched_compute cfg n_rx_started
        st sched streams_to_update reserve_slot_host).2.2 ∧
    LWB_SCHED_N_SLOTS (lwb_sched_init cfg sched0).2.2 ≤ cfg.LWB_CONF_MAX_DATA_SLOTS ∧
    (lwb_sched_init cfg sched0).1 =
      LWB_SCHED_PKT_HEADER_LEN + 2 * LWB_SCHED_N_SLOTS (lwb_sched_init cfg sched0).2.2 := by
  have hi : LWB_SCHED_N_SLOTS (lwb_sched_init cfg sched0).2.2 = 0 :=
    (has_flags_cont _ (show (lwb_sched_init cfg sched0).2.2.n_slots = 0x8000 from by
      show ((0 ||| 0x8000 : Nat)) = 0x8000
      decide)).2.2
  have inv := AeReachable.inv cfg st hr
  have k := lwb_sched_compute_out cfg n_rx_started st sched streams_to_update
    reserve_slot_host
  have hcase : st.sched_state = 0 ∨ st.sched_state = 1 ∨ st.sched_state = 2 := by omega
  have hcomp : LWB_SCHED_N_SLOTS (lwb_sched_compute cfg n_rx_started st sched
        streams_to_update reserve_slot_host).2.2 ≤ cfg.LWB_CONF_MAX_DATA_SLOTS ∧
      (lwb_sched_compute cfg n_rx_started st sched streams_to_update reserve_slot_host).1 =
        LWB_SCHED_PKT_HEADER_LEN + 2 * LWB_SCHED_N_SLOTS (lwb_sched_compute cfg
          n_rx_started st sched streams_to_update reserve_slot_host).2.2 := by
    unfold LWB_SCHED_PKT_HEADER_LEN
    rcases hcase with h0 | h1 | h2
    · by_cases hrx : n_rx_started = 0
      · rw [k.1 h0 hrx]
        have f := has_flags_cont
          { sched with n_slots := 0x8000,
                       period := (cfg.LWB_CONF_SCHED_PERIOD_IDLE * 10) % 2 ^ 16,
                       time := (st.time + sched.period) % 2 ^ 32 / 10 } rfl
        show LWB_SCHED_N_SLOTS _ ≤ _ ∧ 8 = 8 + 2 * LWB_SCHED_N_SLOTS _
        rw [f.2.2]
        exact ⟨Nat.zero_le _, rfl⟩
      · have a := k.2.1 h0 hrx
        have hlt := assign_all_lt st.streams_list (fun _ => 0) 0 (by norm_num)
        have hle := assign_all_le st.streams_list (fun _ => 0) 0
        unfold LWB_SCHED_N_SLOTS
        rw [a.1, a.2.2, land_low _ hlt]
        constructor
        · omega
        · omega
    · by_cases ha : (data_round_slots cfg st.n_streams st.streams_list).2 = 0
      · have a := k.2.2.2.1 h1 ha
        have f := has_flags_cont _ a.2.2
        rw [a.1, f.2.2]
        exact ⟨Nat.zero_le _, rfl⟩
      · have a := k.2.2.1 h1 ha
        have hlt := data_round_slots_lt cfg st.n_streams st.streams_list
        have f := has_flags_sack _ _ hlt a.2.2
        have hle := data_round_slots_le cfg st.n_streams st.streams_list
        rw [a.1, f.2.2]
        constructor
        · exact hle
        · omega
    · have a := k.2.2.2.2 h2
      have f := has_flags_cont _ a.2.2
      rw [a.1, f.2.2]
      exact ⟨Nat.zero_le _, rfl⟩
  refine ⟨hcomp.1, hcomp.2, ?_, ?_⟩
  · rw [hi]
    exact Nat.zero_le _
  · rw [hi]
    rfl

/-- The call of `lwb_sched_compute` in the request state with one active
stream, reached from `lwb_sched_init` in the sample configuration, emits a
schedule with one slot and returns 10. -/
theorem schedule_length_witness :
    AeReachable sample_cfg sample_ae_stream ∧
    (lwb_sched_compute sample_cfg 0 sample_ae_stream schedule_zero (fun _ => 0) 0).1 =
      LWB_SCHED_PKT_HEADER_LEN + 2 * LWB_SCHED_N_SLOTS (lwb_sched_compute sample_cfg 0
        sample_ae_stream schedule_zero (fun _ => 0) 0).2.2 ∧
    (lwb_sched_compute sample_cfg 0 sample_ae_stream schedule_zero (fun _ => 0) 0).1 = 10 :=
  ⟨⟨_, rfl⟩,
   (schedule_length sample_cfg sample_ae_stream ⟨_, rfl⟩ (by decide) 0 schedule_zero
     (fun _ => 0) 0 schedule_zero).2.1,
   by decide⟩

/-! ### Published time and drift gate -/

theorem src_publish_fields (s : SrcState) (d : Int) :
    (src_publish s d).global_time = s.schedule.time ∧
    (src_publish s d).last_synced_lf = s.t_ref_lf ∧
    (src_publish s d).rx_timestamp = s.t_ref ∧
    (src_publish s d).period_idle = s.schedule.period :=
  ⟨rfl, rfl, rfl, rfl⟩

theorem src_first_schedule_fields (cfg : Config) (s : SrcState) :
    (IS_FIRST_SCHEDULE s.schedule = true →
      (src_first_schedule cfg s).global_time = s.schedule.time ∧
      (src_first_schedule cfg s).last_synced_lf = s.t_ref_lf ∧
      (src_first_schedule cfg s).rx_timestamp = s.t_ref ∧
      (src_first_schedule cfg s).period_idle = s.schedule.period) ∧
    (IS_FIRST_SCHEDULE s.schedule = false → src_first_schedule cfg s = s) := by
  unfold src_first_schedule
  constructor
  · intro h
    rw [if_pos h]
    exact src_publish_fields s _
  · intro h
    rw [h]
    rfl

theorem src_time_received_fields (cfg : Config) (rcv : sched_reception) (s : SrcState) :
    (src_time_received cfg rcv s).t_ref = usub 64 rcv.t_ref cfg.LWB_CONF_T_REF_OFS ∧
    (src_time_received cfg rcv s).t_ref_lf = usub 64 rcv.lf_now
      ((usub 64 rcv.hf_now (usub 64 rcv.t_ref cfg.LWB_CONF_T_REF_OFS)) % 2 ^ 32
        / (cfg.RTIMER_HF_LF_RATIO % 2 ^ 32)) ∧
    (IS_FIRST_SCHEDULE s.schedule = true →
      (src_time_received cfg rcv s).global_time = s.schedule.time ∧
      (src_time_received cfg rcv s).last_synced_lf = (src_time_received cfg rcv s).t_ref_lf ∧
      (src_time_received cfg rcv s).rx_timestamp = (src_time_received cfg rcv s).t_ref ∧
      (src_time_received cfg rcv s).period_idle = s.schedule.period) ∧
    (IS_FIRST_SCHEDULE s.schedule = false →
      (src_time_received cfg rcv s).global_time = s.global_time ∧
      (src_time_received cfg rcv s).last_synced_lf = s.last_synced_lf ∧
      (src_time_received cfg rcv s).rx_timestamp = s.rx_timestamp ∧
      (src_time_received cfg rcv s).period_idle = s.period_idle ∧
      (src_time_received cfg rcv s).q.stats.drift = s.q.stats.drift) := by
  have k := src_first_schedule_keeps cfg
    { s with t_ref := usub 64 rcv.t_ref cfg.LWB_CONF_T_REF_OFS,
             t_ref_lf := usub 64 rcv.lf_now
               ((usub 64 rcv.hf_now (usub 64 rcv.t_ref cfg.LWB_CONF_T_REF_OFS)) % 2 ^ 32
                 / (cfg.RTIMER_HF_LF_RATIO % 2 ^ 32)) }
  have f := src_first_schedule_fields cfg
    { s with t_ref := usub 64 rcv.t_ref cfg.LWB_CONF_T_REF_OFS,
             t_ref_lf := usub 64 rcv.lf_now
               ((usub 64 rcv.hf_now (usub 64 rcv.t_ref cfg.LWB_CONF_T_REF_OFS)) % 2 ^ 32
                 / (cfg.RTIMER_HF_LF_RATIO % 2 ^ 32)) }
  refine ⟨k.2.2.2.1, k.2.2.2.2, ?_, ?_⟩
  · intro h
    have g := f.1 h
    exact ⟨g.1, g.2.1.trans k.2.2.2.2.symm, g.2.2.1.trans k.2.2.2.1.symm, g.2.2.2⟩
  · intro h
    have g := f.2 h
    refine ⟨?_, ?_, ?_, ?_, ?_⟩
    · show (src_first_schedule cfg _).global_time = _
      rw [g]
    · show (src_first_schedule cfg _).last_synced_lf = _
      rw [g]
    · show (src_first_schedule cfg _).rx_timestamp = _
      rw [g]
    · show (src_first_schedule cfg _).period_idle = _
      rw [g]
    · show (src_first_schedule cfg _).q.stats.drift = _
      rw [g]

theorem src_receive_schedule_flag (cfg : Config) (rcv : sched_reception) (s : SrcState)
    (h : s.sync_state ≠ BOOTSTRAP) :
    (src_receive_schedule cfg rcv s).2 = rcv.t_ref_updated := by
  dsimp only [src_receive_schedule]
  rw [if_neg h]

/-- The state at the end of a round of a source that was SYNCED and received
the schedule: the round is not restarted, and the clocks are those that the
time recovery computed from the reception. -/
theorem src_round_received (cfg : Config) (env : src_round_env) (s : SrcState)
    (hs : s.sync_state = SYNCED) (hu : env.rcv.t_ref_updated = true) :
    ∃ s2 : SrcState, s2.schedule = env.rcv.schedule ∧ s2.global_time = s.global_time ∧
      s2.last_synced_lf = s.last_synced_lf ∧ s2.q.stats.drift = s.q.stats.drift ∧
      (lwb_thread_src_round cfg env s).restart = false ∧
      (lwb_thread_src_round cfg env s).state.clocks
        = (src_time_received cfg env.rcv s2).clocks := by
  have hb : s.sync_state ≠ BOOTSTRAP := by rw [hs]; decide
  have hf := src_receive_schedule_flag cfg env.rcv s hb
  rw [hu] at hf
  have k1 := src_receive_schedule_keeps cfg env.rcv s
  have k2 := src_sync_keeps cfg (src_receive_schedule cfg env.rcv s).2
    (src_receive_schedule cfg env.rcv s).1
  have hn : (src_sync cfg (src_receive_schedule cfg env.rcv s).2
      (src_receive_schedule cfg env.rcv s).1).2 = false := by
    cases hr : (src_sync cfg (src_receive_schedule cfg env.rcv s).2
      (src_receive_schedule cfg env.rcv s).1).2 with
    | false => rfl
    | true =>
      have := k2.2.2.1.1 hr
      rw [k1.1, hs, hf] at this
      exact absurd this (by decide)
  refine ⟨(src_sync cfg (src_receive_schedule cfg env.rcv s).2
      (src_receive_schedule cfg env.rcv s).1).1, ?_, ?_, ?_, ?_, ?_, ?_⟩
  · rw [k2.2.2.2.2.1, k1.2.2.1]
  · rw [k2.2.2.2.2.2.1, k1.2.2.2.1]
  · rw [k2.2.2.2.2.2.2.1, k1.2.2.2.2.1]
  · rw [k2.2.2.2.2.2.2.2, k1.2.2.2.2.2]
  · rw [src_round_continue cfg env s hn]
  · rw [src_round_continue cfg env s hn]
    show (src_round_end cfg _).1.clocks = _
    rw [(src_round_end_keeps cfg _).1, src_participate_clocks, hf]
    rfl

/-- C13, as the code has it: a source in SYNCED that correctly receives a
schedule (time reference updated) stays SYNCED and derives `t_ref_lf` for the
reception. If the schedule is the first of its round (`CONT` flag set) the
source publishes its time: `global_time` is the time of the schedule and is
what `lwb_get_time` returns, `last_synced_lf` is `t_ref_lf` and
`rx_timestamp` is `t_ref`. For a received schedule without the `CONT` flag
the published `global_time` and `last_synced_lf` stay as they were ("only update the timestamp during the idle period"). -/
theorem src_publishes_first_schedule (cfg : Config) (env : src_round_env) (s : SrcState)
    (hs : s.sync_state = SYNCED) (hu : env.rcv.t_ref_updated = true) :
    (lwb_thread_src_round cfg env s).restart = false ∧
    (lwb_thread_src_round cfg env s).state.sync_state = SYNCED ∧
    (lwb_thread_src_round cfg env s).state.t_ref_lf = usub 64 env.rcv.lf_now
      ((usub 64 env.rcv.hf_now (usub 64 env.rcv.t_ref cfg.LWB_CONF_T_REF_OFS)) % 2 ^ 32
        / (cfg.RTIMER_HF_LF_RATIO % 2 ^ 32)) ∧
    (IS_FIRST_SCHEDULE env.rcv.schedule = true →
      (lwb_thread_src_round cfg env s).state.global_time = env.rcv.schedule.time ∧
      lwb_get_time (lwb_thread_src_round cfg env s).state (some 0) =
        (env.rcv.schedule.time, some (lwb_thread_src_round cfg env s).state.t_ref) ∧
      (lwb_thread_src_round cfg env s).state.last_synced_lf
        = (lwb_thread_src_round cfg env s).state.t_ref_lf ∧
      (lwb_thread_src_round cfg env s).state.rx_timestamp
        = (lwb_thread_src_round cfg env s).state.t_ref) ∧
    (IS_FIRST_SCHEDULE env.rcv.schedule = false →
      (lwb_thread_src_round cfg env s).state.global_time = s.global_time ∧
      (lwb_thread_src_round cfg env s).state.last_synced_lf = s.last_synced_lf) := by
  have hb : s.sync_state ≠ BOOTSTRAP := by rw [hs]; decide
  have hf := src_receive_schedule_flag cfg env.rcv s hb
  rw [hu] at hf
  have hsync := src_round_sync_state cfg env s
  rw [hf, hs] at hsync
  obtain ⟨s2, h1, h2, h3, _, hr, hc⟩ := src_round_received cfg env s hs hu
  have c := SrcState.clocks_fields _ _ hc
  have f := src_time_received_fields cfg env.rcv s2
  rw [h1] at f
  refine ⟨hr, hsync, c.2.2.2.2.2.1.trans f.2.1, ?_, ?_⟩
  · intro hc1
    have g := f.2.2.1 hc1
    have e1 : (lwb_thread_src_round cfg env s).state.global_time = env.rcv.schedule.time :=
      c.2.1.trans g.1
    have e3 : (lwb_thread_src_round cfg env s).state.rx_timestamp
        = (lwb_thread_src_round cfg env s).state.t_ref :=
      c.2.2.1.trans (g.2.2.1.trans c.2.2.2.2.1.symm)
    refine ⟨e1, ?_, c.2.2.2.1.trans (g.2.1.trans c.2.2.2.2.2.1.symm), e3⟩
    show ((lwb_thread_src_round cfg env s).state.global_time,
      some (lwb_thread_src_round cfg env s).state.rx_timestamp) = _
    rw [e1, e3]
  · intro hc0
    have g := f.2.2.2 hc0
    exact ⟨c.2.1.trans (g.1.trans h2), c.2.2.2.1.trans (g.2.1.trans h3)⟩

/-- The sample source, SYNCED at host time 10, receives the idle schedule of
host time 11 and publishes 11 as its time. -/
theorem src_publishes_first_schedule_witness :
    sample_src_synced.sync_state = SYNCED ∧
    (lwb_thread_src_round sample_cfg (sample_round 11 100 0x8000 33768)
      sample_src_synced).state.global_time = 11 ∧
    (lwb_thread_src_round sample_cfg (sample_round 11 100 0x8000 33768)
      sample_src_synced).state.last_synced_lf = 33768 :=
  ⟨by decide,
   ((src_publishes_first_schedule sample_cfg (sample_round 11 100 0x8000 33768)
     sample_src_synced (by decide) rfl).2.2.2.1 (by decide)).1,
   by decide⟩

/-- C13 as claimed fails for a schedule without the `CONT` flag: the sample
source, SYNCED at host time 10 with its last sync point at LF time 1000,
correctly receives the schedule of a data round (`SACK` flag, one slot) of
host time 11 at LF time 33768. It stays SYNCED, but `global_time` remains 10
and `last_synced_lf` remains 1000, while `t_ref_lf` is 33768. -/
theorem src_publish_data_round_counterexample :
    sample_src_synced.sync_state = SYNCED ∧
    (sample_round 11 2 0x4001 33768).rcv.t_ref_updated = true ∧
    (sample_round 11 2 0x4001 33768).rcv.schedule.time = 11 ∧
    (lwb_thread_src_round sample_cfg (sample_round 11 2 0x4001 33768)
      sample_src_synced).state.sync_state = SYNCED ∧
    (lwb_thread_src_round sample_cfg (sample_round 11 2 0x4001 33768)
      sample_src_synced).state.global_time = 10 ∧
    (lwb_get_time (lwb_thread_src_round sample_cfg (sample_round 11 2 0x4001 33768)
      sample_src_synced).state none).1 = 10 ∧
    (lwb_thread_src_round sample_cfg (sample_round 11 2 0x4001 33768)
      sample_src_synced).state.last_synced_lf = 1000 ∧
    (lwb_thread_src_round sample_cfg (sample_round 11 2 0x4001 33768)
      sample_src_synced).state.t_ref_lf = 33768 := by
  refine ⟨by decide, rfl, rfl, by decide, by decide, by decide, by decide, by decide⟩

/-- C14, the failing input: the sample source is SYNCED at host time 10 with
its last sync point at LF time 1000 and a drift estimate of 0. It correctly
receives the first schedule (`CONT` flag) of host time 11 at LF time 99354.
The measured elapsed time is 98354 LF ticks, the host announced 1 s, which is
32768 ticks: the difference is 65586 ticks, far outside the gate. The code
narrows the difference to `int16_t`, which gives 50, and stores the estimate
25. -/
theorem drift_gate_alias :
    sample_src_synced.sync_state = SYNCED ∧
    sample_src_synced.q.stats.drift = 0 ∧
    (sample_round 11 100 0x8000 99354).rcv.t_ref_updated = true ∧
    IS_FIRST_SCHEDULE (sample_round 11 100 0x8000 99354).rcv.schedule = true ∧
    ((lwb_thread_src_round sample_cfg (sample_round 11 100 0x8000 99354)
        sample_src_synced).state.t_ref_lf : Int) - sample_src_synced.last_synced_lf
      - (((sample_round 11 100 0x8000 99354).rcv.schedule.time : Int)
          - sample_src_synced.global_time) * sample_cfg.RTIMER_SECOND_LF = 65586 ∧
    drift_sample sample_cfg 99354 sample_src_synced.last_synced_lf 11
      sample_src_synced.global_time = 50 ∧
    (lwb_thread_src_round sample_cfg (sample_round 11 100 0x8000 99354)
      sample_src_synced).state.q.stats.drift = 25 := by
  refine ⟨by decide, by decide, rfl, by decide, by decide, by decide, by decide⟩

/-! ### AE scheduler: request round, periods, overflow -/

theorem land_two_pow_of_lt (x k : Nat) (h : x < 2 ^ k) : x &&& 2 ^ k = 0 := by
  apply Nat.eq_of_testBit_eq
  intro i
  rw [Nat.testBit_and, Nat.testBit_two_pow, Nat.zero_testBit]
  by_cases hi : k = i
  · subst hi
    rw [Nat.testBit_lt_two_pow h]
    rfl
  · simp [hi]

theorem flags_clear_of_lt (s : lwb_schedule_t) (h : s.n_slots < 2 ^ 8) :
    LWB_SCHED_HAS_CONT_SLOT s = false ∧ LWB_SCHED_HAS_SACK_SLOT s = false ∧
    LWB_SCHED_HAS_DACK_SLOT s = false ∧ LWB_SCHED_N_SLOTS s = s.n_slots := by
  have h15 : s.n_slots &&& 0x8000 = 0 :=
    land_two_pow_of_lt _ 15 (lt_of_lt_of_le h (by norm_num))
  have h14 : s.n_slots &&& 0x4000 = 0 :=
    land_two_pow_of_lt _ 14 (lt_of_lt_of_le h (by norm_num))
  have h13 : s.n_slots &&& 0x2000 = 0 :=
    land_two_pow_of_lt _ 13 (lt_of_lt_of_le h (by norm_num))
  refine ⟨?_, ?_, ?_, land_low _ h⟩
  · simp [LWB_SCHED_HAS_CONT_SLOT, h15]
  · simp [LWB_SCHED_HAS_SACK_SLOT, h14]
  · simp [LWB_SCHED_HAS_DACK_SLOT, h13]

theorem range_map_eq (f : Nat → Nat) (ids : List Nat)
    (h : ∀ k, k < ids.length → (ids.get? k).getD 0 = f k) :
    (List.range ids.length).map f = ids := by
  apply List.ext_getElem
  · simp
  · intro n h1 h2
    have := h n h2
    simp only [List.get?_eq_getElem?, List.getElem?_eq_getElem h2, Option.getD_some] at this
    simp [this]

/-- The loop of the request round writes the node ids of the list, in list
order, into the slots from `n` on, and counts them. -/
theorem assign_all_spec (l : List lwb_stream_list_t) (slot : Nat → Nat) (n : Nat)
    (h : n + l.length < 2 ^ 8) :
    (assign_all l slot n).2 = n + l.length ∧
    ∀ k, (assign_all l slot n).1 k =
      if k < n then slot k
      else ((l.map (fun e => e.node_id)).get? (k - n)).getD (slot k) := by
  induction l generalizing slot n with
  | nil =>
    refine ⟨rfl, ?_⟩
    intro k
    simp [assign_all]
  | cons c rest ih =>
    rw [List.length_cons] at h
    have hm : (n + 1) % 2 ^ 8 = n + 1 := Nat.mod_eq_of_lt (by omega)
    have ih2 := ih (array_store slot n c.node_id) (n + 1) (by omega)
    unfold assign_all
    rw [hm]
    refine ⟨by rw [ih2.1, List.length_cons]; omega, ?_⟩
    intro k
    rw [ih2.2 k]
    by_cases h1 : k < n
    · have h2 : k < n + 1 := by omega
      have h3 : k ≠ n := by omega
      simp [h1, h2, array_store, h3]
    · by_cases h2 : k = n
      · subst h2
        simp [array_store]
      · have h3 : ¬ k < n + 1 := by omega
        have h4 : k - n = (k - (n + 1)) + 1 := by omega
        simp only [h1, h3, if_false, List.map_cons]
        rw [h4, List.get?_cons_succ]
        simp [array_store, h2]

theorem lwb_sched_compute_idle_rx_full (cfg : Config) (n_rx_started : Nat) (st : AeState)
    (sched : lwb_schedule_t) (streams_to_update : Nat → Nat) (reserve_slot_host : Nat)
    (h0 : st.sched_state = 0) (hrx : n_rx_started ≠ 0) :
    (lwb_sched_compute cfg n_rx_started st sched streams_to_update
      reserve_slot_host).2.2.slot = (assign_all st.streams_list (fun _ => 0) 0).1 ∧
    (lwb_sched_compute cfg n_rx_started st sched streams_to_update
      reserve_slot_host).2.2.period = 1 ∧
    (lwb_sched_compute cfg n_rx_started st sched streams_to_update
      reserve_slot_host).2.1.streams_list = st.streams_list ∧
    (lwb_sched_compute cfg n_rx_started st sched streams_to_update
      reserve_slot_host).2.1.n_streams = st.n_streams := by
  simp [lwb_sched_compute, h0, hrx]

/-- C21: the request-round schedule, emitted by `lwb_sched_compute` in the
idle state when contention activity was observed, holds one slot per known
stream: slot `i` is the node id of the `i`-th entry of the stream list,
active or not, in list order, the slots after them are 0, and the slot count
is the length of the list; the flags `CONT`, `SACK` and `DACK` are clear; the
list itself is untouched and the policy moves to the request state. The list
has fewer than 256 entries (`n_slots_assigned` is a `uint8_t`). -/
theorem request_round_schedule (cfg : Config) (n_rx_started : Nat) (st : AeState)
    (sched : lwb_schedule_t) (streams_to_update : Nat → Nat) (reserve_slot_host : Nat)
    (h0 : st.sched_state = 0) (hrx : n_rx_started ≠ 0)
    (hl : st.streams_list.length < 2 ^ 8) :
    LWB_SCHED_N_SLOTS (lwb_sched_compute cfg n_rx_started st sched streams_to_update
      reserve_slot_host).2.2 = st.streams_list.length ∧
    (List.range (LWB_SCHED_N_SLOTS (lwb_sched_compute cfg n_rx_started st sched
        streams_to_update reserve_slot_host).2.2)).map
      (lwb_sched_compute cfg n_rx_started st sched streams_to_update
        reserve_slot_host).2.2.slot
      = st.streams_list.map (fun e => e.node_id) ∧
    (∀ i, st.streams_list.length ≤ i →
      (lwb_sched_compute cfg n_rx_started st sched streams_to_update
        reserve_slot_host).2.2.slot i = 0) ∧
    LWB_SCHED_HAS_CONT_SLOT (lwb_sched_compute cfg n_rx_started st sched streams_to_update
      reserve_slot_host).2.2 = false ∧
    LWB_SCHED_HAS_SACK_SLOT (lwb_sched_compute cfg n_rx_started st sched streams_to_update
      reserve_slot_host).2.2 = false ∧
    LWB_SCHED_HAS_DACK_SLOT (lwb_sched_compute cfg n_rx_started st sched streams_to_update
      reserve_slot_host).2.2 = false ∧
    (lwb_sched_compute cfg n_rx_started st sched streams_to_update
      reserve_slot_host).2.1.streams_list = st.streams_list ∧
    (lwb_sched_compute cfg n_rx_started st sched streams_to_update
      reserve_slot_host).2.1.sched_state = 1 := by
  have k := (lwb_sched_compute_out cfg n_rx_started st sched streams_to_update
    reserve_slot_host).2.1 h0 hrx
  have f := lwb_sched_compute_idle_rx_full cfg n_rx_started st sched streams_to_update
    reserve_slot_host h0 hrx
  have a := assign_all_spec st.streams_list (fun _ => 0) 0 (by omega)
  have hn : (lwb_sched_compute cfg n_rx_started st sched streams_to_update
      reserve_slot_host).2.2.n_slots = st.streams_list.length := by
    rw [k.2.2, a.1]; omega
  have fl := flags_clear_of_lt _ (show (lwb_sched_compute cfg n_rx_started st sched
    streams_to_update reserve_slot_host).2.2.n_slots < 2 ^ 8 by rw [hn]; exact hl)
  have hN := fl.2.2.2.trans hn
  refine ⟨hN, ?_, ?_, fl.1, fl.2.1, fl.2.2.1, f.2.2.1, k.2.1⟩
  · rw [hN, f.1]
    have e := range_map_eq (assign_all st.streams_list (fun _ => 0) 0).1
      (st.streams_list.map (fun e => e.node_id)) (by
        intro k _
        rw [a.2 k]
        simp)
    rw [List.length_map] at e
    exact e
  · intro i hi
    rw [f.1, a.2 i]
    simp only [Nat.not_lt_zero, if_false, Nat.sub_zero]
    rw [List.get?_eq_none.2 (by simpa using hi)]
    rfl

/-- After a stream request of node 7 the request-round schedule of the sample
configuration has the one slot 7. -/
theorem request_round_schedule_witness :
    (List.range (LWB_SCHED_N_SLOTS (lwb_sched_compute sample_cfg 1
        (ae_run sample_cfg [AeCall.proc_srq { node_id := 7 }]) schedule_zero (fun _ => 0)
        0).2.2)).map
      (lwb_sched_compute sample_cfg 1 (ae_run sample_cfg [AeCall.proc_srq { node_id := 7 }])
        schedule_zero (fun _ => 0) 0).2.2.slot
      = (ae_run sample_cfg [AeCall.proc_srq { node_id := 7 }]).streams_list.map
          (fun e => e.node_id) ∧
    (ae_run sample_cfg [AeCall.proc_srq { node_id := 7 }]).streams_list.map
      (fun e => e.node_id) = [7] :=
  ⟨(request_round_schedule sample_cfg 1 (ae_run sample_cfg [AeCall.proc_srq { node_id := 7 }])
      schedule_zero (fun _ => 0) 0 (by decide) (by decide) (by decide)).2.1,
   by decide⟩

/-- C22, as the code has it: the request-round schedule, emitted by
`lwb_sched_compute` in the idle state when contention activity was observed,
has the period 1, "the smallest value". The period `T_REQ_ROUND` is that of
the schedule emitted next, by `lwb_sched_compute` in the request state when a
data slot was assigned. -/
theorem request_round_period (cfg : Config) (n_rx_started : Nat) (st : AeState)
    (sched : lwb_schedule_t) (streams_to_update : Nat → Nat) (reserve_slot_host : Nat) :
    (st.sched_state = 0 → n_rx_started ≠ 0 →
      (lwb_sched_compute cfg n_rx_started st sched streams_to_update
        reserve_slot_host).2.2.period = 1) ∧
    (st.sched_state = 1 → (data_round_slots cfg st.n_streams st.streams_list).2 ≠ 0 →
      (lwb_sched_compute cfg n_rx_started st sched streams_to_update
        reserve_slot_host).2.2.period = cfg.LWB_CONF_T_REQ_ROUND % 2 ^ 16) := by
  constructor
  · intro h0 hrx
    simp [lwb_sched_compute, h0, hrx]
  · intro h1 ha
    simp [lwb_sched_compute, h1, ha, LWB_SCHED_SET_SACK_SLOT]

/-- C22 as claimed fails whenever `T_REQ_ROUND` is not 1: in the sample
configuration `T_REQ_ROUND` is 2, and the request-round schedule emitted
after start-up on contention activity has period 1. -/
theorem request_round_period_counterexample :
    (lwb_sched_init sample_cfg schedule_zero).2.1.sched_state = 0 ∧
    sample_cfg.LWB_CONF_T_REQ_ROUND = 2 ∧
    (lwb_sched_compute sample_cfg 1 (lwb_sched_init sample_cfg schedule_zero).2.1
      (lwb_sched_init sample_cfg schedule_zero).2.2 (fun _ => 0) 0).2.2.period = 1 ∧
    (lwb_sched_compute sample_cfg 1 (lwb_sched_init sample_cfg schedule_zero).2.1
      (lwb_sched_init sample_cfg schedule_zero).2.2 (fun _ => 0) 0).2.2.period
      ≠ sample_cfg.LWB_CONF_T_REQ_ROUND := by
  refine ⟨rfl, rfl, by decide, by decide⟩

/-- C25: the cycle realigns to the base cadence. The idle schedule emitted on
the data-to-idle edge has period `SCHED_PERIOD_IDLE*10 - T_REQ_ROUND - 1`, and
the periods of the three schedules of a cycle, the request-round schedule
(emitted in the idle state `st0` on contention activity), the data-round
schedule (emitted in the request state `st1` when a slot was assigned) and the
idle schedule after the data round (emitted in the data state `st2`), sum to
`SCHED_PERIOD_IDLE*10`, provided `SCHED_PERIOD_IDLE*10 >= T_REQ_ROUND + 1` and
the idle period fits the 16-bit field. -/
theorem cycle_realigns (cfg : Config) (st0 st1 st2 : AeState)
    (sched0 sched1 sched2 : lwb_schedule_t) (n0 n1 n2 : Nat) (u0 u1 u2 : Nat → Nat)
    (r0 r1 r2 : Nat)
    (h0 : st0.sched_state = 0) (hrx : n0 ≠ 0)
    (h1 : st1.sched_state = 1)
    (ha : (data_round_slots cfg st1.n_streams st1.streams_list).2 ≠ 0)
    (h2 : st2.sched_state = 2)
    (hp : cfg.LWB_CONF_T_REQ_ROUND + 1 ≤ cfg.LWB_CONF_SCHED_PERIOD_IDLE * 10)
    (hi : cfg.LWB_CONF_SCHED_PERIOD_IDLE * 10 < 2 ^ 16) :
    (lwb_sched_compute cfg n2 st2 sched2 u2 r2).2.2.period
      = cfg.LWB_CONF_SCHED_PERIOD_IDLE * 10 - cfg.LWB_CONF_T_REQ_ROUND - 1 ∧
    (lwb_sched_compute cfg n0 st0 sched0 u0 r0).2.2.period
      + (lwb_sched_compute cfg n1 st1 sched1 u1 r1).2.2.period
      + (lwb_sched_compute cfg n2 st2 sched2 u2 r2).2.2.period
      = cfg.LWB_CONF_SCHED_PERIOD_IDLE * 10 ∧
    (lwb_sched_compute cfg n0 st0 sched0 u0 r0).2.1.sched_state = 1 ∧
    (lwb_sched_compute cfg n1 st1 sched1 u1 r1).2.1.sched_state = 2 ∧
    (lwb_sched_compute cfg n2 st2 sched2 u2 r2).2.1.sched_state = 0 := by
  have e0 : (lwb_sched_compute cfg n0 st0 sched0 u0 r0).2.2.period = 1 := by
    simp [lwb_sched_compute, h0, hrx]
  have e1 : (lwb_sched_compute cfg n1 st1 sched1 u1 r1).2.2.period
      = cfg.LWB_CONF_T_REQ_ROUND % 2 ^ 16 := by
    simp [lwb_sched_compute, h1, ha, LWB_SCHED_SET_SACK_SLOT]
  have e2 : (lwb_sched_compute cfg n2 st2 sched2 u2 r2).2.2.period
      = (cfg.LWB_CONF_SCHED_PERIOD_IDLE * 10 + 2 * 2 ^ 16
          - cfg.LWB_CONF_T_REQ_ROUND % 2 ^ 16 - 1) % 2 ^ 16 := by
    simp [lwb_sched_compute, h2, LWB_SCHED_SET_CONT_SLOT]
  have hT : cfg.LWB_CONF_T_REQ_ROUND % 2 ^ 16 = cfg.LWB_CONF_T_REQ_ROUND :=
    Nat.mod_eq_of_lt (by omega)
  have e3 : (lwb_sched_compute cfg n2 st2 sched2 u2 r2).2.2.period
      = cfg.LWB_CONF_SCHED_PERIOD_IDLE * 10 - cfg.LWB_CONF_T_REQ_ROUND - 1 := by
    rw [e2, hT]
    omega
  refine ⟨e3, ?_, ?_, ?_, ?_⟩
  · rw [e0, e1, e3, hT]
    omega
  · exact ((lwb_sched_compute_out cfg n0 st0 sched0 u0 r0).2.1 h0 hrx).2.1
  · exact ((lwb_sched_compute_out cfg n1 st1 sched1 u1 r1).2.2.1 h1 ha).2.1
  · exact ((lwb_sched_compute_out cfg n2 st2 sched2 u2 r2).2.2.2.2 h2).2.1

/-- In the sample configuration (idle period 100, `T_REQ_ROUND` 2) the three
schedules of the cycle that serves the stream of node 7 have the periods 1, 2
and 97. -/
theorem cycle_realigns_witness :
    (lwb_sched_compute sample_cfg 1 (ae_run sample_cfg [AeCall.proc_srq { node_id := 7 }])
        schedule_zero (fun _ => 0) 0).2.2.period
      + (lwb_sched_compute sample_cfg 0 sample_ae_stream schedule_zero (fun _ => 0)
        0).2.2.period
      + (lwb_sched_compute sample_cfg 0
          (lwb_sched_compute sample_cfg 0 sample_ae_stream schedule_zero (fun _ => 0) 0).2.1
          schedule_zero (fun _ => 0) 0).2.2.period
      = 100 ∧
    (lwb_sched_compute sample_cfg 0
      (lwb_sched_compute sample_cfg 0 sample_ae_stream schedule_zero (fun _ => 0) 0).2.1
      schedule_zero (fun _ => 0) 0).2.2.period = 97 :=
  ⟨(cycle_realigns sample_cfg (ae_run sample_cfg [AeCall.proc_srq { node_id := 7 }])
      sample_ae_stream
      (lwb_sched_compute sample_cfg 0 sample_ae_stream schedule_zero (fun _ => 0) 0).2.1
      schedule_zero schedule_zero schedule_zero 1 0 0 (fun _ => 0) (fun _ => 0) (fun _ => 0)
      0 0 0 (by decide) (by decide) (by decide) (by decide) (by decide) (by decide)
      (by decide)).2.1,
   by decide⟩

theorem srq_find_absent (node_id : Nat) (l : List lwb_stream_list_t) (n : Nat)
    (h : ∀ e ∈ l, e.node_id ≠ node_id) : srq_find node_id l n = (l, n, false) := by
  induction l with
  | nil => rfl
  | cons c rest ih =>
    have hc : ¬ node_id = c.node_id := fun e => h c (List.mem_cons_self _ _) e.symm
    have hr := ih (fun e he => h e (List.mem_cons_of_mem _ he))
    unfold srq_find
    rw [if_neg hc, hr]

/-- C27: stream-table overflow drops the request. When `n_streams` has
reached `MAX_N_STREAMS`, or the pool of `MAX_N_STREAMS` entries is exhausted
(the list has that many entries, none is ever freed), `lwb_sched_proc_srq`
for a node that is not in the list returns with all statics unchanged: the
list, every stream's state and `n_streams`. -/
theorem srq_overflow_dropped (cfg : Config) (st : AeState) (req : lwb_stream_req_t)
    (hn : ∀ e ∈ st.streams_list, e.node_id ≠ req.node_id)
    (hfull : st.n_streams ≥ cfg.LWB_CONF_MAX_N_STREAMS ∨
      st.streams_list.length ≥ cfg.LWB_CONF_MAX_N_STREAMS) :
    lwb_sched_proc_srq cfg st req = st := by
  unfold lwb_sched_proc_srq
  by_cases h1 : st.n_streams ≥ cfg.LWB_CONF_MAX_N_STREAMS
  · rw [if_pos h1]
  · rw [if_neg h1]
    have h2 : st.streams_list.length ≥ cfg.LWB_CONF_MAX_N_STREAMS := by
      rcases hfull with h | h
      · exact absurd h h1
      · exact h
    simp [srq_find_absent req.node_id st.streams_list st.n_streams hn, h2]

/-- With a pool of one entry, taken by node 7, a request of node 9 is
dropped. -/
theorem srq_overflow_dropped_witness :
    lwb_sched_proc_srq { sample_cfg with LWB_CONF_MAX_N_STREAMS := 1 }
      (ae_run { sample_cfg with LWB_CONF_MAX_N_STREAMS := 1 }
        [AeCall.proc_srq { node_id := 7 }]) { node_id := 9 }
      = ae_run { sample_cfg with LWB_CONF_MAX_N_STREAMS := 1 }
          [AeCall.proc_srq { node_id := 7 }] :=
  srq_overflow_dropped { sample_cfg with LWB_CONF_MAX_N_STREAMS := 1 }
    (ae_run { sample_cfg with LWB_CONF_MAX_N_STREAMS := 1 }
      [AeCall.proc_srq { node_id := 7 }]) { node_id := 9 } (by decide)
    (Or.inl (by decide))

/-! ### AE scheduler: the ordered stream list -/

theorem srq_insert_after_none (new : lwb_stream_list_t) :
    ∀ l : List lwb_stream_list_t, srq_insert_after new l = none →
      ∀ e ∈ l, new.node_id < e.node_id
  | [], _ => by simp
  | [prev], h => by
    simp only [srq_insert_after] at h
    split_ifs at h with hc
    intro e he
    simp only [List.mem_singleton] at he
    subst he
    omega
  | prev :: nxt :: rest, h => by
    simp only [srq_insert_after] at h
    split_ifs at h with hc
    have hr : srq_insert_after new (nxt :: rest) = none := by
      cases hx : srq_insert_after new (nxt :: rest) with
      | none => rfl
      | some l3 => rw [hx] at h; simp at h
    have ih := srq_insert_after_none new (nxt :: rest) hr
    have hn := ih nxt (List.mem_cons_self _ _)
    intro e he
    rcases List.mem_cons.1 he with he | he
    · subst he
      omega
    · exact ih e he

theorem srq_insert_after_some (new : lwb_stream_list_t) :
    ∀ (l l2 : List lwb_stream_list_t),
      l.Pairwise (fun a b => a.node_id < b.node_id) →
      (∀ e ∈ l, e.node_id ≠ new.node_id) →
      srq_insert_after new l = some l2 →
      ∃ a b : List lwb_stream_list_t, a ≠ [] ∧ l = a ++ b ∧ l2 = a ++ new :: b ∧
        (∀ e ∈ a, e.node_id < new.node_id) ∧ (∀ e ∈ b, new.node_id < e.node_id)
  | [], l2, _, _, h => by simp [srq_insert_after] at h
  | [prev], l2, _, hne, h => by
    simp only [srq_insert_after] at h
    split_ifs at h with hc
    injection h with h
    subst h
    have hp := hne prev (List.mem_singleton_self _)
    refine ⟨[prev], [], by simp, rfl, rfl, ?_, by simp⟩
    intro e he
    simp only [List.mem_singleton] at he
    subst he
    omega
  | prev :: nxt :: rest, l2, hs, hne, h => by
    simp only [srq_insert_after] at h
    have hs2 := List.pairwise_cons.1 hs
    split_ifs at h with hc
    · injection h with h
      subst h
      have hp := hne prev (List.mem_cons_self _ _)
      refine ⟨[prev], nxt :: rest, by simp, rfl, rfl, ?_, ?_⟩
      · intro e he
        simp only [List.mem_singleton] at he
        subst he
        omega
      · intro e he
        rcases List.mem_cons.1 he with he | he
        · subst he
          exact hc.2
        · have := (List.pairwise_cons.1 hs2.2).1 e he
          omega
    · cases hx : srq_insert_after new (nxt :: rest) with
      | none => rw [hx] at h; simp at h
      | some l3 =>
        rw [hx] at h
        simp only [Option.map_some', Option.some.injEq] at h
        subst h
        obtain ⟨a, b, ha, hab, hl3, h1, h2⟩ := srq_insert_after_some new (nxt :: rest) l3
          hs2.2 (fun e he => hne e (List.mem_cons_of_mem _ he)) hx
        have hmem : nxt ∈ a := by
          cases a with
          | nil => exact absurd rfl ha
          | cons x xs =>
            simp only [List.cons_append, List.cons.injEq] at hab
            rw [hab.1]
            exact List.mem_cons_self _ _
        have hnx := h1 nxt hmem
        have hpn := hs2.1 nxt (List.mem_cons_self _ _)
        refine ⟨prev :: a, b, by simp, by rw [hab]; rfl, by rw [hl3]; rfl, ?_, h2⟩
        intro e he
        rcases List.mem_cons.1 he with he | he
        · subst he
          omega
        · exact h1 e he

/-- The insertion puts the new entry at its sorted position. -/
theorem srq_insert_spec (new : lwb_stream_list_t) (l : List lwb_stream_list_t)
    (hs : l.Pairwise (fun a b => a.node_id < b.node_id))
    (hne : ∀ e ∈ l, e.node_id ≠ new.node_id) :
    ∃ a b : List lwb_stream_list_t, l = a ++ b ∧ srq_insert new l = a ++ new :: b ∧
      (∀ e ∈ a, e.node_id < new.node_id) ∧ (∀ e ∈ b, new.node_id < e.node_id) := by
  unfold srq_insert
  cases hx : srq_insert_after new l with
  | none =>
    exact ⟨[], l, rfl, rfl, by simp, srq_insert_after_none new l hx⟩
  | some l2 =>
    obtain ⟨a, b, _, hab, hl2, h1, h2⟩ := srq_insert_after_some new l l2 hs hne hx
    exact ⟨a, b, hab, hl2, h1, h2⟩

theorem sorted_insert (new : lwb_stream_list_t) (a b : List lwb_stream_list_t)
    (hs : (a ++ b).Pairwise (fun x y => x.node_id < y.node_id))
    (h1 : ∀ e ∈ a, e.node_id < new.node_id) (h2 : ∀ e ∈ b, new.node_id < e.node_id) :
    (a ++ new :: b).Pairwise (fun x y => x.node_id < y.node_id) := by
  rw [List.pairwise_append] at hs ⊢
  refine ⟨hs.1, List.pairwise_cons.2 ⟨h2, hs.2.1⟩, ?_⟩
  intro x hx y hy
  rcases List.mem_cons.1 hy with hy | hy
  · subst hy
    exact h1 x hx
  · exact hs.2.2 x hx y hy

theorem AeReachable.induct (cfg : Config) (P : AeState → Prop)
    (h0 : P (lwb_sched_init cfg schedule_zero).2.1)
    (hs : ∀ (st : AeState) (c : AeCall), AeReachable cfg st → P st →
      P (AeCall.apply cfg st c)) :
    ∀ st : AeState, AeReachable cfg st → P st := by
  intro st hr
  obtain ⟨calls, rfl⟩ := hr
  induction calls using List.reverseRecOn with
  | nil => exact h0
  | append_singleton l c ih =>
    have e : ae_run cfg (l ++ [c]) = AeCall.apply cfg (ae_run cfg l) c := by
      unfold ae_run
      rw [List.foldl_append]
      rfl
    rw [e]
    exact hs _ c ⟨l, rfl⟩ ih

theorem active_ids_cons (c : lwb_stream_list_t) (rest : List lwb_stream_list_t) :
    active_ids (c :: rest) =
      if c.state ≠ 0 then c.node_id :: active_ids rest else active_ids rest := by
  unfold active_ids
  by_cases h : c.state ≠ 0
  · simp [List.filter_cons, h]
  · simp [List.filter_cons, h]

theorem active_ids_append (a b : List lwb_stream_list_t) :
    active_ids (a ++ b) = active_ids a ++ active_ids b := by
  unfold active_ids
  rw [List.filter_append, List.map_append]

theorem active_ids_length_le (l : List lwb_stream_list_t) :
    (active_ids l).length ≤ l.length := by
  unfold active_ids
  rw [List.length_map]
  exact List.length_filter_le _ _

theorem srq_find_ids (node_id : Nat) (l : List lwb_stream_list_t) (n : Nat) :
    (srq_find node_id l n).1.map (fun e => e.node_id) = l.map (fun e => e.node_id) := by
  induction l with
  | nil => rfl
  | cons c rest ih =>
    unfold srq_find
    split_ifs
    · rfl
    · rfl
    · simp [ih]

theorem srq_find_count (node_id : Nat) (l : List lwb_stream_list_t) (n : Nat) :
    ((srq_find node_id l n).2.1 = n ∧
      (active_ids (srq_find node_id l n).1).length = (active_ids l).length) ∨
    ((srq_find node_id l n).2.1 = (n + 1) % 2 ^ 16 ∧
      (active_ids (srq_find node_id l n).1).length = (active_ids l).length + 1) := by
  induction l with
  | nil => exact Or.inl ⟨rfl, rfl⟩
  | cons c rest ih =>
    unfold srq_find
    split_ifs with h1 h2
    · right
      refine ⟨rfl, ?_⟩
      rw [active_ids_cons, active_ids_cons]
      simp [h2]
    · exact Or.inl ⟨rfl, rfl⟩
    · rcases ih with h | h
      · left
        refine ⟨h.1, ?_⟩
        rw [active_ids_cons, active_ids_cons]
        split_ifs <;> simp [h.2]
      · right
        refine ⟨h.1, ?_⟩
        rw [active_ids_cons, active_ids_cons]
        split_ifs <;> simp [h.2]

theorem deactivate_first_ids (node_id : Nat) (rcvd : Bool) (l : List lwb_stream_list_t) :
    (deactivate_first node_id rcvd l).1.map (fun e => e.node_id)
      = l.map (fun e => e.node_id) := by
  induction l with
  | nil => rfl
  | cons c rest ih =>
    unfold deactivate_first
    split_ifs
    · rfl
    · rfl
    · simp [ih]

theorem deactivate_first_count (node_id : Nat) (rcvd : Bool) (l : List lwb_stream_list_t) :
    ((deactivate_first node_id rcvd l).2 = true →
      (active_ids (deactivate_first node_id rcvd l).1).length + 1 = (active_ids l).length) ∧
    ((deactivate_first node_id rcvd l).2 = false → (deactivate_first node_id rcvd l).1 = l) := by
  induction l with
  | nil =>
    constructor
    · intro h
      simp [deactivate_first] at h
    · intro _
      rfl
  | cons c rest ih =>
    unfold deactivate_first
    split_ifs with h1 h2
    · constructor
      · intro _
        rw [active_ids_cons, active_ids_cons]
        simp [h2.1]
      · intro h
        simp at h
    · constructor
      · intro h
        simp at h
      · intro _
        rfl
    · constructor
      · intro h
        have := ih.1 h
        rw [active_ids_cons, active_ids_cons]
        split_ifs
        · simp only [List.length_cons]
          omega
        · exact this
      · intro h
        have := ih.2 h
        simp only [this]

theorem sorted_of_ids (l l2 : List lwb_stream_list_t)
    (h : l2.map (fun e => e.node_id) = l.map (fun e => e.node_id))
    (hs : l.Pairwise (fun a b => a.node_id < b.node_id)) :
    l2.Pairwise (fun a b => a.node_id < b.node_id) := by
  have e1 : (l.map (fun e => e.node_id)).Pairwise (fun a b => a < b) :=
    List.pairwise_map.2 hs
  rw [← h] at e1
  exact List.pairwise_map.1 e1

theorem srq_find_found (node_id : Nat) (l : List lwb_stream_list_t) (n : Nat)
    (h : ∃ e ∈ l, e.node_id = node_id) : (srq_find node_id l n).2.2 = true := by
  induction l with
  | nil =>
    obtain ⟨e, he, _⟩ := h
    exact absurd he (List.not_mem_nil _)
  | cons c rest ih =>
    unfold srq_find
    split_ifs with k1 k2
    · rfl
    · rfl
    · obtain ⟨e, he, heq⟩ := h
      rcases List.mem_cons.1 he with he | he
      · subst he
        exact absurd heq.symm k1
      · exact ih ⟨e, he, heq⟩

theorem lwb_sched_proc_srq_inv (cfg : Config) (st : AeState) (req : lwb_stream_req_t)
    (hmax : cfg.LWB_CONF_MAX_N_STREAMS < 2 ^ 16)
    (hs : st.streams_list.Pairwise (fun a b => a.node_id < b.node_id))
    (hc : st.n_streams = (active_ids st.streams_list).length) :
    (lwb_sched_proc_srq cfg st req).streams_list.Pairwise
      (fun a b => a.node_id < b.node_id) ∧
    (lwb_sched_proc_srq cfg st req).n_streams
      = (active_ids (lwb_sched_proc_srq cfg st req).streams_list).length := by
  dsimp only [lwb_sched_proc_srq]
  split_ifs with h1 h2 h3
  · exact ⟨hs, hc⟩
  · refine ⟨sorted_of_ids _ _ (srq_find_ids _ _ _) hs, ?_⟩
    show (srq_find _ _ _).2.1 = (active_ids (srq_find _ _ _).1).length
    have hm : (st.n_streams + 1) % 2 ^ 16 = st.n_streams + 1 :=
      Nat.mod_eq_of_lt (by omega)
    rcases srq_find_count req.node_id st.streams_list st.n_streams with h | h
    · rw [h.1, h.2]
      exact hc
    · rw [h.1, h.2, hm, hc]
  · exact ⟨hs, hc⟩
  · have hne : ∀ e ∈ st.streams_list, e.node_id ≠ req.node_id := by
      intro e he heq
      exact h2 (srq_find_found req.node_id st.streams_list st.n_streams ⟨e, he, heq⟩)
    obtain ⟨a, b, hab, hins, ha, hb⟩ :=
      srq_insert_spec { node_id := req.node_id, state := 1 } st.streams_list hs hne
    have hm : (st.n_streams + 1) % 2 ^ 16 = st.n_streams + 1 :=
      Nat.mod_eq_of_lt (by omega)
    constructor
    · show (srq_insert _ _).Pairwise _
      rw [hins]
      exact sorted_insert _ a b (hab ▸ hs) ha hb
    · show (st.n_streams + 1) % 2 ^ 16 = (active_ids (srq_insert _ _)).length
      rw [hins, hm, hc, hab, active_ids_append, active_ids_append, active_ids_cons]
      simp
      omega

theorem sack_step_inv (cfg : Config) (sched : lwb_schedule_t) (streams_to_update : Nat → Nat)
    (st : AeState) (i : Nat)
    (hs : st.streams_list.Pairwise (fun a b => a.node_id < b.node_id))
    (hc : st.n_streams = (active_ids st.streams_list).length) :
    (sack_step cfg sched streams_to_update st i).streams_list.Pairwise
      (fun a b => a.node_id < b.node_id) ∧
    (sack_step cfg sched streams_to_update st i).n_streams
      = (active_ids (sack_step cfg sched streams_to_update st i).streams_list).length := by
  have k := deactivate_first_count (sched.slot i)
    (decide (streams_to_update i ≠ cfg.LWB_INVALID_STREAM_ID)) st.streams_list
  dsimp only [sack_step]
  split_ifs with h1 h2
  · exfalso
    have := k.1 h1
    omega
  · refine ⟨sorted_of_ids _ _ (deactivate_first_ids _ _ _) hs, ?_⟩
    have := k.1 h1
    show st.n_streams - 1 = (active_ids (deactivate_first _ _ _).1).length
    omega
  · exact ⟨hs, hc⟩

theorem sack_fold_inv (cfg : Config) (sched : lwb_schedule_t) (streams_to_update : Nat → Nat)
    (l : List Nat) (st : AeState)
    (hs : st.streams_list.Pairwise (fun a b => a.node_id < b.node_id))
    (hc : st.n_streams = (active_ids st.streams_list).length) :
    (l.foldl (sack_step cfg sched streams_to_update) st).streams_list.Pairwise
      (fun a b => a.node_id < b.node_id) ∧
    (l.foldl (sack_step cfg sched streams_to_update) st).n_streams
      = (active_ids (l.foldl (sack_step cfg sched streams_to_update) st).streams_list).length := by
  induction l generalizing st with
  | nil => exact ⟨hs, hc⟩
  | cons i rest ih =>
    rw [List.foldl_cons]
    have k := sack_step_inv cfg sched streams_to_update st i hs hc
    exact ih _ k.1 k.2

theorem lwb_sched_compute_inv (cfg : Config) (n_rx_started : Nat) (st : AeState)
    (sched : lwb_schedule_t) (streams_to_update : Nat → Nat) (reserve_slot_host : Nat)
    (hs : st.streams_list.Pairwise (fun a b => a.node_id < b.node_id))
    (hc : st.n_streams = (active_ids st.streams_list).length) :
    (lwb_sched_compute cfg n_rx_started st sched streams_to_update
      reserve_slot_host).2.1.streams_list.Pairwise (fun a b => a.node_id < b.node_id) ∧
    (lwb_sched_compute cfg n_rx_started st sched streams_to_update
      reserve_slot_host).2.1.n_streams
      = (active_ids (lwb_sched_compute cfg n_rx_started st sched streams_to_update
          reserve_slot_host).2.1.streams_list).length := by
  dsimp only [lwb_sched_compute]
  split_ifs
  · exact ⟨hs, hc⟩
  · exact ⟨hs, hc⟩
  · exact ⟨hs, hc⟩
  · exact ⟨hs, hc⟩
  · exact sack_fold_inv cfg sched streams_to_update _ _ hs hc
  · exact ⟨hs, hc⟩

/-- In every reachable state of the AE scheduler the stream list is strictly
ascending in `node_id`, and `n_streams` is the number of its active
entries (`n_streams` is a `uint16_t`: the pool has fewer than 65536
entries). -/
theorem AeReachable.sorted_count (cfg : Config) (hmax : cfg.LWB_CONF_MAX_N_STREAMS < 2 ^ 16)
    (st : AeState) (hr : AeReachable cfg st) :
    st.streams_list.Pairwise (fun a b => a.node_id < b.node_id) ∧
    st.n_streams = (active_ids st.streams_list).length := by
  refine AeReachable.induct cfg
    (fun st => st.streams_list.Pairwise (fun a b => a.node_id < b.node_id) ∧
      st.n_streams = (active_ids st.streams_list).length) ?_ ?_ st hr
  · exact ⟨List.Pairwise.nil, rfl⟩
  · intro s c _ hp
    cases c with
    | proc_srq req => exact lwb_sched_proc_srq_inv cfg s req hmax hp.1 hp.2
    | compute n_rx_started sched streams_to_update reserve_slot_host =>
      exact lwb_sched_compute_inv cfg n_rx_started s sched streams_to_update
        reserve_slot_host hp.1 hp.2

theorem all_active_of_count (l : List lwb_stream_list_t)
    (h : l.length ≤ (active_ids l).length) : ∀ e ∈ l, e.state ≠ 0 := by
  induction l with
  | nil => intro e he; exact absurd he (List.not_mem_nil _)
  | cons c rest ih =>
    rw [active_ids_cons] at h
    have hle := active_ids_length_le rest
    by_cases hc : c.state ≠ 0
    · rw [if_pos hc] at h
      simp only [List.length_cons] at h
      intro e he
      rcases List.mem_cons.1 he with he | he
      · subst he
        exact hc
      · exact ih (by omega) e he
    · rw [if_neg hc] at h
      simp only [List.length_cons] at h
      omega

theorem srq_find_active (node_id : Nat) (l : List lwb_stream_list_t) (n : Nat)
    (hs : l.Pairwise (fun a b => a.node_id < b.node_id))
    (hf : (srq_find node_id l n).2.2 = true) :
    ∀ e ∈ (srq_find node_id l n).1, e.node_id = node_id → e.state ≠ 0 := by
  induction l with
  | nil => simp [srq_find] at hf
  | cons c rest ih =>
    have hs2 := List.pairwise_cons.1 hs
    unfold srq_find at hf ⊢
    split_ifs at hf ⊢ with h1 h2
    · intro e he heq
      rcases List.mem_cons.1 he with he | he
      · subst he
        exact Nat.one_ne_zero
      · have := hs2.1 e he
        omega
    · intro e he heq
      rcases List.mem_cons.1 he with he | he
      · subst he
        exact h2
      · have := hs2.1 e he
        omega
    · intro e he heq
      rcases List.mem_cons.1 he with he | he
      · subst he
        exact absurd heq.symm h1
      · exact ih hs2.2 hf e he heq

theorem srq_find_others (node_id : Nat) (l : List lwb_stream_list_t) (n : Nat) :
    ∀ e ∈ l, e.node_id ≠ node_id → e ∈ (srq_find node_id l n).1 := by
  induction l with
  | nil => intro e he; exact absurd he (List.not_mem_nil _)
  | cons c rest ih =>
    intro e he hne
    unfold srq_find
    split_ifs with h1 h2
    · rcases List.mem_cons.1 he with he | he
      · subst he
        exact absurd h1.symm hne
      · exact List.mem_cons_of_mem _ he
    · exact he
    · rcases List.mem_cons.1 he with he | he
      · subst he
        exact List.mem_cons_self _ _
      · exact List.mem_cons_of_mem _ (ih e he hne)

/-- C26: after `lwb_sched_init` and any sequence of `lwb_sched_proc_srq` and
`lwb_sched_compute` calls the stream list is strictly ascending in `node_id`,
so no node appears twice. A request from a node already in the list adds no
entry (the node ids of the list are as before), leaves the other entries as
they were, and the entry of that node is active afterwards. A request from a
node that is not in the list, when accepted (`n_streams` below
`MAX_N_STREAMS` and a free pool entry), inserts exactly one active entry at
its sorted position: the entries before it have smaller ids, those after it
larger ones. The pool has fewer than 65536 entries (`n_streams` is a
`uint16_t`). -/
theorem stream_list_ordered (cfg : Config) (st : AeState) (hr : AeReachable cfg st)
    (hmax : cfg.LWB_CONF_MAX_N_STREAMS < 2 ^ 16) (req : lwb_stream_req_t) :
    st.streams_list.Pairwise (fun a b => a.node_id < b.node_id) ∧
    (lwb_sched_proc_srq cfg st req).streams_list.Pairwise
      (fun a b => a.node_id < b.node_id) ∧
    ((∃ e ∈ st.streams_list, e.node_id = req.node_id) →
      (lwb_sched_proc_srq cfg st req).streams_list.map (fun e => e.node_id)
        = st.streams_list.map (fun e => e.node_id) ∧
      (∀ e ∈ (lwb_sched_proc_srq cfg st req).streams_list,
        e.node_id = req.node_id → e.state ≠ 0) ∧
      (∀ e ∈ st.streams_list, e.node_id ≠ req.node_id →
        e ∈ (lwb_sched_proc_srq cfg st req).streams_list)) ∧
    ((∀ e ∈ st.streams_list, e.node_id ≠ req.node_id) →
      st.n_streams < cfg.LWB_CONF_MAX_N_STREAMS →
      st.streams_list.length < cfg.LWB_CONF_MAX_N_STREAMS →
      ∃ a b : List lwb_stream_list_t, st.streams_list = a ++ b ∧
        (lwb_sched_proc_srq cfg st req).streams_list
          = a ++ { node_id := req.node_id, state := 1 } :: b ∧
        (∀ e ∈ a, e.node_id < req.node_id) ∧ (∀ e ∈ b, req.node_id < e.node_id)) := by
  have inv := AeReachable.sorted_count cfg hmax st hr
  have inv2 := AeReachable.inv cfg st hr
  refine ⟨inv.1, (lwb_sched_proc_srq_inv cfg st req hmax inv.1 inv.2).1, ?_, ?_⟩
  · intro hex
    have hf := srq_find_found req.node_id st.streams_list st.n_streams hex
    by_cases h1 : st.n_streams ≥ cfg.LWB_CONF_MAX_N_STREAMS
    · have e : lwb_sched_proc_srq cfg st req = st := by
        unfold lwb_sched_proc_srq
        rw [if_pos h1]
      rw [e]
      refine ⟨rfl, ?_, fun e he _ => he⟩
      intro e he _
      exact all_active_of_count st.streams_list (by rw [← inv.2]; omega) e he
    · have e : (lwb_sched_proc_srq cfg st req).streams_list
          = (srq_find req.node_id st.streams_list st.n_streams).1 := by
        unfold lwb_sched_proc_srq
        rw [if_neg h1]
        simp [hf]
      rw [e]
      exact ⟨srq_find_ids _ _ _, srq_find_active _ _ _ inv.1 hf, srq_find_others _ _ _⟩
  · intro hne h1 h2
    obtain ⟨a, b, hab, hins, ha, hb⟩ :=
      srq_insert_spec { node_id := req.node_id, state := 1 } st.streams_list inv.1 hne
    refine ⟨a, b, hab, ?_, ha, hb⟩
    rw [← hins]
    unfold lwb_sched_proc_srq
    have h1n : ¬ st.n_streams ≥ cfg.LWB_CONF_MAX_N_STREAMS := by omega
    have h2n : ¬ st.streams_list.length ≥ cfg.LWB_CONF_MAX_N_STREAMS := by omega
    simp [srq_find_absent req.node_id st.streams_list st.n_streams hne, h1n, h2n]

/-- After the requests of nodes 7 and 3 the list of the sample scheduler is
sorted, and a request of node 5 keeps it sorted. -/
theorem stream_list_ordered_witness :
    (ae_run sample_cfg [AeCall.proc_srq { node_id := 7 },
      AeCall.proc_srq { node_id := 3 }]).streams_list.Pairwise
      (fun a b => a.node_id < b.node_id) ∧
    (lwb_sched_proc_srq sample_cfg (ae_run sample_cfg [AeCall.proc_srq { node_id := 7 },
      AeCall.proc_srq { node_id := 3 }]) { node_id := 5 }).streams_list.map
      (fun e => e.node_id) = [3, 5, 7] :=
  ⟨(stream_list_ordered sample_cfg _ ⟨[AeCall.proc_srq { node_id := 7 },
      AeCall.proc_srq { node_id := 3 }], rfl⟩ (by decide) { node_id := 5 }).1,
   by decide⟩

/-! ### AE scheduler: the data round -/

/-- The loop of the data round writes the node ids of the active entries, in
list order, into the slots from `n` on, up to slot `MAX_DATA_SLOTS`, and
counts them. -/
theorem assign_active_spec (cfg : Config) (l : List lwb_stream_list_t) (slot : Nat → Nat)
    (n : Nat) (h : n + l.length < 2 ^ 8) (hn : n ≤ cfg.LWB_CONF_MAX_DATA_SLOTS) :
    (assign_active cfg l slot n).2
      = n + ((active_ids l).take (cfg.LWB_CONF_MAX_DATA_SLOTS - n)).length ∧
    ∀ k, (assign_active cfg l slot n).1 k =
      if k < n then slot k
      else (((active_ids l).take (cfg.LWB_CONF_MAX_DATA_SLOTS - n)).get? (k - n)).getD
        (slot k) := by
  induction l generalizing slot n with
  | nil =>
    refine ⟨by simp [assign_active, active_ids], ?_⟩
    intro k
    simp [assign_active, active_ids]
  | cons c rest ih =>
    rw [List.length_cons] at h
    unfold assign_active
    by_cases h1 : n < cfg.LWB_CONF_MAX_DATA_SLOTS
    · rw [if_pos h1]
      by_cases h2 : c.state ≠ 0
      · rw [if_pos h2]
        have hm : (n + 1) % 2 ^ 8 = n + 1 := Nat.mod_eq_of_lt (by omega)
        rw [hm]
        have ih2 := ih (array_store slot n c.node_id) (n + 1) (by omega) (by omega)
        have hd : cfg.LWB_CONF_MAX_DATA_SLOTS - n
            = (cfg.LWB_CONF_MAX_DATA_SLOTS - (n + 1)) + 1 := by omega
        rw [active_ids_cons, if_pos h2, hd, List.take_succ_cons]
        refine ⟨by rw [ih2.1, List.length_cons]; omega, ?_⟩
        intro k
        rw [ih2.2 k]
        by_cases k1 : k < n
        · have k2 : k < n + 1 := by omega
          have k3 : k ≠ n := by omega
          simp [k1, k2, array_store, k3]
        · by_cases k2 : k = n
          · subst k2
            simp [array_store]
          · have k3 : ¬ k < n + 1 := by omega
            have k4 : k - n = (k - (n + 1)) + 1 := by omega
            simp only [k1, k3, if_false]
            rw [k4, List.get?_cons_succ]
            simp [array_store, k2]
      · rw [if_neg h2, active_ids_cons, if_neg h2]
        exact ih slot n (by omega) hn
    · rw [if_neg h1]
      have hd : cfg.LWB_CONF_MAX_DATA_SLOTS - n = 0 := by omega
      rw [hd]
      refine ⟨by simp, ?_⟩
      intro k
      simp

theorem active_ids_sorted (l : List lwb_stream_list_t)
    (hs : l.Pairwise (fun a b => a.node_id < b.node_id)) :
    (active_ids l).Pairwise (fun a b => a < b) := by
  unfold active_ids
  exact List.pairwise_map.2 (List.Pairwise.filter _ hs)

theorem active_ids_pos (l : List lwb_stream_list_t) (h : ∃ e ∈ l, e.state ≠ 0) :
    0 < (active_ids l).length := by
  obtain ⟨e, he, hx⟩ := h
  unfold active_ids
  rw [List.length_map]
  exact List.length_pos_of_mem (List.mem_filter.2 ⟨he, by simpa using hx⟩)

theorem lwb_sched_compute_request_full (cfg : Config) (n_rx_started : Nat) (st : AeState)
    (sched : lwb_schedule_t) (streams_to_update : Nat → Nat) (reserve_slot_host : Nat)
    (h1 : st.sched_state = 1) :
    (lwb_sched_compute cfg n_rx_started st sched streams_to_update
      reserve_slot_host).2.2.slot = (data_round_slots cfg st.n_streams st.streams_list).1 ∧
    (lwb_sched_compute cfg n_rx_started st sched streams_to_update
      reserve_slot_host).2.1.streams_list = st.streams_list ∧
    (lwb_sched_compute cfg n_rx_started st sched streams_to_update
      reserve_slot_host).2.1.n_streams = st.n_streams := by
  by_cases ha : (data_round_slots cfg st.n_streams st.streams_list).2 = 0
  · simp [lwb_sched_compute, h1, ha, LWB_SCHED_SET_CONT_SLOT]
  · simp [lwb_sched_compute, h1, ha, LWB_SCHED_SET_SACK_SLOT]

/-- C23: the data-round schedule, emitted by `lwb_sched_compute` in the
request state of a reachable scheduler when at least one stream is active,
has one slot per active stream: its slots are the node ids of the active
entries of the list, which ascend in `node_id`, truncated to `MAX_DATA_SLOTS`
entries; `SACK` is set and `CONT` is clear; the list, with its inactive
entries, is as before, and the policy moves to the data state. Configuration:
`MAX_N_STREAMS <= MAX_DATA_SLOTS` (lines 69-71) and fewer than 256 streams
(`n_slots_assigned` is a `uint8_t`). -/
theorem data_round_schedule (cfg : Config) (st : AeState) (hr : AeReachable cfg st)
    (hc : cfg.LWB_CONF_MAX_N_STREAMS ≤ cfg.LWB_CONF_MAX_DATA_SLOTS)
    (hm : cfg.LWB_CONF_MAX_N_STREAMS < 2 ^ 8)
    (h1 : st.sched_state = 1) (hact : ∃ e ∈ st.streams_list, e.state ≠ 0)
    (n_rx_started : Nat) (sched : lwb_schedule_t) (streams_to_update : Nat → Nat)
    (reserve_slot_host : Nat) :
    (List.range (LWB_SCHED_N_SLOTS (lwb_sched_compute cfg n_rx_started st sched
        streams_to_update reserve_slot_host).2.2)).map
      (lwb_sched_compute cfg n_rx_started st sched streams_to_update
        reserve_slot_host).2.2.slot
      = (active_ids st.streams_list).take cfg.LWB_CONF_MAX_DATA_SLOTS ∧
    (active_ids st.streams_list).Pairwise (fun a b => a < b) ∧
    0 < LWB_SCHED_N_SLOTS (lwb_sched_compute cfg n_rx_started st sched
      streams_to_update reserve_slot_host).2.2 ∧
    LWB_SCHED_HAS_SACK_SLOT (lwb_sched_compute cfg n_rx_started st sched streams_to_update
      reserve_slot_host).2.2 = true ∧
    LWB_SCHED_HAS_CONT_SLOT (lwb_sched_compute cfg n_rx_started st sched streams_to_update
      reserve_slot_host).2.2 = false ∧
    (lwb_sched_compute cfg n_rx_started st sched streams_to_update
      reserve_slot_host).2.1.streams_list = st.streams_list ∧
    (lwb_sched_compute cfg n_rx_started st sched streams_to_update
      reserve_slot_host).2.1.sched_state = 2 := by
  have inv := AeReachable.sorted_count cfg (lt_trans hm (by norm_num)) st hr
  have inv2 := AeReachable.inv cfg st hr
  have hpos := active_ids_pos st.streams_list hact
  have hns : st.n_streams ≠ 0 := by rw [inv.2]; omega
  have hd : data_round_slots cfg st.n_streams st.streams_list
      = assign_active cfg st.streams_list (fun _ => 0) 0 := by
    unfold data_round_slots
    rw [if_pos hns]
  have sp := assign_active_spec cfg st.streams_list (fun _ => 0) 0 (by omega)
    (Nat.zero_le _)
  rw [← hd, Nat.sub_zero] at sp
  have hlen : ((active_ids st.streams_list).take cfg.LWB_CONF_MAX_DATA_SLOTS).length
      = min cfg.LWB_CONF_MAX_DATA_SLOTS (active_ids st.streams_list).length :=
    List.length_take _ _
  have hle := active_ids_length_le st.streams_list
  have hcnt : (data_round_slots cfg st.n_streams st.streams_list).2
      = ((active_ids st.streams_list).take cfg.LWB_CONF_MAX_DATA_SLOTS).length := by
    rw [sp.1]; omega
  have ha : (data_round_slots cfg st.n_streams st.streams_list).2 ≠ 0 := by
    rw [hcnt, hlen]
    have : 0 < cfg.LWB_CONF_MAX_DATA_SLOTS := by omega
    omega
  have k := (lwb_sched_compute_out cfg n_rx_started st sched streams_to_update
    reserve_slot_host).2.2.1 h1 ha
  have f := lwb_sched_compute_request_full cfg n_rx_started st sched streams_to_update
    reserve_slot_host h1
  have fl := has_flags_sack _ _ (data_round_slots_lt cfg st.n_streams st.streams_list) k.2.2
  refine ⟨?_, active_ids_sorted _ inv.1, ?_, fl.1, fl.2.1, f.2.1, k.2.1⟩
  · rw [fl.2.2, f.1, hcnt]
    apply range_map_eq
    intro i _
    rw [sp.2 i]
    simp
  · rw [fl.2.2]
    omega

/-- With the stream of node 7 active, the data-round schedule of the sample
scheduler has the one slot 7. -/
theorem data_round_schedule_witness :
    (List.range (LWB_SCHED_N_SLOTS (lwb_sched_compute sample_cfg 0 sample_ae_stream
        schedule_zero (fun _ => 0) 0).2.2)).map
      (lwb_sched_compute sample_cfg 0 sample_ae_stream schedule_zero (fun _ => 0) 0).2.2.slot
      = (active_ids sample_ae_stream.streams_list).take sample_cfg.LWB_CONF_MAX_DATA_SLOTS ∧
    (active_ids sample_ae_stream.streams_list).take sample_cfg.LWB_CONF_MAX_DATA_SLOTS
      = [7] :=
  ⟨(data_round_schedule sample_cfg sample_ae_stream ⟨_, rfl⟩ (by decide) (by decide)
      (by decide) (by decide) 0 schedule_zero (fun _ => 0) 0).1,
   by decide⟩

/-! ### AE scheduler: the data-to-idle edge -/

theorem deactivate_first_spec (node_id : Nat) (rcvd : Bool) (l : List lwb_stream_list_t)
    (hs : l.Pairwise (fun a b => a.node_id < b.node_id)) :
    (deactivate_first node_id rcvd l).2
      = (rcvd && l.any (fun e => decide (e.node_id = node_id) && decide (e.state ≠ 0))) ∧
    ((deactivate_first node_id rcvd l).2 = true →
      (deactivate_first node_id rcvd l).1 = mark_inactive [node_id] l) := by
  induction l with
  | nil =>
    constructor
    · simp [deactivate_first]
    · intro h
      simp [deactivate_first] at h
  | cons c rest ih =>
    have hs2 := List.pairwise_cons.1 hs
    have ih2 := ih hs2.2
    unfold deactivate_first
    by_cases h1 : node_id = c.node_id
    · have hrest : ∀ e ∈ rest, ¬ e.node_id = node_id := by
        intro e he heq
        have := hs2.1 e he
        omega
      have hany : rest.any (fun e => decide (e.node_id = node_id) && decide (e.state ≠ 0))
          = false := by
        rw [List.any_eq_false]
        intro e he
        simp [hrest e he]
      rw [if_pos h1]
      by_cases h2 : c.state ≠ 0 ∧ rcvd = true
      · rw [if_pos h2]
        constructor
        · simp [h2.1, h2.2, h1]
        · intro _
          unfold mark_inactive
          simp only [List.map_cons, List.mem_singleton, h1, if_true]
          congr 1
          symm
          have e : rest.map (fun e => if e.node_id = c.node_id then
              ({ e with state := 0 } : lwb_stream_list_t) else e) = rest.map id :=
            List.map_congr_left (fun e he => by
              have := hrest e he
              rw [h1] at this
              simp [this])
          rw [List.map_id] at e
          exact e
      · rw [if_neg h2]
        constructor
        · simp only [List.any_cons, hany, Bool.or_false]
          by_cases hr : rcvd = true
          · have : ¬ c.state ≠ 0 := fun hx => h2 ⟨hx, hr⟩
            simp [this]
          · simp [hr]
        · intro h
          simp at h
    · rw [if_neg h1]
      have h1b : ¬ c.node_id = node_id := fun e => h1 e.symm
      constructor
      · simp only [List.any_cons, h1b, decide_False, Bool.false_and, Bool.false_or]
        exact ih2.1
      · intro h
        have := ih2.2 h
        unfold mark_inactive at this ⊢
        simp only [List.mem_singleton] at this
        simp only [List.map_cons, List.mem_singleton, h1b, if_false]
        rw [this]

theorem acked_upto_succ (cfg : Config) (sched : lwb_schedule_t) (streams_to_update : Nat → Nat)
    (l : List lwb_stream_list_t) (m : Nat) :
    acked_upto cfg sched streams_to_update l (m + 1) =
      if slot_acked cfg sched streams_to_update l m = true then
        acked_upto cfg sched streams_to_update l m ++ [sched.slot m]
      else acked_upto cfg sched streams_to_update l m := by
  unfold acked_upto
  rw [List.range_succ, List.filter_append, List.map_append]
  by_cases h : slot_acked cfg sched streams_to_update l m = true
  · simp [h]
  · simp [h]

theorem acked_upto_length_le (cfg : Config) (sched : lwb_schedule_t)
    (streams_to_update : Nat → Nat) (l : List lwb_stream_list_t) (m : Nat) :
    (acked_upto cfg sched streams_to_update l m).length ≤ m := by
  unfold acked_upto
  rw [List.length_map]
  have := List.length_filter_le (slot_acked cfg sched streams_to_update l) (List.range m)
  rw [List.length_range] at this
  exact this

theorem acked_upto_mem (cfg : Config) (sched : lwb_schedule_t) (streams_to_update : Nat → Nat)
    (l : List lwb_stream_list_t) (m x : Nat)
    (h : x ∈ acked_upto cfg sched streams_to_update l m) :
    ∃ i, i < m ∧ slot_acked cfg sched streams_to_update l i = true ∧ sched.slot i = x := by
  unfold acked_upto at h
  obtain ⟨i, hi, hx⟩ := List.mem_map.1 h
  have hf := List.mem_filter.1 hi
  exact ⟨i, List.mem_range.1 hf.1, hf.2, hx⟩

theorem mark_inactive_nil (l : List lwb_stream_list_t) : mark_inactive [] l = l := by
  unfold mark_inactive
  simp

theorem mark_inactive_ids (ids : List Nat) (l : List lwb_stream_list_t) :
    (mark_inactive ids l).map (fun e => e.node_id) = l.map (fun e => e.node_id) := by
  unfold mark_inactive
  rw [List.map_map]
  apply List.map_congr_left
  intro e _
  simp only [Function.comp]
  split_ifs <;> rfl

theorem mark_inactive_append (ids : List Nat) (node_id : Nat) (l : List lwb_stream_list_t) :
    mark_inactive [node_id] (mark_inactive ids l) = mark_inactive (ids ++ [node_id]) l := by
  unfold mark_inactive
  rw [List.map_map]
  apply List.map_congr_left
  intro e _
  simp only [Function.comp, List.mem_append, List.mem_singleton]
  by_cases h1 : e.node_id ∈ ids
  · simp [h1]
  · simp [h1]

theorem mark_inactive_any (ids : List Nat) (node_id : Nat) (l : List lwb_stream_list_t)
    (h : node_id ∉ ids) :
    (mark_inactive ids l).any (fun e => decide (e.node_id = node_id) && decide (e.state ≠ 0))
      = l.any (fun e => decide (e.node_id = node_id) && decide (e.state ≠ 0)) := by
  unfold mark_inactive
  induction l with
  | nil => rfl
  | cons c rest ih =>
    simp only [List.map_cons, List.any_cons, ih]
    congr 1
    by_cases h1 : c.node_id ∈ ids
    · have h2 : ¬ c.node_id = node_id := fun e => h (e ▸ h1)
      simp [h1, h2]
    · simp [h1]

theorem sack_step_true (cfg : Config) (sched : lwb_schedule_t) (streams_to_update : Nat → Nat)
    (st : AeState) (i : Nat)
    (h : (deactivate_first (sched.slot i)
      (decide (streams_to_update i ≠ cfg.LWB_INVALID_STREAM_ID)) st.streams_list).2 = true) :
    (sack_step cfg sched streams_to_update st i).streams_list
      = (deactivate_first (sched.slot i)
          (decide (streams_to_update i ≠ cfg.LWB_INVALID_STREAM_ID)) st.streams_list).1 ∧
    (sack_step cfg sched streams_to_update st i).pending_sack
      = array_store st.pending_sack st.n_pending_sack (sched.slot i) ∧
    (sack_step cfg sched streams_to_update st i).n_pending_sack
      = (st.n_pending_sack + 1) % 2 ^ 8 := by
  dsimp only [sack_step]
  rw [if_pos h]
  exact ⟨rfl, rfl, rfl⟩

theorem sack_step_false (cfg : Config) (sched : lwb_schedule_t) (streams_to_update : Nat → Nat)
    (st : AeState) (i : Nat)
    (h : (deactivate_first (sched.slot i)
      (decide (streams_to_update i ≠ cfg.LWB_INVALID_STREAM_ID)) st.streams_list).2 = false) :
    sack_step cfg sched streams_to_update st i = st := by
  dsimp only [sack_step]
  rw [h]
  rfl

/-- The loop of the data state after `m` slots: the streams acknowledged so
far are marked inactive, and their node ids are in `pending_sack`, in slot
order. -/
theorem sack_fold_spec (cfg : Config) (sched : lwb_schedule_t) (streams_to_update : Nat → Nat)
    (st : AeState)
    (hs : st.streams_list.Pairwise (fun a b => a.node_id < b.node_id))
    (h0 : st.n_pending_sack = 0)
    (hN : LWB_SCHED_N_SLOTS sched < 2 ^ 8)
    (hd : ∀ i j, i < LWB_SCHED_N_SLOTS sched → j < LWB_SCHED_N_SLOTS sched →
      sched.slot i = sched.slot j → i = j)
    (m : Nat) (hm : m ≤ LWB_SCHED_N_SLOTS sched) :
    ((List.range m).foldl (sack_step cfg sched streams_to_update) st).streams_list
      = mark_inactive (acked_upto cfg sched streams_to_update st.streams_list m)
          st.streams_list ∧
    ((List.range m).foldl (sack_step cfg sched streams_to_update) st).n_pending_sack
      = (acked_upto cfg sched streams_to_update st.streams_list m).length ∧
    (∀ k, k < (acked_upto cfg sched streams_to_update st.streams_list m).length →
      ((acked_upto cfg sched streams_to_update st.streams_list m).get? k).getD 0
        = ((List.range m).foldl (sack_step cfg sched streams_to_update) st).pending_sack k) := by
  induction m with
  | zero =>
    refine ⟨?_, ?_, ?_⟩
    · simp [acked_upto, mark_inactive_nil]
    · simp [acked_upto, h0]
    · intro k hk
      simp [acked_upto] at hk
  | succ m ih =>
    have ih2 := ih (by omega)
    have hlen := acked_upto_length_le cfg sched streams_to_update st.streams_list m
    rw [List.range_succ, List.foldl_append, List.foldl_cons, List.foldl_nil]
    generalize hS : (List.range m).foldl (sack_step cfg sched streams_to_update) st = S at ih2 ⊢
    have hsS : S.streams_list.Pairwise (fun a b => a.node_id < b.node_id) := by
      apply sorted_of_ids st.streams_list S.streams_list _ hs
      rw [ih2.1, mark_inactive_ids]
    have hnot : sched.slot m ∉ acked_upto cfg sched streams_to_update st.streams_list m := by
      intro hx
      obtain ⟨i, hi, _, he⟩ := acked_upto_mem _ _ _ _ _ _ hx
      have := hd i m (by omega) (by omega) he
      omega
    have sp := deactivate_first_spec (sched.slot m)
      (decide (streams_to_update m ≠ cfg.LWB_INVALID_STREAM_ID)) S.streams_list hsS
    have hflag : (deactivate_first (sched.slot m)
        (decide (streams_to_update m ≠ cfg.LWB_INVALID_STREAM_ID)) S.streams_list).2
        = slot_acked cfg sched streams_to_update st.streams_list m := by
      rw [sp.1, ih2.1, mark_inactive_any _ _ _ hnot]
      rfl
    rw [acked_upto_succ]
    by_cases hg : slot_acked cfg sched streams_to_update st.streams_list m = true
    · rw [if_pos hg]
      rw [hg] at hflag
      have t := sack_step_true cfg sched streams_to_update S m hflag
      refine ⟨?_, ?_, ?_⟩
      · rw [t.1, sp.2 hflag, ih2.1, mark_inactive_append]
      · rw [t.2.2, ih2.2.1, List.length_append, List.length_singleton]
        exact Nat.mod_eq_of_lt (by omega)
      · intro k hk
        rw [List.length_append, List.length_singleton] at hk
        rw [t.2.1, ih2.2.1]
        by_cases hk2 : k = (acked_upto cfg sched streams_to_update st.streams_list m).length
        · subst hk2
          simp [array_store]
        · have hk3 : k < (acked_upto cfg sched streams_to_update st.streams_list m).length := by
            omega
          have := ih2.2.2 k hk3
          simp only [array_store, hk2, if_false]
          rw [← this, List.get?_eq_getElem?, List.get?_eq_getElem?,
            List.getElem?_append_left hk3]
    · rw [if_neg hg]
      have hg2 : slot_acked cfg sched streams_to_update st.streams_list m = false := by
        simpa using hg
      rw [hg2] at hflag
      rw [sack_step_false cfg sched streams_to_update S m hflag]
      exact ih2

theorem lwb_sched_compute_data_full (cfg : Config) (n_rx_started : Nat) (st : AeState)
    (sched : lwb_schedule_t) (streams_to_update : Nat → Nat) (reserve_slot_host : Nat)
    (h2 : st.sched_state = 2) :
    (lwb_sched_compute cfg n_rx_started st sched streams_to_update reserve_slot_host).2.1
      = { (List.range (LWB_SCHED_N_SLOTS sched)).foldl
            (sack_step cfg sched streams_to_update)
            { st with time := (st.time + sched.period) % 2 ^ 32, n_pending_sack := 0 }
          with sched_state := 0 } := by
  simp [lwb_sched_compute, h2]

theorem lwb_sched_prepare_sack_spec (T : AeState) (payload : Nat → Nat) (A : List Nat)
    (hn : T.n_pending_sack = A.length)
    (hA : (List.range A.length).map T.pending_sack = A) (h128 : A.length < 2 ^ 7) :
    (lwb_sched_prepare_sack T payload).1 = 2 * A.length ∧
    (List.range A.length).map (lwb_sched_prepare_sack T payload).2.2 = A ∧
    (A.length = 0 → (lwb_sched_prepare_sack T payload).2.2 = payload) ∧
    (lwb_sched_prepare_sack T payload).2.1 = T := by
  unfold lwb_sched_prepare_sack
  by_cases hz : T.n_pending_sack ≠ 0
  · rw [if_pos hz]
    refine ⟨?_, ?_, ?_, rfl⟩
    · show (T.n_pending_sack * 2) % 2 ^ 8 = _
      rw [hn, Nat.mod_eq_of_lt (by omega)]
      omega
    · show (List.range A.length).map
        (fun k => if k < T.n_pending_sack then T.pending_sack k else payload k) = A
      conv_rhs => rw [← hA]
      apply List.map_congr_left
      intro k hk
      have hk2 := List.mem_range.1 hk
      simp [hn, hk2]
    · intro h0
      exact absurd (hn.trans h0) hz
  · rw [if_neg hz]
    have hz2 : A.length = 0 := by omega
    refine ⟨by show 0 = _; omega, ?_, fun _ => rfl, rfl⟩
    rw [hz2, List.length_eq_zero.1 hz2]
    rfl

/-- C24: the data-to-idle edge of a reachable scheduler, for a data schedule
of fewer than 128 slots in which no node has two slots. The streams of the
acknowledged slots, those slots `i` for which data was received
(`streams_to_update[i] != LWB_INVALID_STREAM_ID`) and whose stream is in the
list and active, are marked inactive, all other entries keep their state, and
the node ids of the acknowledged slots are the pending S-ACKs, in slot order.
Afterwards `lwb_sched_prepare_sack` returns 2 bytes per acknowledged source
and copies exactly their node ids to the payload, returns 0 and leaves the
payload alone when there is none, and does not write the statics. -/
theorem data_to_idle_sack (cfg : Config) (st : AeState) (hr : AeReachable cfg st)
    (hmax : cfg.LWB_CONF_MAX_N_STREAMS < 2 ^ 16) (h2 : st.sched_state = 2)
    (n_rx_started : Nat) (sched : lwb_schedule_t) (streams_to_update : Nat → Nat)
    (reserve_slot_host : Nat) (payload : Nat → Nat)
    (hN : LWB_SCHED_N_SLOTS sched < 2 ^ 7)
    (hd : ∀ i j, i < LWB_SCHED_N_SLOTS sched → j < LWB_SCHED_N_SLOTS sched →
      sched.slot i = sched.slot j → i = j) :
    (lwb_sched_compute cfg n_rx_started st sched streams_to_update
      reserve_slot_host).2.1.streams_list
      = mark_inactive (acked_ids cfg sched streams_to_update st.streams_list)
          st.streams_list ∧
    (lwb_sched_compute cfg n_rx_started st sched streams_to_update
      reserve_slot_host).2.1.n_pending_sack
      = (acked_ids cfg sched streams_to_update st.streams_list).length ∧
    (List.range (lwb_sched_compute cfg n_rx_started st sched streams_to_update
        reserve_slot_host).2.1.n_pending_sack).map
      (lwb_sched_compute cfg n_rx_started st sched streams_to_update
        reserve_slot_host).2.1.pending_sack
      = acked_ids cfg sched streams_to_update st.streams_list ∧
    (lwb_sched_prepare_sack (lwb_sched_compute cfg n_rx_started st sched streams_to_update
        reserve_slot_host).2.1 payload).1
      = 2 * (acked_ids cfg sched streams_to_update st.streams_list).length ∧
    (List.range (acked_ids cfg sched streams_to_update st.streams_list).length).map
      (lwb_sched_prepare_sack (lwb_sched_compute cfg n_rx_started st sched streams_to_update
        reserve_slot_host).2.1 payload).2.2
      = acked_ids cfg sched streams_to_update st.streams_list ∧
    ((acked_ids cfg sched streams_to_update st.streams_list).length = 0 →
      (lwb_sched_prepare_sack (lwb_sched_compute cfg n_rx_started st sched streams_to_update
        reserve_slot_host).2.1 payload).2.2 = payload) ∧
    (lwb_sched_prepare_sack (lwb_sched_compute cfg n_rx_started st sched streams_to_update
        reserve_slot_host).2.1 payload).2.1
      = (lwb_sched_compute cfg n_rx_started st sched streams_to_update
          reserve_slot_host).2.1 := by
  have inv := AeReachable.sorted_count cfg hmax st hr
  have sp := sack_fold_spec cfg sched streams_to_update
    { st with time := (st.time + sched.period) % 2 ^ 32, n_pending_sack := 0 }
    inv.1 rfl (lt_trans hN (by norm_num)) hd (LWB_SCHED_N_SLOTS sched) (Nat.le_refl _)
  have e := lwb_sched_compute_data_full cfg n_rx_started st sched streams_to_update
    reserve_slot_host h2
  have hlen := acked_upto_length_le cfg sched streams_to_update st.streams_list
    (LWB_SCHED_N_SLOTS sched)
  rw [e]
  generalize (List.range (LWB_SCHED_N_SLOTS sched)).foldl
    (sack_step cfg sched streams_to_update)
    { st with time := (st.time + sched.period) % 2 ^ 32, n_pending_sack := 0 } = S at sp
  unfold acked_ids
  have s1 : S.streams_list = mark_inactive
      (acked_upto cfg sched streams_to_update st.streams_list (LWB_SCHED_N_SLOTS sched))
      st.streams_list := sp.1
  have s2 : S.n_pending_sack
      = (acked_upto cfg sched streams_to_update st.streams_list
          (LWB_SCHED_N_SLOTS sched)).length := sp.2.1
  have s3 : (List.range (acked_upto cfg sched streams_to_update st.streams_list
      (LWB_SCHED_N_SLOTS sched)).length).map S.pending_sack
      = acked_upto cfg sched streams_to_update st.streams_list (LWB_SCHED_N_SLOTS sched) :=
    range_map_eq _ _ sp.2.2
  have ps := lwb_sched_prepare_sack_spec { S with sched_state := 0 } payload
    (acked_upto cfg sched streams_to_update st.streams_list (LWB_SCHED_N_SLOTS sched))
    s2 s3 (by omega)
  refine ⟨s1, s2, ?_, ps.1, ps.2.1, ps.2.2.1, ps.2.2.2⟩
  show (List.range S.n_pending_sack).map S.pending_sack = _
  rw [s2]
  exact s3

/-- In the sample scheduler, data received in the one slot of the data round
deactivates the stream of node 7, and the S-ACK payload is 2 bytes long. -/
theorem data_to_idle_sack_witness :
    acked_ids sample_cfg sample_data_schedule (fun _ => 0) sample_ae_data.streams_list = [7] ∧
    (lwb_sched_prepare_sack (lwb_sched_compute sample_cfg 0 sample_ae_data
        sample_data_schedule (fun _ => 0) 0).2.1 (fun _ => 0)).1
      = 2 * (acked_ids sample_cfg sample_data_schedule (fun _ => 0)
          sample_ae_data.streams_list).length ∧
    (lwb_sched_prepare_sack (lwb_sched_compute sample_cfg 0 sample_ae_data
        sample_data_schedule (fun _ => 0) 0).2.1 (fun _ => 0)).1 = 2 :=
  ⟨by decide,
   (data_to_idle_sack sample_cfg sample_ae_data ⟨_, rfl⟩ (by decide) (by decide) 0
      sample_data_schedule (fun _ => 0) 0 (fun _ => 0) (by decide)
      (by
        intro i j hi hj _
        have hN : LWB_SCHED_N_SLOTS sample_data_schedule = 1 := by decide
        rw [hN] at hi hj
        omega)).2.2.2.1,
   by decide⟩

/-! ### Host round: data slots -/

theorem bytes_of_words_of_bytes (b : Nat → Nat) (k : Nat) :
    bytes_of_words (words_of_bytes b) k = b k % 256 := by
  unfold bytes_of_words words_of_bytes
  rcases Nat.mod_two_eq_zero_or_one k with h | h
  · have hk : 2 * (k / 2) = k := by omega
    rw [h, hk]
    simp
  · have hk : 2 * (k / 2) + 1 = k := by omega
    rw [h, hk]
    simp
    omega

/-- C28, the failing input: a data round of the sample host with two slots and
an empty outbound queue. In slot 0, which belongs to node 5, a frame of 10
bytes is received. In slot 1, which belongs to the host, `lwb_out_buffer_get`
finds the queue empty and leaves `payload_len` at 10, so the host transmits:
the log holds a transmission in slot 1 of 10 bytes whose first word is the
word `0x1234` received in slot 0. -/
theorem host_sends_stale_frame :
    out_frames sample_cfg sample_host_data.q = [] ∧
    FIFO_EMPTY sample_host_data.q.out_buffer = true ∧
    IS_DATA_ROUND sample_host_data.schedule = true ∧
    LWB_SCHED_N_SLOTS sample_host_data.schedule = 2 ∧
    sample_host_data.schedule.slot 1 = 0 ∧
    FIFO_EMPTY (host_data_slots sample_cfg sample_data_rx 0
      (sample_host_data, [])).1.q.out_buffer = true ∧
    host_sent (host_data_slots sample_cfg sample_data_rx 0 (sample_host_data, [])).2
      = [(1, 10, 0x1234)] := by
  refine ⟨by decide, by decide, by decide, by decide, rfl, by decide, by decide⟩

theorem lwb_in_buffer_put_counters (cfg : Config) (q : LwbState) (data : Nat → Nat)
    (len : Nat) :
    (lwb_in_buffer_put cfg q data len).2.stats.rx_total = q.stats.rx_total ∧
    (lwb_in_buffer_put cfg q data len).2.stats.pck_cnt = q.stats.pck_cnt ∧
    (lwb_in_buffer_put cfg q data len).2.out_buffer = q.out_buffer ∧
    (lwb_in_buffer_put cfg q data len).2.out_buffer_mem = q.out_buffer_mem := by
  unfold lwb_in_buffer_put
  split
  · exact ⟨rfl, rfl, rfl, rfl⟩
  · split <;> exact ⟨rfl, rfl, rfl, rfl⟩

/-- What the host does in a slot of its own (lines 489-499): it calls
`lwb_out_buffer_get` and transmits if `payload_len` is not 0 afterwards. With
an empty queue `payload_len` is what the earlier slots left, and a
transmission follows exactly when that is not 0. The counters of received
frames are untouched. -/
theorem host_own_slot (cfg : Config) (rx : glossy_result) (t_start : Nat)
    (p : HostState × List HostAction) (i : Nat)
    (hown : p.1.schedule.slot i = 0 ∨ p.1.schedule.slot i = cfg.node_id) :
    (host_data_slot cfg rx t_start p i).1.q
      = (lwb_out_buffer_get cfg p.1.q (bytes_of_words p.1.glossy_payload)
          p.1.payload_len).2.1 ∧
    (host_data_slot cfg rx t_start p i).1.payload_len
      = (lwb_out_buffer_get cfg p.1.q (bytes_of_words p.1.glossy_payload)
          p.1.payload_len).2.2.2 ∧
    (host_data_slot cfg rx t_start p i).2
      = (if (lwb_out_buffer_get cfg p.1.q (bytes_of_words p.1.glossy_payload)
            p.1.payload_len).2.2.2 ≠ 0 then
          p.2 ++ [HostAction.data_send i ((t_start + p.1.t_slot_ofs) % 2 ^ 64)
            (words_of_bytes (lwb_out_buffer_get cfg p.1.q
              (bytes_of_words p.1.glossy_payload) p.1.payload_len).2.2.1)
            (lwb_out_buffer_get cfg p.1.q (bytes_of_words p.1.glossy_payload)
              p.1.payload_len).2.2.2]
        else p.2) ∧
    (host_data_slot cfg rx t_start p i).1.q.stats = p.1.q.stats ∧
    (host_data_slot cfg rx t_start p i).1.sched = p.1.sched := by
  dsimp only [host_data_slot]
  rw [if_pos hown]
  refine ⟨?_, ?_, ?_, ?_, ?_⟩
  · split_ifs <;> rfl
  · split_ifs <;> rfl
  · split_ifs <;> rfl
  · have := lwb_out_buffer_get_stats cfg p.1.q (bytes_of_words p.1.glossy_payload)
      p.1.payload_len
    split_ifs <;> exact this
  · split_ifs <;> rfl

/-- C29: a data slot of the host that is not its own (`slot[i]` is neither 0
nor the host's id). On a successful receive (`n_rx > 0`) in a request round
the request `{ slot[i], first payload word }` is handed to the scheduler, and
the queues and the statistics are untouched. On a successful receive in a
data round the payload is passed to `lwb_in_buffer_put` with the received
length, `rx_total` grows by that length and `pck_cnt` by exactly 1, and the
scheduler is untouched. With no reception the queues, the statistics and the
scheduler are untouched. A slot of the host's own never changes `pck_cnt`. -/
theorem host_foreign_slot (cfg : Config) (rx : glossy_result) (t_start : Nat)
    (p : HostState × List HostAction) (i : Nat) :
    (¬ (p.1.schedule.slot i = 0 ∨ p.1.schedule.slot i = cfg.node_id) →
      (0 < rx.n_rx → IS_DATA_ROUND p.1.schedule = false →
        (host_data_slot cfg rx t_start p i).1.sched
          = lwb_sched_proc_srq cfg p.1.sched { node_id := p.1.schedule.slot i } ∧
        (∃ t len, (host_data_slot cfg rx t_start p i).2
          = p.2 ++ [HostAction.data_recv i t len,
              HostAction.srq (p.1.schedule.slot i) (rx.payload 0)]) ∧
        (host_data_slot cfg rx t_start p i).1.q = p.1.q) ∧
      (0 < rx.n_rx → IS_DATA_ROUND p.1.schedule = true →
        (host_data_slot cfg rx t_start p i).1.q
          = { (lwb_in_buffer_put cfg p.1.q (bytes_of_words rx.payload)
                (rx.payload_len % 2 ^ 8)).2 with
              stats := { (lwb_in_buffer_put cfg p.1.q (bytes_of_words rx.payload)
                  (rx.payload_len % 2 ^ 8)).2.stats with
                rx_total := p.1.q.stats.rx_total + rx.payload_len % 2 ^ 8,
                pck_cnt := p.1.q.stats.pck_cnt + 1 } } ∧
        (host_data_slot cfg rx t_start p i).1.q.stats.rx_total
          = p.1.q.stats.rx_total + rx.payload_len % 2 ^ 8 ∧
        (host_data_slot cfg rx t_start p i).1.q.stats.pck_cnt = p.1.q.stats.pck_cnt + 1 ∧
        (host_data_slot cfg rx t_start p i).1.sched = p.1.sched ∧
        (∃ t len, (host_data_slot cfg rx t_start p i).2
          = p.2 ++ [HostAction.data_recv i t len])) ∧
      (rx.n_rx = 0 →
        (host_data_slot cfg rx t_start p i).1.q = p.1.q ∧
        (host_data_slot cfg rx t_start p i).1.sched = p.1.sched ∧
        (∃ t len, (host_data_slot cfg rx t_start p i).2
          = p.2 ++ [HostAction.data_recv i t len]))) ∧
    ((p.1.schedule.slot i = 0 ∨ p.1.schedule.slot i = cfg.node_id) →
      (host_data_slot cfg rx t_start p i).1.q.stats.pck_cnt = p.1.q.stats.pck_cnt ∧
      (host_data_slot cfg rx t_start p i).1.q.stats.rx_total = p.1.q.stats.rx_total) := by
  constructor
  · intro hno
    have cnt := lwb_in_buffer_put_counters cfg p.1.q (bytes_of_words rx.payload)
      (rx.payload_len % 2 ^ 8)
    refine ⟨?_, ?_, ?_⟩
    · intro hrx hreq
      have hreq2 : ¬ IS_DATA_ROUND p.1.schedule = true := by rw [hreq]; decide
      dsimp only [host_data_slot]
      rw [if_neg hno, if_pos hrx, if_pos hreq2]
      exact ⟨rfl, ⟨_, _, List.append_assoc _ _ _⟩, rfl⟩
    · intro hrx hdata
      have hdata2 : ¬ ¬ IS_DATA_ROUND p.1.schedule = true := by rw [hdata]; decide
      dsimp only [host_data_slot]
      rw [if_neg hno, if_pos hrx, if_neg hdata2]
      refine ⟨?_, ?_, ?_, rfl, ⟨_, _, rfl⟩⟩
      · show _ = ({ (lwb_in_buffer_put cfg p.1.q (bytes_of_words rx.payload)
            (rx.payload_len % 2 ^ 8)).2 with stats := _ } : LwbState)
        rw [← cnt.1, ← cnt.2.1]
      · show (lwb_in_buffer_put cfg p.1.q (bytes_of_words rx.payload)
          (rx.payload_len % 2 ^ 8)).2.stats.rx_total + rx.payload_len % 2 ^ 8 = _
        rw [cnt.1]
      · show (lwb_in_buffer_put cfg p.1.q (bytes_of_words rx.payload)
          (rx.payload_len % 2 ^ 8)).2.stats.pck_cnt + 1 = _
        rw [cnt.2.1]
    · intro hrx
      have hrx2 : ¬ rx.n_rx > 0 := by omega
      dsimp only [host_data_slot]
      rw [if_neg hno, if_neg hrx2]
      exact ⟨rfl, rfl, ⟨_, _, rfl⟩⟩
  · intro hown
    have k := (host_own_slot cfg rx t_start p i hown).2.2.2.1
    rw [k]
    exact ⟨rfl, rfl⟩

/-! ### Source round: the slot of the node's own -/

/-- C30, as the code has it: a data slot of a source with `slot[i]` equal to
its node id. If the outbound queue is empty nothing is transmitted and the
queues are unchanged. If it is not empty, then in a request round the source
transmits a request of `LWB_CONF_SRQ_PKT_LEN` bytes (2 by default) whose
first byte is the outstanding send count `lwb_get_send_buffer_state()`, and
the queues are unchanged; in a data round it dequeues exactly one frame, the
oldest, and transmits that frame with its stored length, so the outbound
count drains by one. -/
theorem src_own_slot (cfg : Config) (rx : glossy_result) (p : SrcState × List SrcRadio)
    (i : Nat) (hown : p.1.schedule.slot i = cfg.node_id) :
    (FIFO_EMPTY p.1.q.out_buffer = true →
      (src_data_slot cfg rx p i).2 = p.2 ∧
      (src_data_slot cfg rx p i).1.queues = p.1.queues) ∧
    (FIFO_EMPTY p.1.q.out_buffer = false → IS_DATA_ROUND p.1.schedule = false →
      (src_data_slot cfg rx p i).1.queues = p.1.queues ∧
      ∃ payload : Nat → Nat,
        (src_data_slot cfg rx p i).2
          = p.2 ++ [SrcRadio.data_send i ((p.1.t_ref + p.1.t_slot_ofs) % 2 ^ 64) payload
              (cfg.LWB_CONF_SRQ_PKT_LEN % 2 ^ 8)] ∧
        bytes_of_words payload 0 = lwb_get_send_buffer_state p.1.q) ∧
    (FIFO_EMPTY p.1.q.out_buffer = false → IS_DATA_ROUND p.1.schedule = true →
      ring_ok cfg cfg.LWB_CONF_OUT_BUFFER_SIZE 0 p.1.q.out_buffer p.1.q.out_buffer_mem →
      ∃ (payload : Nat → Nat) (frame : List Nat),
        (src_data_slot cfg rx p i).2
          = p.2 ++ [SrcRadio.data_send i ((p.1.t_ref + p.1.t_slot_ofs) % 2 ^ 64) payload
              frame.length] ∧
        out_frames cfg p.1.q = frame :: out_frames cfg (src_data_slot cfg rx p i).1.q ∧
        frame_of (bytes_of_words payload) frame.length = frame.map (fun b => b % 256) ∧
        FIFO_CNT (src_data_slot cfg rx p i).1.q.out_buffer
          = FIFO_CNT p.1.q.out_buffer - 1 ∧
        (src_data_slot cfg rx p i).1.q.in_buffer = p.1.q.in_buffer ∧
        (src_data_slot cfg rx p i).1.q.in_buffer_mem = p.1.q.in_buffer_mem) := by
  refine ⟨?_, ?_, ?_⟩
  · intro he
    dsimp only [src_data_slot, SrcState.queues]
    rw [if_pos hown]
    have he2 : ¬ ¬ FIFO_EMPTY p.1.q.out_buffer = true := by rw [he]; decide
    rw [if_neg he2]
    exact ⟨rfl, rfl⟩
  · intro he hreq
    have he2 : ¬ FIFO_EMPTY p.1.q.out_buffer = true := by rw [he]; decide
    have hreq2 : ¬ IS_DATA_ROUND p.1.schedule = true := by rw [hreq]; decide
    dsimp only [src_data_slot, SrcState.queues]
    rw [if_pos hown, if_pos he2, if_neg hreq2]
    refine ⟨rfl, _, rfl, ?_⟩
    rw [bytes_of_words_of_bytes]
    show lwb_get_send_buffer_state _ % 256 = lwb_get_send_buffer_state p.1.q
    unfold lwb_get_send_buffer_state
    exact Nat.mod_mod _ _
  · intro he hdata hok
    have he2 : ¬ FIFO_EMPTY p.1.q.out_buffer = true := by rw [he]; decide
    have hne : p.1.q.out_buffer.count ≠ 0 := by
      intro h0
      apply he2
      simp [FIFO_EMPTY, h0]
    have fr := out_buffer_get_frames cfg
      { p.1.q with stats := { p.1.q.stats with t_slot_last := p.1.schedule.time } }
      (bytes_of_words p.1.glossy_payload) p.1.payload_len hok hne
    have sm := lwb_out_buffer_get_some cfg
      { p.1.q with stats := { p.1.q.stats with t_slot_last := p.1.schedule.time } }
      (bytes_of_words p.1.glossy_payload) p.1.payload_len hne
    dsimp only [src_data_slot]
    rw [if_pos hown, if_pos he2, if_pos hdata]
    refine ⟨words_of_bytes (lwb_out_buffer_get cfg
        { p.1.q with stats := { p.1.q.stats with t_slot_last := p.1.schedule.time } }
        (bytes_of_words p.1.glossy_payload) p.1.payload_len).2.2.1,
      frame_of (lwb_out_buffer_get cfg
        { p.1.q with stats := { p.1.q.stats with t_slot_last := p.1.schedule.time } }
        (bytes_of_words p.1.glossy_payload) p.1.payload_len).2.2.1
        (lwb_out_buffer_get cfg
        { p.1.q with stats := { p.1.q.stats with t_slot_last := p.1.schedule.time } }
        (bytes_of_words p.1.glossy_payload) p.1.payload_len).2.2.2,
      ?_, fr.2, ?_, ?_, ?_, ?_⟩
    · rw [frame_of_length]
    · rw [frame_of_length]
      unfold frame_of
      rw [List.map_map]
      apply List.map_congr_left
      intro k _
      exact bytes_of_words_of_bytes _ k
    · show FIFO_CNT (lwb_out_buffer_get cfg _ _ _).2.1.out_buffer = _
      rw [sm, fifo_get_some _ hne]
      rfl
    · show (lwb_out_buffer_get cfg _ _ _).2.1.in_buffer = _
      rw [sm]
    · show (lwb_out_buffer_get cfg _ _ _).2.1.in_buffer_mem = _
      rw [sm]

/-- The sample source with one queued packet transmits, in its slot of a
request round, a request whose first byte is the send count 1. -/
theorem src_own_slot_witness :
    FIFO_EMPTY sample_src_request.q.out_buffer = false ∧
    (src_data_slot sample_cfg silent_slot (sample_src_request, []) 0).1.queues
      = sample_src_request.queues :=
  ⟨by decide,
   ((src_own_slot sample_cfg silent_slot (sample_src_request, []) 0 (by decide)).2.1
      (by decide) (by decide)).1⟩

/-- C30 as claimed fails on the length of the request: the sample source,
with one packet queued, transmits in its slot of a request round a request of
2 bytes (`LWB_CONF_SRQ_PKT_LEN`, the default of the code), not of 1 byte; its
first byte is the send count 1, and the queue still holds the packet. -/
theorem src_request_two_bytes_counterexample :
    sample_src_request.schedule.slot 0 = sample_cfg.node_id ∧
    IS_DATA_ROUND sample_src_request.schedule = false ∧
    lwb_get_send_buffer_state sample_src_request.q = 1 ∧
    sample_cfg.LWB_CONF_SRQ_PKT_LEN = 2 ∧
    src_sent (src_data_slot sample_cfg silent_slot (sample_src_request, []) 0).2
      = [(0, 2, 1)] ∧
    lwb_get_send_buffer_state
      (src_data_slot sample_cfg silent_slot (sample_src_request, []) 0).1.q = 1 := by
  refine ⟨by decide, by decide, by decide, rfl, by decide, by decide⟩

/-! ### AE scheduler: stream count, pending list, empty request round -/

theorem sack_loop_upto_succ (cfg : Config) (st : AeState) (sched : lwb_schedule_t)
    (streams_to_update : Nat → Nat) (m : Nat) :
    sack_loop_upto cfg st sched streams_to_update (m + 1)
      = sack_step cfg sched streams_to_update
          (sack_loop_upto cfg st sched streams_to_update m) m := by
  unfold sack_loop_upto
  rw [List.range_succ, List.foldl_append]
  rfl

theorem lwb_sched_compute_data_state (cfg : Config) (n_rx_started : Nat) (st : AeState)
    (sched : lwb_schedule_t) (streams_to_update : Nat → Nat) (reserve_slot_host : Nat)
    (h2 : st.sched_state = 2) :
    (lwb_sched_compute cfg n_rx_started st sched streams_to_update reserve_slot_host).2.1
      = { sack_loop_upto cfg st sched streams_to_update (LWB_SCHED_N_SLOTS sched) with
          sched_state := 0 } := by
  simp [lwb_sched_compute, h2, sack_loop_upto]

/-- The loop of the data state keeps the order of the list and the count of
the active streams. -/
theorem sack_loop_upto_inv (cfg : Config) (st : AeState) (sched : lwb_schedule_t)
    (streams_to_update : Nat → Nat) (m : Nat)
    (hs : st.streams_list.Pairwise (fun a b => a.node_id < b.node_id))
    (hc : st.n_streams = (active_ids st.streams_list).length) :
    (sack_loop_upto cfg st sched streams_to_update m).n_streams
      = (active_ids (sack_loop_upto cfg st sched streams_to_update m).streams_list).length :=
  (sack_fold_inv cfg sched streams_to_update (List.range m)
    { st with time := (st.time + sched.period) % 2 ^ 32, n_pending_sack := 0 } hs hc).2

/-- The loop of the data state, whatever the slots hold: the list keeps its
length, `n_pending_sack` and the number of active entries together never
exceed a bound `A` that they respected at the start, and `pending_sack` is
written only below `A`. -/
theorem sack_fold_bound (cfg : Config) (sched : lwb_schedule_t)
    (streams_to_update : Nat → Nat) (A : Nat) (base : Nat → Nat) (l : List Nat)
    (st : AeState)
    (hb : st.n_pending_sack + (active_ids st.streams_list).length ≤ A)
    (hp : ∀ k, A ≤ k → st.pending_sack k = base k) :
    (l.foldl (sack_step cfg sched streams_to_update) st).n_pending_sack
      + (active_ids (l.foldl (sack_step cfg sched streams_to_update) st).streams_list).length
      ≤ A ∧
    ∀ k, A ≤ k → (l.foldl (sack_step cfg sched streams_to_update) st).pending_sack k
      = base k := by
  induction l generalizing st with
  | nil => exact ⟨hb, hp⟩
  | cons i rest ih =>
    rw [List.foldl_cons]
    cases hd : (deactivate_first (sched.slot i)
        (decide (streams_to_update i ≠ cfg.LWB_INVALID_STREAM_ID)) st.streams_list).2 with
    | false =>
      rw [sack_step_false cfg sched streams_to_update st i hd]
      exact ih st hb hp
    | true =>
      obtain ⟨e1, e2, e3⟩ := sack_step_true cfg sched streams_to_update st i hd
      have hcnt := (deactivate_first_count (sched.slot i)
        (decide (streams_to_update i ≠ cfg.LWB_INVALID_STREAM_ID)) st.streams_list).1 hd
      have hle : (st.n_pending_sack + 1) % 2 ^ 8 ≤ st.n_pending_sack + 1 :=
        Nat.mod_le _ _
      apply ih
      · rw [e1, e3]
        omega
      · intro k hk
        rw [e2]
        unfold array_store
        rw [if_neg (by omega)]
        exact hp k hk

theorem assign_active_none (cfg : Config) (l : List lwb_stream_list_t) (slot : Nat → Nat)
    (n : Nat) (h : ∀ e ∈ l, e.state = 0) : assign_active cfg l slot n = (slot, n) := by
  induction l with
  | nil => rfl
  | cons c rest ih =>
    have hc : c.state = 0 := h c (List.mem_cons_self _ _)
    have hr := ih (fun e he => h e (List.mem_cons_of_mem _ he))
    unfold assign_active
    split_ifs with h1 h2
    · exact absurd hc h2
    · exact hr
    · rfl

theorem data_round_slots_none (cfg : Config) (n_streams : Nat) (l : List lwb_stream_list_t)
    (h : n_streams = 0 ∨ ∀ e ∈ l, e.state = 0) :
    data_round_slots cfg n_streams l = ((fun _ => 0), 0) := by
  unfold data_round_slots
  split_ifs with h1
  · rcases h with h | h
    · exact absurd h h1
    · exact assign_active_none cfg l _ _ h
  · rfl

/-- C36: in every state of the AE scheduler reachable from `lwb_sched_init`
through calls of `lwb_sched_proc_srq` and `lwb_sched_compute` (with
`LWB_CONF_MAX_N_STREAMS` below `2^16`, the range of `n_streams`), `n_streams`
is the number of entries of the stream list whose state is active, so
`n_streams` is at most `LWB_CONF_MAX_N_STREAMS`, and in a call of
`lwb_sched_compute` from such a state the branch "invalid stream count" is
never taken: on entry to any iteration `m` of the loop of the data state, for
any schedule and any `streams_to_update`, an active stream is not deactivated
while `n_streams` is 0. -/
theorem n_streams_counts_active (cfg : Config)
    (hmax : cfg.LWB_CONF_MAX_N_STREAMS < 2 ^ 16) (st : AeState) (hr : AeReachable cfg st) :
    st.n_streams = (st.streams_list.filter (fun e => decide (e.state ≠ 0))).length ∧
    st.n_streams ≤ cfg.LWB_CONF_MAX_N_STREAMS ∧
    ∀ (sched : lwb_schedule_t) (streams_to_update : Nat → Nat) (m : Nat),
      invalid_stream_count cfg sched streams_to_update
        (sack_loop_upto cfg st sched streams_to_update m) m = false := by
  obtain ⟨hs, hc⟩ := AeReachable.sorted_count cfg hmax st hr
  have hl := (AeReachable.inv cfg st hr).2
  have ha := active_ids_length_le st.streams_list
  refine ⟨?_, by omega, ?_⟩
  · rw [hc]
    unfold active_ids
    rw [List.length_map]
  · intro sched streams_to_update m
    have hi := sack_loop_upto_inv cfg st sched streams_to_update m hs hc
    unfold invalid_stream_count
    cases hd : (deactivate_first (sched.slot m)
        (decide (streams_to_update m ≠ cfg.LWB_INVALID_STREAM_ID))
        (sack_loop_upto cfg st sched streams_to_update m).streams_list).2 with
    | false => rfl
    | true =>
      have hcnt := (deactivate_first_count (sched.slot m)
        (decide (streams_to_update m ≠ cfg.LWB_INVALID_STREAM_ID))
        (sack_loop_upto cfg st sched streams_to_update m).streams_list).1 hd
      have hne : (sack_loop_upto cfg st sched streams_to_update m).n_streams ≠ 0 := by
        omega
      simp [hne]

/-- After the requests of nodes 7 and 3 the sample scheduler counts two
streams, both active. -/
theorem n_streams_counts_active_witness :
    (ae_run sample_cfg [AeCall.proc_srq { node_id := 7 },
      AeCall.proc_srq { node_id := 3 }]).n_streams
      = ((ae_run sample_cfg [AeCall.proc_srq { node_id := 7 },
          AeCall.proc_srq { node_id := 3 }]).streams_list.filter
            (fun e => decide (e.state ≠ 0))).length ∧
    (ae_run sample_cfg [AeCall.proc_srq { node_id := 7 },
      AeCall.proc_srq { node_id := 3 }]).n_streams = 2 :=
  ⟨(n_streams_counts_active sample_cfg (by decide) _
      ⟨[AeCall.proc_srq { node_id := 7 }, AeCall.proc_srq { node_id := 3 }], rfl⟩).1,
   by decide⟩


/-- C37: in the AE data state, with a stream list of at most
`LWB_CONF_MAX_N_STREAMS` entries (as in every reachable state) and for every
input schedule and every `streams_to_update`, `lwb_sched_compute` leaves
`pending_sack` as it was at every index from `LWB_CONF_MAX_N_STREAMS` on; the
`n_pending_sack` it leaves is at most the number of entries of the list; on
entry to every iteration `m` of the loop, `n_pending_sack` plus the number of
active entries is at most the number of entries active at the start (each
stream is deactivated at most once), and if the iteration deactivates a
stream the index it writes is below the length of the list; and an iteration
for a slot whose node id has no active entry in the list (the id is unknown,
or its stream is inactive) or in which no data was received leaves the
statics, stream table and pending list, as they are. -/
theorem pending_sack_in_bounds (cfg : Config) (n_rx_started : Nat) (st : AeState)
    (sched : lwb_schedule_t) (streams_to_update : Nat → Nat) (reserve_slot_host : Nat)
    (h2 : st.sched_state = 2)
    (hl : st.streams_list.length ≤ cfg.LWB_CONF_MAX_N_STREAMS) :
    (∀ k, cfg.LWB_CONF_MAX_N_STREAMS ≤ k →
      (lwb_sched_compute cfg n_rx_started st sched streams_to_update
        reserve_slot_host).2.1.pending_sack k = st.pending_sack k) ∧
    (lwb_sched_compute cfg n_rx_started st sched streams_to_update
      reserve_slot_host).2.1.n_pending_sack ≤ st.streams_list.length ∧
    (∀ m, (sack_loop_upto cfg st sched streams_to_update m).n_pending_sack
        + (active_ids (sack_loop_upto cfg st sched streams_to_update m).streams_list).length
        ≤ (active_ids st.streams_list).length) ∧
    (∀ m, (deactivate_first (sched.slot m)
        (decide (streams_to_update m ≠ cfg.LWB_INVALID_STREAM_ID))
        (sack_loop_upto cfg st sched streams_to_update m).streams_list).2 = true →
      (sack_loop_upto cfg st sched streams_to_update m).n_pending_sack
        < st.streams_list.length ∧
      (sack_loop_upto cfg st sched streams_to_update (m + 1)).pending_sack
        = array_store (sack_loop_upto cfg st sched streams_to_update m).pending_sack
            (sack_loop_upto cfg st sched streams_to_update m).n_pending_sack
            (sched.slot m)) ∧
    (∀ m, ((∀ e ∈ (sack_loop_upto cfg st sched streams_to_update m).streams_list,
          e.node_id = sched.slot m → e.state = 0) ∨
        streams_to_update m = cfg.LWB_INVALID_STREAM_ID) →
      sack_loop_upto cfg st sched streams_to_update (m + 1)
        = sack_loop_upto cfg st sched streams_to_update m) := by
  have ha := active_ids_length_le st.streams_list
  have hb : ∀ m, (sack_loop_upto cfg st sched streams_to_update m).n_pending_sack
        + (active_ids (sack_loop_upto cfg st sched streams_to_update m).streams_list).length
        ≤ (active_ids st.streams_list).length ∧
      ∀ k, (active_ids st.streams_list).length ≤ k →
        (sack_loop_upto cfg st sched streams_to_update m).pending_sack k
          = st.pending_sack k := by
    intro m
    exact sack_fold_bound cfg sched streams_to_update (active_ids st.streams_list).length
      st.pending_sack (List.range m)
      { st with time := (st.time + sched.period) % 2 ^ 32, n_pending_sack := 0 }
      (by show 0 + (active_ids st.streams_list).length ≤ _; omega) (fun k _ => rfl)
  rw [lwb_sched_compute_data_state cfg n_rx_started st sched streams_to_update
    reserve_slot_host h2]
  refine ⟨?_, ?_, fun m => (hb m).1, ?_, ?_⟩
  · intro k hk
    exact (hb (LWB_SCHED_N_SLOTS sched)).2 k (by omega)
  · have := (hb (LWB_SCHED_N_SLOTS sched)).1
    show (sack_loop_upto cfg st sched streams_to_update
      (LWB_SCHED_N_SLOTS sched)).n_pending_sack ≤ _
    omega
  · intro m hd
    have hcnt := (deactivate_first_count (sched.slot m)
      (decide (streams_to_update m ≠ cfg.LWB_INVALID_STREAM_ID))
      (sack_loop_upto cfg st sched streams_to_update m).streams_list).1 hd
    have := (hb m).1
    refine ⟨by omega, ?_⟩
    rw [sack_loop_upto_succ]
    exact (sack_step_true cfg sched streams_to_update _ m hd).2.1
  · intro m hm
    rw [sack_loop_upto_succ]
    apply sack_step_false
    rcases hm with hm | hm
    · generalize (sack_loop_upto cfg st sched streams_to_update m).streams_list = l at hm
      induction l with
      | nil => rfl
      | cons c rest ih =>
        unfold deactivate_first
        by_cases hc : sched.slot m = c.node_id
        · rw [if_pos hc]
          have h0 : c.state = 0 := hm c (List.mem_cons_self _ _) hc.symm
          rw [if_neg (by simp [h0])]
        · rw [if_neg hc]
          exact ih (fun e he => hm e (List.mem_cons_of_mem _ he))
    · generalize (sack_loop_upto cfg st sched streams_to_update m).streams_list = l
      induction l with
      | nil => rfl
      | cons c rest ih =>
        unfold deactivate_first
        by_cases hc : sched.slot m = c.node_id
        · rw [if_pos hc]
          rw [if_neg (by simp [hm])]
        · rw [if_neg hc]
          exact ih

/-- In the data state of the sample scheduler, a schedule of three slots that
all name node 7, the only stream, leaves one pending acknowledgement, no
more than the list has entries. -/
theorem pending_sack_in_bounds_witness :
    (lwb_sched_compute sample_cfg 0 sample_ae_data
      { sample_data_schedule with n_slots := 0x4003, slot := fun _ => 7 }
      (fun _ => 0) 0).2.1.n_pending_sack ≤ sample_ae_data.streams_list.length ∧
    (lwb_sched_compute sample_cfg 0 sample_ae_data
      { sample_data_schedule with n_slots := 0x4003, slot := fun _ => 7 }
      (fun _ => 0) 0).2.1.n_pending_sack = 1 :=
  ⟨(pending_sack_in_bounds sample_cfg 0 sample_ae_data
      { sample_data_schedule with n_slots := 0x4003, slot := fun _ => 7 }
      (fun _ => 0) 0 (by decide) (by decide)).2.1,
   by decide⟩

/-- C40: when `lwb_sched_compute` runs in the request state and no stream is
active (`n_streams` is 0, or no entry of the list is active), it returns
`LWB_SCHED_PKT_HEADER_LEN`, the policy goes back to idle, and the schedule it
emits has no slot (the count is 0 and the slot array is cleared), the `CONT`
flag set and `SACK` clear, and the period `SCHED_PERIOD_IDLE*10 - 1`, provided
that `SCHED_PERIOD_IDLE*10` is at least 1 and fits the 16-bit field; together
with the period of the request-round schedule before it (emitted in an idle
state `st0` on contention activity) the two periods sum to
`SCHED_PERIOD_IDLE*10`. -/
theorem request_round_without_streams (cfg : Config) (n_rx_started : Nat) (st : AeState)
    (sched : lwb_schedule_t) (streams_to_update : Nat → Nat) (reserve_slot_host : Nat)
    (h1 : st.sched_state = 1)
    (hna : st.n_streams = 0 ∨ ∀ e ∈ st.streams_list, e.state = 0)
    (hp : 1 ≤ cfg.LWB_CONF_SCHED_PERIOD_IDLE * 10)
    (hi : cfg.LWB_CONF_SCHED_PERIOD_IDLE * 10 < 2 ^ 16) :
    (lwb_sched_compute cfg n_rx_started st sched streams_to_update reserve_slot_host).1
      = LWB_SCHED_PKT_HEADER_LEN ∧
    (lwb_sched_compute cfg n_rx_started st sched streams_to_update
      reserve_slot_host).2.1.sched_state = 0 ∧
    LWB_SCHED_N_SLOTS (lwb_sched_compute cfg n_rx_started st sched streams_to_update
      reserve_slot_host).2.2 = 0 ∧
    (∀ k, (lwb_sched_compute cfg n_rx_started st sched streams_to_update
      reserve_slot_host).2.2.slot k = 0) ∧
    LWB_SCHED_HAS_CONT_SLOT (lwb_sched_compute cfg n_rx_started st sched streams_to_update
      reserve_slot_host).2.2 = true ∧
    LWB_SCHED_HAS_SACK_SLOT (lwb_sched_compute cfg n_rx_started st sched streams_to_update
      reserve_slot_host).2.2 = false ∧
    (lwb_sched_compute cfg n_rx_started st sched streams_to_update
      reserve_slot_host).2.2.period = cfg.LWB_CONF_SCHED_PERIOD_IDLE * 10 - 1 ∧
    ∀ (st0 : AeState) (sched0 : lwb_schedule_t) (n0 : Nat) (u0 : Nat → Nat) (r0 : Nat),
      st0.sched_state = 0 → n0 ≠ 0 →
      (lwb_sched_compute cfg n0 st0 sched0 u0 r0).2.2.period
        + (lwb_sched_compute cfg n_rx_started st sched streams_to_update
            reserve_slot_host).2.2.period
        = cfg.LWB_CONF_SCHED_PERIOD_IDLE * 10 := by
  have ha := data_round_slots_none cfg st.n_streams st.streams_list hna
  have hout := (lwb_sched_compute_out cfg n_rx_started st sched streams_to_update
    reserve_slot_host).2.2.2.1 h1 (by rw [ha])
  have hf := has_flags_cont _ hout.2.2
  have hper : (lwb_sched_compute cfg n_rx_started st sched streams_to_update
      reserve_slot_host).2.2.period = cfg.LWB_CONF_SCHED_PERIOD_IDLE * 10 - 1 := by
    have : (lwb_sched_compute cfg n_rx_started st sched streams_to_update
        reserve_slot_host).2.2.period
        = (cfg.LWB_CONF_SCHED_PERIOD_IDLE * 10 + 2 ^ 16 - 1) % 2 ^ 16 := by
      simp [lwb_sched_compute, h1, ha, LWB_SCHED_SET_CONT_SLOT]
    rw [this]
    omega
  refine ⟨hout.1, hout.2.1, hf.2.2, ?_, hf.1, hf.2.1, hper, ?_⟩
  · intro k
    simp [lwb_sched_compute, h1, ha, LWB_SCHED_SET_CONT_SLOT]
  · intro st0 sched0 n0 u0 r0 h0 hn0
    rw [lwb_sched_compute_idle_rx cfg n0 st0 sched0 u0 r0 h0 hn0, hper]
    omega

/-- The sample scheduler in the request state with no stream known goes back
to idle with a period of 99, one less than the base period of 100. -/
theorem request_round_without_streams_witness :
    sample_ae_request.sched_state = 1 ∧
    (lwb_sched_compute sample_cfg 0 sample_ae_request schedule_zero (fun _ => 0) 0).2.2.period
      = 99 :=
  ⟨by decide,
   (request_round_without_streams sample_cfg 0 sample_ae_request schedule_zero (fun _ => 0) 0
      (by decide) (Or.inl (by decide)) (by decide) (by decide)).2.2.2.2.2.2.1⟩


/-! ### Source round: missed schedules -/

theorem src_receive_schedule_clocks (cfg : Config) (rcv : sched_reception) (s : SrcState) :
    (src_receive_schedule cfg rcv s).1.clocks = s.clocks := by
  dsimp only [src_receive_schedule, SrcState.clocks]
  split_ifs <;> rfl

/-- The sync update writes the sync state, the guard time, the unsynced
counter and, on the way to BOOTSTRAP, `t_preprocess`; the time references and
the idle period are left alone. -/
theorem src_sync_fields (cfg : Config) (upd : Bool) (s : SrcState) :
    (src_sync cfg upd s).1.t_ref_lf = s.t_ref_lf ∧
    (src_sync cfg upd s).1.period_idle = s.period_idle ∧
    (src_sync cfg upd s).1.q.stats.unsynced_cnt
      = s.q.stats.unsynced_cnt + (if sync_update upd s.sync_state = UNSYNCED then 1 else 0) ∧
    (sync_update upd s.sync_state = BOOTSTRAP → (src_sync cfg upd s).1.t_preprocess = 0) := by
  dsimp only [src_sync, sync_update]
  by_cases h1 : next_state (GET_EVENT upd) s.sync_state = UNSYNCED
  · rw [if_pos h1, if_pos h1]
    exact ⟨rfl, rfl, rfl, fun h => absurd (h1.symm.trans h) (by decide)⟩
  · rw [if_neg h1, if_neg h1]
    by_cases h2 : next_state (GET_EVENT upd) s.sync_state = BOOTSTRAP
    · rw [if_pos h2]
      exact ⟨rfl, rfl, rfl, fun _ => rfl⟩
    · rw [if_neg h2]
      exact ⟨rfl, rfl, rfl, fun h => absurd h h2⟩

theorem src_publish_unsynced (s : SrcState) (d : Int) :
    (src_publish s d).q.stats.unsynced_cnt = s.q.stats.unsynced_cnt := rfl

theorem src_first_schedule_unsynced (cfg : Config) (s : SrcState) :
    (src_first_schedule cfg s).q.stats.unsynced_cnt = s.q.stats.unsynced_cnt := by
  unfold src_first_schedule
  split_ifs
  · exact src_publish_unsynced s _
  · rfl

theorem src_time_recovery_unsynced (cfg : Config) (rcv : sched_reception) (upd : Bool)
    (s : SrcState) :
    (src_time_recovery cfg rcv upd s).q.stats.unsynced_cnt = s.q.stats.unsynced_cnt := by
  dsimp only [src_time_recovery]
  split_ifs
  · exact src_first_schedule_unsynced cfg
      { s with t_ref := usub 64 rcv.t_ref cfg.LWB_CONF_T_REF_OFS,
               t_ref_lf := usub 64 rcv.lf_now
                 ((usub 64 rcv.hf_now (usub 64 rcv.t_ref cfg.LWB_CONF_T_REF_OFS)) % 2 ^ 32
                   / (cfg.RTIMER_HF_LF_RATIO % 2 ^ 32)) }
  · dsimp only [src_time_missed]
    split_ifs <;> rfl

/-- What the estimation after a missed schedule writes. -/
theorem src_time_missed_spec (cfg : Config) (s : SrcState) :
    (IS_STATE_IDLE s.schedule = true →
      (src_time_missed cfg s).t_ref_lf
        = (s.t_ref_lf + s.period_idle * cfg.RTIMER_SECOND_LF / LWB_PERIOD_SCALE) % 2 ^ 64 ∧
      (src_time_missed cfg s).schedule = s.schedule) ∧
    (IS_STATE_IDLE s.schedule = false →
      (src_time_missed cfg s).t_ref_lf
        = (if IS_DATA_ROUND s.schedule then
            (s.last_synced_lf + s.period_idle * cfg.RTIMER_SECOND_LF / LWB_PERIOD_SCALE)
              % 2 ^ 64
           else s.last_synced_lf) ∧
      (src_time_missed cfg s).schedule = { s.schedule with period := s.period_idle }) := by
  constructor
  · intro h
    simp [src_time_missed, h]
  · intro h
    simp [src_time_missed, h]

theorem src_round_end_schedule (cfg : Config) (s : SrcState) :
    (src_round_end cfg s).1.schedule = { s.schedule with slot := fun _ => 0 } ∧
    (src_round_end cfg s).1.t_ref_lf = s.t_ref_lf := by
  dsimp only [src_round_end]
  split_ifs <;> exact ⟨rfl, rfl⟩

theorem next_state_missed_ne (st : lwb_sync_state_t) :
    sync_update false st ≠ SYNCED := by
  cases st <;> decide

/-- A round whose schedule reception was missed and whose new state is not
BOOTSTRAP: the time reference is estimated, the node does not participate,
and the round ends. -/
theorem src_round_missed (cfg : Config) (env : src_round_env) (s : SrcState)
    (hm : (src_receive_schedule cfg env.rcv s).2 = false)
    (hb : sync_update false s.sync_state ≠ BOOTSTRAP) :
    lwb_thread_src_round cfg env s =
      { state := (src_round_end cfg (src_time_missed cfg
          (src_sync cfg false (src_receive_schedule cfg env.rcv s).1).1)).1,
        radio := [],
        restart := false,
        wakeup := (src_round_end cfg (src_time_missed cfg
          (src_sync cfg false (src_receive_schedule cfg env.rcv s).1).1)).2 } := by
  have h1 := (src_receive_schedule_keeps cfg env.rcv s).1
  have hk := src_sync_keeps cfg false (src_receive_schedule cfg env.rcv s).1
  rw [h1] at hk
  have hr : (src_sync cfg (src_receive_schedule cfg env.rcv s).2
      (src_receive_schedule cfg env.rcv s).1).2 = false := by
    rw [hm]
    cases hx : (src_sync cfg false (src_receive_schedule cfg env.rcv s).1).2 with
    | false => rfl
    | true => exact absurd (hk.2.2.1.mp hx) hb
  rw [src_round_continue cfg env s hr, hm]
  have hrec : src_time_recovery cfg env.rcv false
      (src_sync cfg false (src_receive_schedule cfg env.rcv s).1).1
      = src_time_missed cfg (src_sync cfg false (src_receive_schedule cfg env.rcv s).1).1 := by
    simp [src_time_recovery]
  rw [hrec]
  have hns : (src_time_missed cfg
      (src_sync cfg false (src_receive_schedule cfg env.rcv s).1).1).sync_state ≠ SYNCED := by
    rw [(src_time_missed_keeps cfg _).1, hk.1]
    exact next_state_missed_ne s.sync_state
  rw [src_participate_idle cfg env _ hns]

/-- C31: on a missed schedule (the time reference was not updated and the new
sync state is not BOOTSTRAP) the source estimates `t_ref_lf` from the last
idle period `P = period_idle * RTIMER_SECOND_LF / LWB_PERIOD_SCALE`, in 64-bit
arithmetic: if the schedule it holds is an idle one (`DACK` set), `t_ref_lf`
advances by `P` and the period of the schedule is kept; otherwise `t_ref_lf`
is set back to `last_synced_lf`, advanced by one `P` if the schedule held is
that of a data round (`SACK` set), and `schedule.period` is reset to
`period_idle`; `global_time`, `last_synced_lf` and the drift estimate are as
before the round. The schedule held is the content of the schedule buffer
after the reception slot. -/
theorem missed_schedule_reference (cfg : Config) (env : src_round_env) (s : SrcState)
    (hm : (src_receive_schedule cfg env.rcv s).2 = false)
    (hb : (lwb_thread_src_round cfg env s).state.sync_state ≠ BOOTSTRAP) :
    (IS_STATE_IDLE env.rcv.schedule = true →
      (lwb_thread_src_round cfg env s).state.t_ref_lf
        = (s.t_ref_lf + s.period_idle * cfg.RTIMER_SECOND_LF / LWB_PERIOD_SCALE) % 2 ^ 64 ∧
      (lwb_thread_src_round cfg env s).state.schedule.period = env.rcv.schedule.period) ∧
    (IS_STATE_IDLE env.rcv.schedule = false →
      (IS_DATA_ROUND env.rcv.schedule = true →
        (lwb_thread_src_round cfg env s).state.t_ref_lf
          = (s.last_synced_lf + s.period_idle * cfg.RTIMER_SECOND_LF / LWB_PERIOD_SCALE)
              % 2 ^ 64) ∧
      (IS_DATA_ROUND env.rcv.schedule = false →
        (lwb_thread_src_round cfg env s).state.t_ref_lf = s.last_synced_lf) ∧
      (lwb_thread_src_round cfg env s).state.schedule.period = s.period_idle) ∧
    (lwb_thread_src_round cfg env s).state.global_time = s.global_time ∧
    (lwb_thread_src_round cfg env s).state.last_synced_lf = s.last_synced_lf ∧
    (lwb_thread_src_round cfg env s).state.q.stats.drift = s.q.stats.drift := by
  have hb2 : sync_update false s.sync_state ≠ BOOTSTRAP := by
    rw [src_round_sync_state, hm] at hb
    exact hb
  rw [src_round_missed cfg env s hm hb2]
  have hc := SrcState.clocks_fields _ _ (src_receive_schedule_clocks cfg env.rcv s)
  have hsch := (src_receive_schedule_keeps cfg env.rcv s).2.2.1
  have hk := src_sync_keeps cfg false (src_receive_schedule cfg env.rcv s).1
  have hf := src_sync_fields cfg false (src_receive_schedule cfg env.rcv s).1
  have hmk := src_time_missed_keeps cfg
    (src_sync cfg false (src_receive_schedule cfg env.rcv s).1).1
  have hms := src_time_missed_spec cfg
    (src_sync cfg false (src_receive_schedule cfg env.rcv s).1).1
  have he := src_round_end_schedule cfg (src_time_missed cfg
    (src_sync cfg false (src_receive_schedule cfg env.rcv s).1).1)
  have hec := SrcState.clocks_fields _ _ (src_round_end_keeps cfg (src_time_missed cfg
    (src_sync cfg false (src_receive_schedule cfg env.rcv s).1).1)).1
  rw [hk.2.2.2.2.1, hsch, hf.1, hf.2.1, hk.2.2.2.2.2.2.1, hc.2.2.2.2.2.1, hc.2.2.2.2.2.2.1,
    hc.2.2.2.1] at hms
  refine ⟨?_, ?_, ?_, ?_, ?_⟩
  · intro hidle
    obtain ⟨e1, e2⟩ := hms.1 hidle
    refine ⟨?_, ?_⟩
    · show (src_round_end cfg _).1.t_ref_lf = _
      rw [he.2, e1]
    · show (src_round_end cfg _).1.schedule.period = _
      rw [he.1, e2]
  · intro hidle
    obtain ⟨e1, e2⟩ := hms.2 hidle
    refine ⟨?_, ?_, ?_⟩
    · intro hd
      show (src_round_end cfg _).1.t_ref_lf = _
      rw [he.2, e1, if_pos hd]
    · intro hd
      show (src_round_end cfg _).1.t_ref_lf = _
      rw [he.2, e1, if_neg (by simp [hd])]
    · show (src_round_end cfg _).1.schedule.period = _
      rw [he.1, e2]
  · show (src_round_end cfg _).1.global_time = _
    rw [hec.2.1, hmk.2.2.1, hk.2.2.2.2.2.1, hc.2.1]
  · show (src_round_end cfg _).1.last_synced_lf = _
    rw [hec.2.2.2.1, hmk.2.2.2.1, hk.2.2.2.2.2.2.1, hc.2.2.2.1]
  · show (src_round_end cfg _).1.q.stats.drift = _
    rw [hec.2.2.2.2.2.2.2.2.1, hmk.2.2.2.2, hk.2.2.2.2.2.2.2, hc.2.2.2.2.2.2.2.2.1]


/-- The sample source, synced, misses the schedule of a data round while last
synced at LF time 1000 with an idle period of 1 s: the reference is set to
`last_synced_lf` plus one period, 33768, and the period is reset to 100. -/
theorem missed_schedule_reference_witness :
    (src_receive_schedule sample_cfg (sample_missed_round 20 2 0x4001 2000).rcv
      sample_src_synced).2 = false ∧
    IS_STATE_IDLE (sample_missed_round 20 2 0x4001 2000).rcv.schedule = false ∧
    (lwb_thread_src_round sample_cfg (sample_missed_round 20 2 0x4001 2000)
      sample_src_synced).state.schedule.period = sample_src_synced.period_idle ∧
    (lwb_thread_src_round sample_cfg (sample_missed_round 20 2 0x4001 2000)
      sample_src_synced).state.t_ref_lf = 33768 :=
  ⟨by decide, by decide,
   ((missed_schedule_reference sample_cfg (sample_missed_round 20 2 0x4001 2000)
      sample_src_synced (by decide) (by decide)).2.1 (by decide)).2.2,
   by decide⟩

/-- C32, as the code has it: a missed schedule cancels every slot of the
round. In a source round whose schedule reception was missed (the time
reference was not updated) the sync state after the update is
`next_state(EVT_SCHED_MISSED)`, which is never SYNCED, so the node is not
granted participation: no wait for a data slot, the contention slot or the
second schedule is started (the list of radio actions after the schedule is
empty) and both packet queues are as before the round. -/
theorem missed_schedule_cancels_round (cfg : Config) (env : src_round_env) (s : SrcState)
    (hm : (src_receive_schedule cfg env.rcv s).2 = false) :
    (lwb_thread_src_round cfg env s).radio = [] ∧
    (lwb_thread_src_round cfg env s).state.sync_state
      = next_state EVT_SCHED_MISSED s.sync_state ∧
    (lwb_thread_src_round cfg env s).state.sync_state ≠ SYNCED ∧
    (lwb_thread_src_round cfg env s).state.queues = s.queues := by
  have hst : (lwb_thread_src_round cfg env s).state.sync_state
      = sync_update false s.sync_state := by
    rw [src_round_sync_state, hm]
  have h1 := (src_receive_schedule_keeps cfg env.rcv s).2.1
  have hk := src_sync_keeps cfg false (src_receive_schedule cfg env.rcv s).1
  refine ⟨?_, hst, ?_, ?_⟩
  · by_cases hb : sync_update false s.sync_state = BOOTSTRAP
    · have hr : (src_sync cfg (src_receive_schedule cfg env.rcv s).2
          (src_receive_schedule cfg env.rcv s).1).2 = true := by
        rw [hm, hk.2.2.1, (src_receive_schedule_keeps cfg env.rcv s).1]
        exact hb
      rw [src_round_restart cfg env s hr]
    · rw [src_round_missed cfg env s hm hb]
  · rw [hst]
    exact next_state_missed_ne s.sync_state
  · by_cases hb : sync_update false s.sync_state = BOOTSTRAP
    · have hr : (src_sync cfg (src_receive_schedule cfg env.rcv s).2
          (src_receive_schedule cfg env.rcv s).1).2 = true := by
        rw [hm, hk.2.2.1, (src_receive_schedule_keeps cfg env.rcv s).1]
        exact hb
      rw [src_round_restart cfg env s hr, hm]
      show (src_sync cfg false _).1.queues = _
      rw [hk.2.2.2.1, h1]
    · rw [src_round_missed cfg env s hm hb]
      show (src_round_end cfg _).1.queues = _
      rw [(src_round_end_keeps cfg _).2, (src_time_missed_keeps cfg _).2.1, hk.2.2.2.1, h1]

/-- The sample source, synced, misses a schedule while it holds one with two
data slots: it ends the round in UNSYNCED without a radio action. -/
theorem missed_schedule_cancels_round_witness :
    (src_receive_schedule sample_cfg (sample_missed_round 20 2 0x4002 2000).rcv
      sample_src_synced).2 = false ∧
    (lwb_thread_src_round sample_cfg (sample_missed_round 20 2 0x4002 2000)
      sample_src_synced).radio = [] ∧
    (lwb_thread_src_round sample_cfg (sample_missed_round 20 2 0x4002 2000)
      sample_src_synced).state.sync_state = UNSYNCED :=
  ⟨by decide,
   (missed_schedule_cancels_round sample_cfg (sample_missed_round 20 2 0x4002 2000)
      sample_src_synced (by decide)).1,
   by decide⟩

/-- C32 as claimed fails: the sample source, synced, holds a schedule with
two data slots. When the schedule is received the round starts a radio action
in each of the two slots; when its reception is missed the round starts none,
although the schedule held has the same two slots. -/
theorem missed_schedule_slots_counterexample :
    LWB_SCHED_N_SLOTS (sample_missed_round 20 2 0x4002 2000).rcv.schedule = 2 ∧
    (lwb_thread_src_round sample_cfg (sample_round 20 2 0x4002 2000)
      sample_src_synced).radio.length = 2 ∧
    (src_receive_schedule sample_cfg (sample_missed_round 20 2 0x4002 2000).rcv
      sample_src_synced).2 = false ∧
    (lwb_thread_src_round sample_cfg (sample_missed_round 20 2 0x4002 2000)
      sample_src_synced).radio.length = 0 := by
  refine ⟨by decide, by decide, by decide, by decide⟩

/-- C35: in a source round, `stats.unsynced_cnt` grows by exactly 1 if the
new sync state is UNSYNCED and is unchanged otherwise (on entering UNSYNCED2,
SYNCED or BOOTSTRAP); when the new state is BOOTSTRAP, `t_preprocess` is
reset to 0 and the round is restarted at once (`continue`): no radio action
is started and the end of the round with its sleep is skipped; when the new
state is not BOOTSTRAP the round is not restarted. -/
theorem unsynced_count_and_restart (cfg : Config) (env : src_round_env) (s : SrcState) :
    (lwb_thread_src_round cfg env s).state.q.stats.unsynced_cnt
      = s.q.stats.unsynced_cnt
        + (if (lwb_thread_src_round cfg env s).state.sync_state = UNSYNCED then 1 else 0) ∧
    ((lwb_thread_src_round cfg env s).state.sync_state = BOOTSTRAP →
      (lwb_thread_src_round cfg env s).state.t_preprocess = 0 ∧
      (lwb_thread_src_round cfg env s).restart = true ∧
      (lwb_thread_src_round cfg env s).radio = []) ∧
    ((lwb_thread_src_round cfg env s).state.sync_state ≠ BOOTSTRAP →
      (lwb_thread_src_round cfg env s).restart = false) := by
  rw [src_round_sync_state]
  have h1 := (src_receive_schedule_keeps cfg env.rcv s).1
  have hc := SrcState.clocks_fields _ _ (src_receive_schedule_clocks cfg env.rcv s)
  have hk := src_sync_keeps cfg (src_receive_schedule cfg env.rcv s).2
    (src_receive_schedule cfg env.rcv s).1
  have hf := src_sync_fields cfg (src_receive_schedule cfg env.rcv s).2
    (src_receive_schedule cfg env.rcv s).1
  rw [h1] at hk hf
  rw [hc.2.2.2.2.2.2.2.2.2] at hf
  cases hr : (src_sync cfg (src_receive_schedule cfg env.rcv s).2
      (src_receive_schedule cfg env.rcv s).1).2 with
  | true =>
    rw [src_round_restart cfg env s hr]
    have hb := hk.2.2.1.mp hr
    exact ⟨hf.2.2.1, fun _ => ⟨hf.2.2.2 hb, rfl, rfl⟩, fun h => absurd hb h⟩
  | false =>
    rw [src_round_continue cfg env s hr]
    have hb : sync_update (src_receive_schedule cfg env.rcv s).2 s.sync_state ≠ BOOTSTRAP := by
      intro hb
      have := hk.2.2.1.mpr hb
      rw [hr] at this
      exact Bool.false_ne_true this
    refine ⟨?_, fun h => absurd h hb, fun _ => rfl⟩
    show (src_round_end cfg _).1.q.stats.unsynced_cnt = _
    rw [(SrcState.clocks_fields _ _ (src_round_end_keeps cfg _).1).2.2.2.2.2.2.2.2.2,
      (SrcState.clocks_fields _ _ (src_participate_clocks cfg env _)).2.2.2.2.2.2.2.2.2,
      src_time_recovery_unsynced]
    exact hf.2.2.1


/-! ### Source round: slots of other nodes and the contention slot -/

/-- C33: a data slot of a source that is not its own. The received payload is
passed to `lwb_in_buffer_put` only if the slot passes the filter, `slot[i] ==
0` or `slot[i] == HOST_ID`. In a slot of another source (neither) both queues
are unchanged. In a slot of the host, with a well-formed inbound ring, the
inbound queue gains exactly the received frame, at its tail, when the
received length is in `1 .. LWB_CONF_MAX_DATA_PKT_LEN` and the queue is not
full; it is unchanged when the length is outside that range or the queue is
full; the outbound queue is unchanged in every case. -/
theorem src_foreign_slot (cfg : Config) (rx : glossy_result) (p : SrcState × List SrcRadio)
    (i : Nat) (hown : p.1.schedule.slot i ≠ cfg.node_id) :
    (¬ (p.1.schedule.slot i = 0 ∨ p.1.schedule.slot i = cfg.HOST_ID) →
      (src_data_slot cfg rx p i).1.queues = p.1.queues ∧
      in_frames cfg (src_data_slot cfg rx p i).1.q = in_frames cfg p.1.q) ∧
    ((p.1.schedule.slot i = 0 ∨ p.1.schedule.slot i = cfg.HOST_ID) →
      (ring_ok cfg cfg.LWB_CONF_IN_BUFFER_SIZE 1 p.1.q.in_buffer p.1.q.in_buffer_mem →
        1 ≤ rx.payload_len % 2 ^ 8 →
        rx.payload_len % 2 ^ 8 ≤ cfg.LWB_CONF_MAX_DATA_PKT_LEN →
        FIFO_FULL p.1.q.in_buffer = false →
        in_frames cfg (src_data_slot cfg rx p i).1.q
          = in_frames cfg p.1.q
              ++ [frame_of (bytes_of_words rx.payload) (rx.payload_len % 2 ^ 8)]) ∧
      (rx.payload_len % 2 ^ 8 = 0 ∨ cfg.LWB_CONF_MAX_DATA_PKT_LEN < rx.payload_len % 2 ^ 8 ∨
          FIFO_FULL p.1.q.in_buffer = true →
        (src_data_slot cfg rx p i).1.queues = p.1.queues) ∧
      (src_data_slot cfg rx p i).1.q.out_buffer = p.1.q.out_buffer ∧
      (src_data_slot cfg rx p i).1.q.out_buffer_mem = p.1.q.out_buffer_mem) := by
  constructor
  · intro hf
    dsimp only [src_data_slot, SrcState.queues, in_frames]
    rw [if_neg hown, if_neg hf]
    exact ⟨rfl, rfl⟩
  · intro hf
    refine ⟨?_, ?_, ?_, ?_⟩
    · intro hok h0 hmax hfull
      have hfree : p.1.q.in_buffer.count ≠ p.1.q.in_buffer.num_elem := by
        intro hc
        simp [FIFO_FULL, hc] at hfull
      have fr := (in_buffer_put_frames cfg p.1.q (bytes_of_words rx.payload)
        (rx.payload_len % 2 ^ 8) hok h0 hmax hfree).2
      dsimp only [src_data_slot]
      rw [if_neg hown, if_pos hf]
      exact fr
    · intro hbad
      dsimp only [src_data_slot, SrcState.queues]
      rw [if_neg hown, if_pos hf]
      by_cases hlen : rx.payload_len % 2 ^ 8 = 0 ∨
          cfg.LWB_CONF_MAX_DATA_PKT_LEN < rx.payload_len % 2 ^ 8
      · rw [lwb_in_buffer_put_bad cfg p.1.q (bytes_of_words rx.payload)
          (rx.payload_len % 2 ^ 8) hlen]
      · have hfull : p.1.q.in_buffer.count = p.1.q.in_buffer.num_elem := by
          rcases hbad with h | h | h
          · exact absurd (Or.inl h) hlen
          · exact absurd (Or.inr h) hlen
          · simpa [FIFO_FULL] using h
        rw [lwb_in_buffer_put_full cfg p.1.q (bytes_of_words rx.payload)
          (rx.payload_len % 2 ^ 8) (by omega) (by omega) hfull]
    · dsimp only [src_data_slot]
      rw [if_neg hown, if_pos hf]
      show (lwb_in_buffer_put cfg p.1.q _ _).2.out_buffer = _
      unfold lwb_in_buffer_put
      split
      · rfl
      · split <;> rfl
    · dsimp only [src_data_slot]
      rw [if_neg hown, if_pos hf]
      show (lwb_in_buffer_put cfg p.1.q _ _).2.out_buffer_mem = _
      unfold lwb_in_buffer_put
      split
      · rfl
      · split <;> rfl


/-- In a slot of another source (node 3) the sample source (node 7) leaves
its queues alone; in a slot of the host (id 0) it enqueues the two bytes
received. -/
theorem src_foreign_slot_witness :
    (src_data_slot sample_cfg
      { n_rx := 1, n_rx_started := 1, payload := fun _ => 0x0201, payload_len := 2 }
      ({ sample_src_synced with schedule := (sample_reception 20 2 0x4002 2000).schedule }, [])
      0).1.queues = sample_src_synced.queues ∧
    sample_src_synced.schedule.slot 0 = 0 ∧
    in_frames sample_cfg (src_data_slot sample_cfg
      { n_rx := 1, n_rx_started := 1, payload := fun _ => 0x0201, payload_len := 2 }
      (sample_src_synced, []) 0).1.q = [[1, 2]] :=
  ⟨((src_foreign_slot sample_cfg
      { n_rx := 1, n_rx_started := 1, payload := fun _ => 0x0201, payload_len := 2 }
      ({ sample_src_synced with schedule := (sample_reception 20 2 0x4002 2000).schedule }, [])
      0 (by decide)).1 (by decide)).1,
   by decide, by decide⟩

theorem src_second_schedule_log (rx : glossy_result) (p : SrcState × List SrcRadio) :
    (src_second_schedule rx p).2
      = p.2 ++ [SrcRadio.sched2_recv
          (usub 64 ((p.1.t_ref + p.1.t_slot_ofs) % 2 ^ 64) p.1.t_guard) 2] ∧
    (src_second_schedule rx p).1.t_slot_ofs = p.1.t_slot_ofs := by
  dsimp only [src_second_schedule]
  split_ifs <;> exact ⟨rfl, rfl⟩

/-- C34, as the code has it: the contention slot of a source round (the
schedule has the `CONT` flag; the round runs it only when SYNCED). The source
transmits a request if its outbound queue is not empty, and otherwise only
receives, with the expected length `LWB_CONF_SRQ_PKT_LEN`. The request of a
registered node has `LWB_CONF_SRQ_PKT_LEN` bytes (2 by default) and the first
word 0, without the node id; the request of a node not yet registered has 2
bytes and carries the node's own id in the first word. The reception of the
second schedule follows in both cases, and the contention slot and the second
schedule never change the queues, so the outbound queue is as before. -/
theorem src_contention_request (cfg : Config) (env : src_round_env)
    (p : SrcState × List SrcRadio) (hc : LWB_SCHED_HAS_CONT_SLOT p.1.schedule = true) :
    (FIFO_EMPTY p.1.q.out_buffer = false →
      ∃ (payload : Nat → Nat) (len t2 : Nat),
        (src_contention cfg env p).2
          = p.2 ++ [SrcRadio.cont_send ((p.1.t_ref + p.1.t_slot_ofs) % 2 ^ 64) payload len,
              SrcRadio.sched2_recv t2 2] ∧
        (p.1.node_registered ≠ 0 →
          len = cfg.LWB_CONF_SRQ_PKT_LEN % 2 ^ 8 ∧ payload 0 = 0) ∧
        (p.1.node_registered = 0 → len = 2 ∧ payload 0 = cfg.node_id % 2 ^ 16)) ∧
    (FIFO_EMPTY p.1.q.out_buffer = true →
      ∃ t t2 : Nat,
        (src_contention cfg env p).2
          = p.2 ++ [SrcRadio.cont_recv t (cfg.LWB_CONF_SRQ_PKT_LEN % 2 ^ 8),
              SrcRadio.sched2_recv t2 2]) ∧
    (src_contention cfg env p).1.queues = p.1.queues ∧
    out_frames cfg (src_contention cfg env p).1.q = out_frames cfg p.1.q := by
  have hq : (src_contention cfg env p).1.queues = p.1.queues := by
    unfold src_contention
    rw [if_pos hc]
    dsimp only
    rw [(src_second_schedule_keeps _ _).2]
    dsimp only [SrcState.queues]
    split_ifs <;> rfl
  refine ⟨?_, ?_, hq, ?_⟩
  · intro he
    have he2 : ¬ FIFO_EMPTY p.1.q.out_buffer = true := by rw [he]; decide
    unfold src_contention
    rw [if_pos hc]
    dsimp only
    rw [(src_second_schedule_log _ _).1]
    rw [if_pos he2]
    by_cases hreg : p.1.node_registered = 0
    · rw [if_pos hreg]
      refine ⟨_, _, _, List.append_assoc _ _ _, fun h => absurd hreg h, fun _ => ⟨rfl, ?_⟩⟩
      simp [array_store]
    · rw [if_neg hreg]
      refine ⟨_, _, _, List.append_assoc _ _ _, fun _ => ⟨rfl, ?_⟩, fun h => absurd h hreg⟩
      simp [array_store]
  · intro he
    have he2 : ¬ ¬ FIFO_EMPTY p.1.q.out_buffer = true := by rw [he]; decide
    unfold src_contention
    rw [if_pos hc]
    dsimp only
    rw [(src_second_schedule_log _ _).1]
    rw [if_neg he2]
    exact ⟨_, _, List.append_assoc _ _ _⟩
  · simp only [SrcState.queues, Prod.mk.injEq] at hq
    simp only [out_frames, hq.2.1, hq.2.2.2]

/-- The sample source, not yet registered and with one packet queued, sends
in the contention slot a request of 2 bytes with its node id 7. -/
theorem src_contention_request_witness :
    FIFO_EMPTY sample_src_request.q.out_buffer = false ∧
    sample_src_request.node_registered = 0 ∧
    (src_contention sample_cfg (sample_round 12 100 0x8000 3000)
      ({ sample_src_request with schedule := sample_src_registered.schedule }, [])).1.queues
      = sample_src_request.queues ∧
    src_requests (src_contention sample_cfg (sample_round 12 100 0x8000 3000)
      ({ sample_src_request with schedule := sample_src_registered.schedule }, [])).2
      = [(2, 7)] :=
  ⟨by decide, by decide,
   (src_contention_request sample_cfg (sample_round 12 100 0x8000 3000)
      ({ sample_src_request with schedule := sample_src_registered.schedule }, [])
      (by decide)).2.2.1,
   by decide⟩

/-- C34 as claimed fails on the length of the request of a registered node:
the sample source, registered and with one packet queued, sends in the
contention slot a request of 2 bytes (`LWB_CONF_SRQ_PKT_LEN`, the default of
the code) with the first word 0, not of 1 byte. -/
theorem src_contention_two_bytes_counterexample :
    LWB_SCHED_HAS_CONT_SLOT sample_src_registered.schedule = true ∧
    FIFO_EMPTY sample_src_registered.q.out_buffer = false ∧
    sample_src_registered.node_registered = 1 ∧
    sample_cfg.LWB_CONF_SRQ_PKT_LEN = 2 ∧
    src_requests (src_contention sample_cfg (sample_round 12 100 0x8000 3000)
      (sample_src_registered, [])).2 = [(2, 0)] := by
  refine ⟨by decide, by decide, rfl, rfl, by decide⟩


/-! ### The receive loop of the application -/

theorem ring_frames_bounds (cfg : Config) (depth lo : Nat) (f : fifo_t) (mem : Nat → Nat)
    (hok : ring_ok cfg depth lo f mem) :
    ∀ fr ∈ fifo_frames cfg f mem, lo ≤ fr.length ∧ fr.length ≤ cfg.LWB_CONF_MAX_DATA_PKT_LEN := by
  obtain ⟨he, hn, hc, hr, hw, hb⟩ := hok
  intro fr hfr
  unfold fifo_frames at hfr
  rw [List.mem_map] at hfr
  obtain ⟨k, hk, rfl⟩ := hfr
  rw [List.mem_range] at hk
  unfold frame_at
  rw [frame_of_length, hn, he]
  exact hb k hk

theorem lwb_rcv_pkt_count (cfg : Config) (s : LwbState) (out : Nat → Nat)
    (h : s.in_buffer.count ≠ 0) :
    (lwb_rcv_pkt cfg s (some out)).2.1.in_buffer.count = s.in_buffer.count - 1 ∧
    (lwb_rcv_pkt cfg s (some out)).2.1.out_buffer = s.out_buffer ∧
    (lwb_rcv_pkt cfg s (some out)).2.1.out_buffer_mem = s.out_buffer_mem := by
  rw [lwb_rcv_pkt_some cfg s out h]
  refine ⟨?_, rfl, rfl⟩
  show (fifo_get s.in_buffer).2.count = _
  rw [fifo_get_some _ h]

/-- With enough fuel the receive loop breaks after it has received every
queued packet, and leaves the inbound queue empty and the outbound queue as
it was. -/
theorem app_rcv_loop_drains (cfg : Config) (n : Nat) :
    ∀ (s : LwbState) (pkt_buffer : Nat → Nat) (fuel : Nat),
      ring_ok cfg cfg.LWB_CONF_IN_BUFFER_SIZE 1 s.in_buffer s.in_buffer_mem →
      s.in_buffer.count = n → n < fuel →
      ∃ (s2 : LwbState) (buf2 : Nat → Nat),
        app_rcv_loop cfg fuel s pkt_buffer = some (s2, buf2, n) ∧
        s2.in_buffer.count = 0 ∧
        s2.out_buffer = s.out_buffer ∧ s2.out_buffer_mem = s.out_buffer_mem := by
  induction n with
  | zero =>
    intro s pkt_buffer fuel hok hc hf
    obtain ⟨f, rfl⟩ : ∃ f, fuel = f + 1 := ⟨fuel - 1, by omega⟩
    refine ⟨s, pkt_buffer, ?_, hc, rfl, rfl⟩
    rw [app_rcv_loop]
    rw [lwb_rcv_pkt_empty cfg s pkt_buffer hc]
    rfl
  | succ n ih =>
    intro s pkt_buffer fuel hok hc hf
    obtain ⟨f, rfl⟩ : ∃ f, fuel = f + 1 := ⟨fuel - 1, by omega⟩
    have hne : s.in_buffer.count ≠ 0 := by omega
    have fr := rcv_pkt_frames cfg s pkt_buffer hok hne
    have cn := lwb_rcv_pkt_count cfg s pkt_buffer hne
    have hpos : (lwb_rcv_pkt cfg s (some pkt_buffer)).1 ≠ 0 := by
      have := fr.2.1
      omega
    obtain ⟨s2, buf2, e, h0, ho, hm⟩ := ih (lwb_rcv_pkt cfg s (some pkt_buffer)).2.1
      ((lwb_rcv_pkt cfg s (some pkt_buffer)).2.2.getD pkt_buffer) f fr.1
      (by rw [cn.1]; omega) (by omega)
    refine ⟨s2, buf2, ?_, h0, by rw [ho, cn.2.1], by rw [hm, cn.2.2]⟩
    rw [app_rcv_loop]
    rw [if_pos hpos, e]
    rfl

/-- C38: in every state of the queue statics that the program can reach,
every frame stored in the inbound queue has a length (its length byte)
between 1 and `LWB_CONF_MAX_DATA_PKT_LEN`; so `lwb_rcv_pkt` with a non-null
output buffer returns 0 if and only if the inbound queue is empty, and
otherwise a length between 1 and `LWB_CONF_MAX_DATA_PKT_LEN`; and the receive
loop of the application (call `lwb_rcv_pkt` until it returns 0) terminates:
the queue holds at most `LWB_CONF_IN_BUFFER_SIZE` frames, and with room for
one call more than the queue holds frames (so with `LWB_CONF_IN_BUFFER_SIZE +
1` calls at most) the loop breaks after it has received exactly the queued
frames, one per iteration, and leaves the inbound queue empty and the
outbound queue untouched. -/
theorem rcv_loop_terminates (cfg : Config) (s : LwbState) (hr : Reachable cfg s)
    (pkt_buffer : Nat → Nat) :
    (∀ fr ∈ in_frames cfg s, 1 ≤ fr.length ∧ fr.length ≤ cfg.LWB_CONF_MAX_DATA_PKT_LEN) ∧
    ((lwb_rcv_pkt cfg s (some pkt_buffer)).1 = 0 ↔ FIFO_EMPTY s.in_buffer = true) ∧
    (FIFO_EMPTY s.in_buffer = false →
      1 ≤ (lwb_rcv_pkt cfg s (some pkt_buffer)).1 ∧
      (lwb_rcv_pkt cfg s (some pkt_buffer)).1 ≤ cfg.LWB_CONF_MAX_DATA_PKT_LEN) ∧
    FIFO_CNT s.in_buffer ≤ cfg.LWB_CONF_IN_BUFFER_SIZE ∧
    (∀ fuel, FIFO_CNT s.in_buffer < fuel →
      ∃ (s2 : LwbState) (buf2 : Nat → Nat),
        app_rcv_loop cfg fuel s pkt_buffer = some (s2, buf2, FIFO_CNT s.in_buffer) ∧
        FIFO_EMPTY s2.in_buffer = true ∧ in_frames cfg s2 = [] ∧
        s2.out_buffer = s.out_buffer ∧ s2.out_buffer_mem = s.out_buffer_mem) ∧
    ∃ (s2 : LwbState) (buf2 : Nat → Nat),
      app_rcv_loop cfg (cfg.LWB_CONF_IN_BUFFER_SIZE + 1) s pkt_buffer
        = some (s2, buf2, FIFO_CNT s.in_buffer) ∧
      FIFO_EMPTY s2.in_buffer = true := by
  have hok := (Reachable.rings cfg s hr).2
  have hcnt : s.in_buffer.count ≤ cfg.LWB_CONF_IN_BUFFER_SIZE := hok.2.2.1
  have hloop : ∀ fuel, FIFO_CNT s.in_buffer < fuel →
      ∃ (s2 : LwbState) (buf2 : Nat → Nat),
        app_rcv_loop cfg fuel s pkt_buffer = some (s2, buf2, FIFO_CNT s.in_buffer) ∧
        FIFO_EMPTY s2.in_buffer = true ∧ in_frames cfg s2 = [] ∧
        s2.out_buffer = s.out_buffer ∧ s2.out_buffer_mem = s.out_buffer_mem := by
    intro fuel hf
    obtain ⟨s2, buf2, e, h0, ho, hm⟩ :=
      app_rcv_loop_drains cfg s.in_buffer.count s pkt_buffer fuel hok rfl hf
    refine ⟨s2, buf2, e, ?_, fifo_frames_empty cfg _ _ h0, ho, hm⟩
    simp [FIFO_EMPTY, h0]
  refine ⟨ring_frames_bounds cfg _ 1 _ _ hok, ?_, ?_, hcnt, hloop, ?_⟩
  · constructor
    · intro h
      by_cases hc : s.in_buffer.count = 0
      · simp [FIFO_EMPTY, hc]
      · have := (rcv_pkt_frames cfg s pkt_buffer hok hc).2.1
        omega
    · intro h
      have hc : s.in_buffer.count = 0 := by simpa [FIFO_EMPTY] using h
      rw [lwb_rcv_pkt_empty cfg s pkt_buffer hc]
  · intro h
    have hc : s.in_buffer.count ≠ 0 := by
      intro hc
      simp [FIFO_EMPTY, hc] at h
    have := rcv_pkt_frames cfg s pkt_buffer hok hc
    exact ⟨this.2.1, this.2.2.1⟩
  · obtain ⟨s2, buf2, e, h0, _⟩ := hloop (cfg.LWB_CONF_IN_BUFFER_SIZE + 1)
      (by show s.in_buffer.count < _; omega)
    exact ⟨s2, buf2, e, h0⟩

/-- With the inbound queue of the sample configuration full (five frames), the
receive loop receives five packets in six calls and leaves the queue
empty. -/
theorem rcv_loop_terminates_witness :
    FIFO_CNT full_in_state.in_buffer ≤ sample_cfg.LWB_CONF_IN_BUFFER_SIZE ∧
    FIFO_CNT full_in_state.in_buffer = 5 ∧
    (app_rcv_loop sample_cfg 6 full_in_state blank_buffer).map (fun x => x.2.2) = some 5 ∧
    (app_rcv_loop sample_cfg 5 full_in_state blank_buffer).map (fun x => x.2.2) = none :=
  ⟨(rcv_loop_terminates sample_cfg full_in_state
      ⟨List.replicate 5 (QueueCall.in_buffer_put dummy_packet 2), rfl⟩ blank_buffer).2.2.2.1,
   by decide, by decide, by decide⟩


/-! ### Slot offsets on host and source -/

theorem host_data_slot_ofs (cfg : Config) (rx : glossy_result) (t_start : Nat)
    (p : HostState × List HostAction) (i : Nat) :
    (host_data_slot cfg rx t_start p i).1.t_slot_ofs
      = (p.1.t_slot_ofs + (p.1.t_slot + cfg.LWB_CONF_T_GAP)) % 2 ^ 32 ∧
    (host_data_slot cfg rx t_start p i).1.t_slot = p.1.t_slot ∧
    (host_data_slot cfg rx t_start p i).1.schedule = p.1.schedule := by
  dsimp only [host_data_slot]
  split_ifs <;> exact ⟨rfl, rfl, rfl⟩

theorem src_data_slot_ofs (cfg : Config) (rx : glossy_result)
    (p : SrcState × List SrcRadio) (i : Nat) :
    (src_data_slot cfg rx p i).1.t_slot_ofs
      = (p.1.t_slot_ofs + (p.1.t_slot + cfg.LWB_CONF_T_GAP)) % 2 ^ 32 ∧
    (src_data_slot cfg rx p i).1.t_slot = p.1.t_slot ∧
    (src_data_slot cfg rx p i).1.schedule = p.1.schedule := by
  dsimp only [src_data_slot]
  split_ifs <;> exact ⟨rfl, rfl, rfl⟩

theorem host_data_fold_ofs (cfg : Config) (data_rx : Nat → glossy_result) (t_start : Nat)
    (l : List Nat) (p : HostState × List HostAction) (x : Nat)
    (hx : p.1.t_slot_ofs = x % 2 ^ 32) :
    (l.foldl (fun acc i => host_data_slot cfg (data_rx i) t_start acc i) p).1.t_slot_ofs
      = (x + l.length * (p.1.t_slot + cfg.LWB_CONF_T_GAP)) % 2 ^ 32 ∧
    (l.foldl (fun acc i => host_data_slot cfg (data_rx i) t_start acc i) p).1.t_slot
      = p.1.t_slot ∧
    (l.foldl (fun acc i => host_data_slot cfg (data_rx i) t_start acc i) p).1.schedule
      = p.1.schedule := by
  induction l generalizing p x with
  | nil =>
    refine ⟨?_, rfl, rfl⟩
    show p.1.t_slot_ofs = _
    rw [hx]
    simp
  | cons i rest ih =>
    rw [List.foldl_cons]
    obtain ⟨e1, e2, e3⟩ := host_data_slot_ofs cfg (data_rx i) t_start p i
    have hx2 : (host_data_slot cfg (data_rx i) t_start p i).1.t_slot_ofs
        = (x + (p.1.t_slot + cfg.LWB_CONF_T_GAP)) % 2 ^ 32 := by
      rw [e1, hx, Nat.mod_add_mod]
    obtain ⟨f1, f2, f3⟩ := ih (host_data_slot cfg (data_rx i) t_start p i) _ hx2
    refine ⟨?_, by rw [f2, e2], by rw [f3, e3]⟩
    rw [f1, e2, List.length_cons]
    congr 1
    ring

theorem src_data_fold_ofs (cfg : Config) (data_rx : Nat → glossy_result)
    (l : List Nat) (p : SrcState × List SrcRadio) (x : Nat)
    (hx : p.1.t_slot_ofs = x % 2 ^ 32) :
    (l.foldl (fun acc i => src_data_slot cfg (data_rx i) acc i) p).1.t_slot_ofs
      = (x + l.length * (p.1.t_slot + cfg.LWB_CONF_T_GAP)) % 2 ^ 32 ∧
    (l.foldl (fun acc i => src_data_slot cfg (data_rx i) acc i) p).1.t_slot
      = p.1.t_slot ∧
    (l.foldl (fun acc i => src_data_slot cfg (data_rx i) acc i) p).1.schedule
      = p.1.schedule := by
  induction l generalizing p x with
  | nil =>
    refine ⟨?_, rfl, rfl⟩
    show p.1.t_slot_ofs = _
    rw [hx]
    simp
  | cons i rest ih =>
    rw [List.foldl_cons]
    obtain ⟨e1, e2, e3⟩ := src_data_slot_ofs cfg (data_rx i) p i
    have hx2 : (src_data_slot cfg (data_rx i) p i).1.t_slot_ofs
        = (x + (p.1.t_slot + cfg.LWB_CONF_T_GAP)) % 2 ^ 32 := by
      rw [e1, hx, Nat.mod_add_mod]
    obtain ⟨f1, f2, f3⟩ := ih (src_data_slot cfg (data_rx i) p i) _ hx2
    refine ⟨?_, by rw [f2, e2], by rw [f3, e3]⟩
    rw [f1, e2, List.length_cons]
    congr 1
    ring

/-- The offset of the host on entry to data slot `m`. -/
theorem host_data_upto_ofs (cfg : Config) (data_rx : Nat → glossy_result) (t_start : Nat)
    (relay_cnt : Nat) (h : HostState) (m : Nat) :
    (host_data_upto cfg data_rx t_start (host_round_begin cfg relay_cnt h, []) m).1.t_slot_ofs
      = spec_slot_ofs cfg h.schedule m % 2 ^ 32 ∧
    (host_data_upto cfg data_rx t_start (host_round_begin cfg relay_cnt h, []) m).1.schedule
      = h.schedule := by
  have k := host_data_fold_ofs cfg data_rx t_start (List.range m)
    ({ host_round_begin cfg relay_cnt h with t_slot :=
        (if IS_DATA_ROUND h.schedule then cfg.LWB_CONF_T_DATA else cfg.LWB_CONF_T_CONT) }, [])
    (cfg.LWB_CONF_T_SCHED + cfg.LWB_CONF_T_GAP) rfl
  rw [List.length_range] at k
  exact ⟨k.1, k.2.2⟩

/-- The offset of the source on entry to data slot `m`. -/
theorem src_data_upto_ofs (cfg : Config) (env : src_round_env) (s : SrcState) (m : Nat) :
    (src_data_upto cfg env
      ({ s with t_slot_ofs := (cfg.LWB_CONF_T_SCHED + cfg.LWB_CONF_T_GAP) % 2 ^ 32 }, [])
      m).1.t_slot_ofs = spec_slot_ofs cfg s.schedule m % 2 ^ 32 ∧
    (src_data_upto cfg env
      ({ s with t_slot_ofs := (cfg.LWB_CONF_T_SCHED + cfg.LWB_CONF_T_GAP) % 2 ^ 32 }, [])
      m).1.schedule = s.schedule ∧
    (src_data_upto cfg env
      ({ s with t_slot_ofs := (cfg.LWB_CONF_T_SCHED + cfg.LWB_CONF_T_GAP) % 2 ^ 32 }, [])
      m).1.clocks = s.clocks := by
  unfold src_data_upto spec_slot_ofs
  by_cases hd : IS_DATA_ROUND s.schedule = true
  · have k := src_data_fold_ofs cfg env.data_rx (List.range m)
      ({ s with t_slot_ofs := (cfg.LWB_CONF_T_SCHED + cfg.LWB_CONF_T_GAP) % 2 ^ 32,
                t_slot := cfg.LWB_CONF_T_DATA }, [])
      (cfg.LWB_CONF_T_SCHED + cfg.LWB_CONF_T_GAP) rfl
    rw [List.length_range] at k
    dsimp only
    rw [if_pos hd, if_pos hd, src_data_fold_clocks]
    exact ⟨k.1, k.2.2, rfl⟩
  · have k := src_data_fold_ofs cfg env.data_rx (List.range m)
      ({ s with t_slot_ofs := (cfg.LWB_CONF_T_SCHED + cfg.LWB_CONF_T_GAP) % 2 ^ 32,
                t_slot := cfg.LWB_CONF_T_CONT, node_registered := 0 }, [])
      (cfg.LWB_CONF_T_SCHED + cfg.LWB_CONF_T_GAP) rfl
    rw [List.length_range] at k
    dsimp only
    rw [if_neg hd, if_neg hd, src_data_fold_clocks]
    exact ⟨k.1, k.2.2, rfl⟩

theorem host_data_slots_upto (cfg : Config) (data_rx : Nat → glossy_result) (t_start : Nat)
    (p : HostState × List HostAction) :
    host_data_slots cfg data_rx t_start p
      = if LWB_SCHED_HAS_DATA_SLOT p.1.schedule then
          host_data_upto cfg data_rx t_start p (LWB_SCHED_N_SLOTS p.1.schedule)
        else p := rfl

theorem src_data_slots_upto (cfg : Config) (env : src_round_env)
    (p : SrcState × List SrcRadio) :
    src_data_slots cfg env p
      = if LWB_SCHED_HAS_DATA_SLOT p.1.schedule then
          src_data_upto cfg env p (LWB_SCHED_N_SLOTS p.1.schedule)
        else p := by
  unfold src_data_slots src_data_upto
  split_ifs <;> rfl

theorem host_data_upto_succ (cfg : Config) (data_rx : Nat → glossy_result) (t_start : Nat)
    (p : HostState × List HostAction) (m : Nat) :
    host_data_upto cfg data_rx t_start p (m + 1)
      = host_data_slot cfg (data_rx m) t_start (host_data_upto cfg data_rx t_start p m) m := by
  unfold host_data_upto
  rw [List.range_succ, List.foldl_append]
  rfl

theorem src_data_upto_succ (cfg : Config) (env : src_round_env)
    (p : SrcState × List SrcRadio) (m : Nat) :
    src_data_upto cfg env p (m + 1)
      = src_data_slot cfg (env.data_rx m) (src_data_upto cfg env p m) m := by
  unfold src_data_upto
  rw [List.range_succ, List.foldl_append]
  rfl

/-- The actions that the host starts in a data slot wake up at the offset of
the slot from `t_start`, a reception one guard time earlier. -/
theorem host_data_slot_wake (cfg : Config) (rx : glossy_result) (t_start : Nat)
    (p : HostState × List HostAction) (i : Nat) :
    ∃ extra : List HostAction,
      (host_data_slot cfg rx t_start p i).2 = p.2 ++ extra ∧
      ∀ a ∈ extra, a.wake = none ∨
        a.wake = some ((t_start + p.1.t_slot_ofs) % 2 ^ 64) ∨
        a.wake = some (usub 64 ((t_start + p.1.t_slot_ofs) % 2 ^ 64) cfg.LWB_CONF_T_GUARD) := by
  dsimp only [host_data_slot]
  split_ifs <;> first
    | exact ⟨[], (List.append_nil _).symm, by simp⟩
    | exact ⟨_, rfl, by simp [HostAction.wake]⟩
    | exact ⟨_, List.append_assoc _ _ _, by simp [HostAction.wake]⟩

/-- The radio actions that the source starts in a data slot wake up at the
offset of the slot from `t_ref`, a reception one guard time earlier. -/
theorem src_data_slot_wake (cfg : Config) (rx : glossy_result)
    (p : SrcState × List SrcRadio) (i : Nat) :
    ∃ extra : List SrcRadio,
      (src_data_slot cfg rx p i).2 = p.2 ++ extra ∧
      ∀ a ∈ extra,
        a.wake = (p.1.t_ref + p.1.t_slot_ofs) % 2 ^ 64 ∨
        a.wake = usub 64 ((p.1.t_ref + p.1.t_slot_ofs) % 2 ^ 64) p.1.t_guard := by
  dsimp only [src_data_slot]
  split_ifs <;> first
    | exact ⟨[], (List.append_nil _).symm, by simp⟩
    | exact ⟨_, rfl, by simp [SrcRadio.wake]⟩


theorem host_contention_slot_ofs (cfg : Config) (rx : glossy_result) (null_page : Nat → Nat)
    (h : HostState) (hc : LWB_SCHED_HAS_CONT_SLOT h.schedule = true) :
    (host_contention_slot cfg rx null_page h).1.t_slot_ofs
      = (h.t_slot_ofs + (cfg.LWB_CONF_T_CONT + cfg.LWB_CONF_T_GAP)) % 2 ^ 32 := by
  unfold host_contention_slot
  rw [if_pos hc]
  dsimp only
  split_ifs <;> rfl

/-- The contention slot of the source wakes up at the offset left by the data
slots, and the reception of the second schedule `T_CONT + T_GAP` later. -/
theorem src_contention_wake (cfg : Config) (env : src_round_env)
    (p : SrcState × List SrcRadio) (hc : LWB_SCHED_HAS_CONT_SLOT p.1.schedule = true) :
    (src_contention cfg env p).1.t_slot_ofs
      = (p.1.t_slot_ofs + (cfg.LWB_CONF_T_CONT + cfg.LWB_CONF_T_GAP)) % 2 ^ 32 ∧
    ∃ a b : SrcRadio,
      (src_contention cfg env p).2 = p.2 ++ [a, b] ∧
      (a.wake = (p.1.t_ref + p.1.t_slot_ofs) % 2 ^ 64 ∨
        a.wake = usub 64 ((p.1.t_ref + p.1.t_slot_ofs) % 2 ^ 64) p.1.t_guard) ∧
      b.wake = usub 64
        ((p.1.t_ref
          + (p.1.t_slot_ofs + (cfg.LWB_CONF_T_CONT + cfg.LWB_CONF_T_GAP)) % 2 ^ 32) % 2 ^ 64)
        p.1.t_guard := by
  unfold src_contention
  rw [if_pos hc]
  dsimp only
  rw [(src_second_schedule_log _ _).1, (src_second_schedule_log _ _).2]
  dsimp only
  split_ifs <;> first
    | exact ⟨rfl, _, _, List.append_assoc _ _ _, Or.inl rfl, rfl⟩
    | exact ⟨rfl, _, _, List.append_assoc _ _ _, Or.inr rfl, rfl⟩

theorem spec_slot_ofs_zero (cfg : Config) (sched : lwb_schedule_t) :
    spec_slot_ofs cfg sched 0 = cfg.LWB_CONF_T_SCHED + cfg.LWB_CONF_T_GAP := by
  simp [spec_slot_ofs]

theorem spec_slot_ofs_mono (cfg : Config) (sched : lwb_schedule_t) (i n : Nat) (h : i ≤ n) :
    spec_slot_ofs cfg sched i ≤ spec_slot_ofs cfg sched n := by
  unfold spec_slot_ofs
  exact Nat.add_le_add_left (Nat.mul_le_mul_right _ h) _

theorem n_slots_of_no_data (sched : lwb_schedule_t)
    (h : ¬ LWB_SCHED_HAS_DATA_SLOT sched = true) : LWB_SCHED_N_SLOTS sched = 0 := by
  unfold LWB_SCHED_HAS_DATA_SLOT at h
  simpa using h

/-- The offset of the host after the data slots of the round. -/
theorem host_data_slots_ofs (cfg : Config) (data_rx : Nat → glossy_result) (t_start : Nat)
    (relay_cnt : Nat) (h : HostState) :
    (host_data_slots cfg data_rx t_start (host_round_begin cfg relay_cnt h, [])).1.t_slot_ofs
      = spec_slot_ofs cfg h.schedule (LWB_SCHED_N_SLOTS h.schedule) % 2 ^ 32 ∧
    (host_data_slots cfg data_rx t_start (host_round_begin cfg relay_cnt h, [])).1.schedule
      = h.schedule := by
  rw [host_data_slots_upto]
  by_cases hd : LWB_SCHED_HAS_DATA_SLOT h.schedule = true
  · rw [if_pos (show LWB_SCHED_HAS_DATA_SLOT
      (host_round_begin cfg relay_cnt h, ([] : List HostAction)).1.schedule = true from hd)]
    exact host_data_upto_ofs cfg data_rx t_start relay_cnt h _
  · rw [if_neg (show ¬ LWB_SCHED_HAS_DATA_SLOT
      (host_round_begin cfg relay_cnt h, ([] : List HostAction)).1.schedule = true from hd),
      n_slots_of_no_data _ hd, spec_slot_ofs_zero]
    exact ⟨rfl, rfl⟩

/-- The offset of the source after the data slots of the round. -/
theorem src_data_slots_ofs (cfg : Config) (env : src_round_env) (s : SrcState) :
    (src_data_slots cfg env
      ({ s with t_slot_ofs := (cfg.LWB_CONF_T_SCHED + cfg.LWB_CONF_T_GAP) % 2 ^ 32 },
        [])).1.t_slot_ofs
      = spec_slot_ofs cfg s.schedule (LWB_SCHED_N_SLOTS s.schedule) % 2 ^ 32 ∧
    (src_data_slots cfg env
      ({ s with t_slot_ofs := (cfg.LWB_CONF_T_SCHED + cfg.LWB_CONF_T_GAP) % 2 ^ 32 },
        [])).1.schedule = s.schedule := by
  rw [src_data_slots_upto]
  split_ifs with hd
  · exact ⟨(src_data_upto_ofs cfg env s _).1, (src_data_upto_ofs cfg env s _).2.1⟩
  · have hd2 : ¬ LWB_SCHED_HAS_DATA_SLOT s.schedule = true := hd
    rw [n_slots_of_no_data _ hd2, spec_slot_ofs_zero]
    exact ⟨rfl, rfl⟩

/-- C39: host and source step through the slots in lockstep. For the same
schedule `sched` with `n` data slots, both are on entry to data slot `i` at
the offset `T_SCHED + T_GAP + i*(T_slot + T_GAP)` of the specification from
their round anchor (in the 32-bit `t_slot_ofs`), with `T_slot = T_DATA` in a
data round and `T_CONT` in a request round, whatever was sent or received in
the slots before; every action that the host starts in data slot `i` wakes up
at `t_start` plus that offset (a reception one guard time earlier) and every
radio action of the source at `t_ref` plus that offset (a reception one guard
time earlier); after the data slots both are at the offset of index `n`,
where the contention slot is; after the contention slot both are `T_CONT +
T_GAP` later, where the host sends and the source receives the second
schedule; and when the last offset fits 32 bits, no offset wraps. -/
theorem slots_in_lockstep (cfg : Config) (h : HostState) (s : SrcState)
    (hsch : s.schedule = h.schedule) (relay_cnt t_start : Nat)
    (data_rx : Nat → glossy_result) (cont_rx : glossy_result) (null_page : Nat → Nat)
    (env : src_round_env) :
    (∀ i,
      (host_data_upto cfg data_rx t_start (host_round_begin cfg relay_cnt h, [])
        i).1.t_slot_ofs = spec_slot_ofs cfg h.schedule i % 2 ^ 32 ∧
      (src_data_upto cfg env
        ({ s with t_slot_ofs := (cfg.LWB_CONF_T_SCHED + cfg.LWB_CONF_T_GAP) % 2 ^ 32 }, [])
        i).1.t_slot_ofs = spec_slot_ofs cfg h.schedule i % 2 ^ 32) ∧
    (∀ i, ∃ extra : List HostAction,
      (host_data_upto cfg data_rx t_start (host_round_begin cfg relay_cnt h, []) (i + 1)).2
        = (host_data_upto cfg data_rx t_start (host_round_begin cfg relay_cnt h, []) i).2
            ++ extra ∧
      ∀ a ∈ extra, a.wake = none ∨
        a.wake = some ((t_start + spec_slot_ofs cfg h.schedule i % 2 ^ 32) % 2 ^ 64) ∨
        a.wake = some (usub 64
          ((t_start + spec_slot_ofs cfg h.schedule i % 2 ^ 32) % 2 ^ 64)
          cfg.LWB_CONF_T_GUARD)) ∧
    (∀ i, ∃ extra : List SrcRadio,
      (src_data_upto cfg env
        ({ s with t_slot_ofs := (cfg.LWB_CONF_T_SCHED + cfg.LWB_CONF_T_GAP) % 2 ^ 32 }, [])
        (i + 1)).2
        = (src_data_upto cfg env
            ({ s with t_slot_ofs := (cfg.LWB_CONF_T_SCHED + cfg.LWB_CONF_T_GAP) % 2 ^ 32 }, [])
            i).2 ++ extra ∧
      ∀ a ∈ extra,
        a.wake = (s.t_ref + spec_slot_ofs cfg h.schedule i % 2 ^ 32) % 2 ^ 64 ∨
        a.wake = usub 64 ((s.t_ref + spec_slot_ofs cfg h.schedule i % 2 ^ 32) % 2 ^ 64)
          s.t_guard) ∧
    ((host_data_slots cfg data_rx t_start
        (host_round_begin cfg relay_cnt h, [])).1.t_slot_ofs
      = spec_slot_ofs cfg h.schedule (LWB_SCHED_N_SLOTS h.schedule) % 2 ^ 32 ∧
     (src_data_slots cfg env
        ({ s with t_slot_ofs := (cfg.LWB_CONF_T_SCHED + cfg.LWB_CONF_T_GAP) % 2 ^ 32 },
          [])).1.t_slot_ofs
      = spec_slot_ofs cfg h.schedule (LWB_SCHED_N_SLOTS h.schedule) % 2 ^ 32) ∧
    (LWB_SCHED_HAS_CONT_SLOT h.schedule = true →
      (host_contention_slot cfg cont_rx null_page
        (host_data_slots cfg data_rx t_start
          (host_round_begin cfg relay_cnt h, [])).1).1.t_slot_ofs
        = (spec_slot_ofs cfg h.schedule (LWB_SCHED_N_SLOTS h.schedule)
            + (cfg.LWB_CONF_T_CONT + cfg.LWB_CONF_T_GAP)) % 2 ^ 32 ∧
      (src_contention cfg env (src_data_slots cfg env
        ({ s with t_slot_ofs := (cfg.LWB_CONF_T_SCHED + cfg.LWB_CONF_T_GAP) % 2 ^ 32 },
          []))).1.t_slot_ofs
        = (spec_slot_ofs cfg h.schedule (LWB_SCHED_N_SLOTS h.schedule)
            + (cfg.LWB_CONF_T_CONT + cfg.LWB_CONF_T_GAP)) % 2 ^ 32 ∧
      ∃ a b : SrcRadio,
        (src_contention cfg env (src_data_slots cfg env
          ({ s with t_slot_ofs := (cfg.LWB_CONF_T_SCHED + cfg.LWB_CONF_T_GAP) % 2 ^ 32 },
            []))).2
          = (src_data_slots cfg env
              ({ s with t_slot_ofs := (cfg.LWB_CONF_T_SCHED + cfg.LWB_CONF_T_GAP) % 2 ^ 32 },
                [])).2 ++ [a, b] ∧
        (a.wake = (s.t_ref
            + spec_slot_ofs cfg h.schedule (LWB_SCHED_N_SLOTS h.schedule) % 2 ^ 32) % 2 ^ 64 ∨
          a.wake = usub 64 ((s.t_ref
            + spec_slot_ofs cfg h.schedule (LWB_SCHED_N_SLOTS h.schedule) % 2 ^ 32) % 2 ^ 64)
            s.t_guard) ∧
        b.wake = usub 64 ((s.t_ref
            + (spec_slot_ofs cfg h.schedule (LWB_SCHED_N_SLOTS h.schedule)
                + (cfg.LWB_CONF_T_CONT + cfg.LWB_CONF_T_GAP)) % 2 ^ 32) % 2 ^ 64)
          s.t_guard) ∧
    (spec_slot_ofs cfg h.schedule (LWB_SCHED_N_SLOTS h.schedule)
        + (cfg.LWB_CONF_T_CONT + cfg.LWB_CONF_T_GAP) < 2 ^ 32 →
      (∀ i, i ≤ LWB_SCHED_N_SLOTS h.schedule →
        spec_slot_ofs cfg h.schedule i % 2 ^ 32 = spec_slot_ofs cfg h.schedule i) ∧
      (spec_slot_ofs cfg h.schedule (LWB_SCHED_N_SLOTS h.schedule)
        + (cfg.LWB_CONF_T_CONT + cfg.LWB_CONF_T_GAP)) % 2 ^ 32
        = spec_slot_ofs cfg h.schedule (LWB_SCHED_N_SLOTS h.schedule)
          + (cfg.LWB_CONF_T_CONT + cfg.LWB_CONF_T_GAP)) := by
  rw [← hsch]
  have hs := src_data_slots_ofs cfg env s
  have hh := host_data_slots_ofs cfg data_rx t_start relay_cnt h
  rw [← hsch] at hh
  refine ⟨?_, ?_, ?_, ⟨hh.1, hs.1⟩, ?_, ?_⟩
  · intro i
    have k := host_data_upto_ofs cfg data_rx t_start relay_cnt h i
    rw [← hsch] at k
    exact ⟨k.1, (src_data_upto_ofs cfg env s i).1⟩
  · intro i
    rw [host_data_upto_succ]
    have w := host_data_slot_wake cfg (data_rx i) t_start
      (host_data_upto cfg data_rx t_start (host_round_begin cfg relay_cnt h, []) i) i
    have k := host_data_upto_ofs cfg data_rx t_start relay_cnt h i
    rw [← hsch] at k
    rw [k.1] at w
    exact w
  · intro i
    rw [src_data_upto_succ]
    have w := src_data_slot_wake cfg (env.data_rx i)
      (src_data_upto cfg env
        ({ s with t_slot_ofs := (cfg.LWB_CONF_T_SCHED + cfg.LWB_CONF_T_GAP) % 2 ^ 32 }, [])
        i) i
    have k := src_data_upto_ofs cfg env s i
    have c := SrcState.clocks_fields _ _ k.2.2
    rw [k.1, c.2.2.2.2.1, c.2.2.2.2.2.2.2.1] at w
    exact w
  · intro hc
    refine ⟨?_, ?_, ?_⟩
    · rw [host_contention_slot_ofs cfg cont_rx null_page _ (by rw [hh.2]; exact hc), hh.1,
        Nat.mod_add_mod]
    · have w := (src_contention_wake cfg env (src_data_slots cfg env
        ({ s with t_slot_ofs := (cfg.LWB_CONF_T_SCHED + cfg.LWB_CONF_T_GAP) % 2 ^ 32 }, []))
        (by rw [hs.2]; exact hc)).1
      rw [w, hs.1, Nat.mod_add_mod]
    · have w := (src_contention_wake cfg env (src_data_slots cfg env
        ({ s with t_slot_ofs := (cfg.LWB_CONF_T_SCHED + cfg.LWB_CONF_T_GAP) % 2 ^ 32 }, []))
        (by rw [hs.2]; exact hc)).2
      have c := SrcState.clocks_fields _ _ (src_data_slots_clocks cfg env
        ({ s with t_slot_ofs := (cfg.LWB_CONF_T_SCHED + cfg.LWB_CONF_T_GAP) % 2 ^ 32 }, []))
      rw [hs.1, Nat.mod_add_mod, c.2.2.2.2.1, c.2.2.2.2.2.2.2.1] at w
      exact w
  · intro hfit
    refine ⟨?_, Nat.mod_eq_of_lt hfit⟩
    intro i hi
    have := spec_slot_ofs_mono cfg s.schedule i _ hi
    exact Nat.mod_eq_of_lt (by omega)


/-- In the data round of two slots of the sample configuration, the sample
host and the sample source are both at offset 117000 after the data slots:
39000 for the schedule and its gap, and 39000 for each slot and its gap. -/
theorem slots_in_lockstep_witness :
    (host_data_slots sample_cfg sample_data_rx 5000
        (host_round_begin sample_cfg 0 sample_host_data, [])).1.t_slot_ofs
      = spec_slot_ofs sample_cfg sample_host_data.schedule
          (LWB_SCHED_N_SLOTS sample_host_data.schedule) % 2 ^ 32 ∧
    (src_data_slots sample_cfg (sample_round 10 2 0x4002 2000)
        ({ sample_src_data with
            t_slot_ofs := (sample_cfg.LWB_CONF_T_SCHED + sample_cfg.LWB_CONF_T_GAP) % 2 ^ 32 },
          [])).1.t_slot_ofs
      = spec_slot_ofs sample_cfg sample_host_data.schedule
          (LWB_SCHED_N_SLOTS sample_host_data.schedule) % 2 ^ 32 ∧
    spec_slot_ofs sample_cfg sample_host_data.schedule
      (LWB_SCHED_N_SLOTS sample_host_data.schedule) = 117000 :=
  ⟨(slots_in_lockstep sample_cfg sample_host_data sample_src_data rfl 0 5000 sample_data_rx
      silent_slot (fun _ => 0) (sample_round 10 2 0x4002 2000)).2.2.2.1.1,
   (slots_in_lockstep sample_cfg sample_host_data sample_src_data rfl 0 5000 sample_data_rx
      silent_slot (fun _ => 0) (sample_round 10 2 0x4002 2000)).2.2.2.1.2,
   by decide⟩

end ELWB
